import Mathlib

/-!
# Claim session and ledger client of the faucet automation

A shallow embedding of `src/server/faucet-sentry.js` and `src/server/nano-wallet.js`.

* Asynchronous methods become explicit state passing over a `World`: the state of the
  remote side (`node`), the chronological `trace` of everything the program emits or
  requests (log entries, RPC requests, timers), and the fields of `this` that the
  embedded methods read.
* The remote node, the proof-of-work endpoints and the clock are an `Env`: every
  `fetch` is a transition of the remote state that either throws (transport error,
  timeout, malformed JSON) or yields the decoded JSON body.
* Raw amounts are `Nat` (the source uses `BigInt` on decimal strings).
* `nanocurrency-web` (`tools.convert`, `block.send`, `block.receive`) is an external
  library: unit conversion is a parameter (`Lib`), block construction is modelled from
  the specification.
-/

namespace Secret

/-! ## Constants of `faucet-sentry.js` -/

def RPC_URL : String := "http://157.230.168.241:7076"

def RPC_FALLBACK_URLS : List String := ["http://157.230.168.241:7076"]

def POW_RPC_URL : String := "https://rainstorm.city/api"

def FALLBACK_REPRESENTATIVE : String :=
  "nano_3kc8wwut3u8g1kwa6x4drkzu346bdbyqzsn14tmabrpeobn8igksfqkzajbb"

def ZERO_FRONTIER : String :=
  "0000000000000000000000000000000000000000000000000000000000000000"

/-! ## Data model -/

/-- JavaScript truthiness of a string value: only the empty string is falsy. -/
def truthy (s : String) : Bool := !(s == "")

/-- Truthiness of an optional string field (`undefined` is falsy). -/
def truthyOpt : Option String → Bool
  | none => false
  | some s => truthy s

deriving instance DecidableEq for Except

/-- A signed state block as handed to the `process` action. The signature is
represented by the private key that produced it. -/
structure Block where
  account : String
  previous : String
  representative : String
  balance : Nat
  link : String
  work : Option String
  signedWith : String
  deriving DecidableEq, Repr

/-- Modelled from the spec: `block.send` of the external library `nanocurrency-web`
(§4.3: "constructs a send block with new balance = old balance − amount, referencing
the current frontier and representative"). -/
def blockSend (walletBalanceRaw : Nat) (fromAddress toAddress representativeAddress
    frontier : String) (amountRaw : Nat) (work : Option String) (privateKey : String) : Block :=
  { account := fromAddress, previous := frontier, representative := representativeAddress,
    balance := walletBalanceRaw - amountRaw, link := toAddress, work := work,
    signedWith := privateKey }

/-- Modelled from the spec: `block.receive` of the external library `nanocurrency-web`
(§4.3: "constructs and broadcasts a receive block increasing balance by `amountRaw`"). -/
def blockReceive (walletBalanceRaw : Nat) (toAddress representativeAddress frontier
    transactionHash : String) (amountRaw : Nat) (work : Option String) (privateKey : String) :
    Block :=
  { account := toAddress, previous := frontier, representative := representativeAddress,
    balance := walletBalanceRaw + amountRaw, link := transactionHash, work := work,
    signedWith := privateKey }

/-- JSON body of an `account_info` response. -/
structure AccountInfoJson where
  error : Option String := none
  balance : Nat := 0
  pending : Option Nat := none
  frontier : String := ""
  representative : Option String := none
  blockCount : Nat := 0
  deriving DecidableEq, Repr

/-- One entry of the `blocks` object of a `pending` response. -/
structure PendingJsonEntry where
  hash : String
  amount : Nat
  source : String
  deriving DecidableEq, Repr

/-- JSON body of a `pending` response; `blocks` in the order of `Object.entries`. -/
structure PendingJson where
  error : Option String := none
  blocks : Option (List PendingJsonEntry) := none
  deriving DecidableEq, Repr

/-- JSON body of a `process` response. -/
structure ProcessJson where
  error : Option String := none
  hash : Option String := none
  deriving DecidableEq, Repr

/-- JSON body of a `work_generate` response. -/
structure WorkJson where
  error : Option String := none
  work : Option String := none
  deriving DecidableEq, Repr

/-- What a resolved `fetch` yields: the status line and the outcome of `response.json()`,
which throws when the body is not JSON. -/
structure Response (α : Type) where
  ok : Bool := true
  status : Nat := 200
  json : Except String α

/-- Everything the program emits or requests, in chronological order. -/
inductive Event where
  | log (channel level message : String)
  | accountInfo (url account : String)
  | pending (url account : String) (count : Nat)
  | workGenerate (url hash : String)
  | process (block : Block)
  | delay (ms : Nat)
  | screenshot (label : String)
  /-- The assignment `this.sessionStats.status = value`. -/
  | status (value : String)
  /-- The call `this.emitStatus()`, with the status and the running flag it reports. -/
  | faucetStatus (status : String) (isRunning : Bool)
  /-- A call `this.scheduleAutoRestart(delayMs)` that is not awaited. -/
  | autoRestart (delayMs : Nat)
  /-- A call `this.runClaimProcess()` that is not awaited. -/
  | claimProcess
  /-- A connection to the Tor control port made to ask for a new circuit. -/
  | newnym (controlPort : Nat)
  /-- What a lookup of the current egress address came back with. -/
  | torIP (address : Option String)
  /-- A call `instance.startClaimSession()` of the orchestrator that is not awaited. -/
  | instanceStart (instanceId : String)
  /-- The call `emitInstanceUpdate(instanceId, instance)` of the orchestrator. -/
  | instanceUpdate (instanceId : String)
  /-- The call `emitStatus()` of the orchestrator, with `activeCount` and the keys of the
  instance map it reports. -/
  | managerStatus (activeCount : ℚ) (instanceIds : List String)
  deriving DecidableEq, Repr

/-- The remote side: RPC node, work providers, timers and clock. -/
structure Env (σ : Type) where
  accountInfo : String → String → σ → Except String (Response AccountInfoJson) × σ
  pending : String → String → Nat → σ → Except String (Response PendingJson) × σ
  process : Block → σ → Except String (Response ProcessJson) × σ
  workGenerate : String → String → σ → Except String (Response WorkJson) × σ
  sleep : Nat → σ → σ
  now : σ → Nat

/-- The browser driver (external collaborator) as the claim process uses it on the faucet
page; each call may throw. -/
structure Page (σ : Type) where
  /-- The call `page.waitForSelector(selector, { timeout })`. -/
  waitForSelector : String → Nat → σ → Except String Unit × σ
  /-- The call `page.content()`: the HTML of the page. -/
  content : σ → Except String String × σ
  /-- The value of `document.body.innerText` read inside `page.evaluate`, `none` when
  there is no body. -/
  innerText : σ → Except String (Option String) × σ
  /-- The call `page.screenshot(...)`. -/
  screenshot : σ → Except String String × σ

/-- A JavaScript number: `NaN`, an infinity, or a finite value given exactly. -/
inductive JsNum where
  | nan
  | posInf
  | negInf
  | fin (q : ℚ)
  deriving DecidableEq

/-- The test `x > 0` on a JavaScript number. -/
def JsNum.gtZero : JsNum → Bool
  | .fin q => decide (0 < q)
  | .posInf => true
  | _ => false

/-- The call `isFinite(x)`. -/
def JsNum.isFinite : JsNum → Bool
  | .fin _ => true
  | _ => false

/-- The call `isNaN(x)`. -/
def JsNum.isNaN : JsNum → Bool
  | .nan => true
  | _ => false

/-! ### Double-precision arithmetic

A finite JavaScript number is carried by its exact rational value; every arithmetic
result is rounded to binary64 (round to nearest, ties to even), explicitly. Signed
zeros are not distinguished. -/

/-- The position of the leading binary digit of `n ≥ 1` (the floor of its base-2
logarithm). -/
def bitLog2 (n : ℕ) : ℕ := (Nat.toDigits 2 n).length - 1

/-- The integer `e` with `2 ^ e ≤ |q| < 2 ^ (e + 1)`, for `q ≠ 0`. -/
def ilog2 (q : ℚ) : ℤ :=
  let e0 : ℤ := (bitLog2 q.num.natAbs : ℤ) - (bitLog2 q.den : ℤ)
  if (2 : ℚ) ^ e0 ≤ |q| then e0 else e0 - 1

/-- Round to the nearest integer, ties to even. -/
def roundHalfEven (m : ℚ) : ℤ :=
  let f := ⌊m⌋
  let r := m - f
  if r < 1 / 2 then f else if 1 / 2 < r then f + 1 else if f % 2 = 0 then f else f + 1

/-- Round a real number to binary64: 53 significant bits, least exponent -1022
(subnormals below), overflow to an infinity. -/
def roundToDouble (q : ℚ) : JsNum :=
  if q = 0 then .fin 0
  else
    let e := max (ilog2 q) (-1022)
    let ulp : ℚ := (2 : ℚ) ^ (e - 52)
    let r : ℚ := (roundHalfEven (|q| / ulp) : ℚ) * ulp
    if (2 : ℚ) ^ (1024 : ℤ) ≤ r then (if 0 < q then .posInf else .negInf)
    else .fin (if 0 < q then r else -r)

/-- The operator `x + y` on numbers. -/
def JsNum.add : JsNum → JsNum → JsNum
  | .nan, _ => .nan
  | _, .nan => .nan
  | .posInf, .negInf => .nan
  | .negInf, .posInf => .nan
  | .posInf, _ => .posInf
  | _, .posInf => .posInf
  | .negInf, _ => .negInf
  | _, .negInf => .negInf
  | .fin a, .fin b => roundToDouble (a + b)

/-- The operator `-x`. -/
def JsNum.neg : JsNum → JsNum
  | .nan => .nan
  | .posInf => .negInf
  | .negInf => .posInf
  | .fin a => .fin (-a)

/-- The operator `x - y` on numbers. -/
def JsNum.sub (x y : JsNum) : JsNum := x.add y.neg

/-- The integer `n` for which `n / 10 ^ 6 - x` is as close to zero as possible, the
larger one if there are two (step 10.a of `Number.prototype.toFixed`), for `x ≥ 0`. -/
def fixed6Units (x : ℚ) : ℕ := ⌊x * 10 ^ 6 + 1 / 2⌋.toNat

/-- The decimal rendering of `n / 10 ^ 6` with exactly six fraction digits. -/
def renderFixed6 (n : ℕ) : String :=
  let digits := Nat.toDigits 10 n
  let padded := List.replicate (7 - digits.length) '0' ++ digits
  String.mk (padded.take (padded.length - 6) ++ '.' :: padded.drop (padded.length - 6))

/-- The parts of the external library `nanocurrency-web` and of the JavaScript runtime
that the embedded code calls. -/
structure Lib where
  /-- The call `tools.convert(x, 'RAW', 'NANO')`. -/
  rawToNano : Nat → String
  /-- The call `tools.convert(x, 'NANO', 'RAW')` followed by `BigInt(...)`; both may throw. -/
  nanoToRaw : String → Except String Nat
  /-- The call `parseFloat(x)`. -/
  parseFloat : String → JsNum
  /-- The call `x.toLowerCase()`. -/
  toLowerCase : String → String
  /-- The conversion `String(x)` of a number of magnitude at least `10 ^ 21` (exponent
  notation). -/
  bigNumberToString : ℚ → String

/-- The call `x.toFixed(6)`. -/
def JsNum.toFixed6 (L : Lib) : JsNum → String
  | .nan => "NaN"
  | .posInf => "Infinity"
  | .negInf => "-Infinity"
  | .fin q =>
    if 10 ^ 21 ≤ |q| then L.bigNumberToString q
    else if q < 0 then "-" ++ renderFixed6 (fixed6Units (-q))
    else renderFixed6 (fixed6Units q)

/-- The object `this.sessionStats`. -/
structure SessionStats where
  status : String := "idle"
  tempClaimWallet : Option String := none
  lastDonationSent : Option String := none
  lastRewardReceived : Option String := none
  nextClaimAvailable : Option String := none
  totalClaims : Nat := 0
  totalRewards : String := "0"
  consecutiveSessions : Nat := 0
  deriving DecidableEq, Repr

/-- An account of a stored wallet. -/
structure StoredAccount where
  index : Nat
  address : String
  publicKey : String
  privateKey : String
  deriving DecidableEq, Repr

/-- A wallet of the wallet store (`this.wallets[name]`). -/
structure StoredWallet where
  name : String
  type : String := "hd"
  seed : String
  accounts : List StoredAccount
  createdAt : String := ""
  deriving DecidableEq, Repr

/-- The claim wallet / an account with its key material. -/
structure WalletData where
  name : String := ""
  seed : String := ""
  address : String
  publicKey : String
  privateKey : String
  deriving DecidableEq, Repr

/-- Program state: remote state, emitted trace and the fields of `this` that are read
(`gpuWorkerUrl` and `wallets` belong to the wallet manager shared by the session;
`connectionType`, `bankWalletName`, `proxyUrl` and `claimInterval` are the fields of
`this.config`; `browserOpen` tells whether `this.browser` and `this.page` are set; the
two histories are the sets `usedTorIPs` and `usedUserAgents` in insertion order). -/
structure World (σ : Type) where
  node : σ
  trace : List Event := []
  isRunning : Bool := false
  isPaused : Bool := false
  gpuWorkerUrl : Option String := none
  wallets : List (String × StoredWallet) := []
  connectionType : String := "direct"
  autoRestartEnabled : Bool := true
  sessionStats : SessionStats := {}
  claimWallet : Option WalletData := none
  browserOpen : Bool := false
  bankWalletName : Option String := none
  proxyUrl : Option String := none
  claimInterval : Nat := 24
  usedTorIPs : List String := []
  usedUserAgents : List String := []
  torSocksPort : Nat := 9050
  torControlPort : Nat := 9051

/-- Result of an asynchronous method: a value or a thrown error message, and the state. -/
abbrev Outcome (σ α : Type) := Except String α × World σ

variable {σ : Type}

/-- Append an event to the trace. -/
def emit (e : Event) (w : World σ) : World σ := { w with trace := w.trace ++ [e] }

/-- Method `FaucetSentry.log(level, message)`. -/
def FaucetSentry.log (level message : String) (w : World σ) : World σ :=
  emit (.log "faucet-log" level message) w

/-- Method `FaucetSentry.delay(ms)`. -/
def FaucetSentry.delay (E : Env σ) (ms : Nat) (w : World σ) : World σ :=
  emit (.delay ms) { w with node := E.sleep ms w.node }

/-- A `fetch` of `account_info`, recorded in the trace. -/
def fetchAccountInfo (E : Env σ) (url account : String) (w : World σ) :
    Except String (Response AccountInfoJson) × World σ :=
  let r := E.accountInfo url account w.node
  (r.1, emit (.accountInfo url account) { w with node := r.2 })

/-- A `fetch` of `pending`, recorded in the trace. -/
def fetchPending (E : Env σ) (url account : String) (count : Nat) (w : World σ) :
    Except String (Response PendingJson) × World σ :=
  let r := E.pending url account count w.node
  (r.1, emit (.pending url account count) { w with node := r.2 })

/-- A `fetch` of `process`, recorded in the trace. -/
def fetchProcess (E : Env σ) (b : Block) (w : World σ) :
    Except String (Response ProcessJson) × World σ :=
  let r := E.process b w.node
  (r.1, emit (.process b) { w with node := r.2 })

/-- A `fetch` of `work_generate`, recorded in the trace. -/
def fetchWork (E : Env σ) (url hash : String) (w : World σ) :
    Except String (Response WorkJson) × World σ :=
  let r := E.workGenerate url hash w.node
  (r.1, emit (.workGenerate url hash) { w with node := r.2 })

/-- Ledger account state as returned by `getAccountInfo`. -/
structure AccountInfo where
  opened : Bool
  balance : Nat
  balanceNano : Option String := none
  pending : Nat := 0
  pendingNano : Option String := none
  frontier : String
  representative : Option String := none
  blockCount : Nat := 0
  deriving DecidableEq, Repr

/-- The unopened sentinel state. -/
def AccountInfo.unopened : AccountInfo :=
  { opened := false, balance := 0, pending := 0, frontier := ZERO_FRONTIER }

/-- A pending block as returned by `getPendingBlocks`. -/
structure PendingBlock where
  hash : String
  amount : Nat
  amountNano : String
  source : String
  deriving DecidableEq, Repr

/-! ## Ledger client of `FaucetSentry` -/

/-- Method `FaucetSentry.getAccountInfo` (faucet-sentry.js 444-479). -/
def FaucetSentry.getAccountInfo (E : Env σ) (L : Lib) (address : String) (w : World σ) :
    Outcome σ AccountInfo :=
  match fetchAccountInfo E RPC_URL address w with
  | (.error e, w1) => (.error e, w1)
  | (.ok response, w1) =>
    match response.json with
    | .error e => (.error e, w1)
    | .ok data =>
      if data.error = some "Account not found" then (.ok AccountInfo.unopened, w1)
      else if truthyOpt data.error then (.error (data.error.getD ""), w1)
      else
        (.ok { opened := true
               balance := data.balance
               balanceNano := some (L.rawToNano data.balance)
               pending := data.pending.getD 0
               pendingNano := some (match data.pending with
                 | some p => L.rawToNano p
                 | none => "0")
               frontier := data.frontier
               representative := data.representative
               blockCount := data.blockCount }, w1)

/-- The public-endpoint half of `FaucetSentry.generateWork` (faucet-sentry.js 421-441). -/
def FaucetSentry.generateWorkPublic (E : Env σ) (hash : String) (w : World σ) :
    Outcome σ (Option String) :=
  match fetchWork E POW_RPC_URL hash w with
  | (.error e, w1) => (.error e, w1)
  | (.ok response, w1) =>
    if !response.ok then
      (.error ("Work generation failed with status " ++ toString response.status), w1)
    else
      match response.json with
      | .error e => (.error e, w1)
      | .ok data =>
        if truthyOpt data.error then
          (.error ("Work generation failed: " ++ data.error.getD ""), w1)
        else (.ok data.work, w1)

/-- Method `FaucetSentry.generateWork` (faucet-sentry.js 395-442): the private worker
first, then the public endpoint. The result may be `undefined` (`none`). -/
def FaucetSentry.generateWork (E : Env σ) (hash : String) (w : World σ) :
    Outcome σ (Option String) :=
  if truthyOpt w.gpuWorkerUrl then
    match fetchWork E (w.gpuWorkerUrl.getD "") hash w with
    | (.error _, w1) =>
      FaucetSentry.generateWorkPublic E hash
        (FaucetSentry.log "warning" "GPU worker unavailable, using public RPC" w1)
    | (.ok response, w1) =>
      match response.json with
      | .error _ =>
        FaucetSentry.generateWorkPublic E hash
          (FaucetSentry.log "warning" "GPU worker unavailable, using public RPC" w1)
      | .ok data =>
        if truthyOpt data.work then
          (.ok data.work, FaucetSentry.log "info" "PoW generated via GPU worker" w1)
        else FaucetSentry.generateWorkPublic E hash w1
  else FaucetSentry.generateWorkPublic E hash w

/-- Method `FaucetSentry.processBlock` (faucet-sentry.js 555-569). -/
def FaucetSentry.processBlock (E : Env σ) (signedBlock : Block) (w : World σ) :
    Outcome σ (Option String) :=
  match fetchProcess E signedBlock w with
  | (.error e, w1) => (.error e, w1)
  | (.ok response, w1) =>
    match response.json with
    | .error e => (.error e, w1)
    | .ok data =>
      if truthyOpt data.error then (.error (data.error.getD ""), w1)
      else (.ok data.hash, w1)

/-- The expression `x || FALLBACK_REPRESENTATIVE`. -/
def orFallback (representative : Option String) : String :=
  if truthyOpt representative then representative.getD "" else FALLBACK_REPRESENTATIVE

/-- Method `FaucetSentry.sendFromWallet` (faucet-sentry.js 571-599). -/
def FaucetSentry.sendFromWallet (E : Env σ) (L : Lib) (fromWallet : WalletData)
    (toAddress amountNano : String) (w : World σ) : Outcome σ (Option String) :=
  match FaucetSentry.getAccountInfo E L fromWallet.address w with
  | (.error e, w1) => (.error e, w1)
  | (.ok accountInfo, w1) =>
    if !accountInfo.opened then (.error "Account not opened yet", w1)
    else
      match L.nanoToRaw amountNano with
      | .error e => (.error e, w1)
      | .ok amountRaw =>
        if amountRaw > accountInfo.balance then (.error "Insufficient balance", w1)
        else
          let w2 := FaucetSentry.log "info" "Generating proof of work for send..." w1
          match FaucetSentry.generateWork E accountInfo.frontier w2 with
          | (.error e, w3) => (.error e, w3)
          | (.ok work, w3) =>
            let sendBlockData := blockSend accountInfo.balance fromWallet.address toAddress
              (orFallback accountInfo.representative) accountInfo.frontier amountRaw work
              fromWallet.privateKey
            FaucetSentry.processBlock E sendBlockData w3

/-- The pending block that `getPendingBlocks` makes of an entry of the response
(faucet-sentry.js 508-513). -/
def toPendingBlock (L : Lib) (info : PendingJsonEntry) : PendingBlock :=
  { hash := info.hash, amount := info.amount, amountNano := L.rawToNano info.amount,
    source := info.source }

/-- The loop of `FaucetSentry.getPendingBlocks` over the fallback endpoints
(faucet-sentry.js 484-519); `lastError` is the message of the last error seen. -/
def FaucetSentry.getPendingBlocksLoop (E : Env σ) (L : Lib) (address : String) :
    List String → Option String → World σ → Outcome σ (List PendingBlock)
  | [], lastError, w =>
    match lastError with
    | some message =>
      if message ≠ "Account not found" then
        (.ok [], FaucetSentry.log "warning" ("RPC issue checking pending: " ++ message) w)
      else (.ok [], w)
    | none => (.ok [], w)
  | rpcUrl :: rest, lastError, w =>
    match fetchPending E rpcUrl address 10 w with
    | (.error e, w1) => FaucetSentry.getPendingBlocksLoop E L address rest (some e) w1
    | (.ok response, w1) =>
      match response.json with
      | .error e => FaucetSentry.getPendingBlocksLoop E L address rest (some e) w1
      | .ok data =>
        if truthyOpt data.error && data.error != some "Account not found" then
          FaucetSentry.getPendingBlocksLoop E L address rest data.error w1
        else
          let pendingList := (data.blocks.getD []).map (toPendingBlock L)
          if pendingList.length > 0 then (.ok pendingList, w1)
          else FaucetSentry.getPendingBlocksLoop E L address rest lastError w1

/-- Method `FaucetSentry.getPendingBlocks` (faucet-sentry.js 481-527). -/
def FaucetSentry.getPendingBlocks (E : Env σ) (L : Lib) (address : String) (w : World σ) :
    Outcome σ (List PendingBlock) :=
  FaucetSentry.getPendingBlocksLoop E L address RPC_FALLBACK_URLS none w

/-- The loop of `FaucetSentry.getPendingFromAccountInfo` (faucet-sentry.js 530-550). The
request differs from that of `getAccountInfo` only in not asking for the representative. -/
def FaucetSentry.getPendingFromAccountInfoLoop (E : Env σ) (L : Lib) (address : String) :
    List String → World σ → String × World σ
  | [], w => ("0", w)
  | rpcUrl :: rest, w =>
    match fetchAccountInfo E rpcUrl address w with
    | (.error _, w1) => FaucetSentry.getPendingFromAccountInfoLoop E L address rest w1
    | (.ok response, w1) =>
      match response.json with
      | .error _ => FaucetSentry.getPendingFromAccountInfoLoop E L address rest w1
      | .ok data =>
        match data.pending with
        | some p =>
          if p > 0 then (L.rawToNano p, w1)
          else FaucetSentry.getPendingFromAccountInfoLoop E L address rest w1
        | none => FaucetSentry.getPendingFromAccountInfoLoop E L address rest w1

/-- Method `FaucetSentry.getPendingFromAccountInfo` (faucet-sentry.js 529-553). -/
def FaucetSentry.getPendingFromAccountInfo (E : Env σ) (L : Lib) (address : String)
    (w : World σ) : String × World σ :=
  FaucetSentry.getPendingFromAccountInfoLoop E L address RPC_FALLBACK_URLS w

/-- Method `FaucetSentry.receiveToWallet` (faucet-sentry.js 601-624). -/
def FaucetSentry.receiveToWallet (E : Env σ) (L : Lib) (toWallet : WalletData)
    (pendingHash : String) (amountRaw : Nat) (w : World σ) : Outcome σ (Option String) :=
  match FaucetSentry.getAccountInfo E L toWallet.address w with
  | (.error e, w1) => (.error e, w1)
  | (.ok accountInfo, w1) =>
    let representative := orFallback accountInfo.representative
    let workHash := if accountInfo.opened then accountInfo.frontier else toWallet.publicKey
    let w2 := FaucetSentry.log "info" "Generating proof of work for receive..." w1
    match FaucetSentry.generateWork E workHash w2 with
    | (.error e, w3) => (.error e, w3)
    | (.ok work, w3) =>
      let receiveBlockData := blockReceive accountInfo.balance toWallet.address representative
        accountInfo.frontier pendingHash amountRaw work toWallet.privateKey
      FaucetSentry.processBlock E receiveBlockData w3

/-- The `for (const p of pending)` loop of `FaucetSentry.receiveAllPending`
(faucet-sentry.js 635-643), threading `totalReceived`. -/
def FaucetSentry.receiveLoop (E : Env σ) (L : Lib) (walletData : WalletData) :
    List PendingBlock → Nat → World σ → Nat × World σ
  | [], totalReceived, w => (totalReceived, w)
  | p :: rest, totalReceived, w =>
    match FaucetSentry.receiveToWallet E L walletData p.hash p.amount w with
    | (.ok _, w1) =>
      FaucetSentry.receiveLoop E L walletData rest (totalReceived + p.amount)
        (FaucetSentry.log "success" ("Received " ++ p.amountNano ++ " NANO") w1)
    | (.error message, w1) =>
      FaucetSentry.receiveLoop E L walletData rest totalReceived
        (FaucetSentry.log "error" ("Failed to receive: " ++ message) w1)

/-- The object returned by `receiveAllPending`. -/
structure ReceiveAllResult where
  received : Nat
  total : String
  deriving DecidableEq, Repr

/-- Method `FaucetSentry.receiveAllPending` (faucet-sentry.js 626-649). -/
def FaucetSentry.receiveAllPending (E : Env σ) (L : Lib) (walletData : WalletData)
    (w : World σ) : Outcome σ ReceiveAllResult :=
  match FaucetSentry.getPendingBlocks E L walletData.address w with
  | (.error e, w1) => (.error e, w1)
  | (.ok pending, w1) =>
    if pending.length = 0 then (.ok { received := 0, total := "0" }, w1)
    else
      let r := FaucetSentry.receiveLoop E L walletData pending 0 w1
      (.ok { received := pending.length, total := L.rawToNano r.1 }, r.2)

/-! ## Waiting for a pending block -/

/-- What the part of the loop body after an empty poll decides. -/
inductive PollStep where
  /-- The statement `return retryPending`. -/
  | found (blocks : List PendingBlock)
  /-- Fall through to the end of the loop body with this value of
  `consecutiveEmptyChecks`. -/
  | again (consecutiveEmptyChecks : Nat)
  deriving DecidableEq, Repr

/-- The part of the loop body of `FaucetSentry.waitForPending` after an empty poll
(faucet-sentry.js 667-685); `consecutiveEmptyChecks` is the counter before its
increment, `maxEmptyBeforeBackup` is 3. -/
def FaucetSentry.backupCheck (E : Env σ) (L : Lib) (address : String)
    (consecutiveEmptyChecks : Nat) (w : World σ) : Outcome σ PollStep :=
  let consecutiveEmptyChecks := consecutiveEmptyChecks + 1
  if consecutiveEmptyChecks ≥ 3 then
    match FaucetSentry.getPendingFromAccountInfo E L address w with
    | (pendingAmount, w1) =>
      if (L.parseFloat pendingAmount).gtZero then
        let w2 := FaucetSentry.log "info"
          ("Account shows " ++ pendingAmount ++ " NANO pending, retrying block fetch...") w1
        let w3 := FaucetSentry.delay E 3000 w2
        match FaucetSentry.getPendingBlocks E L address w3 with
        | (.error e, w4) => (.error e, w4)
        | (.ok retryPending, w4) =>
          if retryPending.length > 0 then (.ok (.found retryPending), w4)
          else
            (.ok (.again 0), FaucetSentry.log "warning"
              ("Pending amount exists but blocks not returned - RPC sync issue, " ++
                "will keep trying...") w4)
      else (.ok (.again 0), w1)
  else (.ok (.again consecutiveEmptyChecks), w)

/-- The end of the loop body of `FaucetSentry.waitForPending` (faucet-sentry.js 687-689):
log the elapsed seconds and sleep for `checkInterval`. -/
def FaucetSentry.waitTick (E : Env σ) (startTime checkInterval : Nat) (w : World σ) :
    World σ :=
  let elapsed : Int := ((E.now w.node : Int) - (startTime : Int)) / 1000
  FaucetSentry.delay E checkInterval
    (FaucetSentry.log "info" ("Waiting for reward... (" ++ toString elapsed ++ "s elapsed)") w)

/-- The `while` loop of `FaucetSentry.waitForPending` (faucet-sentry.js 656-690). The
first argument bounds the number of iterations; `none` means the bound was reached. -/
def FaucetSentry.waitLoop (E : Env σ) (L : Lib) (address : String)
    (timeout checkInterval startTime : Nat) :
    Nat → Nat → World σ → Option (Outcome σ (List PendingBlock))
  | 0, _, _ => none
  | fuel + 1, consecutiveEmptyChecks, w =>
    if ¬ ((E.now w.node : Int) - (startTime : Int) < (timeout : Int)) then
      some (.error "Timeout waiting for pending transaction", w)
    else if !w.isRunning || w.isPaused then
      some (.error "Session stopped or paused", w)
    else
      match FaucetSentry.getPendingBlocks E L address w with
      | (.error e, w1) => some (.error e, w1)
      | (.ok pending, w1) =>
        if pending.length > 0 then
          some (.ok pending,
            FaucetSentry.log "success" "Pending transaction detected via RPC!" w1)
        else
          match FaucetSentry.backupCheck E L address consecutiveEmptyChecks w1 with
          | (.error e, w2) => some (.error e, w2)
          | (.ok (.found retryPending), w2) => some (.ok retryPending, w2)
          | (.ok (.again count), w2) =>
            FaucetSentry.waitLoop E L address timeout checkInterval startTime fuel count
              (FaucetSentry.waitTick E startTime checkInterval w2)

/-- Method `FaucetSentry.waitForPending` (faucet-sentry.js 651-692), with a bound on the
number of loop iterations. -/
def FaucetSentry.waitForPending (E : Env σ) (L : Lib) (fuel : Nat) (address : String)
    (timeout checkInterval : Nat) (w : World σ) : Option (Outcome σ (List PendingBlock)) :=
  FaucetSentry.waitLoop E L address timeout checkInterval (E.now w.node) fuel 0 w

/-! ## The step `extracting_donation` of the claim process -/

/-- The call `s.includes(pattern)`. -/
def includes (s pattern : String) : Bool :=
  s.toList.tails.any (fun t => pattern.toList.isPrefixOf t)

/-- The list `comeBackPatterns` (faucet-sentry.js 836-846). -/
def comeBackPatterns : List String :=
  ["come back tomorrow", "already claimed", "try again later", "wait 24 hours",
   "exceeded limit", "too many requests", "rate limit", "quota exceeded", "daily limit"]

/-- The class `\s` of JavaScript regular expressions. -/
def isJsSpace (c : Char) : Bool :=
  c == ' ' || c == '\t' || c == '\n' || c == '\r' || c.toNat == 0x0B || c.toNat == 0x0C ||
  c.toNat == 0xA0 || c.toNat == 0x1680 || (0x2000 ≤ c.toNat && c.toNat ≤ 0x200A) ||
  c.toNat == 0x2028 || c.toNat == 0x2029 || c.toNat == 0x202F || c.toNat == 0x205F ||
  c.toNat == 0x3000 || c.toNat == 0xFEFF

/-- The class `[\d.]`. -/
def isAmountChar (c : Char) : Bool := c.isDigit || c == '.'

/-- Match a lower-case ASCII literal at the head, ignoring case (flag `i`); the rest of
the input on success. -/
def dropLiteral : List Char → List Char → Option (List Char)
  | [], s => some s
  | _ :: _, [] => none
  | l :: ls, c :: cs => if c.toLower == l then dropLiteral ls cs else none

/-- Match `\s*` at the head (greedy). -/
def dropSpaces (s : List Char) : List Char := s.dropWhile isJsSpace

/-- Match `([\d.]+)` at the head (greedy): the capture and the rest. -/
def takeAmount (s : List Char) : Option (List Char × List Char) :=
  match s.takeWhile isAmountChar with
  | [] => none
  | a => some (a, s.dropWhile isAmountChar)

/-- The first capture of a pattern tried at every start position from the left. -/
def firstMatch (tryAt : List Char → Option String) : List Char → Option String
  | [] => tryAt []
  | c :: cs =>
    match tryAt (c :: cs) with
    | some m => some m
    | none => firstMatch tryAt cs

/-- The pattern `/Send\s*([\d.]+)\s*XNO/i` at a start position. -/
def sendXnoAt (s : List Char) : Option String :=
  (dropLiteral "send".toList s).bind fun r =>
    (takeAmount (dropSpaces r)).bind fun (a, r2) =>
      (dropLiteral "xno".toList (dropSpaces r2)).map fun _ => String.mk a

/-- The pattern `/([\d.]+)\s*XNO\s*to\s*donation/i` at a start position. -/
def xnoToDonationAt (s : List Char) : Option String :=
  (takeAmount s).bind fun (a, r) =>
    (dropLiteral "xno".toList (dropSpaces r)).bind fun r2 =>
      (dropLiteral "to".toList (dropSpaces r2)).bind fun r3 =>
        (dropLiteral "donation".toList (dropSpaces r3)).map fun _ => String.mk a

/-- The pattern `/send\s*([\d.]+)/i` at a start position. -/
def sendAt (s : List Char) : Option String :=
  (dropLiteral "send".toList s).bind fun r =>
    (takeAmount (dropSpaces r)).map fun (a, _) => String.mk a

/-- The value of `donationMatch[1]` after the three `pageContent.match(...)` alternatives
(faucet-sentry.js 867-869), `none` when none of them matches. -/
def donationMatch (pageContent : String) : Option String :=
  (firstMatch sendXnoAt pageContent.toList).orElse fun _ =>
    (firstMatch xnoToDonationAt pageContent.toList).orElse fun _ =>
      firstMatch sendAt pageContent.toList

/-- The script run by `page.evaluate` (faucet-sentry.js 855-860). -/
def renderedText (L : Lib) (innerText : Option String) : String :=
  match innerText with
  | some t => if truthy t then L.toLowerCase t else ""
  | none => ""

/-- Method `FaucetSentry.takeScreenshot(label)` (faucet-sentry.js 1257-1267) while a page
is open. -/
def FaucetSentry.takeScreenshot (P : Page σ) (label : String) (w : World σ) : World σ :=
  match P.screenshot w.node with
  | (.ok _, s) => emit (.screenshot label) { w with node := s }
  | (.error _, s) => FaucetSentry.log "warning" "Failed to take screenshot" { w with node := s }

/-- How the polling loop of `extracting_donation` ends. -/
inductive PageVerdict where
  /-- The flag `hasRateLimitError` is set. -/
  | rateLimited
  /-- The capture `donationMatch[1]`. -/
  | donation (amount : String)
  /-- The loop ran out of time: no flag, no match. -/
  | nothing
  deriving DecidableEq, Repr

/-- The expression `Math.round((Date.now() - startWait) / 1000)`. -/
def roundedSeconds (now startWait : Nat) : Int :=
  (((now : Int) - (startWait : Int)) + 500) / 1000

/-- The end of an iteration of the polling loop (faucet-sentry.js 879-882). -/
def FaucetSentry.extractTick (E : Env σ) (P : Page σ) (startWait : Nat) (w : World σ) :
    World σ :=
  let elapsed := roundedSeconds (E.now w.node) startWait
  let w1 := FaucetSentry.log "info" ("Waiting for page to load... (" ++ toString elapsed ++ "s)") w
  let w2 := FaucetSentry.takeScreenshot P ("Loading... " ++ toString elapsed ++ "s") w1
  FaucetSentry.delay E 2000 w2

/-- The polling loop of `extracting_donation` (faucet-sentry.js 848-883), `maxWaitTime`
60000 and `checkInterval` 2000. The first argument bounds the number of iterations. -/
def FaucetSentry.extractLoop (E : Env σ) (P : Page σ) (L : Lib) (startWait : Nat) :
    Nat → World σ → Option (PageVerdict × World σ)
  | 0, _ => none
  | fuel + 1, w =>
    if ¬ ((E.now w.node : Int) - (startWait : Int) < 60000) then some (.nothing, w)
    else
      let w1 : World σ := { w with node := (P.waitForSelector "body" 5000 w.node).2 }
      let failed (message : String) (w' : World σ) :=
        FaucetSentry.extractLoop E P L startWait fuel
          (FaucetSentry.extractTick E P startWait
            (FaucetSentry.log "warning" ("Page check error: " ++ message.take 50) w'))
      match P.content w1.node with
      | (.error message, s2) => failed message { w1 with node := s2 }
      | (.ok pageContent, s2) =>
        match P.innerText s2 with
        | (.error message, s3) => failed message { w1 with node := s3 }
        | (.ok innerText, s3) =>
          let w3 : World σ := { w1 with node := s3 }
          let pageText := renderedText L innerText
          if comeBackPatterns.any (fun pattern => includes pageText pattern) then
            some (.rateLimited, w3)
          else
            match donationMatch pageContent with
            | some amount =>
              some (.donation amount, FaucetSentry.log "success"
                ("Donation amount detected after " ++
                  toString (roundedSeconds (E.now w3.node) startWait) ++ "s") w3)
            | none =>
              FaucetSentry.extractLoop E P L startWait fuel
                (FaucetSentry.extractTick E P startWait w3)

/-- The error raised when a rate limit was detected (faucet-sentry.js 885-896). -/
def rateLimitError (w : World σ) : String :=
  if w.connectionType != "direct" && w.autoRestartEnabled then "RATE_LIMIT_RETRY"
  else "Rate limit reached - please try again tomorrow"

/-- What follows the polling loop (faucet-sentry.js 885-903): raise the rate-limit error,
raise the extraction failure, or yield `donationAmount`. -/
def FaucetSentry.extractFinish (P : Page σ) (verdict : PageVerdict) (w : World σ) :
    Outcome σ String :=
  match verdict with
  | .rateLimited =>
    let w1 := FaucetSentry.log "warning"
      "Rate limit detected - \"come back tomorrow\" or similar message found" w
    let w2 := FaucetSentry.takeScreenshot P "Rate limit detected" w1
    if w2.connectionType != "direct" && w2.autoRestartEnabled then
      (.error "RATE_LIMIT_RETRY",
        FaucetSentry.log "info" "Tor/Proxy mode: Will restart with new identity..." w2)
    else (.error "Rate limit reached - please try again tomorrow", w2)
  | .nothing =>
    (.error "Could not extract donation amount from page (timeout - page may still be loading)",
      FaucetSentry.takeScreenshot P "Failed to find donation amount" w)
  | .donation amount => (.ok amount, w)

/-- The step `extracting_donation` of `FaucetSentry.runClaimProcess` (faucet-sentry.js
823-903), with a bound on the number of loop iterations. -/
def FaucetSentry.extractDonation (E : Env σ) (P : Page σ) (L : Lib) (fuel : Nat)
    (w : World σ) : Option (Outcome σ String) :=
  let w0 := FaucetSentry.log "action" "Waiting for donation amount to load..." w
  (FaucetSentry.extractLoop E P L (E.now w0.node) fuel w0).map fun r =>
    FaucetSentry.extractFinish P r.1 r.2

/-! ## Net-reward accounting of the claim process -/

/-- The value of `totalRewardAmount` (faucet-sentry.js 988): the amounts of the blocks of
`rewardPending` added to 0 one after the other, in the order of the array
(`rewardPending.reduce((sum, block) => sum + parseFloat(block.amountNano), 0)`). -/
def FaucetSentry.totalRewardAmount (L : Lib) (rewardPending : List PendingBlock) : JsNum :=
  rewardPending.foldl
    (fun (sum : JsNum) block => sum.add (L.parseFloat block.amountNano)) (JsNum.fin 0)

/-- The value of `netReward` (faucet-sentry.js 988-990): the sum of the amounts of all
blocks of `rewardPending`, minus the donation. -/
def FaucetSentry.netReward (L : Lib) (rewardPending : List PendingBlock)
    (donationAmount : String) : JsNum :=
  let totalRewardAmount := FaucetSentry.totalRewardAmount L rewardPending
  let donationNum := L.parseFloat donationAmount
  totalRewardAmount.sub donationNum

/-- The statistics update at the end of a claim (faucet-sentry.js 988-1000). -/
def FaucetSentry.recordClaim (L : Lib) (rewardPending : List PendingBlock)
    (donationAmount : String) (w : World σ) : World σ :=
  let netReward := FaucetSentry.netReward L rewardPending donationAmount
  let counted : World σ :=
    { w with sessionStats := { w.sessionStats with totalClaims := w.sessionStats.totalClaims + 1 } }
  if netReward.gtZero then
    let total := ((L.parseFloat counted.sessionStats.totalRewards).add netReward).toFixed6 L
    FaucetSentry.log "success"
      ("🎉 Claim session completed successfully! Net reward: " ++ netReward.toFixed6 L ++ " NANO")
      { counted with sessionStats := { counted.sessionStats with totalRewards := total } }
  else
    FaucetSentry.log "warning"
      ("Claim completed but net reward is " ++ netReward.toFixed6 L ++ " NANO (not profitable)")
      counted

/-! ### A model of `parseFloat` for closed examples -/

/-- The value of a string of decimal digits. -/
def digitsValue (ds : List Char) : ℕ := ds.foldl (fun n c => 10 * n + (c.toNat - 48)) 0

/-- The exponent part `e[+-]?digits` at the head of the input, 0 when there is none. -/
def exponentPart : List Char → ℤ
  | c :: r =>
    if c == 'e' || c == 'E' then
      match r with
      | '-' :: ds =>
        if (ds.takeWhile Char.isDigit).isEmpty then 0 else -(digitsValue (ds.takeWhile Char.isDigit))
      | '+' :: ds => digitsValue (ds.takeWhile Char.isDigit)
      | ds => digitsValue (ds.takeWhile Char.isDigit)
    else 0
  | [] => 0

/-- The unsigned part of `parseFloat`: the longest prefix that is a decimal literal. -/
def parseUnsigned (t : List Char) : Option ℚ :=
  let ip := t.takeWhile Char.isDigit
  let r1 := t.dropWhile Char.isDigit
  let fp := match r1 with
    | '.' :: r => r.takeWhile Char.isDigit
    | _ => []
  let r2 := match r1 with
    | '.' :: r => if ip.isEmpty && (r.takeWhile Char.isDigit).isEmpty then r1
                  else r.dropWhile Char.isDigit
    | _ => r1
  if ip.isEmpty && fp.isEmpty then none
  else some ((digitsValue (ip ++ fp) : ℚ) * (10 : ℚ) ^ (exponentPart r2 - (fp.length : ℤ)))

/-- The function `parseFloat` of JavaScript: leading white space, a sign, then `Infinity`
or the longest decimal literal; `NaN` when there is none. -/
def jsParseFloat (s : String) : JsNum :=
  let t := s.toList.dropWhile isJsSpace
  let negative := t.head? == some '-'
  let u := match t with
    | '-' :: r => r
    | '+' :: r => r
    | _ => t
  if "Infinity".toList.isPrefixOf u then (if negative then .negInf else .posInf)
  else
    match parseUnsigned u with
    | none => .nan
    | some q => roundToDouble (if negative then -q else q)

/-- The library with `parseFloat` as JavaScript defines it, amounts displayed in raw
units. -/
def jsLib : Lib where
  rawToNano n := toString n
  nanoToRaw s := match parseUnsigned s.toList with
    | some q => if q.den = 1 then .ok q.num.toNat else .error "Invalid amount"
    | none => .error "Invalid amount"
  parseFloat := jsParseFloat
  toLowerCase s := String.mk (s.toList.map Char.toLower)
  bigNumberToString _ := "1e+21"

/-- A reward block for closed examples, with the displayed amount given. -/
def rewardBlock (amountNano : String) : PendingBlock :=
  { hash := "R", amount := 0, amountNano := amountNano, source := "nano_faucet" }

/-! ## Ledger client of `NanoWalletManager` (nano-wallet.js) -/

/-- The alphabet of the address regular expression. -/
def nanoAlphabet : List Char := "13456789abcdefghijkmnopqrstuwxyz".toList

/-- Function `isValidNanoAddress` (nano-wallet.js 44-48) on a string argument: the
regular expression `^nano_[13][13456789abcdefghijkmnopqrstuwxyz]{59}$`. -/
def isValidNanoAddress (address : String) : Bool :=
  match address.toList with
  | 'n' :: 'a' :: 'n' :: 'o' :: '_' :: c :: rest =>
    (c == '1' || c == '3') && rest.length == 59 && rest.all (fun x => nanoAlphabet.contains x)
  | _ => false

/-- Function `isValidAmount` (nano-wallet.js 50-54) on a string argument. -/
def isValidAmount (L : Lib) (amount : String) : Bool :=
  let num := L.parseFloat amount
  !num.isNaN && num.gtZero && num.isFinite

/-- Method `NanoWalletManager.log(level, message)`. -/
def NanoWalletManager.log (level message : String) (w : World σ) : World σ :=
  emit (.log "nano-log" level ("[Nano] " ++ message)) w

/-- The `try` body of `NanoWalletManager.getAccountInfo` (nano-wallet.js 321-365). -/
def NanoWalletManager.getAccountInfoBody (E : Env σ) (L : Lib) (address : String)
    (w : World σ) : Outcome σ AccountInfo :=
  if !isValidNanoAddress address then (.error "Invalid Nano address", w)
  else
    match fetchAccountInfo E RPC_URL address w with
    | (.error e, w1) => (.error e, w1)
    | (.ok response, w1) =>
      if !response.ok then
        (.error ("RPC request failed with status " ++ toString response.status), w1)
      else
        match response.json with
        | .error e => (.error e, w1)
        | .ok data =>
          if data.error = some "Account not found" then (.ok AccountInfo.unopened, w1)
          else if truthyOpt data.error then (.error (data.error.getD ""), w1)
          else
            (.ok { opened := true
                   balance := data.balance
                   balanceNano := some (L.rawToNano data.balance)
                   pending := data.pending.getD 0
                   pendingNano := some (match data.pending with
                     | some p => L.rawToNano p
                     | none => "0")
                   frontier := data.frontier
                   representative := data.representative
                   blockCount := data.blockCount }, w1)

/-- Method `NanoWalletManager.getAccountInfo` (nano-wallet.js 320-370): the `catch` logs
the error and throws it again. -/
def NanoWalletManager.getAccountInfo (E : Env σ) (L : Lib) (address : String) (w : World σ) :
    Outcome σ AccountInfo :=
  match NanoWalletManager.getAccountInfoBody E L address w with
  | (.ok info, w1) => (.ok info, w1)
  | (.error message, w1) =>
    (.error message, NanoWalletManager.log "error" ("Failed to get account info: " ++ message) w1)

/-- The public-endpoint half of `NanoWalletManager.generateWork` (nano-wallet.js 438-458). -/
def NanoWalletManager.generateWorkPublic (E : Env σ) (hash : String) (w : World σ) :
    Outcome σ (Option String) :=
  match fetchWork E POW_RPC_URL hash w with
  | (.error e, w1) => (.error e, w1)
  | (.ok response, w1) =>
    if !response.ok then
      (.error ("Work generation RPC failed with status " ++ toString response.status), w1)
    else
      match response.json with
      | .error e => (.error e, w1)
      | .ok data =>
        if truthyOpt data.error then
          (.error ("Work generation failed: " ++ data.error.getD ""), w1)
        else (.ok data.work, w1)

/-- Method `NanoWalletManager.generateWork` (nano-wallet.js 416-459). -/
def NanoWalletManager.generateWork (E : Env σ) (hash : String) (w : World σ) :
    Outcome σ (Option String) :=
  if truthyOpt w.gpuWorkerUrl then
    match fetchWork E (w.gpuWorkerUrl.getD "") hash w with
    | (.error _, w1) =>
      NanoWalletManager.generateWorkPublic E hash
        (NanoWalletManager.log "warning" "GPU worker unavailable, using RPC" w1)
    | (.ok response, w1) =>
      match response.json with
      | .error _ =>
        NanoWalletManager.generateWorkPublic E hash
          (NanoWalletManager.log "warning" "GPU worker unavailable, using RPC" w1)
      | .ok data =>
        if truthyOpt data.work then
          (.ok data.work, NanoWalletManager.log "info" "PoW generated via GPU worker" w1)
        else NanoWalletManager.generateWorkPublic E hash w1
  else NanoWalletManager.generateWorkPublic E hash w

/-- Method `NanoWalletManager.processBlock` (nano-wallet.js 461-482). -/
def NanoWalletManager.processBlock (E : Env σ) (signedBlock : Block) (w : World σ) :
    Outcome σ (Option String) :=
  match fetchProcess E signedBlock w with
  | (.error e, w1) => (.error e, w1)
  | (.ok response, w1) =>
    if !response.ok then
      (.error ("Process block RPC failed with status " ++ toString response.status), w1)
    else
      match response.json with
      | .error e => (.error e, w1)
      | .ok data =>
        if truthyOpt data.error then (.error (data.error.getD ""), w1)
        else (.ok data.hash, w1)

/-- The object returned by `sendNano`. -/
structure SendResult where
  success : Bool
  hash : Option String := none
  amount : Option String := none
  error : Option String := none
  deriving DecidableEq, Repr

/-- The `try` body of `NanoWalletManager.sendNano` (nano-wallet.js 485-536). -/
def NanoWalletManager.sendNanoBody (E : Env σ) (L : Lib) (walletName toAddress
    amountNano : String) (w : World σ) : Outcome σ (Option String) :=
  if !isValidNanoAddress toAddress then (.error "Invalid recipient Nano address", w)
  else if !isValidAmount L amountNano then (.error "Invalid amount", w)
  else
    match w.wallets.lookup walletName with
    | none => (.error ("Wallet \"" ++ walletName ++ "\" not found"), w)
    | some stored =>
      match stored.accounts with
      | [] => (.error "Cannot read properties of undefined (reading 'address')", w)
      | account :: _ =>
        let fromAddress := account.address
        let w0 := NanoWalletManager.log "info" ("Preparing to send " ++ amountNano ++ " NANO") w
        match NanoWalletManager.getAccountInfo E L fromAddress w0 with
        | (.error e, w1) => (.error e, w1)
        | (.ok accountInfo, w1) =>
          if !accountInfo.opened then
            (.error "Account has not been opened yet (no incoming transactions)", w1)
          else
            match L.nanoToRaw amountNano with
            | .error e => (.error e, w1)
            | .ok amountRaw =>
              if amountRaw > accountInfo.balance then (.error "Insufficient balance", w1)
              else
                let w2 := NanoWalletManager.log "info" "Generating proof of work..." w1
                match NanoWalletManager.generateWork E accountInfo.frontier w2 with
                | (.error e, w3) => (.error e, w3)
                | (.ok work, w3) =>
                  let sendBlockData := blockSend accountInfo.balance fromAddress toAddress
                    (accountInfo.representative.getD "") accountInfo.frontier amountRaw work
                    account.privateKey
                  let w4 := NanoWalletManager.log "info" "Broadcasting transaction..." w3
                  match NanoWalletManager.processBlock E sendBlockData w4 with
                  | (.error e, w5) => (.error e, w5)
                  | (.ok hash, w5) =>
                    (.ok hash, NanoWalletManager.log "success" "Transaction sent successfully" w5)

/-- Method `NanoWalletManager.sendNano` (nano-wallet.js 484-541): never throws, failures
are reported as `success: false`. -/
def NanoWalletManager.sendNano (E : Env σ) (L : Lib) (walletName toAddress amountNano : String)
    (w : World σ) : SendResult × World σ :=
  match NanoWalletManager.sendNanoBody E L walletName toAddress amountNano w with
  | (.ok hash, w1) => ({ success := true, hash := hash, amount := some amountNano }, w1)
  | (.error message, w1) =>
    ({ success := false, error := some message },
      NanoWalletManager.log "error" ("Send failed: " ++ message) w1)

/-! ## Mock ledger

A remote node holding a ledger. Queries are read-only; `process` either rejects a block
(the ledger is left as it was) or applies it: the account takes the balance,
representative and frontier of the block, a receive consumes the pending entry named by
`link`, a send (a block lowering the balance) creates a pending entry at `link`. The
`pending` action honours the `count` of the request. -/

structure LedgerAccount where
  balance : Nat
  frontier : String
  representative : String
  blockCount : Nat := 1
  deriving DecidableEq, Repr

structure Ledger where
  accounts : String → Option LedgerAccount
  receivable : String → List PendingJsonEntry
  /-- The verdict of the node on a broadcast block: `some error` rejects it. -/
  rejects : Block → Option String := fun _ => none
  hashOf : Block → String := fun b => "hash:" ++ b.account ++ ":" ++ b.link
  clock : Nat := 0

/-- Point update of a function on addresses. -/
def setAt {α : Type} (f : String → α) (a : String) (v : α) : String → α :=
  fun x => if x = a then v else f x

/-- The ledger after block `b` has been confirmed. -/
def Ledger.apply (s : Ledger) (b : Block) : Ledger :=
  let old := s.accounts b.account
  let oldBalance := (old.map (·.balance)).getD 0
  let account : LedgerAccount :=
    { balance := b.balance, frontier := s.hashOf b, representative := b.representative,
      blockCount := (old.map (·.blockCount)).getD 0 + 1 }
  { s with
    accounts := setAt s.accounts b.account (some account)
    receivable :=
      if b.balance < oldBalance then
        setAt s.receivable b.link (s.receivable b.link ++
          [{ hash := s.hashOf b, amount := oldBalance - b.balance, source := b.account }])
      else
        setAt s.receivable b.account ((s.receivable b.account).filter (fun p => p.hash != b.link)) }

/-- The mock ledger as an environment. -/
def Ledger.env : Env Ledger where
  accountInfo _ account s :=
    match s.accounts account with
    | none => (.ok { json := .ok { error := some "Account not found" } }, s)
    | some a =>
      (.ok { json := .ok { balance := a.balance, frontier := a.frontier,
                           representative := some a.representative,
                           pending := some ((s.receivable account).map (·.amount)).sum,
                           blockCount := a.blockCount } }, s)
  pending _ account count s :=
    (.ok { json := .ok { blocks := some ((s.receivable account).take count) } }, s)
  process b s :=
    match s.rejects b with
    | some message => (.ok { json := .ok { error := some message } }, s)
    | none => (.ok { json := .ok { hash := some (s.hashOf b) } }, s.apply b)
  workGenerate _ hash s := (.ok { json := .ok { work := some ("work:" ++ hash) } }, s)
  sleep ms s := { s with clock := s.clock + ms }
  now s := s.clock

/-! ## Reading a trace -/

/-- An event that asks a work provider for proof of work. -/
def Event.isWorkRequest : Event → Bool
  | .workGenerate _ _ => true
  | _ => false

/-- An event that broadcasts a block to the node. -/
def Event.isBroadcast : Event → Bool
  | .process _ => true
  | _ => false

/-- The total time the program asked to sleep, in milliseconds. -/
def accumulatedWait : List Event → Nat
  | [] => 0
  | .delay ms :: rest => ms + accumulatedWait rest
  | _ :: rest => accumulatedWait rest

/-- What the trace shows of one receive attempt for the pending block `p`: a fresh
`account_info` request for the wallet, further events, and last the outcome logged by
the loop of `receiveAllPending`, which is either the success entry for `p` (then a block
whose link is `p.hash` was broadcast) or the failure entry. -/
def ReceiveAttempt (walletData : WalletData) (p : PendingBlock) (seg : List Event) : Prop :=
  ∃ mid,
    (seg = Event.accountInfo RPC_URL walletData.address :: mid ++
        [Event.log "faucet-log" "success" ("Received " ++ p.amountNano ++ " NANO")]
      ∧ ∃ b, Event.process b ∈ mid ∧ b.link = p.hash) ∨
    (∃ message, seg = Event.accountInfo RPC_URL walletData.address :: mid ++
        [Event.log "faucet-log" "error" ("Failed to receive: " ++ message)])

/-! ## Scripted remote side

A mock RPC: each kind of request is answered by the next entry of its script (a thrown
transport error once the script is exhausted); timers advance the clock exactly. Since
the client is sequential and deterministic, every behaviour of a real remote side along
one run is some script. -/

structure Script where
  clock : Nat := 0
  accountInfos : List (Except String (Response AccountInfoJson)) := []
  pendings : List (Except String (Response PendingJson)) := []
  processes : List (Except String (Response ProcessJson)) := []
  works : List (Except String (Response WorkJson)) := []

/-- Take the next scripted answer. -/
def Script.next {α : Type} : List (Except String α) → Except String α × List (Except String α)
  | [] => (.error "fetch failed", [])
  | r :: rest => (r, rest)

/-- The scripted remote side as an environment. -/
def Script.env : Env Script where
  accountInfo _ _ s := ((Script.next s.accountInfos).1,
    { s with accountInfos := (Script.next s.accountInfos).2 })
  pending _ _ _ s := ((Script.next s.pendings).1,
    { s with pendings := (Script.next s.pendings).2 })
  process _ s := ((Script.next s.processes).1,
    { s with processes := (Script.next s.processes).2 })
  workGenerate _ _ s := ((Script.next s.works).1,
    { s with works := (Script.next s.works).2 })
  sleep ms s := { s with clock := s.clock + ms }
  now s := s.clock

/-- A stand-in for the unit conversions in closed examples: display amounts are tallies
(`III` for 3), with `0` for zero; lower-casing is that of the ASCII letters. -/
def tallyLib : Lib where
  rawToNano n := if n = 0 then "0" else String.mk (List.replicate n 'I')
  nanoToRaw s := if s = "0" then .ok 0 else .ok s.length
  parseFloat s := if s = "0" then .fin 0 else .fin s.length
  toLowerCase s := String.mk (s.toList.map Char.toLower)
  bigNumberToString _ := "1e+21"

/-- A wallet used in closed examples. -/
def demoWallet : WalletData :=
  { name := "_temp_claim_0", seed := "seed", address := "nano_claim", publicKey := "PUB",
    privateKey := "PRIV" }

/-- A scripted world for closed examples: the source account is opened with balance 3
and frontier `F`; work and broadcast succeed. -/
def demoSendWorld : World Script :=
  { node := { accountInfos := [.ok { json := .ok { balance := 3, frontier := "F" } }]
              works := [.ok { json := .ok { work := some "w" } }]
              processes := [.ok { json := .ok { hash := some "H" } }] } }

/-- A ledger for closed examples: the claim account holds 10 raw with frontier `F0`, and
the node rejects every block as a fork. -/
def demoRejectingLedger : World Ledger :=
  { node := { accounts := fun a => if a = "nano_claim" then
                some { balance := 10, frontier := "F0", representative := "nano_rep" } else none
              receivable := fun _ => []
              rejects := fun _ => some "Fork" } }

/-- The pending set {A:5}. -/
def pendingA : List PendingJsonEntry := [⟨"A", 5, "nano_faucet"⟩]

/-- A scripted world for closed examples: one pending block `A` of 5 raw for the claim
wallet, whose receive block the node rejects as a fork. -/
def demoRejectedReceiveWorld : World Script :=
  { node := { pendings := [.ok { json := .ok { blocks := some pendingA } }]
              accountInfos := [.ok { json := .ok { balance := 7, frontier := "F" } }]
              works := [.ok { json := .ok { work := some "w" } }]
              processes := [.ok { json := .ok { error := some "Fork" } }] } }

/-- Balance of an account in the mock ledger (0 while unopened). -/
def Ledger.balanceOf (s : Ledger) (a : String) : Nat :=
  ((s.accounts a).map (·.balance)).getD 0

/-- The links of the blocks broadcast in a trace, in order. -/
def broadcastLinks : List Event → List String
  | [] => []
  | .process b :: rest => b.link :: broadcastLinks rest
  | _ :: rest => broadcastLinks rest

/-- A mock ledger that applies every broadcast block, in which the account `address`
holds `old` raw and has the entries of `entries` pending. -/
def ledgerWithPending (address : String) (old : Nat) (entries : List PendingJsonEntry) :
    World Ledger :=
  { node := { accounts := fun a => if a = address then
                some { balance := old, frontier := "F0", representative := "nano_rep" } else none
              receivable := fun a => if a = address then entries else [] } }

/-- The pending set {A:5, B:3}, in the order the node returns it. -/
def pendingAB : List PendingJsonEntry :=
  [⟨"A", 5, "nano_faucet"⟩, ⟨"B", 3, "nano_faucet"⟩]

/-- Eleven pending blocks of 1 raw each. -/
def pendingEleven : List PendingJsonEntry :=
  (List.range 11).map fun i => { hash := "P" ++ toString i, amount := 1, source := "nano_faucet" }

/-- A scripted world for closed examples: a session that has been stopped. -/
def demoStoppedWorld : World Script :=
  { node := { clock := 1000 }, isRunning := false }

/-- A scripted world for closed examples: a running session whose third consecutive
poll is empty while `account_info` reports 5 raw pending; the retry returns block `A`. -/
def demoLaggingWorld : World Script :=
  { node := { pendings := [.ok { json := .ok { blocks := some [] } },
                           .ok { json := .ok { blocks := some pendingA } }]
              accountInfos := [.ok { json := .ok { pending := some 5 } }] }
    isRunning := true }

/-- The scripted answer of a pending query that finds nothing. -/
def emptyAnswer : Except String (Response PendingJson) :=
  .ok { json := .ok { blocks := some [] } }

/-- The scripted answer of a pending query that finds one entry. -/
def foundAnswer (entry : PendingJsonEntry) : Except String (Response PendingJson) :=
  .ok { json := .ok { blocks := some [entry] } }

/-- Whether the next scripted `account_info` answer reports a positive pending total. -/
def reportsPending : List (Except String (Response AccountInfoJson)) → Bool
  | .ok response :: _ =>
    match response.json with
    | .ok data =>
      match data.pending with
      | some p => decide (0 < p)
      | none => false
    | .error _ => false
  | _ => false

/-- The facts about a scripted world that the wait loop maintains: what is left of the
scripts, the clock, the session flags and the time slept so far. -/
structure ScriptAt (w : World Script)
    (pendings : List (Except String (Response PendingJson)))
    (infos : List (Except String (Response AccountInfoJson))) (clock wait : Nat) : Prop where
  pendings : w.node.pendings = pendings
  infos : w.node.accountInfos = infos
  clock : w.node.clock = clock
  running : w.isRunning = true
  paused : w.isPaused = false
  wait : accumulatedWait w.trace = wait

/-- A scripted world whose pending query answers empty five times and then with block
`A`, while `account_info` reports 5 raw pending. -/
def demoFiveEmptyWorld : World Script :=
  { node := { pendings := List.replicate 5 emptyAnswer ++ [foundAnswer ⟨"A", 5, "nano_faucet"⟩]
              accountInfos := [.ok { json := .ok { pending := some 5 } }] }
    isRunning := true }

/-- A page for closed examples that always shows the same HTML and the same text. -/
def staticPage (html text : String) : Page Script where
  waitForSelector _ _ s := (.ok (), s)
  content s := (.ok html, s)
  innerText s := (.ok (some text), s)
  screenshot s := (.ok "jpeg", s)

/-- A session in tor mode with auto-restart enabled. -/
def demoTorWorld : World Script :=
  { node := {}, isRunning := true, connectionType := "tor" }

/-- A session whose cumulative reward so far is `totalRewards`, after 3 claims. -/
def statsWorld (totalRewards : String) : World Script :=
  { node := {}, sessionStats := { totalClaims := 3, totalRewards := totalRewards } }

/-- A scripted world whose node does not know the queried account. -/
def demoUnopenedWorld : World Script :=
  { node := { accountInfos := [.ok { json := .ok { error := some "Account not found" } }] } }

/-! ## Reading the answers of the fallback endpoints -/

/-- The block list that one answer to a `pending` request yields to `getPendingBlocks`:
nothing for a timeout or transport error, for a body that is not JSON and for a remote
error other than 'Account not found'. -/
def pendingYield (L : Lib) : Except String (Response PendingJson) → List PendingBlock
  | .error _ => []
  | .ok response =>
    match response.json with
    | .error _ => []
    | .ok data =>
      if truthyOpt data.error && data.error != some "Account not found" then []
      else (data.blocks.getD []).map (toPendingBlock L)

/-- What each endpoint of the list would yield if all of them were asked one after the
other, starting from remote state `s`. -/
def pollAll (E : Env σ) (L : Lib) (address : String) : List String → σ → List (List PendingBlock)
  | [], _ => []
  | rpcUrl :: rest, s =>
    pendingYield L (E.pending rpcUrl address 10 s).1 ::
      pollAll E L address rest (E.pending rpcUrl address 10 s).2

/-- The endpoints asked for pending blocks in a trace, in order. -/
def pendingRequests : List Event → List String
  | [] => []
  | .pending url _ _ :: rest => url :: pendingRequests rest
  | _ :: rest => pendingRequests rest

/-- A scripted world with three fallback answers: a timeout, a remote error, then the
pending set {A:5}; a fourth endpoint would answer {A:5, B:3}. -/
def demoFallbackWorld : World Script :=
  { node := { pendings := [.error "The operation was aborted due to timeout",
                           .ok { json := .ok { error := some "Bad request" } },
                           .ok { json := .ok { blocks := some pendingA } },
                           .ok { json := .ok { blocks := some pendingAB } }] } }

/-- The scripted answer of a work provider that reports neither an error nor a `work`
field (HTTP 200 with body `{}`). -/
def noWorkAnswer : Except String (Response WorkJson) := .ok { json := .ok {} }

/-- A scripted world for closed examples: the source account is opened with balance 3
and frontier `F`, the public work endpoint answers `{}`, the node accepts the block. -/
def demoNoWorkWorld : World Script :=
  { node := { accountInfos := [.ok { json := .ok { balance := 3, frontier := "F" } }]
              works := [noWorkAnswer]
              processes := [.ok { json := .ok { hash := some "H" } }] } }

/-- The object returned by `receiveSingleBlock`. -/
structure ReceiveResult where
  hash : Option String
  amount : String
  pendingHash : String
  deriving DecidableEq, Repr

/-- Method `NanoWalletManager.receiveSingleBlock` (nano-wallet.js 593-628). -/
def NanoWalletManager.receiveSingleBlock (E : Env σ) (L : Lib) (walletData : StoredWallet)
    (pendingHash : String) (amountRaw : Nat) (w : World σ) : Outcome σ ReceiveResult :=
  match walletData.accounts with
  | [] => (.error "Cannot read properties of undefined (reading 'address')", w)
  | account :: _ =>
    let address := account.address
    match NanoWalletManager.getAccountInfo E L address w with
    | (.error e, w1) => (.error e, w1)
    | (.ok accountInfo, w1) =>
      let representative := orFallback accountInfo.representative
      let workHash := if accountInfo.opened then accountInfo.frontier else account.publicKey
      let w2 := NanoWalletManager.log "info" "Generating proof of work for receive..." w1
      match NanoWalletManager.generateWork E workHash w2 with
      | (.error e, w3) => (.error e, w3)
      | (.ok work, w3) =>
        let receiveBlockData := blockReceive accountInfo.balance address representative
          accountInfo.frontier pendingHash amountRaw work account.privateKey
        let w4 := NanoWalletManager.log "info" "Broadcasting receive block..." w3
        match NanoWalletManager.processBlock E receiveBlockData w4 with
        | (.error e, w5) => (.error e, w5)
        | (.ok hash, w5) =>
          let amountNano := L.rawToNano amountRaw
          (.ok { hash := hash, amount := amountNano, pendingHash := pendingHash },
            NanoWalletManager.log "success" ("Received " ++ amountNano ++ " NANO") w5)

/-- The hashes for which work is requested in a trace, in order. -/
def workRequests : List Event → List String
  | [] => []
  | .workGenerate _ hash :: rest => hash :: workRequests rest
  | _ :: rest => workRequests rest

/-- The blocks broadcast in a trace, in order. -/
def broadcasts : List Event → List Block
  | [] => []
  | .process b :: rest => b :: broadcasts rest
  | _ :: rest => broadcasts rest

/-- A stored wallet used in closed examples, with the keys of `demoWallet`. -/
def demoStoredWallet : StoredWallet :=
  { name := "bank", seed := "seed", accounts := [⟨0, "nano_claim", "PUB", "PRIV"⟩] }

/-- A syntactically valid address used in closed examples. -/
def demoBankAddress : String :=
  "nano_111111111111111111111111111111111111111111111111111111111111"

/-- A stored wallet whose account has a valid address. -/
def demoBankWallet : StoredWallet :=
  { name := "bank", seed := "seed", accounts := [⟨0, demoBankAddress, "BANKPUB", "BANKPRIV"⟩] }

/-! ## JavaScript values -/

/-- A JavaScript value as far as the validators distinguish them. -/
inductive JsValue where
  | undefined
  | null
  | boolean (b : Bool)
  | number (n : JsNum)
  | string (s : String)
  /-- Any object, array or function. -/
  | object
  deriving DecidableEq

/-- The coercion `!!v`. -/
def JsValue.truthy : JsValue → Bool
  | .undefined => false
  | .null => false
  | .boolean b => b
  | .number n => !(n == .nan || n == .fin 0)
  | .string s => !(s == "")
  | .object => true

/-- The property `length` of a string: the number of UTF-16 code units. -/
def utf16Length (s : String) : Nat :=
  (s.toList.map fun c => if c.toNat < 0x10000 then 1 else 2).sum

/-- Function `isValidNanoAddress` (nano-wallet.js 44-48) on any argument. -/
def isValidNanoAddressValue (address : JsValue) : Bool :=
  if !address.truthy then false
  else
    match address with
    | .string s => isValidNanoAddress s
    | _ => false

/-- The characterisation of a valid address in words: a string of length 65 made of the
prefix `nano_`, then one character that is `1` or `3`, then 59 characters of the
alphabet. -/
def addressShape (v : JsValue) : Bool :=
  match v with
  | .string s =>
    utf16Length s == 65 && s.toList.take 5 == "nano_".toList &&
      ((s.toList.drop 5).head? == some '1' || (s.toList.drop 5).head? == some '3') &&
      (s.toList.drop 6).length == 59 && (s.toList.drop 6).all (fun x => nanoAlphabet.contains x)
  | _ => false

/-! ## Wallet store of `NanoWalletManager` -/

/-- What `wallet.generate()` and the import functions of `nanocurrency-web` return. -/
structure GeneratedWallet where
  seed : String
  mnemonic : Option String := none
  accounts : List StoredAccount
  deriving DecidableEq, Repr

/-- The wallet functions of the external library `nanocurrency-web` and the wall clock,
as transitions of the outside world; each library call may throw. -/
structure Keygen (σ : Type) where
  generate : σ → Except String GeneratedWallet × σ
  generateLegacy : σ → Except String GeneratedWallet × σ
  fromMnemonic : String → σ → Except String GeneratedWallet × σ
  fromLegacyMnemonic : String → σ → Except String GeneratedWallet × σ
  fromSeed : String → σ → Except String GeneratedWallet × σ
  /-- The expression `new Date().toISOString()`. -/
  isoNow : σ → String

/-- The property names every plain object inherits from `Object.prototype`; all of them
are truthy. -/
def objectPrototypeKeys : List String :=
  ["constructor", "__proto__", "hasOwnProperty", "isPrototypeOf", "propertyIsEnumerable",
   "toLocaleString", "toString", "valueOf", "__defineGetter__", "__defineSetter__",
   "__lookupGetter__", "__lookupSetter__"]

/-- The test `this.wallets[name]` as a condition: the name is a key of the store or an
inherited property of the object. -/
def storeHas (wallets : List (String × StoredWallet)) (name : String) : Bool :=
  (wallets.lookup name).isSome || objectPrototypeKeys.contains name

/-- The assignment `this.wallets[name] = value`. -/
def storeSet (wallets : List (String × StoredWallet)) (name : String) (value : StoredWallet) :
    List (String × StoredWallet) :=
  if (wallets.lookup name).isSome then
    wallets.map fun entry => if entry.1 == name then (name, value) else entry
  else wallets ++ [(name, value)]

/-- The guard on the wallet name (nano-wallet.js 134 and 182),
`!name || typeof name !== 'string' || name.length < 1 || name.length > 50`: the string
that passes it, `none` when the guard rejects the value. -/
def walletNameOf (name : JsValue) : Option String :=
  if !name.truthy then none
  else
    match name with
    | .string s => if utf16Length s < 1 || utf16Length s > 50 then none else some s
    | _ => none

/-- The object returned by `createWallet` and `importWallet`. -/
structure WalletOpResult where
  success : Bool
  error : Option String := none
  address : Option String := none
  mnemonic : Option String := none
  deriving DecidableEq, Repr

/-- The statements of `createWallet` and `importWallet` that store a wallet made by the
library (nano-wallet.js 148-163 and 205-218); reading `accounts[0]` of a wallet without
accounts throws. -/
def NanoWalletManager.storeWallet (K : Keygen σ) (name type : String)
    (made : GeneratedWallet) (w : World σ) : Outcome σ StoredAccount :=
  match made.accounts with
  | [] => (.error "Cannot read properties of undefined (reading 'address')", w)
  | account :: _ =>
    let stored : StoredWallet :=
      ⟨name, type, made.seed, [⟨0, account.address, account.publicKey, account.privateKey⟩],
        K.isoNow w.node⟩
    (.ok account, { w with wallets := storeSet w.wallets name stored })

/-- The `try` body of `NanoWalletManager.createWallet` (nano-wallet.js 133-173). -/
def NanoWalletManager.createWalletBody (K : Keygen σ) (name : JsValue) (type : String)
    (w : World σ) : Outcome σ WalletOpResult :=
  match walletNameOf name with
  | none => (.error "Invalid wallet name", w)
  | some name =>
    if storeHas w.wallets name then (.error ("Wallet \"" ++ name ++ "\" already exists"), w)
    else
      match (if type = "hd" then K.generate w.node else K.generateLegacy w.node) with
      | (.error e, s) => (.error e, { w with node := s })
      | (.ok newWallet, s) =>
        match NanoWalletManager.storeWallet K name type newWallet { w with node := s } with
        | (.error e, w1) => (.error e, w1)
        | (.ok account, w1) =>
          (.ok { success := true, mnemonic := newWallet.mnemonic,
                 address := some account.address },
            NanoWalletManager.log "success" ("Created new " ++ type ++ " wallet: " ++ name) w1)

/-- Method `NanoWalletManager.createWallet` (nano-wallet.js 132-178). -/
def NanoWalletManager.createWallet (K : Keygen σ) (name : JsValue) (type : String)
    (w : World σ) : WalletOpResult × World σ :=
  match NanoWalletManager.createWalletBody K name type w with
  | (.ok result, w1) => (result, w1)
  | (.error message, w1) =>
    ({ success := false, error := some message },
      NanoWalletManager.log "error" ("Failed to create wallet: " ++ message) w1)

/-- The `try` body of `NanoWalletManager.importWallet` (nano-wallet.js 181-226). -/
def NanoWalletManager.importWalletBody (K : Keygen σ) (name seedOrMnemonic : JsValue)
    (type : String) (w : World σ) : Outcome σ WalletOpResult :=
  match walletNameOf name with
  | none => (.error "Invalid wallet name", w)
  | some name =>
    match seedOrMnemonic with
    | .string secret =>
      if !truthy secret then (.error "Invalid seed or mnemonic", w)
      else if storeHas w.wallets name then
        (.error ("Wallet \"" ++ name ++ "\" already exists"), w)
      else
        let isMnemonic := includes secret " "
        match (if isMnemonic then
                (if type = "hd" then K.fromMnemonic secret w.node
                 else K.fromLegacyMnemonic secret w.node)
               else K.fromSeed secret w.node) with
        | (.error e, s) => (.error e, { w with node := s })
        | (.ok importedWallet, s) =>
          match NanoWalletManager.storeWallet K name type importedWallet
              { w with node := s } with
          | (.error e, w1) => (.error e, w1)
          | (.ok _, w1) =>
            (.ok { success := true },
              NanoWalletManager.log "success" ("Imported wallet: " ++ name) w1)
    | _ => (.error "Invalid seed or mnemonic", w)

/-- Method `NanoWalletManager.importWallet` (nano-wallet.js 180-231). -/
def NanoWalletManager.importWallet (K : Keygen σ) (name seedOrMnemonic : JsValue)
    (type : String) (w : World σ) : WalletOpResult × World σ :=
  match NanoWalletManager.importWalletBody K name seedOrMnemonic type w with
  | (.ok result, w1) => (result, w1)
  | (.error message, w1) =>
    ({ success := false, error := some message },
      NanoWalletManager.log "error" ("Failed to import wallet: " ++ message) w1)

/-- A wallet library for closed examples: every call makes the same wallet. -/
def demoKeygen : Keygen Script where
  generate s := (.ok { seed := "S1", accounts := [⟨0, "nano_new", "NEWPUB", "NEWPRIV"⟩] }, s)
  generateLegacy s := (.ok { seed := "S1", accounts := [⟨0, "nano_new", "NEWPUB", "NEWPRIV"⟩] }, s)
  fromMnemonic _ s := (.ok { seed := "S1", accounts := [⟨0, "nano_new", "NEWPUB", "NEWPRIV"⟩] }, s)
  fromLegacyMnemonic _ s :=
    (.ok { seed := "S1", accounts := [⟨0, "nano_new", "NEWPUB", "NEWPRIV"⟩] }, s)
  fromSeed _ s := (.ok { seed := "S1", accounts := [⟨0, "nano_new", "NEWPUB", "NEWPRIV"⟩] }, s)
  isoNow s := "t" ++ toString s.clock

/-- A world whose wallet store holds the wallet `bank`. -/
def demoStoreWorld : World Script :=
  { node := {}, wallets := [("bank", demoBankWallet)] }

/-! ## The claim session of `FaucetSentry` -/

def FAUCET_URL : String := "https://faucet.banxno.com/"

def FAUCET_DONATION_ADDRESS : String :=
  "nano_1ncto1yztp7xu98othx6t5qfifo4qag1o6ziuqkkydzu88gqz5wnb5yspke8"

/-- The constant `MIN_BANK_BALANCE = 0.001` as a double. -/
def MIN_BANK_BALANCE : JsNum := roundToDouble (1 / 1000)

/-- The field `this.maxIPHistory`. -/
def maxIPHistory : Nat := 50

/-- The operator `x < y` on numbers. -/
def JsNum.lt : JsNum → JsNum → Bool
  | .nan, _ => false
  | _, .nan => false
  | .fin a, .fin b => decide (a < b)
  | .negInf, .negInf => false
  | .negInf, _ => true
  | _, .posInf => true
  | .posInf, _ => false
  | .fin _, .negInf => false

/-- How the exchange with the Tor control port ends (faucet-sentry.js 1319-1355). -/
inductive TorControlOutcome where
  /-- The answer `250` to `SIGNAL NEWNYM`. -/
  | obtained
  /-- No answer within 5 s. -/
  | timedOut
  /-- The answer `515`. -/
  | authFailed
  /-- The socket reported an error. -/
  | connectionError (message : String)
  /-- Setting up the socket threw. -/
  | failed (message : String)
  deriving DecidableEq, Repr

/-- The host of the process: random numbers, the Tor control and SOCKS ports, the
calendar. -/
structure Host (σ : Type) where
  /-- The call `Math.random()`. -/
  random : σ → ℚ × σ
  /-- The exchange with the control port `torControlPort`. -/
  torControl : Nat → σ → TorControlOutcome × σ
  /-- Method `getCurrentTorIP` (faucet-sentry.js 1118-1156) through the SOCKS port: the
  address reported by the lookup service, `null` on a timeout or an error. -/
  currentTorIP : Nat → σ → Except String (Option String) × σ
  /-- Method `checkTorPort` of the orchestrator: whether a connection to the port
  succeeds within 2 s. -/
  checkTorPort : Nat → σ → Bool × σ
  /-- The call `new Date(ms).toISOString()`. -/
  toISOString : Nat → String
  /-- The conversion `String(x)` of a number that is not an integer. -/
  fractionToString : ℚ → String

/-- The parts of a proxy URL. -/
structure ProxyParts where
  host : String
  port : String
  username : Option String := none
  password : Option String := none
  deriving DecidableEq, Repr

/-- The browser driver beyond the faucet page: launching, navigation and the form. -/
structure Browser (σ : Type) where
  /-- Method `findChromePath` (faucet-sentry.js 338-366). -/
  findChromePath : σ → Except String String × σ
  /-- Method `parseProxyUrl` (faucet-sentry.js 1163-1181) up to its `catch`: the parts
  the regular expression finds, or the error thrown while decoding them. -/
  parseProxyUrl : String → Except String (Option ProxyParts)
  /-- The call `connect({ ..., args })`. -/
  connect : List String → σ → Except String Unit × σ
  /-- The call `page.authenticate({ username, password })`. -/
  authenticate : String → String → σ → Except String Unit × σ
  /-- The call `page.setUserAgent(userAgent)`. -/
  setUserAgent : String → σ → Except String Unit × σ
  /-- The call `page.goto(url, ...)`. -/
  goto : String → σ → Except String Unit × σ
  /-- The call `page.$(selector)`: whether an element was found. -/
  query : String → σ → Except String Bool × σ
  /-- The call `addressInput.click()`. -/
  clickInput : σ → Except String Unit × σ
  /-- The call `addressInput.type(text, { delay: 50 })`. -/
  typeInput : String → σ → Except String Unit × σ
  /-- The call `page.evaluateHandle(...)` that looks for the claim button: whether the
  handle returned is truthy. -/
  findClaimButton : σ → Except String Bool × σ
  /-- The call `claimButton.click()`. -/
  clickClaimButton : σ → Except String Unit × σ
  /-- The call `page.waitForNavigation(...)` (its failure is swallowed) raced against a
  timer of the given length. -/
  raceNavigation : Nat → σ → σ
  /-- The call `browser.close()`. -/
  close : σ → Except String Unit × σ

/-- Method `FaucetSentry.emitStatus`. -/
def FaucetSentry.emitStatus (w : World σ) : World σ :=
  emit (.faucetStatus w.sessionStats.status w.isRunning) w

/-- The assignment `this.sessionStats.status = value`. -/
def FaucetSentry.setStatus (value : String) (w : World σ) : World σ :=
  emit (.status value) { w with sessionStats := { w.sessionStats with status := value } }

/-- Method `FaucetSentry.createTemporaryClaimWallet` (faucet-sentry.js 368-385). -/
def FaucetSentry.createTemporaryClaimWallet (E : Env σ) (K : Keygen σ) (w : World σ) :
    Outcome σ WalletData :=
  let tempName := "_temp_claim_" ++ toString (E.now w.node)
  match K.generate w.node with
  | (.error e, s) => (.error e, { w with node := s })
  | (.ok newWallet, s) =>
    match newWallet.accounts with
    | [] => (.error "Cannot read properties of undefined (reading 'address')", { w with node := s })
    | account :: _ =>
      let claimWallet : WalletData :=
        ⟨tempName, newWallet.seed, account.address, account.publicKey, account.privateKey⟩
      let stats : SessionStats := { w.sessionStats with tempClaimWallet := some account.address }
      let w1 : World σ := { w with node := s, claimWallet := some claimWallet, sessionStats := stats }
      (.ok claimWallet, FaucetSentry.log "success"
        ("Created temporary claim wallet: " ++ account.address.take 20 ++ "...") w1)

/-- Method `FaucetSentry.deleteTemporaryClaimWallet` (faucet-sentry.js 387-393). -/
def FaucetSentry.deleteTemporaryClaimWallet (w : World σ) : World σ :=
  match w.claimWallet with
  | some claimWallet =>
    let w1 := FaucetSentry.log "info"
      ("Deleting temporary claim wallet: " ++ claimWallet.address.take 20 ++ "...") w
    let stats : SessionStats := { w1.sessionStats with tempClaimWallet := none }
    { w1 with claimWallet := none, sessionStats := stats }
  | none => w

/-- Method `FaucetSentry.cleanup` (faucet-sentry.js 1267-1279); a failure of
`browser.close()` is swallowed. -/
def FaucetSentry.cleanup (B : Browser σ) (w : World σ) : World σ :=
  let w1 : World σ := { w with isRunning := false }
  let w2 : World σ :=
    if w1.browserOpen then { w1 with node := (B.close w1.node).2, browserOpen := false } else w1
  FaucetSentry.emitStatus w2

/-- Method `FaucetSentry.stopSession` (faucet-sentry.js 1281-1293); it returns
`{ success: true }`. -/
def FaucetSentry.stopSession (B : Browser σ) (w : World σ) : World σ :=
  let w1 := FaucetSentry.log "info" "Stopping claim session..." w
  let w2 : World σ := { w1 with isRunning := false, isPaused := false }
  let w3 := FaucetSentry.deleteTemporaryClaimWallet w2
  let w4 := FaucetSentry.cleanup B w3
  FaucetSentry.emitStatus (FaucetSentry.setStatus "stopped" w4)

/-- An entry of `platformWeights` (faucet-sentry.js 259-263). -/
structure PlatformGroup where
  platforms : List String
  weight : Nat
  browsers : List String
  deriving DecidableEq, Repr

def chromeVersions : List String :=
  ["120", "121", "122", "123", "124", "125", "126", "127", "128", "129", "130", "131"]

def firefoxVersions : List String :=
  ["121", "122", "123", "124", "125", "126", "127", "128", "129", "130"]

def edgeVersions : List String := ["120", "121", "122", "123", "124", "125", "126"]

def safariVersions : List String := ["17.2", "17.3", "17.4", "17.5", "18.0"]

def windowsPlatforms : List String :=
  ["Windows NT 10.0; Win64; x64", "Windows NT 10.0; WOW64", "Windows NT 11.0; Win64; x64"]

def macPlatforms : List String :=
  ["Macintosh; Intel Mac OS X 10_15_7", "Macintosh; Intel Mac OS X 11_0",
   "Macintosh; Intel Mac OS X 12_0", "Macintosh; Intel Mac OS X 13_0",
   "Macintosh; Intel Mac OS X 14_0", "Macintosh; Intel Mac OS X 14_1"]

def linuxPlatforms : List String :=
  ["X11; Linux x86_64", "X11; Ubuntu; Linux x86_64", "X11; Fedora; Linux x86_64"]

def platformWeights : List PlatformGroup :=
  [⟨windowsPlatforms, 55, ["chrome", "firefox", "edge"]⟩,
   ⟨macPlatforms, 30, ["chrome", "firefox", "safari"]⟩,
   ⟨linuxPlatforms, 15, ["chrome", "firefox"]⟩]

/-- The product `x * n` of a double and a small integer, as a double. -/
def timesDouble (x : ℚ) (n : Nat) : ℚ :=
  match roundToDouble (x * n) with
  | .fin y => y
  | _ => 0

/-- The loop that selects the platform group by weight (faucet-sentry.js 267-276). -/
def selectGroupFrom (random : ℚ) : List PlatformGroup → Nat → PlatformGroup → PlatformGroup
  | [], _, selected => selected
  | group :: rest, cumulative, selected =>
    if random ≤ ((cumulative + group.weight : Nat) : ℚ) then group
    else selectGroupFrom random rest (cumulative + group.weight) selected

/-- The expression `list[Math.floor(random * list.length)]` inside a template literal. -/
def pickAt (list : List String) (random : ℚ) : String :=
  let index := ⌊timesDouble random list.length⌋
  if index < 0 then "undefined" else list.getD index.toNat "undefined"

/-- One call of `Math.random()`. -/
def draw (H : Host σ) (w : World σ) : ℚ × World σ :=
  ((H.random w.node).1, { w with node := (H.random w.node).2 })

/-- The value of `version.0.build.patch` after drawing `buildNumber()` and
`patchNumber()` (faucet-sentry.js 285-286). -/
def drawBuild (H : Host σ) (version : String) (w : World σ) : String × World σ :=
  let b := draw H w
  let p := draw H b.2
  (version ++ ".0." ++ toString (⌊timesDouble b.1 9999⌋ + 1000) ++ "." ++
    toString ⌊timesDouble p.1 200⌋, p.2)

/-- The user agent that one pass of `generateRandomUserAgent` builds (faucet-sentry.js
233-319). -/
def FaucetSentry.randomUserAgent (H : Host σ) (w : World σ) : String × World σ :=
  let r1 := draw H w
  let selectedGroup := selectGroupFrom (timesDouble r1.1 100) platformWeights 0
    (platformWeights.headD ⟨[], 0, []⟩)
  let r2 := draw H r1.2
  let selectedPlatform := pickAt selectedGroup.platforms r2.1
  let r3 := draw H r2.2
  let selectedBrowser := pickAt selectedGroup.browsers r3.1
  let r4 := draw H r3.2
  if selectedBrowser = "chrome" then
    let v := drawBuild H (pickAt chromeVersions r4.1) r4.2
    ("Mozilla/5.0 (" ++ selectedPlatform ++ ") AppleWebKit/537.36 (KHTML, like Gecko) Chrome/" ++
      v.1 ++ " Safari/537.36", v.2)
  else if selectedBrowser = "firefox" then
    ("Mozilla/5.0 (" ++ selectedPlatform ++ "; rv:" ++ pickAt firefoxVersions r4.1 ++
      ".0) Gecko/20100101 Firefox/" ++ pickAt firefoxVersions r4.1 ++ ".0", r4.2)
  else if selectedBrowser = "edge" then
    let v := drawBuild H (pickAt edgeVersions r4.1) r4.2
    ("Mozilla/5.0 (" ++ selectedPlatform ++ ") AppleWebKit/537.36 (KHTML, like Gecko) Chrome/" ++
      v.1 ++ " Safari/537.36 Edg/" ++ v.1, v.2)
  else if selectedBrowser = "safari" then
    ("Mozilla/5.0 (" ++ selectedPlatform ++ ") AppleWebKit/605.1.15 (KHTML, like Gecko) Version/" ++
      pickAt safariVersions r4.1 ++ " Safari/605.1.15", r4.2)
  else
    ("Mozilla/5.0 (" ++ selectedPlatform ++ ") AppleWebKit/537.36 (KHTML, like Gecko) Chrome/" ++
      pickAt chromeVersions r4.1 ++ ".0.0.0 Safari/537.36", r4.2)

/-- The statements that add a user agent to the history and limit the history
(faucet-sentry.js 327-333). -/
def FaucetSentry.rememberUserAgent (userAgent : String) (w : World σ) : World σ :=
  let w1 : World σ := { w with usedUserAgents := w.usedUserAgents ++ [userAgent] }
  if w1.usedUserAgents.length > maxIPHistory then
    { w1 with usedUserAgents := w1.usedUserAgents.tail }
  else w1

/-- The statements that add an address to the history and limit the history
(faucet-sentry.js 1091-1096). -/
def FaucetSentry.rememberTorIP (ip : String) (w : World σ) : World σ :=
  let w1 : World σ := { w with usedTorIPs := w.usedTorIPs ++ [ip] }
  if w1.usedTorIPs.length > maxIPHistory then { w1 with usedTorIPs := w1.usedTorIPs.tail }
  else w1

/-- Method `FaucetSentry.generateRandomUserAgent` (faucet-sentry.js 232-336). The first
argument is the stack depth left for the recursive call made on a collision; running out
of it is the `RangeError` of the engine. -/
def FaucetSentry.generateRandomUserAgent (H : Host σ) : Nat → World σ → Outcome σ String
  | 0, w => (.error "Maximum call stack size exceeded", w)
  | depth + 1, w =>
    let r := FaucetSentry.randomUserAgent H w
    if r.2.usedUserAgents.contains r.1 then FaucetSentry.generateRandomUserAgent H depth r.2
    else (.ok r.1, FaucetSentry.rememberUserAgent r.1 r.2)

/-- Method `FaucetSentry.requestNewTorIdentity` (faucet-sentry.js 1314-1359); it never
throws. -/
def FaucetSentry.requestNewTorIdentity (H : Host σ) (w : World σ) : World σ :=
  let w1 := FaucetSentry.log "info" "Requesting new Tor identity..." w
  let r := H.torControl w1.torControlPort w1.node
  let w2 := emit (.newnym w1.torControlPort) { w1 with node := r.2 }
  match r.1 with
  | .obtained => FaucetSentry.log "success" "New Tor identity obtained" w2
  | .timedOut => FaucetSentry.log "warning" "Tor control connection timed out" w2
  | .authFailed =>
    FaucetSentry.log "warning" "Tor control auth failed - new identity not requested" w2
  | .connectionError message =>
    FaucetSentry.log "warning" ("Tor control connection error: " ++ message) w2
  | .failed message =>
    FaucetSentry.log "warning" ("Failed to request new Tor identity: " ++ message) w2

/-- The object returned by `getVerifiedFreshTorIdentity`. -/
structure IdentityResult where
  success : Bool
  ip : Option String := none
  deriving DecidableEq, Repr

/-- The head of an iteration of the loop of `getVerifiedFreshTorIdentity`
(faucet-sentry.js 1083-1087): ask for a new identity, wait 2 s, look up the egress
address. -/
def FaucetSentry.identityProbe (E : Env σ) (H : Host σ) (w : World σ) :
    Outcome σ (Option String) :=
  let w1 := FaucetSentry.requestNewTorIdentity H w
  let w2 := FaucetSentry.delay E 2000 w1
  let r := H.currentTorIP w2.torSocksPort w2.node
  (r.1, emit (.torIP (r.1.toOption.getD none)) { w2 with node := r.2 })

/-- The `while (attempts < maxAttempts)` loop of `getVerifiedFreshTorIdentity`
(faucet-sentry.js 1080-1115) and what follows it; the first argument is
`maxAttempts - attempts`. -/
def FaucetSentry.identityLoop (E : Env σ) (H : Host σ) :
    Nat → Nat → World σ → IdentityResult × World σ
  | 0, _, w =>
    let w1 := FaucetSentry.log "warning" "Max identity attempts - clearing IP history" w
    ({ success := true }, { w1 with usedTorIPs := [] })
  | left + 1, attempts, w =>
    let attempts := attempts + 1
    match FaucetSentry.identityProbe E H w with
    | (.error _, w3) => ({ success := true }, FaucetSentry.log "info" "IP check skipped" w3)
    | (.ok currentIP, w3) =>
      if truthyOpt currentIP && decide (utf16Length (currentIP.getD "") > 6) then
        let ip := currentIP.getD ""
        if !w3.usedTorIPs.contains ip then
          ({ success := true, ip := some ip },
            FaucetSentry.log "success" ("Fresh Tor IP: " ++ ip) (FaucetSentry.rememberTorIP ip w3))
        else
          FaucetSentry.identityLoop E H left attempts
            (FaucetSentry.log "warning"
              ("IP " ++ ip ++ " already used (attempt " ++ toString attempts ++ "/3)") w3)
      else ({ success := true }, FaucetSentry.log "info" "Could not verify IP, proceeding" w3)

/-- Method `FaucetSentry.getVerifiedFreshTorIdentity` (faucet-sentry.js 1076-1116). -/
def FaucetSentry.getVerifiedFreshTorIdentity (E : Env σ) (H : Host σ) (w : World σ) :
    IdentityResult × World σ :=
  FaucetSentry.identityLoop E H 3 0 w

/-- Insertion into a history with eviction of the oldest entry once the capacity is
exceeded. -/
def fifoInsert (history : List String) (entry : String) : List String :=
  if (history ++ [entry]).length > maxIPHistory then (history ++ [entry]).tail
  else history ++ [entry]

/-- A call that touches an identity history. -/
inductive IdentityCall where
  /-- A call of `generateRandomUserAgent` with the given stack depth available. -/
  | userAgent (depth : Nat)
  /-- A call of `getVerifiedFreshTorIdentity`. -/
  | torIdentity
  deriving DecidableEq, Repr

/-- A sequence of identity calls on one session. -/
def runIdentityCalls (E : Env σ) (H : Host σ) : List IdentityCall → World σ → World σ
  | [], w => w
  | .userAgent depth :: rest, w =>
    runIdentityCalls E H rest (FaucetSentry.generateRandomUserAgent H depth w).2
  | .torIdentity :: rest, w =>
    runIdentityCalls E H rest (FaucetSentry.getVerifiedFreshTorIdentity E H w).2

/-- The identity-renewal requests in a trace. -/
def newnymRequests : List Event → List Nat
  | [] => []
  | .newnym port :: rest => port :: newnymRequests rest
  | _ :: rest => newnymRequests rest

/-- The egress addresses observed in a trace, in order. -/
def observedIPs : List Event → List (Option String)
  | [] => []
  | .torIP address :: rest => address :: observedIPs rest
  | _ :: rest => observedIPs rest

/-- Whether an observed egress address is one the history already holds; an address is a
string of more than 6 characters. -/
def collides (history : List String) : Option String → Bool
  | some ip => decide (6 < utf16Length ip) && history.contains ip
  | none => false

/-- The second state differs from the first only in the remote state and the trace. -/
def Same (w w' : World σ) : Prop := ∃ s t, w' = { w with node := s, trace := t }

/-- A host for closed examples: the random source always yields 0, the control port
always grants a new identity, and every lookup reports the same egress address. -/
def demoHost : Host Script where
  random s := (0, s)
  torControl _ s := (.obtained, s)
  currentTorIP _ s := (.ok (some "203.0.113.7"), s)
  checkTorPort port s := (decide (port < 9054), s)
  toISOString ms := "T" ++ toString ms
  fractionToString x := toString x.num ++ "/" ++ toString x.den

/-- A session whose address history already holds the address that `demoHost` reports. -/
def demoUsedIPWorld : World Script :=
  { node := {}, connectionType := "tor", usedTorIPs := ["203.0.113.7"] }

/-! ### Wallet-manager operations used by the session -/

/-- The `try` body of `NanoWalletManager.getPendingBlocks` (nano-wallet.js 373-409). -/
def NanoWalletManager.getPendingBlocksBody (E : Env σ) (L : Lib) (address : String)
    (w : World σ) : Outcome σ (List PendingBlock) :=
  if !isValidNanoAddress address then (.error "Invalid Nano address", w)
  else
    match fetchPending E RPC_URL address 10 w with
    | (.error e, w1) => (.error e, w1)
    | (.ok response, w1) =>
      if !response.ok then
        (.error ("RPC request failed with status " ++ toString response.status), w1)
      else
        match response.json with
        | .error e => (.error e, w1)
        | .ok data =>
          if truthyOpt data.error then
            if data.error = some "Account not found" then (.ok [], w1)
            else (.error (data.error.getD ""), w1)
          else (.ok ((data.blocks.getD []).map (toPendingBlock L)), w1)

/-- Method `NanoWalletManager.getPendingBlocks` (nano-wallet.js 372-414): the `catch`
logs the error and throws it again. -/
def NanoWalletManager.getPendingBlocks (E : Env σ) (L : Lib) (address : String)
    (w : World σ) : Outcome σ (List PendingBlock) :=
  match NanoWalletManager.getPendingBlocksBody E L address w with
  | (.ok blocks, w1) => (.ok blocks, w1)
  | (.error message, w1) =>
    (.error message,
      NanoWalletManager.log "error" ("Failed to get pending blocks: " ++ message) w1)

/-- The object returned by `receiveNano`. -/
structure ReceiveNanoResult where
  success : Bool
  received : Nat := 0
  transactions : List ReceiveResult := []
  error : Option String := none
  deriving DecidableEq, Repr

/-- The `for (const pending of pendingBlocks)` loop of `receiveNano` (nano-wallet.js
560-564); the first failure ends it. -/
def NanoWalletManager.receiveEach (E : Env σ) (L : Lib) (stored : StoredWallet) :
    List PendingBlock → List ReceiveResult → World σ → Outcome σ (List ReceiveResult)
  | [], results, w => (.ok results, w)
  | pending :: rest, results, w =>
    match NanoWalletManager.receiveSingleBlock E L stored pending.hash pending.amount w with
    | (.error e, w1) => (.error e, w1)
    | (.ok result, w1) => NanoWalletManager.receiveEach E L stored rest (results ++ [result]) w1

/-- The `try` body of `NanoWalletManager.receiveNano` (nano-wallet.js 544-586). -/
def NanoWalletManager.receiveNanoBody (E : Env σ) (L : Lib) (walletName : String)
    (blockHash : Option String) (w : World σ) : Outcome σ ReceiveNanoResult :=
  match w.wallets.lookup walletName with
  | none => (.error ("Wallet \"" ++ walletName ++ "\" not found"), w)
  | some stored =>
    match stored.accounts with
    | [] => (.error "Cannot read properties of undefined (reading 'address')", w)
    | account :: _ =>
      if !truthyOpt blockHash then
        match NanoWalletManager.getPendingBlocks E L account.address w with
        | (.error e, w1) => (.error e, w1)
        | (.ok pendingBlocks, w1) =>
          if pendingBlocks.length = 0 then
            (.ok { success := true, received := 0 },
              NanoWalletManager.log "info" "No pending transactions to receive" w1)
          else
            match NanoWalletManager.receiveEach E L stored pendingBlocks [] w1 with
            | (.error e, w2) => (.error e, w2)
            | (.ok results, w2) =>
              (.ok { success := true, received := results.length, transactions := results }, w2)
      else
        match NanoWalletManager.getPendingBlocks E L account.address w with
        | (.error e, w1) => (.error e, w1)
        | (.ok pending, w1) =>
          match pending.find? (fun p => p.hash == blockHash.getD "") with
          | none => (.error "Pending block not found", w1)
          | some targetBlock =>
            match NanoWalletManager.receiveSingleBlock E L stored (blockHash.getD "")
                targetBlock.amount w1 with
            | (.error e, w2) => (.error e, w2)
            | (.ok result, w2) =>
              (.ok { success := true, received := 1, transactions := [result] }, w2)

/-- Method `NanoWalletManager.receiveNano` (nano-wallet.js 543-591): never throws. -/
def NanoWalletManager.receiveNano (E : Env σ) (L : Lib) (walletName : String)
    (blockHash : Option String) (w : World σ) : ReceiveNanoResult × World σ :=
  match NanoWalletManager.receiveNanoBody E L walletName blockHash w with
  | (.ok result, w1) => (result, w1)
  | (.error message, w1) =>
    ({ success := false, error := some message },
      NanoWalletManager.log "error" ("Receive failed: " ++ message) w1)

/-- The object returned by `syncWallet` and `getBankWalletBalance`. -/
structure SyncResult where
  success : Bool
  balance : Option String := none
  pending : Option String := none
  address : Option String := none
  error : Option String := none
  deriving DecidableEq, Repr

/-- The expression `x || '0'` on an optional display amount. -/
def orZero (x : Option String) : String := if truthyOpt x then x.getD "" else "0"

/-- The `try` body of `NanoWalletManager.syncWallet` (nano-wallet.js 631-655). -/
def NanoWalletManager.syncWalletBody (E : Env σ) (L : Lib) (walletName : String)
    (w : World σ) : Outcome σ SyncResult :=
  match w.wallets.lookup walletName with
  | none => (.error ("Wallet \"" ++ walletName ++ "\" not found"), w)
  | some stored =>
    match stored.accounts with
    | [] => (.error "Cannot read properties of undefined (reading 'address')", w)
    | account :: _ =>
      let w0 := NanoWalletManager.log "info" ("Syncing wallet: " ++ walletName) w
      match NanoWalletManager.getAccountInfo E L account.address w0 with
      | (.error e, w1) => (.error e, w1)
      | (.ok accountInfo, w1) =>
        match NanoWalletManager.getPendingBlocks E L account.address w1 with
        | (.error e, w2) => (.error e, w2)
        | (.ok _, w2) =>
          (.ok { success := true, address := some account.address,
                 balance := some (orZero accountInfo.balanceNano),
                 pending := some (orZero accountInfo.pendingNano) }, w2)

/-- Method `NanoWalletManager.syncWallet` (nano-wallet.js 630-660): never throws. -/
def NanoWalletManager.syncWallet (E : Env σ) (L : Lib) (walletName : String) (w : World σ) :
    SyncResult × World σ :=
  match NanoWalletManager.syncWalletBody E L walletName w with
  | (.ok result, w1) => (result, w1)
  | (.error message, w1) =>
    ({ success := false, error := some message },
      NanoWalletManager.log "error" ("Sync failed: " ++ message) w1)

/-- Method `FaucetSentry.getBankWalletBalance` (faucet-sentry.js 211-230). -/
def FaucetSentry.getBankWalletBalance (E : Env σ) (L : Lib) (w : World σ) :
    SyncResult × World σ :=
  if !truthyOpt w.bankWalletName then
    ({ success := false, error := some "No bank wallet configured" }, w)
  else
    match NanoWalletManager.syncWallet E L (w.bankWalletName.getD "") w with
    | (result, w1) =>
      if result.success then
        ({ success := true, balance := result.balance, pending := result.pending,
           address := result.address }, w1)
      else ({ success := false, error := result.error }, w1)

/-- Method `FaucetSentry.getBankWalletData` (faucet-sentry.js 1158-1161). -/
def FaucetSentry.getBankWalletData (w : World σ) : Option StoredWallet :=
  if !truthyOpt w.bankWalletName then none else w.wallets.lookup (w.bankWalletName.getD "")

/-- The object returned by `startClaimSession`. -/
structure StartResult where
  success : Bool
  error : Option String := none
  deriving DecidableEq, Repr

/-- Method `FaucetSentry.startClaimSession` (faucet-sentry.js 694-730). The claim process
is started without being awaited: the call is recorded in the trace and the process runs
as `claimProcessTask`. -/
def FaucetSentry.startClaimSession (E : Env σ) (L : Lib) (w : World σ) :
    StartResult × World σ :=
  if w.isRunning then ({ success := false, error := some "Session already running" }, w)
  else if !truthyOpt w.bankWalletName then
    ({ success := false, error := some "No bank wallet configured" }, w)
  else
    match FaucetSentry.getBankWalletBalance E L w with
    | (bankBalance, w1) =>
      if !bankBalance.success then ({ success := false, error := bankBalance.error }, w1)
      else if (L.parseFloat (bankBalance.balance.getD "undefined")).lt MIN_BANK_BALANCE then
        ({ success := false, error := some "Bank wallet needs at least 0.001 NANO" }, w1)
      else
        let w2 : World σ := { w1 with isRunning := true, isPaused := false }
        let w3 := FaucetSentry.emitStatus (FaucetSentry.setStatus "starting" w2)
        ({ success := true }, emit .claimProcess w3)

/-- Method `FaucetSentry.scheduleAutoRestart` (faucet-sentry.js 1042-1074). The identity
check is raced against a timer of 15 s; here it runs to its end, and the timer wins when
at least 15 s have passed by then. -/
def FaucetSentry.scheduleAutoRestart (E : Env σ) (L : Lib) (H : Host σ) (delayMs : Nat)
    (w : World σ) : World σ :=
  let w1 := FaucetSentry.delay E delayMs w
  if !w1.autoRestartEnabled then
    FaucetSentry.log "info" "Auto-restart was disabled during wait, not restarting." w1
  else
    let w2 : World σ :=
      if w1.connectionType = "tor" then
        let w3 := FaucetSentry.log "info" "Requesting fresh Tor identity..." w1
        let r := FaucetSentry.getVerifiedFreshTorIdentity E H w3
        if E.now w3.node + 15000 ≤ E.now r.2.node then
          FaucetSentry.log "warning" "Tor identity timeout - proceeding anyway" r.2
        else r.2
      else w1
    let w4 := FaucetSentry.log "info" "Starting new claim session..." w2
    match FaucetSentry.startClaimSession E L w4 with
    | (result, w5) =>
      if !result.success then
        FaucetSentry.log "error" ("Auto-restart failed: " ++ result.error.getD "undefined") w5
      else w5

/-! ### Launching the browser -/

/-- The fixed arguments of the browser (faucet-sentry.js 1189-1201). -/
def browserArgs : List String :=
  ["--no-sandbox", "--disable-setuid-sandbox", "--disable-dev-shm-usage", "--disable-gpu",
   "--disable-software-rasterizer", "--disable-background-networking",
   "--disable-default-apps", "--disable-extensions", "--disable-sync", "--no-first-run",
   "--remote-debugging-port=0"]

/-- The proxy set-up of `launchBrowser` (faucet-sentry.js 1203-1221): the argument added
and the value of `proxyAuth`. -/
def FaucetSentry.proxyArguments (B : Browser σ) (w : World σ) :
    (List String × Option (String × String)) × World σ :=
  if w.connectionType = "proxy" && truthyOpt w.proxyUrl then
    let proxyUrl := w.proxyUrl.getD ""
    match B.parseProxyUrl proxyUrl with
    | .error e =>
      let w1 := FaucetSentry.log "warning" ("Failed to parse proxy URL: " ++ e) w
      ((["--proxy-server=" ++ proxyUrl], none),
        FaucetSentry.log "info" ("Using proxy: " ++ proxyUrl) w1)
    | .ok none =>
      ((["--proxy-server=" ++ proxyUrl], none),
        FaucetSentry.log "info" ("Using proxy: " ++ proxyUrl) w)
    | .ok (some parsed) =>
      let w1 := FaucetSentry.log "info" ("Using proxy: " ++ parsed.host ++ ":" ++ parsed.port) w
      if truthyOpt parsed.username && truthyOpt parsed.password then
        ((["--proxy-server=" ++ parsed.host ++ ":" ++ parsed.port],
            some (parsed.username.getD "", parsed.password.getD "")),
          FaucetSentry.log "info" ("Proxy authentication enabled for user: " ++
            (parsed.username.getD "").take 10 ++ "...") w1)
      else ((["--proxy-server=" ++ parsed.host ++ ":" ++ parsed.port], none), w1)
  else if w.connectionType = "tor" then
    ((["--proxy-server=socks5://127.0.0.1:" ++ toString w.torSocksPort], none),
      FaucetSentry.log "info" ("Using Tor network on port " ++ toString w.torSocksPort) w)
  else (([], none), w)

/-- The statement `if (proxyAuth) { await page.authenticate(proxyAuth); ... }`
(faucet-sentry.js 1239-1242). -/
def FaucetSentry.authenticateProxy (B : Browser σ) (proxyAuth : Option (String × String))
    (w : World σ) : Outcome σ Unit :=
  match proxyAuth with
  | none => (.ok (), w)
  | some (username, password) =>
    match B.authenticate username password w.node with
    | (.error e, s) => (.error e, { w with node := s })
    | (.ok _, s) =>
      (.ok (), FaucetSentry.log "info" "Proxy authentication credentials set" { w with node := s })

/-- Method `FaucetSentry.launchBrowser` (faucet-sentry.js 1183-1253); `stack` is the stack
depth available to `generateRandomUserAgent`. The console listener it installs only
writes log entries. -/
def FaucetSentry.launchBrowser (B : Browser σ) (H : Host σ) (stack : Nat) (w : World σ) :
    Outcome σ Unit :=
  match B.findChromePath w.node with
  | (.error e, s) => (.error e, { w with node := s })
  | (.ok chromePath, s) =>
    let w1 := FaucetSentry.log "info" ("Using Chrome at: " ++ chromePath) { w with node := s }
    let p := FaucetSentry.proxyArguments B w1
    match B.connect (browserArgs ++ p.1.1) p.2.node with
    | (.error e, s2) => (.error e, { p.2 with node := s2 })
    | (.ok _, s2) =>
      let w3 : World σ := { p.2 with node := s2, browserOpen := true }
      match FaucetSentry.authenticateProxy B p.1.2 w3 with
      | (.error e, w4) => (.error e, w4)
      | (.ok _, w4) =>
        match FaucetSentry.generateRandomUserAgent H stack w4 with
        | (.error e, w5) => (.error e, w5)
        | (.ok userAgent, w5) =>
          match B.setUserAgent userAgent w5.node with
          | (.error e, s6) => (.error e, { w5 with node := s6 })
          | (.ok _, s6) =>
            (.ok (), FaucetSentry.log "info" ("User Agent: " ++ userAgent.take 50 ++ "...")
              { w5 with node := s6 })

/-! ### The steps of `runClaimProcess` -/

/-- The selector of the address field (faucet-sentry.js 762). -/
def addressInputSelector : String :=
  "input[type=\"text\"], input[name*=\"wallet\"], input[name*=\"address\"], " ++
  "input[placeholder*=\"wallet\"], input[placeholder*=\"address\"], input"

/-- Step `creating_temp_wallet` (faucet-sentry.js 734-737). -/
def FaucetSentry.creatingTempWallet (E : Env σ) (K : Keygen σ) (w : World σ) :
    Outcome σ WalletData :=
  let w1 := FaucetSentry.emitStatus (FaucetSentry.setStatus "creating_temp_wallet" w)
  FaucetSentry.createTemporaryClaimWallet E K w1

/-- Step `launching_browser` (faucet-sentry.js 739-742). -/
def FaucetSentry.launchingBrowser (B : Browser σ) (H : Host σ) (stack : Nat) (w : World σ) :
    Outcome σ Unit :=
  let w1 := FaucetSentry.emitStatus (FaucetSentry.setStatus "launching_browser" w)
  FaucetSentry.launchBrowser B H stack w1

/-- Step `navigating` (faucet-sentry.js 744-756). -/
def FaucetSentry.navigating (E : Env σ) (P : Page σ) (B : Browser σ) (w : World σ) :
    Outcome σ Unit :=
  let w1 := FaucetSentry.emitStatus (FaucetSentry.setStatus "navigating" w)
  let w2 := FaucetSentry.log "action" "Navigating to faucet..." w1
  match B.goto FAUCET_URL w2.node with
  | (.error e, s) => (.error e, { w2 with node := s })
  | (.ok _, s) =>
    let w3 : World σ := { w2 with node := s }
    let w4 : World σ :=
      match P.waitForSelector "body" 30000 w3.node with
      | (.ok _, s4) => { w3 with node := s4 }
      | (.error _, s4) =>
        FaucetSentry.log "warning" "Body selector timeout, continuing anyway..."
          { w3 with node := s4 }
    let w5 := FaucetSentry.delay E 3000 w4
    (.ok (), FaucetSentry.takeScreenshot P "Faucet page loaded" w5)

/-- Step `entering_address` (faucet-sentry.js 758-773). -/
def FaucetSentry.enteringAddress (E : Env σ) (P : Page σ) (B : Browser σ)
    (claimWallet : WalletData) (w : World σ) : Outcome σ Unit :=
  let w1 := FaucetSentry.emitStatus (FaucetSentry.setStatus "entering_address" w)
  let w2 := FaucetSentry.log "action" "Entering claim wallet address..." w1
  match B.query addressInputSelector w2.node with
  | (.error e, s) => (.error e, { w2 with node := s })
  | (.ok addressInput, s) =>
    if !addressInput then
      (.error "Could not find wallet address input field", { w2 with node := s })
    else
      match B.clickInput s with
      | (.error e, s3) => (.error e, { w2 with node := s3 })
      | (.ok _, s3) =>
        let w4 := FaucetSentry.delay E 500 { w2 with node := s3 }
        match B.typeInput claimWallet.address w4.node with
        | (.error e, s5) => (.error e, { w4 with node := s5 })
        | (.ok _, s5) =>
          let w6 := FaucetSentry.delay E 1000 { w4 with node := s5 }
          (.ok (), FaucetSentry.takeScreenshot P "Address entered" w6)

/-- Step `clicking_claim` (faucet-sentry.js 775-806). -/
def FaucetSentry.clickingClaim (E : Env σ) (P : Page σ) (B : Browser σ) (w : World σ) :
    Outcome σ Unit :=
  let w1 := FaucetSentry.emitStatus (FaucetSentry.setStatus "clicking_claim" w)
  let w2 := FaucetSentry.log "action" "Clicking claim button..." w1
  match B.findClaimButton w2.node with
  | (.error e, s) => (.error e, { w2 with node := s })
  | (.ok claimButton, s) =>
    if !claimButton then (.error "Could not find claim button", { w2 with node := s })
    else
      match B.clickClaimButton s with
      | (.error e, s3) => (.error e, { w2 with node := s3 })
      | (.ok _, s3) =>
        let w4 := FaucetSentry.log "info" "Waiting for page response after click..."
          { w2 with node := s3 }
        let w5 := emit (.delay 5000) { w4 with node := B.raceNavigation 5000 w4.node }
        let w6 : World σ := { w5 with node := (P.waitForSelector "body" 10000 w5.node).2 }
        let w7 := FaucetSentry.delay E 2000 w6
        (.ok (), FaucetSentry.takeScreenshot P "After clicking claim" w7)

/-- Step `extracting_donation` (faucet-sentry.js 808-894), with a bound on the number of
iterations of its polling loop. -/
def FaucetSentry.extractingDonation (E : Env σ) (P : Page σ) (L : Lib) (fuel : Nat)
    (w : World σ) : Option (Outcome σ String) :=
  let w1 := FaucetSentry.emitStatus (FaucetSentry.setStatus "extracting_donation" w)
  (FaucetSentry.extractDonation E P L fuel w1).map fun r =>
    match r with
    | (.error e, w2) => (.error e, w2)
    | (.ok donationAmount, w2) =>
      let w3 := FaucetSentry.log "success"
        ("Donation amount required: " ++ donationAmount ++ " NANO") w2
      (.ok donationAmount,
        FaucetSentry.takeScreenshot P ("Donation: " ++ donationAmount ++ " NANO") w3)

/-- Step `funding_claim_wallet` (faucet-sentry.js 896-908); the result of `sendNano` is
dropped. -/
def FaucetSentry.fundingClaimWallet (E : Env σ) (L : Lib) (H : Host σ)
    (claimWallet : WalletData) (donationAmount : String) (w : World σ) :
    Outcome σ StoredWallet :=
  let w1 := FaucetSentry.emitStatus (FaucetSentry.setStatus "funding_claim_wallet" w)
  let w2 := FaucetSentry.log "action"
    ("Sending " ++ donationAmount ++ " NANO from Bank to Claim wallet...") w1
  match FaucetSentry.getBankWalletData w2 with
  | none => (.error "Bank wallet data not found", w2)
  | some bankWalletData =>
    let r := NanoWalletManager.sendNano E L (w2.bankWalletName.getD "") claimWallet.address
      donationAmount w2
    let stats : SessionStats :=
      { r.2.sessionStats with lastDonationSent := some (H.toISOString (E.now r.2.node)) }
    let w3 : World σ := { r.2 with sessionStats := stats }
    (.ok bankWalletData, FaucetSentry.log "success" "Sent NANO to claim wallet" w3)

/-- The loop `while (retries < 30)` of step `receiving_to_claim` and the check after it
(faucet-sentry.js 916-929); the first argument is `30 - retries`. -/
def FaucetSentry.claimPollLoop (E : Env σ) (L : Lib) (claimWallet : WalletData) :
    Nat → World σ → Outcome σ Unit
  | 0, w => (.error "Claim wallet did not receive NANO in time", w)
  | left + 1, w =>
    match FaucetSentry.getPendingBlocks E L claimWallet.address w with
    | (.error e, w1) => (.error e, w1)
    | (.ok pending, w1) =>
      if pending.length > 0 then
        match FaucetSentry.receiveAllPending E L claimWallet w1 with
        | (.error e, w2) => (.error e, w2)
        | (.ok _, w2) => (.ok (), w2)
      else FaucetSentry.claimPollLoop E L claimWallet left (FaucetSentry.delay E 2000 w1)

/-- Step `receiving_to_claim` (faucet-sentry.js 910-929). -/
def FaucetSentry.receivingToClaim (E : Env σ) (L : Lib) (claimWallet : WalletData)
    (w : World σ) : Outcome σ Unit :=
  let w1 := FaucetSentry.emitStatus (FaucetSentry.setStatus "receiving_to_claim" w)
  let w2 := FaucetSentry.log "action" "Waiting for claim wallet to receive NANO..." w1
  FaucetSentry.claimPollLoop E L claimWallet 30 (FaucetSentry.delay E 5000 w2)

/-- Step `sending_donation` (faucet-sentry.js 931-938). -/
def FaucetSentry.sendingDonation (E : Env σ) (P : Page σ) (L : Lib)
    (claimWallet : WalletData) (donationAmount : String) (w : World σ) : Outcome σ Unit :=
  let w1 := FaucetSentry.emitStatus (FaucetSentry.setStatus "sending_donation" w)
  let w2 := FaucetSentry.log "action"
    ("Sending donation to faucet: " ++ FAUCET_DONATION_ADDRESS.take 20 ++ "...") w1
  match FaucetSentry.sendFromWallet E L claimWallet FAUCET_DONATION_ADDRESS donationAmount w2 with
  | (.error e, w3) => (.error e, w3)
  | (.ok _, w3) =>
    let w4 := FaucetSentry.log "success" "Donation sent to faucet!" w3
    (.ok (), FaucetSentry.takeScreenshot P "Donation sent" w4)

/-- Step `waiting_reward` (faucet-sentry.js 940-945), with a bound on the number of polls. -/
def FaucetSentry.waitingReward (E : Env σ) (L : Lib) (fuel : Nat) (claimWallet : WalletData)
    (w : World σ) : Option (Outcome σ (List PendingBlock)) :=
  let w1 := FaucetSentry.emitStatus (FaucetSentry.setStatus "waiting_reward" w)
  let w2 := FaucetSentry.log "action"
    "Waiting for faucet reward (this may take up to 30 minutes)..." w1
  FaucetSentry.waitForPending E L fuel claimWallet.address 1800000 1000 w2

/-- Step `receiving_reward` (faucet-sentry.js 947-953). -/
def FaucetSentry.receivingReward (E : Env σ) (L : Lib) (H : Host σ)
    (claimWallet : WalletData) (rewardPending : List PendingBlock) (w : World σ) :
    Outcome σ Unit :=
  let w1 := FaucetSentry.emitStatus (FaucetSentry.setStatus "receiving_reward" w)
  match rewardPending with
  | [] => (.error "Cannot read properties of undefined (reading 'amountNano')", w1)
  | first :: _ =>
    let w2 := FaucetSentry.log "success"
      ("Reward received! Amount: " ++ first.amountNano ++ " NANO") w1
    let stats : SessionStats :=
      { w2.sessionStats with lastRewardReceived := some (H.toISOString (E.now w2.node)) }
    let w3 : World σ := { w2 with sessionStats := stats }
    match FaucetSentry.receiveAllPending E L claimWallet w3 with
    | (.error e, w4) => (.error e, w4)
    | (.ok _, w4) => (.ok (), w4)

/-- Step `sending_to_bank` (faucet-sentry.js 955-966). -/
def FaucetSentry.sendingToBank (E : Env σ) (L : Lib) (claimWallet : WalletData)
    (bankWalletData : StoredWallet) (w : World σ) : Outcome σ Unit :=
  let w1 := FaucetSentry.emitStatus (FaucetSentry.setStatus "sending_to_bank" w)
  match FaucetSentry.getAccountInfo E L claimWallet.address w1 with
  | (.error e, w2) => (.error e, w2)
  | (.ok claimAccountInfo, w2) =>
    let fullBalance := claimAccountInfo.balanceNano.getD "undefined"
    let w3 := FaucetSentry.log "action" ("Sending " ++ fullBalance ++ " NANO to Bank wallet...") w2
    match bankWalletData.accounts with
    | [] => (.error "Cannot read properties of undefined (reading 'address')", w3)
    | account :: _ =>
      match FaucetSentry.sendFromWallet E L claimWallet account.address fullBalance w3 with
      | (.error e, w4) => (.error e, w4)
      | (.ok _, w4) =>
        (.ok (), FaucetSentry.log "success" ("Sent " ++ fullBalance ++ " NANO to Bank wallet!") w4)

/-- Step `receiving_to_bank` (faucet-sentry.js 969-986); `receiveNano` never throws. -/
def FaucetSentry.receivingToBank (E : Env σ) (L : Lib) (w : World σ) : World σ :=
  let w1 := FaucetSentry.emitStatus (FaucetSentry.setStatus "receiving_to_bank" w)
  let w2 := FaucetSentry.log "action" "Processing bank wallet receive..." w1
  let w3 := FaucetSentry.delay E 3000 w2
  let r := NanoWalletManager.receiveNano E L (w3.bankWalletName.getD "null") none w3
  if r.1.success && decide (r.1.received > 0) then
    FaucetSentry.log "success"
      ("Bank wallet received " ++ toString r.1.received ++ " transaction(s) successfully!") r.2
  else if r.1.success then
    FaucetSentry.log "info" "Bank wallet sync complete - no pending blocks" r.2
  else
    FaucetSentry.log "warning" ("Bank wallet receive issue: " ++
      (if truthyOpt r.1.error then r.1.error.getD "" else "unknown")) r.2

/-- The last statements of the `try` block of `runClaimProcess` (faucet-sentry.js
1007-1018): the status `completed`, the session counter and the restart policy. -/
def FaucetSentry.sessionCompleted (w3 : World σ) : World σ :=
  let w4 := FaucetSentry.setStatus "completed" w3
  let counted : SessionStats :=
    { w4.sessionStats with consecutiveSessions := w4.sessionStats.consecutiveSessions + 1 }
  let w5 := FaucetSentry.emitStatus { w4 with sessionStats := counted }
  if w5.connectionType != "direct" && w5.autoRestartEnabled then
    emit (.autoRestart 500) (FaucetSentry.log "success"
      ("Session " ++ toString w5.sessionStats.consecutiveSessions ++
        " completed! Auto-starting new session with fresh identity instantly...") w5)
  else
    FaucetSentry.log "info" "Session completed. Manual restart required for direct connection." w5

/-- The end of the `try` block of `runClaimProcess` (faucet-sentry.js 988-1019): the
statistics, the teardown, the status `completed` and the restart policy. -/
def FaucetSentry.completeClaim (E : Env σ) (B : Browser σ) (L : Lib) (H : Host σ)
    (rewardPending : List PendingBlock) (donationAmount : String) (w : World σ) : World σ :=
  let w1 := FaucetSentry.recordClaim L rewardPending donationAmount w
  let next := H.toISOString (E.now w1.node + w1.claimInterval * 3600000)
  let stats : SessionStats := { w1.sessionStats with nextClaimAvailable := some next }
  let w2 : World σ := { w1 with sessionStats := stats }
  let w3 := FaucetSentry.cleanup B (FaucetSentry.deleteTemporaryClaimWallet w2)
  FaucetSentry.sessionCompleted w3

/-- Sequencing of awaited steps: a thrown error ends the `try` block. -/
def Outcome.andThen {α β : Type} (r : Outcome σ α)
    (next : α → World σ → Option (Outcome σ β)) : Option (Outcome σ β) :=
  match r with
  | (.error e, w) => some (.error e, w)
  | (.ok a, w) => next a w

/-- Sequencing after a step whose loop is bounded. -/
def andThenBounded {α β : Type} (r : Option (Outcome σ α))
    (next : α → World σ → Option (Outcome σ β)) : Option (Outcome σ β) :=
  r.bind fun outcome => outcome.andThen next

/-- The `try` block of `runClaimProcess` (faucet-sentry.js 733-1019). `fuel` bounds the
iterations of the two polling loops that depend on the clock, `stack` is the stack depth
available to `generateRandomUserAgent`. -/
def FaucetSentry.claimSteps (E : Env σ) (P : Page σ) (B : Browser σ) (L : Lib) (K : Keygen σ)
    (H : Host σ) (fuel stack : Nat) (w : World σ) : Option (Outcome σ Unit) :=
  (FaucetSentry.creatingTempWallet E K w).andThen fun claimWallet w =>
  (FaucetSentry.launchingBrowser B H stack w).andThen fun _ w =>
  (FaucetSentry.navigating E P B w).andThen fun _ w =>
  (FaucetSentry.enteringAddress E P B claimWallet w).andThen fun _ w =>
  (FaucetSentry.clickingClaim E P B w).andThen fun _ w =>
  andThenBounded (FaucetSentry.extractingDonation E P L fuel w) fun donationAmount w =>
  (FaucetSentry.fundingClaimWallet E L H claimWallet donationAmount w).andThen
    fun bankWalletData w =>
  (FaucetSentry.receivingToClaim E L claimWallet w).andThen fun _ w =>
  (FaucetSentry.sendingDonation E P L claimWallet donationAmount w).andThen fun _ w =>
  andThenBounded (FaucetSentry.waitingReward E L fuel claimWallet w) fun rewardPending w =>
  (FaucetSentry.receivingReward E L H claimWallet rewardPending w).andThen fun _ w =>
  (FaucetSentry.sendingToBank E L claimWallet bankWalletData w).andThen fun _ w =>
  some (.ok (), FaucetSentry.completeClaim E B L H rewardPending donationAmount
    (FaucetSentry.receivingToBank E L w))

/-- The `catch` block of `runClaimProcess` (faucet-sentry.js 1021-1039). -/
def FaucetSentry.claimFailed (B : Browser σ) (message : String) (w : World σ) :
    Outcome σ Unit :=
  let w1 := FaucetSentry.log "error" ("Claim process error: " ++ message) w
  let w2 := FaucetSentry.setStatus "failed" w1
  let w3 := FaucetSentry.cleanup B (FaucetSentry.deleteTemporaryClaimWallet w2)
  if w3.connectionType != "direct" && w3.autoRestartEnabled then
    (.ok (), emit (.autoRestart 500) (FaucetSentry.log "info"
      "Error detected! Creating new session with fresh identity instantly..." w3))
  else (.error message, w3)

/-- Method `FaucetSentry.runClaimProcess` (faucet-sentry.js 732-1040). -/
def FaucetSentry.runClaimProcess (E : Env σ) (P : Page σ) (B : Browser σ) (L : Lib)
    (K : Keygen σ) (H : Host σ) (fuel stack : Nat) (w : World σ) : Option (Outcome σ Unit) :=
  (FaucetSentry.claimSteps E P B L K H fuel stack w).map fun r =>
    match r with
    | (.ok _, w1) => (.ok (), w1)
    | (.error message, w1) => FaucetSentry.claimFailed B message w1

/-- The handler `runClaimProcess().catch(err => ...)` of `startClaimSession`
(faucet-sentry.js 717-727). -/
def FaucetSentry.sessionFailed (B : Browser σ) (message : String) (w : World σ) : World σ :=
  let w1 := FaucetSentry.log "error" ("Claim session failed: " ++ message) w
  let w2 := FaucetSentry.cleanup B (FaucetSentry.setStatus "failed" w1)
  if w2.connectionType != "direct" && w2.autoRestartEnabled then
    emit (.autoRestart 500) (FaucetSentry.log "info"
      "Error caught at session level! Creating new session instantly..." w2)
  else w2

/-- The claim process as `startClaimSession` runs it: `runClaimProcess` with the handler
for a failure it propagates. -/
def FaucetSentry.claimProcessTask (E : Env σ) (P : Page σ) (B : Browser σ) (L : Lib)
    (K : Keygen σ) (H : Host σ) (fuel stack : Nat) (w : World σ) : Option (World σ) :=
  (FaucetSentry.runClaimProcess E P B L K H fuel stack w).map fun r =>
    match r with
    | (.ok _, w1) => w1
    | (.error message, w1) => FaucetSentry.sessionFailed B message w1

/-- The values assigned to `sessionStats.status` in a trace, in order. -/
def statuses : List Event → List String
  | [] => []
  | .status value :: rest => value :: statuses rest
  | _ :: rest => statuses rest

/-- The delays of the calls to `scheduleAutoRestart` in a trace, in order. -/
def restartCalls : List Event → List Nat
  | [] => []
  | .autoRestart delayMs :: rest => delayMs :: restartCalls rest
  | _ :: rest => restartCalls rest

/-- The number of claim processes started in a trace. -/
def processStarts : List Event → Nat
  | [] => 0
  | .claimProcess :: rest => processStarts rest + 1
  | _ :: rest => processStarts rest

/-- The statuses of the happy path after `starting`, up to `receiving_to_bank`. -/
def claimStatuses : List String :=
  ["creating_temp_wallet", "launching_browser", "navigating", "entering_address",
   "clicking_claim", "extracting_donation", "funding_claim_wallet", "receiving_to_claim",
   "sending_donation", "waiting_reward", "receiving_reward", "sending_to_bank",
   "receiving_to_bank"]

/-! ## Frames

Most of what a session does concerns the remote side only. `Quiet` says that a piece of
code changed nothing but the remote state and wrote only quiet events to the trace;
`Calm` says that it left the restart policy, the status and the counters alone. -/

/-- The events that record a decision of the session: a status assignment, a scheduled
restart, a started process, an identity renewal or lookup. -/
def Event.isLoud : Event → Bool
  | .status _ => true
  | .autoRestart _ => true
  | .claimProcess => true
  | .newnym _ => true
  | .torIP _ => true
  | _ => false

/-- Only the remote state changed, and only quiet events were written. -/
def Quiet (w w' : World σ) : Prop :=
  ∃ s evs, w' = { w with node := s, trace := w.trace ++ evs } ∧ ∀ e ∈ evs, e.isLoud = false

/-- The claim wallet and the address shown in the statistics go together: without a
claim wallet no address is shown. -/
def Sync (w : World σ) : Prop := w.claimWallet = none → w.sessionStats.tempClaimWallet = none

/-- The restart policy, the wallet store, the status and the counters are as before, and
no loud event was written. -/
structure Calm (w w' : World σ) : Prop where
  statuses : statuses w'.trace = statuses w.trace
  restarts : restartCalls w'.trace = restartCalls w.trace
  starts : processStarts w'.trace = processStarts w.trace
  newnyms : newnymRequests w'.trace = newnymRequests w.trace
  connectionType : w'.connectionType = w.connectionType
  autoRestartEnabled : w'.autoRestartEnabled = w.autoRestartEnabled
  wallets : w'.wallets = w.wallets
  bankWalletName : w'.bankWalletName = w.bankWalletName
  isRunning : w'.isRunning = w.isRunning
  isPaused : w'.isPaused = w.isPaused
  status : w'.sessionStats.status = w.sessionStats.status
  totalClaims : w'.sessionStats.totalClaims = w.sessionStats.totalClaims
  totalRewards : w'.sessionStats.totalRewards = w.sessionStats.totalRewards
  consecutiveSessions : w'.sessionStats.consecutiveSessions = w.sessionStats.consecutiveSessions
  sync : Sync w → Sync w'

/-- The part of a state that `Calm` compares. -/
def World.core (w : World σ) :
    List String × List Nat × Nat × List Nat × String × Bool × List (String × StoredWallet) ×
      Option String × Bool × Bool × String × Nat × String × Nat :=
  (statuses w.trace, restartCalls w.trace, processStarts w.trace, newnymRequests w.trace,
    w.connectionType, w.autoRestartEnabled, w.wallets, w.bankWalletName, w.isRunning,
    w.isPaused, w.sessionStats.status, w.sessionStats.totalClaims,
    w.sessionStats.totalRewards, w.sessionStats.consecutiveSessions)

/-- Where the `try` block of `runClaimProcess` stands after `reached` of its steps were
entered, relative to the state `w0` it started from: the statuses assigned so far are the
first `reached` of the happy path, and the restart policy, the wallet store and the
counters are those of `w0`. -/
structure Progress (w0 : World σ) (reached : Nat) (w : World σ) : Prop where
  statuses : statuses w.trace = statuses w0.trace ++ claimStatuses.take reached
  restarts : restartCalls w.trace = restartCalls w0.trace
  starts : processStarts w.trace = processStarts w0.trace
  newnyms : newnymRequests w.trace = newnymRequests w0.trace
  connectionType : w.connectionType = w0.connectionType
  autoRestartEnabled : w.autoRestartEnabled = w0.autoRestartEnabled
  wallets : w.wallets = w0.wallets
  bankWalletName : w.bankWalletName = w0.bankWalletName
  isPaused : w.isPaused = w0.isPaused
  totalClaims : w.sessionStats.totalClaims = w0.sessionStats.totalClaims
  totalRewards : w.sessionStats.totalRewards = w0.sessionStats.totalRewards
  consecutiveSessions : w.sessionStats.consecutiveSessions = w0.sessionStats.consecutiveSessions
  sync : Sync w0 → Sync w

/-- How a run of the claim process that started in `w0` has ended in `w`: the statuses
it went through, whether it scheduled a restart, and the teardown. -/
structure Ended (w0 : World σ) (seen : List String) (restart : Bool) (w : World σ) :
    Prop where
  statuses : statuses w.trace = statuses w0.trace ++ seen
  restarts : restartCalls w.trace = restartCalls w0.trace ++ (if restart then [500] else [])
  starts : processStarts w.trace = processStarts w0.trace
  newnyms : newnymRequests w.trace = newnymRequests w0.trace
  connectionType : w.connectionType = w0.connectionType
  autoRestartEnabled : w.autoRestartEnabled = w0.autoRestartEnabled
  wallets : w.wallets = w0.wallets
  bankWalletName : w.bankWalletName = w0.bankWalletName
  isPaused : w.isPaused = w0.isPaused
  claimWallet : w.claimWallet = none
  tempClaimWallet : Sync w0 → w.sessionStats.tempClaimWallet = none
  isRunning : w.isRunning = false
  browserOpen : w.browserOpen = false

/-- The restart policy (faucet-sentry.js 1012 and 1029). -/
def restartEligible (w : World σ) : Bool := w.connectionType != "direct" && w.autoRestartEnabled

/-- The loud part of the trace and the restart policy of a state. -/
def World.policy (w : World σ) :
    List String × List Nat × Nat × List Nat × String × Bool × List (String × StoredWallet) ×
      Option String × Bool :=
  (statuses w.trace, restartCalls w.trace, processStarts w.trace, newnymRequests w.trace,
    w.connectionType, w.autoRestartEnabled, w.wallets, w.bankWalletName, w.isPaused)

/-! ## The clock -/

/-- The clock of the remote side: a timer takes at least its time, and no request to the
node or to the page sets the clock back. -/
structure Clock (E : Env σ) (P : Page σ) : Prop where
  sleep : ∀ ms s, E.now s + ms ≤ E.now (E.sleep ms s)
  accountInfo : ∀ url account s, E.now s ≤ E.now (E.accountInfo url account s).2
  pending : ∀ url account count s, E.now s ≤ E.now (E.pending url account count s).2
  waitForSelector : ∀ selector timeout s, E.now s ≤ E.now (P.waitForSelector selector timeout s).2
  content : ∀ s, E.now s ≤ E.now (P.content s).2
  innerText : ∀ s, E.now s ≤ E.now (P.innerText s).2
  screenshot : ∀ s, E.now s ≤ E.now (P.screenshot s).2

/-- The clock of `w'` is not behind that of `w`. -/
def Later (E : Env σ) (w w' : World σ) : Prop := E.now w.node ≤ E.now w'.node

/-- A browser for closed examples: every call succeeds, the address field and the claim
button are found. -/
def demoBrowser : Browser Script where
  findChromePath s := (.ok "/usr/bin/chromium", s)
  parseProxyUrl _ := .ok none
  connect _ s := (.ok (), s)
  authenticate _ _ s := (.ok (), s)
  setUserAgent _ s := (.ok (), s)
  goto _ s := (.ok (), s)
  query _ s := (.ok true, s)
  clickInput s := (.ok (), s)
  typeInput _ s := (.ok (), s)
  findClaimButton s := (.ok true, s)
  clickClaimButton s := (.ok (), s)
  raceNavigation _ s := s
  close s := (.ok (), s)

/-- A page for closed examples that shows nothing. -/
def blankPage : Page Script := staticPage "" ""

/-- A session in direct mode, not yet started. -/
def demoDirectWorld : World Script :=
  { node := {}, connectionType := "direct" }

/-- A session in proxy mode with auto-restart enabled, not yet started. -/
def demoProxyWorld : World Script :=
  { node := {}, connectionType := "proxy", autoRestartEnabled := true }

/-- A syntactically valid address for the claim wallet of closed examples. -/
def demoClaimAddress : String :=
  "nano_333333333333333333333333333333333333333333333333333333333333"

/-- A wallet library for closed examples whose wallets have a valid address. -/
def happyKeygen : Keygen Script where
  generate s := (.ok { seed := "S1", accounts := [⟨0, demoClaimAddress, "NEWPUB", "NEWPRIV"⟩] }, s)
  generateLegacy s :=
    (.ok { seed := "S1", accounts := [⟨0, demoClaimAddress, "NEWPUB", "NEWPRIV"⟩] }, s)
  fromMnemonic _ s :=
    (.ok { seed := "S1", accounts := [⟨0, demoClaimAddress, "NEWPUB", "NEWPRIV"⟩] }, s)
  fromLegacyMnemonic _ s :=
    (.ok { seed := "S1", accounts := [⟨0, demoClaimAddress, "NEWPUB", "NEWPRIV"⟩] }, s)
  fromSeed _ s := (.ok { seed := "S1", accounts := [⟨0, demoClaimAddress, "NEWPUB", "NEWPRIV"⟩] }, s)
  isoNow s := "t" ++ toString s.clock

/-- The scripted answer of `account_info` for an opened account. -/
def okInfo (balance : Nat) (frontier : String) : Except String (Response AccountInfoJson) :=
  .ok { json := .ok { balance := balance, frontier := frontier } }

/-- The scripted answer of `account_info` for an account the node does not know. -/
def notFoundInfo : Except String (Response AccountInfoJson) :=
  .ok { json := .ok { error := some "Account not found" } }

/-- The scripted answer of a work provider. -/
def okWork : Except String (Response WorkJson) := .ok { json := .ok { work := some "w" } }

/-- The scripted answer of `process` for an accepted block. -/
def okProcess (hash : String) : Except String (Response ProcessJson) :=
  .ok { json := .ok { hash := some hash } }

/-- The faucet page of closed examples: it asks for a donation of 2. -/
def happyPage : Page Script := staticPage "<p>Send 2 XNO</p>" "Send 2 XNO"

/-- The remote side of a claim in which every step succeeds: the bank holds 10 raw, funds
the claim wallet with 2, the claim wallet donates 2 and is rewarded with 5, which it sends
to the bank. -/
def happyScript : Script :=
  { accountInfos := [okInfo 10 "B0", okInfo 10 "B0", notFoundInfo, okInfo 2 "C1", okInfo 0 "C2",
      okInfo 5 "C3", okInfo 8 "B1", okInfo 8 "B1"]
    pendings := [emptyAnswer, foundAnswer ⟨"A", 2, "bank"⟩, foundAnswer ⟨"A", 2, "bank"⟩,
      foundAnswer ⟨"R", 5, "nano_faucet"⟩, foundAnswer ⟨"R", 5, "nano_faucet"⟩,
      foundAnswer ⟨"Z", 5, "claim"⟩]
    works := [okWork, okWork, okWork, okWork, okWork, okWork]
    processes := [okProcess "H1", okProcess "H2", okProcess "H3", okProcess "H4", okProcess "H5",
      okProcess "H6"] }

/-- A session in direct mode with a funded bank wallet, before a claim in which every
step succeeds. -/
def demoHappyWorld : World Script :=
  { node := happyScript, wallets := [("bank", demoBankWallet)], bankWalletName := some "bank" }

/-- The rest of `runClaimProcess` from the head of the `while` loop of `waitForPending` in
step `waiting_reward` (faucet-sentry.js 656-690 and 945-1039): the loop goes on with its
`startTime` and counter, then the remaining steps, the end of the `try` block and the
`catch` block. This is what an in-flight claim process does when it is resumed after
another call has run while it awaited its timer. -/
def FaucetSentry.resumeWaitingReward (E : Env σ) (B : Browser σ) (L : Lib) (H : Host σ)
    (fuel : Nat) (claimWallet : WalletData) (bankWalletData : StoredWallet)
    (donationAmount : String) (startTime consecutiveEmptyChecks : Nat) (w : World σ) :
    Option (Outcome σ Unit) :=
  (andThenBounded
    (FaucetSentry.waitLoop E L claimWallet.address 1800000 1000 startTime fuel
      consecutiveEmptyChecks w) fun rewardPending w =>
    (FaucetSentry.receivingReward E L H claimWallet rewardPending w).andThen fun _ w =>
    (FaucetSentry.sendingToBank E L claimWallet bankWalletData w).andThen fun _ w =>
    some (.ok (), FaucetSentry.completeClaim E B L H rewardPending donationAmount
      (FaucetSentry.receivingToBank E L w))).map fun r =>
    match r with
    | (.ok _, w1) => (.ok (), w1)
    | (.error message, w1) => FaucetSentry.claimFailed B message w1

/-- The claim wallet of closed examples. -/
def demoClaimWallet : WalletData :=
  { name := "_temp_claim_0", seed := "S1", address := demoClaimAddress, publicKey := "NEWPUB",
    privateKey := "NEWPRIV" }

/-- A session in tor mode (auto-restart enabled, as the constructor sets it) whose claim
process waits for the reward; the bank wallet is funded. -/
def demoWaitingWorld : World Script :=
  { node := { clock := 20000, accountInfos := [okInfo 10 "B0"], pendings := [emptyAnswer] }
    isRunning := true
    connectionType := "tor"
    autoRestartEnabled := true
    sessionStats := { status := "waiting_reward", tempClaimWallet := some demoClaimAddress }
    claimWallet := some demoClaimWallet
    browserOpen := true
    wallets := [("bank", demoBankWallet)]
    bankWalletName := some "bank" }

/-- Whether the next `left` polls of the loop of step `receiving_to_claim` all find
nothing pending, each poll being followed by the sleep of 2 s. -/
def allPollsEmpty (E : Env σ) (L : Lib) (claimWallet : WalletData) : Nat → World σ → Bool
  | 0, _ => true
  | left + 1, w =>
    match FaucetSentry.getPendingBlocks E L claimWallet.address w with
    | (.error _, _) => false
    | (.ok pending, w1) =>
      pending.length == 0 &&
        allPollsEmpty E L claimWallet left (FaucetSentry.delay E 2000 w1)

/-- The state in which the loop of step `receiving_to_claim` starts. -/
def FaucetSentry.receivingToClaimStart (E : Env σ) (w : World σ) : World σ :=
  FaucetSentry.delay E 5000
    (FaucetSentry.log "action" "Waiting for claim wallet to receive NANO..."
      (FaucetSentry.emitStatus (FaucetSentry.setStatus "receiving_to_claim" w)))

/-- The log entries of a trace: level and message, in order. -/
def logLines : List Event → List (String × String)
  | [] => []
  | .log _ level message :: rest => (level, message) :: logLines rest
  | _ :: rest => logLines rest

/-- A session in direct mode whose bank wallet is empty: the node reports balance 0 for
it and nothing pending for any account. -/
def demoEmptyBankWorld : World Script :=
  { node := { accountInfos := [okInfo 0 "B0"], pendings := List.replicate 30 emptyAnswer }
    wallets := [("bank", demoBankWallet)]
    bankWalletName := some "bank" }

/-! ## The orchestrator `MultiInstanceManager`

Objects are kept in two stores, one for the `config` objects and one for the sessions, and
are named by their index: a session holds the index of its `config`, the instance map
holds the indices of the sessions. A session dropped from the map stays in the store, as
the object stays alive for the timers that still hold it. The node, the emitted events
and the wallet manager are shared by all sessions. -/

/-- The object `config` of a session, as far as the embedded code reads it. -/
structure Config where
  bankWalletName : Option String := none
  connectionType : String := "direct"
  proxyUrl : Option String := none
  claimInterval : Nat := 24
  deriving DecidableEq, Repr

/-- A `FaucetSentry` object in the store: the state that is its own. The defaults are
the values the constructor assigns (faucet-sentry.js 25-55). -/
structure Instance where
  /-- The index of `this.config`. -/
  config : Nat
  isRunning : Bool := false
  isPaused : Bool := false
  autoRestartEnabled : Bool := true
  sessionStats : SessionStats := {}
  claimWallet : Option WalletData := none
  browserOpen : Bool := false
  usedTorIPs : List String := []
  usedUserAgents : List String := []
  torSocksPort : Nat := 9050
  torControlPort : Nat := 9051
  instanceId : String := "default"
  instanceIndex : Nat := 0
  /-- The number `i + 1` captured by the `log` method the orchestrator installs
  (multi-instance-manager.js 100-105), `none` for the method of the class. -/
  logIndex : Option Nat := none
  deriving DecidableEq, Repr

/-- The object `this.aggregatedStats`. -/
structure AggregatedStats where
  totalClaims : Nat := 0
  totalRewards : String := "0"
  startTime : Option String := none
  deriving DecidableEq, Repr

/-- The state of the orchestrator and of everything it shares with its sessions. -/
structure Manager (σ : Type) where
  node : σ
  trace : List Event := []
  /-- The wallets of the shared `nanoWallet`. -/
  wallets : List (String × StoredWallet) := []
  gpuWorkerUrl : Option String := none
  /-- The store of `config` objects and the next free index. -/
  configs : Nat → Config := fun _ => {}
  nextConfig : Nat := 0
  /-- The store of sessions and the next free index. -/
  objects : Nat → Instance := fun _ => { config := 0 }
  nextObject : Nat := 0
  /-- The map `this.instances`, in insertion order. -/
  instances : List (String × Nat) := []
  activeCount : ℚ := 0
  aggregatedStats : AggregatedStats := {}

/-- The field `maxInstances`. -/
def maxInstances : Nat := 10

/-- The field `torPorts`. -/
def torPorts : List Nat := [9050, 9052, 9054, 9056, 9058, 9060, 9062, 9064, 9066, 9068]

/-- The field `controlPorts`. -/
def controlPorts : List Nat := [9051, 9053, 9055, 9057, 9059, 9061, 9063, 9065, 9067, 9069]

/-- The call `map.set(key, value)`: an existing key keeps its place. -/
def mapSet (key : String) (value : Nat) : List (String × Nat) → List (String × Nat)
  | [] => [(key, value)]
  | (k, x) :: rest => if k = key then (k, value) :: rest else (k, x) :: mapSet key value rest

/-- The call `map.delete(key)`. -/
def mapDelete (key : String) (entries : List (String × Nat)) : List (String × Nat) :=
  entries.filter fun entry => entry.1 != key

/-- The values of `i` a loop `for (let i = 0; i < count; i++)` goes through. -/
def loopIndices (count : ℚ) : List Nat := List.range ⌈count⌉₊

/-- The conversion `String(x)` of a number below `10 ^ 21` in magnitude: an integer is
written in decimal digits. -/
def numberText (H : Host σ) (x : ℚ) : String :=
  if x.den = 1 then toString x.num else H.fractionToString x

/-- The template `instance_${i + 1}`. -/
def instanceIdOf (i : Nat) : String := "instance_" ++ toString (i + 1)

/-- Method `MultiInstanceManager.log` (multi-instance-manager.js 226-245). -/
def MultiInstanceManager.log (level message : String) (m : Manager σ) : Manager σ :=
  { m with trace := m.trace ++ [.log "faucet-log" level ("[MultiInstance] " ++ message)] }

/-- Method `MultiInstanceManager.emitStatus` (multi-instance-manager.js 210-212). -/
def MultiInstanceManager.emitStatus (m : Manager σ) : Manager σ :=
  { m with trace := m.trace ++ [.managerStatus m.activeCount (m.instances.map Prod.fst)] }

/-- Method `MultiInstanceManager.delay`. -/
def MultiInstanceManager.delay (E : Env σ) (ms : Nat) (m : Manager σ) : Manager σ :=
  { m with node := E.sleep ms m.node, trace := m.trace ++ [.delay ms] }

/-- Method `MultiInstanceManager.checkTorPort` (multi-instance-manager.js 22-40). -/
def MultiInstanceManager.checkTorPort (H : Host σ) (port : Nat) (m : Manager σ) :
    Bool × Manager σ :=
  ((H.checkTorPort port m.node).1, { m with node := (H.checkTorPort port m.node).2 })

/-- The pre-check of `startInstances` in tor mode (multi-instance-manager.js 56-62): the
list `availablePorts`. -/
def MultiInstanceManager.checkPorts (H : Host σ) :
    List Nat → List Nat → Manager σ → List Nat × Manager σ
  | [], availablePorts, m => (availablePorts, m)
  | i :: rest, availablePorts, m =>
    let r := MultiInstanceManager.checkTorPort H (torPorts.getD i 0) m
    MultiInstanceManager.checkPorts H rest
      (if r.1 then availablePorts ++ [torPorts.getD i 0] else availablePorts) r.2

/-- One iteration of the allocation loop of `startInstances` (multi-instance-manager.js
82-113): a new session with its ports, its copy `{ ...config }` of the configuration,
auto-restart enabled and the prefixing `log` method is put into the map. The
configuration that the constructor loads from disk is replaced at once and is left out. -/
def MultiInstanceManager.configure (config : Nat) (m : Manager σ) (i : Nat) : Manager σ :=
  let session : Instance :=
    { config := m.nextConfig
      torSocksPort := torPorts.getD i 0
      torControlPort := controlPorts.getD i 0
      instanceId := instanceIdOf i
      instanceIndex := i + 1
      autoRestartEnabled := true
      logIndex := some (i + 1) }
  let m1 : Manager σ :=
    { m with
      configs := Function.update m.configs m.nextConfig (m.configs config)
      nextConfig := m.nextConfig + 1
      objects := Function.update m.objects m.nextObject session
      nextObject := m.nextObject + 1
      instances := mapSet (instanceIdOf i) m.nextObject m.instances }
  MultiInstanceManager.log "info"
    ("Instance " ++ toString (i + 1) ++ " configured: Tor SOCKS=" ++
      toString (torPorts.getD i 0) ++ ", Control=" ++ toString (controlPorts.getD i 0)) m1

/-- The start loop of `startInstances` (multi-instance-manager.js 115-126): after a delay
of 3 s for all but the first, `startClaimSession` is called on each session without being
awaited. The second argument is the loop index. -/
def MultiInstanceManager.launch (E : Env σ) : List String → Nat → Manager σ → Manager σ
  | [], _, m => m
  | instanceId :: rest, i, m =>
    let m1 := if i > 0 then MultiInstanceManager.delay E 3000 m else m
    MultiInstanceManager.launch E rest (i + 1)
      { m1 with trace := m1.trace ++ [.instanceStart instanceId] }

/-- The object returned by `startInstances`, `stopAllInstances` and `stopInstance`. -/
structure ManagerResult where
  success : Bool
  error : Option String := none
  message : Option String := none
  instances : List String := []
  count : Option ℚ := none
  deriving DecidableEq, Repr

/-- The part of `startInstances` after the checks (multi-instance-manager.js 71-131): the
statistics are reset, the sessions are allocated and started, `activeCount` is set. -/
def MultiInstanceManager.startAll (E : Env σ) (H : Host σ) (count : ℚ) (config : Nat)
    (m : Manager σ) : ManagerResult × Manager σ :=
  let m1 : Manager σ :=
    { m with
      aggregatedStats :=
        { totalClaims := 0, totalRewards := "0",
          startTime := some (H.toISOString (E.now m.node)) } }
  let m2 := MultiInstanceManager.log "info"
    ("Starting " ++ numberText H count ++ " parallel claim instances...") m1
  let m3 := (loopIndices count).foldl (MultiInstanceManager.configure config) m2
  let startedInstances := (loopIndices count).map instanceIdOf
  let m4 := MultiInstanceManager.launch E startedInstances 0 m3
  let m5 : Manager σ := { m4 with activeCount := count }
  ({ success := true, instances := startedInstances, count := some count },
    MultiInstanceManager.emitStatus m5)

/-- Method `MultiInstanceManager.startInstances` (multi-instance-manager.js 42-132); the
argument `config` is the index of the shared configuration. -/
def MultiInstanceManager.startInstances (E : Env σ) (H : Host σ) (count : ℚ) (config : Nat)
    (m : Manager σ) : ManagerResult × Manager σ :=
  if count < 1 ∨ count > maxInstances then
    ({ success := false,
       error := some ("Count must be between 1 and " ++ toString maxInstances) }, m)
  else if m.activeCount > 0 then
    ({ success := false,
       error := some "Multi-instance session already running. Stop first." }, m)
  else if !truthyOpt (m.configs config).bankWalletName then
    ({ success := false, error := some "No bank wallet configured" }, m)
  else if (m.configs config).connectionType = "tor" then
    let checked := MultiInstanceManager.checkPorts H (loopIndices count) [] m
    if (checked.1.length : ℚ) < count then
      ({ success := false,
         error := some ("Only " ++ toString checked.1.length ++ " Tor ports available. Need " ++
           numberText H count ++ ". Start more Tor instances or reduce count.") }, checked.2)
    else MultiInstanceManager.startAll E H count config checked.2
  else MultiInstanceManager.startAll E H count config m

/-- The session with index `ref` as a state of the claim session: its own fields, the
fields of its `config`, and what is shared. -/
def Manager.view (m : Manager σ) (ref : Nat) : World σ :=
  { node := m.node
    trace := m.trace
    isRunning := (m.objects ref).isRunning
    isPaused := (m.objects ref).isPaused
    gpuWorkerUrl := m.gpuWorkerUrl
    wallets := m.wallets
    connectionType := (m.configs (m.objects ref).config).connectionType
    autoRestartEnabled := (m.objects ref).autoRestartEnabled
    sessionStats := (m.objects ref).sessionStats
    claimWallet := (m.objects ref).claimWallet
    browserOpen := (m.objects ref).browserOpen
    bankWalletName := (m.configs (m.objects ref).config).bankWalletName
    proxyUrl := (m.configs (m.objects ref).config).proxyUrl
    claimInterval := (m.configs (m.objects ref).config).claimInterval
    usedTorIPs := (m.objects ref).usedTorIPs
    usedUserAgents := (m.objects ref).usedUserAgents
    torSocksPort := (m.objects ref).torSocksPort
    torControlPort := (m.objects ref).torControlPort }

/-- The `log` method the orchestrator installs on a session (multi-instance-manager.js
100-105), applied to the events a method of the session has written: each log entry of
the session gets the prefix and is followed by `emitInstanceUpdate`. -/
def Instance.patchLog (session : Instance) : List Event → List Event
  | [] => []
  | .log channel level message :: rest =>
    match session.logIndex with
    | some index =>
      if channel = "faucet-log" then
        .log channel level ("[Instance " ++ toString index ++ "] [Tor:" ++
            toString session.torSocksPort ++ "] " ++ message) ::
          .instanceUpdate session.instanceId :: session.patchLog rest
      else .log channel level message :: session.patchLog rest
    | none => .log channel level message :: session.patchLog rest
  | e :: rest => e :: session.patchLog rest

/-- Write the state of the claim session with index `ref` back after one of its methods
has run. -/
def Manager.store (m : Manager σ) (ref : Nat) (w : World σ) : Manager σ :=
  let config : Config :=
    { bankWalletName := w.bankWalletName, connectionType := w.connectionType,
      proxyUrl := w.proxyUrl, claimInterval := w.claimInterval }
  let session : Instance :=
    { m.objects ref with
      isRunning := w.isRunning
      isPaused := w.isPaused
      autoRestartEnabled := w.autoRestartEnabled
      sessionStats := w.sessionStats
      claimWallet := w.claimWallet
      browserOpen := w.browserOpen
      usedTorIPs := w.usedTorIPs
      usedUserAgents := w.usedUserAgents
      torSocksPort := w.torSocksPort
      torControlPort := w.torControlPort }
  { m with
    node := w.node
    trace := m.trace ++ (m.objects ref).patchLog (w.trace.drop m.trace.length)
    wallets := w.wallets
    gpuWorkerUrl := w.gpuWorkerUrl
    configs := Function.update m.configs (m.objects ref).config config
    objects := Function.update m.objects ref session }

/-- Run a method of the session with index `ref`. -/
def Manager.run (ref : Nat) (method : World σ → World σ) (m : Manager σ) : Manager σ :=
  m.store ref (method (m.view ref))

/-- The assignment `instance.autoRestartEnabled = false`. -/
def Manager.disableAutoRestart (ref : Nat) (m : Manager σ) : Manager σ :=
  let session : Instance := { m.objects ref with autoRestartEnabled := false }
  { m with objects := Function.update m.objects ref session }

/-! ### Stopping sessions

Code of another task, such as the continuation of a timer, can only run while a method
awaits. The stop methods are therefore given by their segments: pieces of code that run
without interruption, in order. The cuts between the segments are the points at which the
method awaits and, in addition, the point between the assignment of the flag and the call
of `stopSession`; what holds at every cut holds at every point at which another task can
run. -/

/-- Run the segments of a method one after the other. -/
def runSegments {α : Type} (segments : List (α → α)) (a : α) : α :=
  segments.foldl (fun state segment => segment state) a

/-- Run the segments of a method while the code `event` of another task runs at the cut
after its first `position` segments. -/
def runSegmentsWith {α : Type} (segments : List (α → α)) (position : Nat) (event : α → α)
    (a : α) : α :=
  runSegments (segments.drop position) (event (runSegments (segments.take position) a))

/-- Method `FaucetSentry.stopSession` up to its first `await` (faucet-sentry.js
1282-1286); the body of `deleteTemporaryClaimWallet` awaits nothing. -/
def FaucetSentry.stopSessionBegin (w : World σ) : World σ :=
  let w1 := FaucetSentry.log "info" "Stopping claim session..." w
  let w2 : World σ := { w1 with isRunning := false, isPaused := false }
  FaucetSentry.deleteTemporaryClaimWallet w2

/-- Method `FaucetSentry.cleanup` up to its `await` (faucet-sentry.js 1268-1272). -/
def FaucetSentry.cleanupBegin (w : World σ) : World σ :=
  { w with isRunning := false }

/-- Method `FaucetSentry.cleanup` from the result of `browser.close()` on (faucet-sentry.js
1272-1278). -/
def FaucetSentry.cleanupEnd (B : Browser σ) (w : World σ) : World σ :=
  let w2 : World σ :=
    if w.browserOpen then { w with node := (B.close w.node).2, browserOpen := false } else w
  FaucetSentry.emitStatus w2

/-- Method `FaucetSentry.stopSession` after `await this.cleanup()` (faucet-sentry.js
1288-1292). -/
def FaucetSentry.stopSessionEnd (w : World σ) : World σ :=
  FaucetSentry.emitStatus (FaucetSentry.setStatus "stopped" w)

/-- The segments of `stopSession` after its first `await`, in order. -/
def FaucetSentry.stopSessionRest (B : Browser σ) : List (World σ → World σ) :=
  [FaucetSentry.cleanupBegin, FaucetSentry.cleanupEnd B, FaucetSentry.stopSessionEnd]

/-- The two statements with which the orchestrator stops the session `ref`, in order
(multi-instance-manager.js 144-145 and 164-165): the assignment
`instance.autoRestartEnabled = false`, then the call `instance.stopSession()`, which runs
up to its first `await`. -/
def MultiInstanceManager.stopCall (ref : Nat) : List (Manager σ → Manager σ) :=
  [Manager.disableAutoRestart ref, Manager.run ref FaucetSentry.stopSessionBegin]

/-- What `stopAllInstances` does after `await Promise.all(stopPromises)`
(multi-instance-manager.js 151-155). -/
def MultiInstanceManager.stopAllEnd (m : Manager σ) : Manager σ :=
  let m3 : Manager σ := { m with instances := [], activeCount := 0 }
  MultiInstanceManager.log "success" "All instances stopped" (MultiInstanceManager.emitStatus m3)

/-- The segments of `stopAllInstances` for a map that is not empty
(multi-instance-manager.js 139-155): the log entry; the loop over the map, which for each
session clears the flag and calls `stopSession`; the rest of every `stopSession`, here
session after session in the order of the map, which fixes the order of the events of
different sessions only; the end. -/
def MultiInstanceManager.stopAllSegments (B : Browser σ) (entries : List (String × Nat)) :
    List (Manager σ → Manager σ) :=
  MultiInstanceManager.log "info" "Stopping all instances..." ::
    ((entries.flatMap fun entry => MultiInstanceManager.stopCall entry.2) ++
      ((entries.flatMap fun entry =>
          (FaucetSentry.stopSessionRest B).map (Manager.run entry.2)) ++
        [MultiInstanceManager.stopAllEnd]))

/-- Method `MultiInstanceManager.stopAllInstances` (multi-instance-manager.js 134-156). -/
def MultiInstanceManager.stopAllInstances (B : Browser σ) (m : Manager σ) :
    ManagerResult × Manager σ :=
  if m.instances.length = 0 then
    ({ success := true, message := some "No instances running" }, m)
  else
    ({ success := true }, runSegments (MultiInstanceManager.stopAllSegments B m.instances) m)

/-- What `stopInstance` does after `await instance.stopSession()`
(multi-instance-manager.js 166-168). -/
def MultiInstanceManager.stopInstanceEnd (instanceId : String) (m : Manager σ) : Manager σ :=
  let m3 : Manager σ := { m with instances := mapDelete instanceId m.instances }
  let m4 : Manager σ := { m3 with activeCount := (m3.instances.length : ℚ) }
  MultiInstanceManager.emitStatus m4

/-- The segments of `stopInstance` for the session `ref` found under the id
(multi-instance-manager.js 164-168): the flag is cleared; `stopSession` is called; the
rest of `stopSession`; the end. -/
def MultiInstanceManager.stopInstanceSegments (B : Browser σ) (instanceId : String)
    (ref : Nat) : List (Manager σ → Manager σ) :=
  MultiInstanceManager.stopCall ref ++
    ((FaucetSentry.stopSessionRest B).map (Manager.run ref) ++
      [MultiInstanceManager.stopInstanceEnd instanceId])

/-- Method `MultiInstanceManager.stopInstance` (multi-instance-manager.js 158-171). -/
def MultiInstanceManager.stopInstance (B : Browser σ) (instanceId : String) (m : Manager σ) :
    ManagerResult × Manager σ :=
  match m.instances.lookup instanceId with
  | none => ({ success := false, error := some "Instance not found" }, m)
  | some ref =>
    ({ success := true },
      runSegments (MultiInstanceManager.stopInstanceSegments B instanceId ref) m)

/-- A segment of `stopSession`: it leaves the restart flag alone, does not set the session
running, and writes neither the start of a claim process nor a renewal request. -/
def Stopping (method : World σ → World σ) : Prop :=
  ∀ w, (method w).autoRestartEnabled = w.autoRestartEnabled ∧
    (w.isRunning = false → (method w).isRunning = false) ∧
    ∃ evs, (method w).trace = w.trace ++ evs ∧ processStarts evs = 0 ∧
      newnymRequests evs = []

/-- A segment of a stop method of the orchestrator, seen from the session `ref`: it does
not turn the restart flag of the session on, does not set the session running, and writes
neither the start of a claim process nor a renewal request. -/
def StopLike (ref : Nat) (segment : Manager σ → Manager σ) : Prop :=
  ∀ a : Manager σ,
    ((a.objects ref).autoRestartEnabled = false →
      ((segment a).objects ref).autoRestartEnabled = false) ∧
    ((a.objects ref).isRunning = false → ((segment a).objects ref).isRunning = false) ∧
    processStarts (segment a).trace = processStarts a.trace ∧
    newnymRequests (segment a).trace = newnymRequests a.trace

/-- The calls `instance.startClaimSession()` of the orchestrator in a trace, in order. -/
def instanceStarts : List Event → List String
  | [] => []
  | .instanceStart instanceId :: rest => instanceId :: instanceStarts rest
  | _ :: rest => instanceStarts rest

/-- The orchestrator as its constructor leaves it, with the shared configuration as the
only object. -/
def Manager.initial (node : σ) (sharedConfig : Config) : Manager σ :=
  { node := node, configs := fun _ => sharedConfig, nextConfig := 1 }

/-- The session the allocation loop of `startInstances` makes in iteration `i`, with the
copy of the configuration at index `config`. -/
def allocatedInstance (config i : Nat) : Instance :=
  { config := config
    torSocksPort := torPorts.getD i 0
    torControlPort := controlPorts.getD i 0
    instanceId := instanceIdOf i
    instanceIndex := i + 1
    autoRestartEnabled := true
    logIndex := some (i + 1) }

/-- What `k` iterations of the allocation loop of `startInstances` have done to a state
`m` with an empty instance map: `k` new sessions and `k` new copies of the configuration,
in the order of the loop. -/
structure Allocated (config : Nat) (m : Manager σ) (k : Nat) (m' : Manager σ) : Prop where
  node : m'.node = m.node
  wallets : m'.wallets = m.wallets
  activeCount : m'.activeCount = m.activeCount
  starts : instanceStarts m'.trace = instanceStarts m.trace
  processes : processStarts m'.trace = processStarts m.trace
  nextObject : m'.nextObject = m.nextObject + k
  nextConfig : m'.nextConfig = m.nextConfig + k
  instances : m'.instances = (List.range k).map fun i => (instanceIdOf i, m.nextObject + i)
  objectsNew : ∀ i, i < k →
    m'.objects (m.nextObject + i) = allocatedInstance (m.nextConfig + i) i
  objectsOld : ∀ r, r < m.nextObject → m'.objects r = m.objects r
  configsNew : ∀ i, i < k → m'.configs (m.nextConfig + i) = m.configs config
  configsOld : ∀ c, c < m.nextConfig → m'.configs c = m.configs c

/-- An orchestrator for closed examples, as its constructor leaves it, over the scripted
remote side; the shared configuration names the bank wallet and the connection mode. -/
def demoManager (connectionType : String) : Manager Script :=
  Manager.initial {} { bankWalletName := some "bank", connectionType := connectionType }

/-- Three sessions started in proxy mode. -/
def demoStartedManager : Manager Script :=
  (MultiInstanceManager.startInstances Script.env demoHost 3 0 (demoManager "proxy")).2

/-- The bookkeeping of the orchestrator is consistent: `activeCount` is the number of
entries of the instance map, and the ids of the map are among `instance_1`,
`instance_2`, ... in this order. -/
def Manager.Consistent (m : Manager σ) : Prop :=
  m.activeCount = (m.instances.length : ℚ) ∧
  ∃ n, List.Sublist (m.instances.map Prod.fst) ((List.range n).map instanceIdOf)

/-- A page for closed examples that is still loading during the first four seconds and
then shows a donation amount together with a rate-limit message. -/
def loadingThenLimitedPage : Page Script where
  waitForSelector _ _ s := (.ok (), s)
  content s :=
    if s.clock < 4000 then (.ok "<p>Loading</p>", s)
    else (.ok "<p>Send 0.002 XNO</p><p>Please COME BACK tomorrow</p>", s)
  innerText s :=
    if s.clock < 4000 then (.ok (some "Loading"), s)
    else (.ok (some "Send 0.002 XNO\nPlease COME BACK tomorrow"), s)
  screenshot s := (.ok "jpeg", s)

/-- A page for closed examples whose HTML cannot be read during the first four seconds
and which then shows a donation amount together with a rate-limit message. -/
def failingThenLimitedPage : Page Script where
  waitForSelector _ _ s := (.ok (), s)
  content s :=
    if s.clock < 4000 then (.error "Execution context was destroyed", s)
    else (.ok "<p>Send 0.002 XNO</p><p>Daily limit reached</p>", s)
  innerText s := (.ok (some "Send 0.002 XNO\nDaily limit reached"), s)
  screenshot s := (.ok "jpeg", s)

/-- Whether an event is one that an identity renewal writes: a log line, a wait, a
renewal request or an address lookup. -/
def Event.isRenewal : Event → Bool
  | .log _ _ _ => true
  | .delay _ => true
  | .newnym _ => true
  | .torIP _ => true
  | _ => false

/-- Only the remote state and the address history changed, and only events of an identity
renewal were written. -/
def Renewed (w w' : World σ) : Prop :=
  ∃ s evs ips, w' = { w with node := s, trace := w.trace ++ evs, usedTorIPs := ips } ∧
    ∀ e ∈ evs, e.isRenewal = true

/-- A faucet page for closed examples that shows a donation amount together with a
rate-limit message. -/
def rateLimitedPage : Page Script :=
  staticPage "<p>Send 2 XNO</p><p>Come back tomorrow</p>" "Send 2 XNO\nCome back tomorrow"

/-- A session in proxy mode with auto-restart enabled and a funded bank wallet, not yet
started. -/
def demoRestartWorld : World Script :=
  { node := { accountInfos := [okInfo 10 "B0"], pendings := [emptyAnswer] }
    connectionType := "proxy"
    autoRestartEnabled := true
    wallets := [("bank", demoBankWallet)]
    bankWalletName := some "bank" }

/-- Three sessions started in proxy mode, with a funded bank wallet: a call of
`startClaimSession` on any of them would be accepted. -/
def demoFundedManager : Manager Script :=
  { demoStartedManager with
    node := { accountInfos := [okInfo 10 "B0"], pendings := [emptyAnswer] }
    wallets := [("bank", demoBankWallet)] }

/-- The three counters of the statistics that only grow: `totalClaims`, `totalRewards`
and `consecutiveSessions`. -/
def SessionStats.counters (s : SessionStats) : Nat × String × Nat :=
  (s.totalClaims, s.totalRewards, s.consecutiveSessions)

theorem fetchWork_trace (E : Env σ) (url hash : String) (w : World σ) :
    (fetchWork E url hash w).2.trace = w.trace ++ [Event.workGenerate url hash] := rfl

theorem fetchAccountInfo_trace (E : Env σ) (url account : String) (w : World σ) :
    (fetchAccountInfo E url account w).2.trace = w.trace ++ [Event.accountInfo url account] :=
  rfl

theorem fetchProcess_trace (E : Env σ) (b : Block) (w : World σ) :
    (fetchProcess E b w).2.trace = w.trace ++ [Event.process b] := rfl

theorem fetchPending_trace (E : Env σ) (url account : String) (n : Nat) (w : World σ) :
    (fetchPending E url account n w).2.trace = w.trace ++ [Event.pending url account n] := rfl

theorem log_trace (level message : String) (w : World σ) :
    (FaucetSentry.log level message w).trace
      = w.trace ++ [Event.log "faucet-log" level message] := rfl

theorem generateWorkPublic_world (E : Env σ) (hash : String) (w : World σ) :
    (FaucetSentry.generateWorkPublic E hash w).2 = (fetchWork E POW_RPC_URL hash w).2 := by
  unfold FaucetSentry.generateWorkPublic
  split
  · next e w1 h => rw [h]
  · next r w1 h =>
    have hw : w1 = (fetchWork E POW_RPC_URL hash w).2 := by rw [h]
    subst hw
    split
    · rfl
    · split
      · rfl
      · split <;> rfl

theorem generateWorkPublic_trace (E : Env σ) (hash : String) (w : World σ) :
    (FaucetSentry.generateWorkPublic E hash w).2.trace
      = w.trace ++ [Event.workGenerate POW_RPC_URL hash] := by
  rw [generateWorkPublic_world]; rfl

theorem generateWork_trace (E : Env σ) (hash : String) (w : World σ) :
    ∃ evs, (FaucetSentry.generateWork E hash w).2.trace = w.trace ++ evs
      ∧ ∃ url, Event.workGenerate url hash ∈ evs := by
  unfold FaucetSentry.generateWork
  split
  · split
    · next e w1 h =>
      have hw : w1 = (fetchWork E (w.gpuWorkerUrl.getD "") hash w).2 := by rw [h]
      subst hw
      refine ⟨[Event.workGenerate (w.gpuWorkerUrl.getD "") hash,
        Event.log "faucet-log" "warning" "GPU worker unavailable, using public RPC",
        Event.workGenerate POW_RPC_URL hash], ?_, POW_RPC_URL, by simp⟩
      rw [generateWorkPublic_trace, log_trace, fetchWork_trace]
      simp
    · next r w1 h =>
      have hw : w1 = (fetchWork E (w.gpuWorkerUrl.getD "") hash w).2 := by rw [h]
      subst hw
      split
      · refine ⟨[Event.workGenerate (w.gpuWorkerUrl.getD "") hash,
          Event.log "faucet-log" "warning" "GPU worker unavailable, using public RPC",
          Event.workGenerate POW_RPC_URL hash], ?_, POW_RPC_URL, by simp⟩
        rw [generateWorkPublic_trace, log_trace, fetchWork_trace]
        simp
      · split
        · refine ⟨[Event.workGenerate (w.gpuWorkerUrl.getD "") hash,
            Event.log "faucet-log" "info" "PoW generated via GPU worker"], ?_,
            w.gpuWorkerUrl.getD "", by simp⟩
          rw [log_trace, fetchWork_trace]
          simp
        · refine ⟨[Event.workGenerate (w.gpuWorkerUrl.getD "") hash,
            Event.workGenerate POW_RPC_URL hash], ?_, POW_RPC_URL, by simp⟩
          rw [generateWorkPublic_trace, fetchWork_trace]
          simp
  · exact ⟨[Event.workGenerate POW_RPC_URL hash], generateWorkPublic_trace E hash w,
      POW_RPC_URL, by simp⟩

theorem processBlock_world (E : Env σ) (b : Block) (w : World σ) :
    (FaucetSentry.processBlock E b w).2 = (fetchProcess E b w).2 := by
  unfold FaucetSentry.processBlock
  split
  · next e w1 h => rw [h]
  · next r w1 h =>
    have hw : w1 = (fetchProcess E b w).2 := by rw [h]
    subst hw
    split
    · rfl
    · split <;> rfl

theorem processBlock_trace (E : Env σ) (b : Block) (w : World σ) :
    (FaucetSentry.processBlock E b w).2.trace = w.trace ++ [Event.process b] := by
  rw [processBlock_world]; rfl

theorem getAccountInfo_world (E : Env σ) (L : Lib) (address : String) (w : World σ) :
    (FaucetSentry.getAccountInfo E L address w).2 = (fetchAccountInfo E RPC_URL address w).2 := by
  unfold FaucetSentry.getAccountInfo
  split
  · next e w1 h => rw [h]
  · next r w1 h =>
    have hw : w1 = (fetchAccountInfo E RPC_URL address w).2 := by rw [h]
    subst hw
    split
    · rfl
    · split
      · rfl
      · split <;> rfl

theorem getAccountInfo_trace (E : Env σ) (L : Lib) (address : String) (w : World σ) :
    (FaucetSentry.getAccountInfo E L address w).2.trace
      = w.trace ++ [Event.accountInfo RPC_URL address] := by
  rw [getAccountInfo_world]; rfl

/-! ## C1: the guards of `sendFromWallet` -/

/-- C1: once the source account state has been fetched, `sendFromWallet` fails with
'Account not opened yet' when the state is unopened; for an opened account and a raw
amount `amountRaw` it stops with 'Insufficient balance' exactly when
`amountRaw > balance` (so `amountRaw = balance` passes and work is requested for the
frontier); in both failure cases the state is the one left by the `account_info`
request, whose only new event is that request: no work is requested and no block is
broadcast. -/
theorem sendFromWallet_guards (E : Env σ) (L : Lib) (fromWallet : WalletData)
    (toAddress amountNano : String) (w w1 : World σ) (info : AccountInfo)
    (hinfo : FaucetSentry.getAccountInfo E L fromWallet.address w = (.ok info, w1)) :
    (info.opened = false →
      FaucetSentry.sendFromWallet E L fromWallet toAddress amountNano w
        = (.error "Account not opened yet", w1)) ∧
    (info.opened = true → ∀ amountRaw, L.nanoToRaw amountNano = .ok amountRaw →
      (FaucetSentry.sendFromWallet E L fromWallet toAddress amountNano w
          = (.error "Insufficient balance", w1) ↔ amountRaw > info.balance) ∧
      (amountRaw ≤ info.balance → ∃ evs url,
        (FaucetSentry.sendFromWallet E L fromWallet toAddress amountNano w).2.trace
          = w1.trace ++ evs ∧ Event.workGenerate url info.frontier ∈ evs)) ∧
    w1.trace = w.trace ++ [Event.accountInfo RPC_URL fromWallet.address] ∧
    (∀ e ∈ [Event.accountInfo RPC_URL fromWallet.address],
      e.isWorkRequest = false ∧ e.isBroadcast = false) := by
  have hw1 : w1.trace = w.trace ++ [Event.accountInfo RPC_URL fromWallet.address] := by
    have := getAccountInfo_trace E L fromWallet.address w
    rw [hinfo] at this
    exact this
  refine ⟨?_, ?_, hw1, by simp [Event.isWorkRequest, Event.isBroadcast]⟩
  · intro hop
    simp [FaucetSentry.sendFromWallet, hinfo, hop]
  · intro hop amountRaw hraw
    have hsend : FaucetSentry.sendFromWallet E L fromWallet toAddress amountNano w
        = if amountRaw > info.balance then (.error "Insufficient balance", w1)
          else
            match FaucetSentry.generateWork E info.frontier
              (FaucetSentry.log "info" "Generating proof of work for send..." w1) with
            | (.error e, w3) => (.error e, w3)
            | (.ok work, w3) =>
              FaucetSentry.processBlock E (blockSend info.balance fromWallet.address toAddress
                (orFallback info.representative) info.frontier amountRaw work
                fromWallet.privateKey) w3 := by
      simp [FaucetSentry.sendFromWallet, hinfo, hop, hraw]
    obtain ⟨evs, hevs, url, hurl⟩ := generateWork_trace E info.frontier
      (FaucetSentry.log "info" "Generating proof of work for send..." w1)
    have hmem : amountRaw ≤ info.balance → ∃ evs url,
        (FaucetSentry.sendFromWallet E L fromWallet toAddress amountNano w).2.trace
          = w1.trace ++ evs ∧ Event.workGenerate url info.frontier ∈ evs := by
      intro hle
      rw [hsend, if_neg (by omega)]
      split
      · next e w3 h =>
        have hw3 : w3 = (FaucetSentry.generateWork E info.frontier
          (FaucetSentry.log "info" "Generating proof of work for send..." w1)).2 := by rw [h]
        refine ⟨Event.log "faucet-log" "info" "Generating proof of work for send..." :: evs,
          url, ?_, List.mem_cons_of_mem _ hurl⟩
        show w3.trace = _
        rw [hw3, hevs, log_trace]
        simp
      · next work w3 h =>
        have hw3 : w3 = (FaucetSentry.generateWork E info.frontier
          (FaucetSentry.log "info" "Generating proof of work for send..." w1)).2 := by rw [h]
        refine ⟨Event.log "faucet-log" "info" "Generating proof of work for send..." ::
          (evs ++ [Event.process (blockSend info.balance fromWallet.address toAddress
            (orFallback info.representative) info.frontier amountRaw work
            fromWallet.privateKey)]), url, ?_,
          List.mem_cons_of_mem _ (List.mem_append_left _ hurl)⟩
        rw [processBlock_trace, hw3, hevs, log_trace]
        simp
    refine ⟨⟨?_, ?_⟩, hmem⟩
    · intro heq
      by_contra hle
      obtain ⟨evs2, url2, htr, hin⟩ := hmem (by omega)
      rw [heq] at htr
      have hnil : evs2 = [] := by
        have := congrArg List.length htr
        simp at this
        exact this
      rw [hnil] at hin
      exact absurd hin (List.not_mem_nil _)
    · intro hgt
      rw [hsend, if_pos hgt]

theorem sendFromWallet_guards_witness :
    FaucetSentry.sendFromWallet Script.env tallyLib demoWallet "nano_dest" "IIII" demoSendWorld
      = (.error "Insufficient balance",
          (FaucetSentry.getAccountInfo Script.env tallyLib demoWallet.address demoSendWorld).2) :=
  ((sendFromWallet_guards Script.env tallyLib demoWallet "nano_dest" "IIII" demoSendWorld _
    { opened := true, balance := 3, balanceNano := some "III", pending := 0,
      pendingNano := some "0", frontier := "F" } rfl).2.1 rfl 4 rfl).1.2 (by decide)

/-! ## C2: a failed send leaves the ledger untouched -/

theorem getAccountInfo_value (E : Env σ) (L : Lib) (address : String) (w w' : World σ)
    (h : w.node = w'.node) :
    (FaucetSentry.getAccountInfo E L address w).1
      = (FaucetSentry.getAccountInfo E L address w').1 := by
  unfold FaucetSentry.getAccountInfo fetchAccountInfo
  rw [h]
  dsimp only
  rcases E.accountInfo RPC_URL address w'.node with ⟨r, s'⟩
  cases r with
  | error e => rfl
  | ok response =>
    dsimp only
    cases response.json with
    | error e => rfl
    | ok data =>
      dsimp only
      split
      · rfl
      · split <;> rfl

theorem ledger_accountInfo_node (url account : String) (s : Ledger) :
    (Ledger.env.accountInfo url account s).2 = s := by
  unfold Ledger.env
  dsimp only
  split <;> rfl

theorem ledger_getAccountInfo_node (L : Lib) (address : String) (w : World Ledger) :
    (FaucetSentry.getAccountInfo Ledger.env L address w).2.node = w.node := by
  rw [getAccountInfo_world]
  exact ledger_accountInfo_node _ _ _

theorem ledger_fetchWork (url hash : String) (w : World Ledger) :
    fetchWork Ledger.env url hash w
      = (.ok { json := .ok { work := some ("work:" ++ hash) } },
          emit (.workGenerate url hash) w) := rfl

theorem ledger_generateWork_node (hash : String) (w : World Ledger) :
    (FaucetSentry.generateWork Ledger.env hash w).2.node = w.node := by
  unfold FaucetSentry.generateWork
  split
  · rw [ledger_fetchWork]
    dsimp only
    split
    · rfl
    · rw [generateWorkPublic_world]; rfl
  · rw [generateWorkPublic_world]; rfl

theorem ledger_processBlock_error (b : Block) (w : World Ledger) (e : String)
    (h : (FaucetSentry.processBlock Ledger.env b w).1 = .error e) :
    (FaucetSentry.processBlock Ledger.env b w).2.node = w.node := by
  rw [processBlock_world]
  unfold FaucetSentry.processBlock fetchProcess at h
  unfold fetchProcess
  dsimp only [Ledger.env, emit] at h ⊢
  cases hr : w.node.rejects b with
  | some m => simp [hr]
  | none => simp [hr, truthyOpt] at h

theorem ledger_processBlock_rejected (b : Block) (w : World Ledger) (message : String)
    (hm : truthy message = true) (h : w.node.rejects b = some message) :
    (FaucetSentry.processBlock Ledger.env b w).1 = .error message := by
  simp [FaucetSentry.processBlock, fetchProcess, Ledger.env, emit, h, truthyOpt, hm]

theorem ledger_sendFromWallet_error (L : Lib) (fromWallet : WalletData)
    (toAddress amountNano : String) (w : World Ledger) (e : String)
    (h : (FaucetSentry.sendFromWallet Ledger.env L fromWallet toAddress amountNano w).1
      = .error e) :
    (FaucetSentry.sendFromWallet Ledger.env L fromWallet toAddress amountNano w).2.node
      = w.node := by
  have hinfo := ledger_getAccountInfo_node L fromWallet.address w
  unfold FaucetSentry.sendFromWallet at h ⊢
  split
  · next e1 w1 h1 => rw [h1] at hinfo; exact hinfo
  · next info w1 h1 =>
    rw [h1] at hinfo h
    dsimp only at hinfo h ⊢
    split
    · exact hinfo
    · next hop =>
      rw [if_neg hop] at h
      split
      · exact hinfo
      · next amountRaw hraw =>
        rw [hraw] at h
        dsimp only at h
        split
        · exact hinfo
        · next hle =>
          rw [if_neg hle] at h
          have hwork := ledger_generateWork_node info.frontier
            (FaucetSentry.log "info" "Generating proof of work for send..." w1)
          split
          · next e3 w3 h3 =>
            rw [h3] at hwork
            exact hwork.trans hinfo
          · next work w3 h3 =>
            rw [h3] at hwork h
            dsimp only at h
            rw [ledger_processBlock_error _ _ e h]
            exact hwork.trans hinfo

theorem ledger_sendFromWallet_rejected (L : Lib) (fromWallet : WalletData)
    (toAddress amountNano : String) (w : World Ledger) (message : String)
    (hm : truthy message = true) (hrej : ∀ b, w.node.rejects b = some message) :
    ∃ e, (FaucetSentry.sendFromWallet Ledger.env L fromWallet toAddress amountNano w).1
      = .error e := by
  have hinfo := ledger_getAccountInfo_node L fromWallet.address w
  unfold FaucetSentry.sendFromWallet
  split
  · next e1 w1 h1 => exact ⟨e1, rfl⟩
  · next info w1 h1 =>
    rw [h1] at hinfo
    dsimp only at hinfo ⊢
    split
    · exact ⟨_, rfl⟩
    · split
      · exact ⟨_, rfl⟩
      · split
        · exact ⟨_, rfl⟩
        · have hwork := ledger_generateWork_node info.frontier
            (FaucetSentry.log "info" "Generating proof of work for send..." w1)
          split
          · exact ⟨_, rfl⟩
          · next work w3 h3 =>
            rw [h3] at hwork
            refine ⟨message, ledger_processBlock_rejected _ _ _ hm ?_⟩
            rw [hwork.trans hinfo]
            exact hrej _

theorem nw_getAccountInfoBody_value (E : Env σ) (L : Lib) (address : String)
    (w w' : World σ) (h : w.node = w'.node) :
    (NanoWalletManager.getAccountInfoBody E L address w).1
      = (NanoWalletManager.getAccountInfoBody E L address w').1 := by
  unfold NanoWalletManager.getAccountInfoBody fetchAccountInfo
  rw [h]
  dsimp only
  split
  · rfl
  · rcases E.accountInfo RPC_URL address w'.node with ⟨r, s'⟩
    cases r with
    | error e => rfl
    | ok response =>
      dsimp only
      split
      · rfl
      · cases response.json with
        | error e => rfl
        | ok data =>
          dsimp only
          split
          · rfl
          · split <;> rfl

theorem nw_getAccountInfo_fst (E : Env σ) (L : Lib) (address : String) (w : World σ) :
    (NanoWalletManager.getAccountInfo E L address w).1
      = (NanoWalletManager.getAccountInfoBody E L address w).1 := by
  unfold NanoWalletManager.getAccountInfo
  split
  · next info w1 h => rw [h]
  · next m w1 h => rw [h]

theorem nw_getAccountInfo_node (E : Env σ) (L : Lib) (address : String) (w : World σ) :
    (NanoWalletManager.getAccountInfo E L address w).2.node
      = (NanoWalletManager.getAccountInfoBody E L address w).2.node := by
  unfold NanoWalletManager.getAccountInfo
  split
  · next info w1 h => rw [h]
  · next m w1 h => rw [h]; rfl

theorem nw_getAccountInfo_value (E : Env σ) (L : Lib) (address : String) (w w' : World σ)
    (h : w.node = w'.node) :
    (NanoWalletManager.getAccountInfo E L address w).1
      = (NanoWalletManager.getAccountInfo E L address w').1 := by
  rw [nw_getAccountInfo_fst, nw_getAccountInfo_fst]
  exact nw_getAccountInfoBody_value E L address w w' h

theorem ledger_nw_getAccountInfo_node (L : Lib) (address : String) (w : World Ledger) :
    (NanoWalletManager.getAccountInfo Ledger.env L address w).2.node = w.node := by
  rw [nw_getAccountInfo_node]
  unfold NanoWalletManager.getAccountInfoBody
  split
  · rfl
  · have hn : (fetchAccountInfo Ledger.env RPC_URL address w).2.node = w.node :=
      ledger_accountInfo_node RPC_URL address w.node
    split
    · next e w1 h => rw [h] at hn; exact hn
    · next r w1 h =>
      rw [h] at hn
      split
      · exact hn
      · split
        · exact hn
        · split
          · exact hn
          · split <;> exact hn

theorem nw_generateWorkPublic_world (E : Env σ) (hash : String) (w : World σ) :
    (NanoWalletManager.generateWorkPublic E hash w).2 = (fetchWork E POW_RPC_URL hash w).2 := by
  unfold NanoWalletManager.generateWorkPublic
  split
  · next e w1 h => rw [h]
  · next r w1 h =>
    have hw : w1 = (fetchWork E POW_RPC_URL hash w).2 := by rw [h]
    subst hw
    split
    · rfl
    · split
      · rfl
      · split <;> rfl

theorem ledger_nw_generateWork_node (hash : String) (w : World Ledger) :
    (NanoWalletManager.generateWork Ledger.env hash w).2.node = w.node := by
  unfold NanoWalletManager.generateWork
  split
  · rw [ledger_fetchWork]
    dsimp only
    split
    · rfl
    · rw [nw_generateWorkPublic_world]; rfl
  · rw [nw_generateWorkPublic_world]; rfl

theorem ledger_nw_processBlock_error (b : Block) (w : World Ledger) (e : String)
    (h : (NanoWalletManager.processBlock Ledger.env b w).1 = .error e) :
    (NanoWalletManager.processBlock Ledger.env b w).2.node = w.node := by
  unfold NanoWalletManager.processBlock fetchProcess at h ⊢
  dsimp only [Ledger.env, emit] at h ⊢
  cases hr : w.node.rejects b with
  | some m =>
    simp only [hr]
    split
    · rfl
    · split <;> rfl
  | none => simp [hr, truthyOpt] at h

theorem ledger_nw_processBlock_rejected (b : Block) (w : World Ledger) (message : String)
    (hm : truthy message = true) (h : w.node.rejects b = some message) :
    (NanoWalletManager.processBlock Ledger.env b w).1 = .error message := by
  simp [NanoWalletManager.processBlock, fetchProcess, Ledger.env, emit, h, truthyOpt, hm]

theorem ledger_sendNanoBody_error (L : Lib) (walletName toAddress amountNano : String)
    (w : World Ledger) (e : String)
    (h : (NanoWalletManager.sendNanoBody Ledger.env L walletName toAddress amountNano w).1
      = .error e) :
    (NanoWalletManager.sendNanoBody Ledger.env L walletName toAddress amountNano w).2.node
      = w.node := by
  unfold NanoWalletManager.sendNanoBody at h ⊢
  split
  · rfl
  · next hv =>
    rw [if_neg hv] at h
    split
    · rfl
    · next ha =>
      rw [if_neg ha] at h
      split
      · rfl
      · next stored hs =>
        rw [hs] at h
        dsimp only at h ⊢
        split
        · rfl
        · next account rest hacc =>
          rw [hacc] at h
          dsimp only at h ⊢
          have hinfo := ledger_nw_getAccountInfo_node L account.address
            (NanoWalletManager.log "info" ("Preparing to send " ++ amountNano ++ " NANO") w)
          split
          · next e1 w1 h1 => rw [h1] at hinfo; exact hinfo
          · next info w1 h1 =>
            rw [h1] at hinfo h
            dsimp only at hinfo h ⊢
            split
            · exact hinfo
            · next hop =>
              rw [if_neg hop] at h
              split
              · exact hinfo
              · next amountRaw hraw =>
                rw [hraw] at h
                dsimp only at h
                split
                · exact hinfo
                · next hle =>
                  rw [if_neg hle] at h
                  have hwork := ledger_nw_generateWork_node info.frontier
                    (NanoWalletManager.log "info" "Generating proof of work..." w1)
                  split
                  · next e3 w3 h3 =>
                    rw [h3] at hwork
                    exact hwork.trans hinfo
                  · next work w3 h3 =>
                    rw [h3] at hwork h
                    dsimp only at h ⊢
                    split
                    · next e5 w5 h5 =>
                      have hp := ledger_nw_processBlock_error _ _ e5 (by rw [h5])
                      rw [h5] at hp
                      exact hp.trans (hwork.trans hinfo)
                    · next hash w5 h5 =>
                      rw [h5] at h
                      cases h

theorem ledger_sendNanoBody_rejected (L : Lib) (walletName toAddress amountNano : String)
    (w : World Ledger) (message : String)
    (hm : truthy message = true) (hrej : ∀ b, w.node.rejects b = some message) :
    ∃ e, (NanoWalletManager.sendNanoBody Ledger.env L walletName toAddress amountNano w).1
      = .error e := by
  unfold NanoWalletManager.sendNanoBody
  split
  · exact ⟨_, rfl⟩
  · split
    · exact ⟨_, rfl⟩
    · split
      · exact ⟨_, rfl⟩
      · split
        · exact ⟨_, rfl⟩
        · next account rest hacc =>
          dsimp only
          have hinfo := ledger_nw_getAccountInfo_node L account.address
            (NanoWalletManager.log "info" ("Preparing to send " ++ amountNano ++ " NANO") w)
          split
          · exact ⟨_, rfl⟩
          · next info w1 h1 =>
            rw [h1] at hinfo
            dsimp only at hinfo ⊢
            split
            · exact ⟨_, rfl⟩
            · split
              · exact ⟨_, rfl⟩
              · split
                · exact ⟨_, rfl⟩
                · have hwork := ledger_nw_generateWork_node info.frontier
                    (NanoWalletManager.log "info" "Generating proof of work..." w1)
                  split
                  · exact ⟨_, rfl⟩
                  · next work w3 h3 =>
                    rw [h3] at hwork
                    split
                    · exact ⟨_, rfl⟩
                    · next hash w5 h5 =>
                      have hnode : (NanoWalletManager.log "info" "Broadcasting transaction..."
                          w3).node = w.node := hwork.trans hinfo
                      have hp := fun b => ledger_nw_processBlock_rejected b
                        (NanoWalletManager.log "info" "Broadcasting transaction..." w3) message hm
                        (by rw [hnode]; exact hrej b)
                      have h6 := congrArg Prod.fst h5
                      rw [hp] at h6
                      cases h6

theorem sendNano_cases (E : Env σ) (L : Lib) (walletName toAddress amountNano : String)
    (w : World σ) :
    (∃ hash w1, NanoWalletManager.sendNanoBody E L walletName toAddress amountNano w
        = (.ok hash, w1) ∧
      NanoWalletManager.sendNano E L walletName toAddress amountNano w
        = ({ success := true, hash := hash, amount := some amountNano }, w1)) ∨
    (∃ message w1, NanoWalletManager.sendNanoBody E L walletName toAddress amountNano w
        = (.error message, w1) ∧
      NanoWalletManager.sendNano E L walletName toAddress amountNano w
        = ({ success := false, error := some message },
            NanoWalletManager.log "error" ("Send failed: " ++ message) w1)) := by
  unfold NanoWalletManager.sendNano
  split
  · next hash w1 h => exact Or.inl ⟨hash, w1, h, rfl⟩
  · next message w1 h => exact Or.inr ⟨message, w1, h, rfl⟩

/-- C2: over the mock ledger, (1) when the node rejects the broadcast, `sendFromWallet`
raises and `sendNano` returns `success: false`; (2) whenever `sendFromWallet` raises, a
following `getAccountInfo` of any account reports what it reported before the send, and
whenever `sendNano` returns `success: false` it carries no hash and a following
`getAccountInfo` reports what it reported before; (3) hence a changed account state is
observable only after the send succeeded. -/
theorem rejected_send_no_partial_debit (L : Lib) (fromWallet : WalletData)
    (walletName toAddress amountNano : String) (w : World Ledger) :
    (∀ message, truthy message = true → (∀ b, w.node.rejects b = some message) →
      (∃ e, (FaucetSentry.sendFromWallet Ledger.env L fromWallet toAddress amountNano w).1
        = .error e) ∧
      (NanoWalletManager.sendNano Ledger.env L walletName toAddress amountNano w).1.success
        = false) ∧
    (∀ e, (FaucetSentry.sendFromWallet Ledger.env L fromWallet toAddress amountNano w).1
        = .error e →
      ∀ a, (FaucetSentry.getAccountInfo Ledger.env L a
          (FaucetSentry.sendFromWallet Ledger.env L fromWallet toAddress amountNano w).2).1
        = (FaucetSentry.getAccountInfo Ledger.env L a w).1) ∧
    ((NanoWalletManager.sendNano Ledger.env L walletName toAddress amountNano w).1.success
        = false →
      (NanoWalletManager.sendNano Ledger.env L walletName toAddress amountNano w).1.hash = none ∧
      ∀ a, (NanoWalletManager.getAccountInfo Ledger.env L a
          (NanoWalletManager.sendNano Ledger.env L walletName toAddress amountNano w).2).1
        = (NanoWalletManager.getAccountInfo Ledger.env L a w).1) ∧
    (∀ a, (FaucetSentry.getAccountInfo Ledger.env L a
          (FaucetSentry.sendFromWallet Ledger.env L fromWallet toAddress amountNano w).2).1
        ≠ (FaucetSentry.getAccountInfo Ledger.env L a w).1 →
      ∃ hash, (FaucetSentry.sendFromWallet Ledger.env L fromWallet toAddress amountNano w).1
        = .ok hash) := by
  have hfail : ∀ e, (FaucetSentry.sendFromWallet Ledger.env L fromWallet toAddress
      amountNano w).1 = .error e →
      ∀ a, (FaucetSentry.getAccountInfo Ledger.env L a
          (FaucetSentry.sendFromWallet Ledger.env L fromWallet toAddress amountNano w).2).1
        = (FaucetSentry.getAccountInfo Ledger.env L a w).1 := fun e he a =>
    getAccountInfo_value _ _ _ _ _ (ledger_sendFromWallet_error L fromWallet toAddress
      amountNano w e he)
  refine ⟨?_, hfail, ?_, ?_⟩
  · intro message hm hrej
    refine ⟨ledger_sendFromWallet_rejected L fromWallet toAddress amountNano w message hm hrej,
      ?_⟩
    obtain ⟨e, he⟩ := ledger_sendNanoBody_rejected L walletName toAddress amountNano w
      message hm hrej
    rcases sendNano_cases Ledger.env L walletName toAddress amountNano w with
      ⟨hash, w1, hb, _⟩ | ⟨m, w1, _, hs⟩
    · rw [hb] at he; cases he
    · rw [hs]
  · intro hs
    rcases sendNano_cases Ledger.env L walletName toAddress amountNano w with
      ⟨hash, w1, _, hr⟩ | ⟨m, w1, hb, hr⟩
    · rw [hr] at hs; cases hs
    · rw [hr]
      refine ⟨rfl, fun a => nw_getAccountInfo_value _ _ _ _ _ ?_⟩
      have := ledger_sendNanoBody_error L walletName toAddress amountNano w m (by rw [hb])
      rw [hb] at this
      exact this
  · intro a hne
    cases hres : (FaucetSentry.sendFromWallet Ledger.env L fromWallet toAddress amountNano w).1
      with
    | ok hash => exact ⟨hash, rfl⟩
    | error e => exact absurd (hfail e hres a) hne

theorem rejected_send_no_partial_debit_witness :
    (∃ e, (FaucetSentry.sendFromWallet Ledger.env tallyLib demoWallet "nano_dest" "III"
        demoRejectingLedger).1 = .error e) ∧
    (NanoWalletManager.sendNano Ledger.env tallyLib "bank" "nano_dest" "III"
        demoRejectingLedger).1.success = false :=
  (rejected_send_no_partial_debit tallyLib demoWallet "bank" "nano_dest" "III"
    demoRejectingLedger).1 "Fork" (by decide) (fun _ => rfl)

/-! ## C3: `receiveAllPending` attempts every pending block, in order -/

theorem getPendingBlocksLoop_ok (E : Env σ) (L : Lib) (address : String) (urls : List String) :
    ∀ (lastError : Option String) (w : World σ),
      ∃ pending, (FaucetSentry.getPendingBlocksLoop E L address urls lastError w).1
        = .ok pending := by
  induction urls with
  | nil =>
    intro lastError w
    unfold FaucetSentry.getPendingBlocksLoop
    split
    · split <;> exact ⟨[], rfl⟩
    · exact ⟨[], rfl⟩
  | cons url rest ih =>
    intro lastError w
    unfold FaucetSentry.getPendingBlocksLoop
    split
    · exact ih _ _
    · split
      · exact ih _ _
      · split
        · exact ih _ _
        · dsimp only
          split
          · exact ⟨_, rfl⟩
          · exact ih _ _

theorem getPendingBlocks_ok (E : Env σ) (L : Lib) (address : String) (w : World σ) :
    ∃ pending w1, FaucetSentry.getPendingBlocks E L address w = (.ok pending, w1) := by
  obtain ⟨pending, h⟩ := getPendingBlocksLoop_ok E L address RPC_FALLBACK_URLS none w
  exact ⟨pending, (FaucetSentry.getPendingBlocks E L address w).2, Prod.ext h rfl⟩

theorem receiveToWallet_trace (E : Env σ) (L : Lib) (toWallet : WalletData)
    (pendingHash : String) (amountRaw : Nat) (w : World σ) :
    ∃ mid, (FaucetSentry.receiveToWallet E L toWallet pendingHash amountRaw w).2.trace
        = w.trace ++ Event.accountInfo RPC_URL toWallet.address :: mid ∧
      (∀ hash, (FaucetSentry.receiveToWallet E L toWallet pendingHash amountRaw w).1 = .ok hash →
        ∃ b, Event.process b ∈ mid ∧ b.link = pendingHash) := by
  have hinfo := getAccountInfo_trace E L toWallet.address w
  unfold FaucetSentry.receiveToWallet
  split
  · next e w1 h1 =>
    rw [h1] at hinfo
    exact ⟨[], hinfo, fun hash h => by cases h⟩
  · next info w1 h1 =>
    rw [h1] at hinfo
    dsimp only at hinfo ⊢
    obtain ⟨evs, hevs, -⟩ := generateWork_trace E
      (if info.opened = true then info.frontier else toWallet.publicKey)
      (FaucetSentry.log "info" "Generating proof of work for receive..." w1)
    split
    · next e w3 h3 =>
      rw [h3] at hevs
      refine ⟨Event.log "faucet-log" "info" "Generating proof of work for receive..." :: evs,
        ?_, fun hash h => by cases h⟩
      show w3.trace = _
      rw [hevs, log_trace, hinfo]
      simp
    · next work w3 h3 =>
      rw [h3] at hevs
      refine ⟨Event.log "faucet-log" "info" "Generating proof of work for receive..." ::
        (evs ++ [Event.process (blockReceive info.balance toWallet.address
          (orFallback info.representative) info.frontier pendingHash amountRaw work
          toWallet.privateKey)]), ?_, fun hash _ => ⟨blockReceive info.balance toWallet.address
          (orFallback info.representative) info.frontier pendingHash amountRaw work
          toWallet.privateKey, by simp, rfl⟩⟩
      rw [processBlock_trace, hevs, log_trace, hinfo]
      simp

theorem receiveLoop_trace (E : Env σ) (L : Lib) (walletData : WalletData)
    (pending : List PendingBlock) :
    ∀ (totalReceived : Nat) (w : World σ), ∃ segs,
      (FaucetSentry.receiveLoop E L walletData pending totalReceived w).2.trace
        = w.trace ++ segs.flatten ∧
      List.Forall₂ (ReceiveAttempt walletData) pending segs := by
  induction pending with
  | nil =>
    intro totalReceived w
    exact ⟨[], by simp [FaucetSentry.receiveLoop], List.Forall₂.nil⟩
  | cons p rest ih =>
    intro totalReceived w
    obtain ⟨mid, hmid, hok⟩ := receiveToWallet_trace E L walletData p.hash p.amount w
    unfold FaucetSentry.receiveLoop
    split
    · next hash w1 h1 =>
      rw [h1] at hmid hok
      obtain ⟨segs, hsegs, hall⟩ := ih (totalReceived + p.amount)
        (FaucetSentry.log "success" ("Received " ++ p.amountNano ++ " NANO") w1)
      refine ⟨(Event.accountInfo RPC_URL walletData.address :: mid ++
        [Event.log "faucet-log" "success" ("Received " ++ p.amountNano ++ " NANO")]) :: segs,
        ?_, List.Forall₂.cons ⟨mid, Or.inl ⟨rfl, hok hash rfl⟩⟩ hall⟩
      rw [hsegs, log_trace]
      dsimp only at hmid
      rw [hmid]
      simp
    · next message w1 h1 =>
      rw [h1] at hmid
      obtain ⟨segs, hsegs, hall⟩ := ih totalReceived
        (FaucetSentry.log "error" ("Failed to receive: " ++ message) w1)
      refine ⟨(Event.accountInfo RPC_URL walletData.address :: mid ++
        [Event.log "faucet-log" "error" ("Failed to receive: " ++ message)]) :: segs,
        ?_, List.Forall₂.cons ⟨mid, Or.inr ⟨message, rfl⟩⟩ hall⟩
      rw [hsegs, log_trace]
      dsimp only at hmid
      rw [hmid]
      simp

/-- C3: `receiveAllPending` never raises, and its trace after the pending query is one
segment per pending block, in the order the RPC returned them: each segment starts with a
fresh `account_info` request (issued after the previous segment has ended) and ends with
the logged outcome of that block, success or failure; a failure is followed by the
segments of all remaining blocks. -/
theorem receiveAllPending_attempts_every_block (E : Env σ) (L : Lib) (walletData : WalletData)
    (w : World σ) :
    ∃ pending w1 segs result,
      FaucetSentry.getPendingBlocks E L walletData.address w = (.ok pending, w1) ∧
      (FaucetSentry.receiveAllPending E L walletData w).1 = .ok result ∧
      (FaucetSentry.receiveAllPending E L walletData w).2.trace = w1.trace ++ segs.flatten ∧
      List.Forall₂ (ReceiveAttempt walletData) pending segs := by
  obtain ⟨pending, w1, hp⟩ := getPendingBlocks_ok E L walletData.address w
  unfold FaucetSentry.receiveAllPending
  rw [hp]
  dsimp only
  split
  · next h0 =>
    have : pending = [] := List.length_eq_zero.mp h0
    subst this
    exact ⟨[], w1, [], _, rfl, rfl, by simp, List.Forall₂.nil⟩
  · obtain ⟨segs, hsegs, hall⟩ := receiveLoop_trace E L walletData pending 0 w1
    exact ⟨pending, w1, segs, _, rfl, rfl, hsegs, hall⟩

/-! ## C4: what `receiveAllPending` reports -/

/-- C4 (the code at the failing input): with one pending block whose receive is rejected
by the node, `receiveAllPending` reports `received: 1` although nothing was received
(the total is 0 and the only outcome logged is the failure). -/
theorem receiveAllPending_counts_failed_receive :
    (FaucetSentry.receiveAllPending Script.env tallyLib demoWallet
        demoRejectedReceiveWorld).1 = .ok { received := 1, total := "0" } ∧
    ((FaucetSentry.receiveAllPending Script.env tallyLib demoWallet
        demoRejectedReceiveWorld).2.trace.filter
          (fun e => match e with
            | .log _ level _ => level == "success" || level == "error"
            | _ => false))
      = [Event.log "faucet-log" "error" "Failed to receive: Fork"] := by
  constructor <;> rfl

/-! ## C5: `receiveAllPending` over the mock ledger -/

theorem broadcastLinks_append (xs ys : List Event) :
    broadcastLinks (xs ++ ys) = broadcastLinks xs ++ broadcastLinks ys := by
  induction xs with
  | nil => rfl
  | cons e rest ih => cases e <;> simp [broadcastLinks, ih]

theorem ledger_getPendingBlocks (L : Lib) (address : String) (w : World Ledger) :
    FaucetSentry.getPendingBlocks Ledger.env L address w
      = (.ok (((w.node.receivable address).take 10).map (toPendingBlock L)),
          emit (.pending RPC_URL address 10) w) := by
  unfold FaucetSentry.getPendingBlocks RPC_FALLBACK_URLS FaucetSentry.getPendingBlocksLoop
  have hf : fetchPending Ledger.env "http://157.230.168.241:7076" address 10 w
      = (.ok { json := .ok { blocks := some ((w.node.receivable address).take 10) } },
          emit (.pending RPC_URL address 10) w) := rfl
  rw [hf]
  dsimp only
  rw [if_neg (by simp [truthyOpt])]
  split
  · rfl
  · next hlen =>
    have hnil : List.map (toPendingBlock L)
        ((some (List.take 10 (w.node.receivable address))).getD []) = [] := by
      apply List.eq_nil_of_length_eq_zero
      omega
    unfold FaucetSentry.getPendingBlocksLoop
    dsimp only
    have : List.map (toPendingBlock L) (List.take 10 (w.node.receivable address)) = [] := hnil
    rw [this]

theorem generateWork_links (E : Env σ) (hash : String) (w : World σ) :
    broadcastLinks (FaucetSentry.generateWork E hash w).2.trace = broadcastLinks w.trace := by
  unfold FaucetSentry.generateWork
  split
  · split
    · next e w1 h =>
      have hw : w1 = (fetchWork E (w.gpuWorkerUrl.getD "") hash w).2 := by rw [h]
      subst hw
      rw [generateWorkPublic_trace, log_trace, fetchWork_trace]
      simp [broadcastLinks_append, broadcastLinks]
    · next r w1 h =>
      have hw : w1 = (fetchWork E (w.gpuWorkerUrl.getD "") hash w).2 := by rw [h]
      subst hw
      split
      · rw [generateWorkPublic_trace, log_trace, fetchWork_trace]
        simp [broadcastLinks_append, broadcastLinks]
      · split
        · rw [log_trace, fetchWork_trace]
          simp [broadcastLinks_append, broadcastLinks]
        · rw [generateWorkPublic_trace, fetchWork_trace]
          simp [broadcastLinks_append, broadcastLinks]
  · rw [generateWorkPublic_trace]
    simp [broadcastLinks_append, broadcastLinks]

theorem ledger_generateWorkPublic_ok (hash : String) (w : World Ledger) :
    ∃ work, (FaucetSentry.generateWorkPublic Ledger.env hash w).1 = .ok work := by
  unfold FaucetSentry.generateWorkPublic
  rw [ledger_fetchWork]
  exact ⟨some ("work:" ++ hash), by simp [truthyOpt]⟩

theorem ledger_generateWork_ok (hash : String) (w : World Ledger) :
    ∃ work, (FaucetSentry.generateWork Ledger.env hash w).1 = .ok work := by
  unfold FaucetSentry.generateWork
  split
  · rw [ledger_fetchWork]
    dsimp only
    split
    · exact ⟨_, rfl⟩
    · exact ledger_generateWorkPublic_ok _ _
  · exact ledger_generateWorkPublic_ok _ _

theorem ledger_getAccountInfo_balance (L : Lib) (address : String) (w : World Ledger) :
    ∃ info, (FaucetSentry.getAccountInfo Ledger.env L address w).1 = .ok info
      ∧ info.balance = w.node.balanceOf address := by
  unfold FaucetSentry.getAccountInfo fetchAccountInfo Ledger.balanceOf
  dsimp only [Ledger.env]
  cases h : w.node.accounts address with
  | none => exact ⟨AccountInfo.unopened, by simp, rfl⟩
  | some a =>
    simp only [truthyOpt, reduceCtorEq, ↓reduceIte]
    exact ⟨_, rfl, rfl⟩

theorem ledger_processBlock_accepted (b : Block) (w : World Ledger)
    (h : w.node.rejects b = none) :
    (FaucetSentry.processBlock Ledger.env b w).1 = .ok (some (w.node.hashOf b)) ∧
    (FaucetSentry.processBlock Ledger.env b w).2.node = w.node.apply b := by
  simp [FaucetSentry.processBlock, fetchProcess, Ledger.env, emit, h, truthyOpt]

theorem ledger_receiveToWallet (L : Lib) (toWallet : WalletData) (pendingHash : String)
    (amountRaw : Nat) (w : World Ledger) (hrej : ∀ b, w.node.rejects b = none) :
    ∃ b hash, (FaucetSentry.receiveToWallet Ledger.env L toWallet pendingHash amountRaw w).1
        = .ok hash ∧
      (FaucetSentry.receiveToWallet Ledger.env L toWallet pendingHash amountRaw w).2.node
        = w.node.apply b ∧
      b.account = toWallet.address ∧ b.link = pendingHash ∧
      b.balance = w.node.balanceOf toWallet.address + amountRaw ∧
      broadcastLinks
          (FaucetSentry.receiveToWallet Ledger.env L toWallet pendingHash amountRaw w).2.trace
        = broadcastLinks w.trace ++ [pendingHash] := by
  obtain ⟨info0, hinfo0, hbal⟩ := ledger_getAccountInfo_balance L toWallet.address w
  have hnode := ledger_getAccountInfo_node L toWallet.address w
  have htr := getAccountInfo_trace Ledger.env L toWallet.address w
  unfold FaucetSentry.receiveToWallet
  split
  · next e w1 h1 => rw [h1] at hinfo0; cases hinfo0
  · next info w1 h1 =>
    rw [h1] at hinfo0 hnode htr
    dsimp only at hnode htr ⊢
    cases hinfo0
    obtain ⟨work0, hwork0⟩ := ledger_generateWork_ok
      (if info0.opened = true then info0.frontier else toWallet.publicKey)
      (FaucetSentry.log "info" "Generating proof of work for receive..." w1)
    have hwnode := ledger_generateWork_node
      (if info0.opened = true then info0.frontier else toWallet.publicKey)
      (FaucetSentry.log "info" "Generating proof of work for receive..." w1)
    have hwlinks := generateWork_links Ledger.env
      (if info0.opened = true then info0.frontier else toWallet.publicKey)
      (FaucetSentry.log "info" "Generating proof of work for receive..." w1)
    split
    · next e w3 h3 => rw [h3] at hwork0; cases hwork0
    · next work w3 h3 =>
      rw [h3] at hwnode hwlinks
      dsimp only at hwnode hwlinks
      have hn3 : w3.node = w.node := hwnode.trans hnode
      obtain ⟨hp1, hp2⟩ := ledger_processBlock_accepted
        (blockReceive info0.balance toWallet.address (orFallback info0.representative)
          info0.frontier pendingHash amountRaw work toWallet.privateKey) w3
        (by rw [hn3]; exact hrej _)
      refine ⟨_, _, hp1, by rw [hp2, hn3], rfl, rfl, ?_, ?_⟩
      · show info0.balance + amountRaw = _
        rw [hbal]
      · rw [processBlock_trace, broadcastLinks_append, hwlinks, log_trace,
          broadcastLinks_append, htr, broadcastLinks_append]
        simp [broadcastLinks, blockReceive]

theorem ledger_apply_receive (s : Ledger) (b : Block) (amountRaw : Nat)
    (hb : b.balance = s.balanceOf b.account + amountRaw) :
    (s.apply b).balanceOf b.account = b.balance ∧
    (s.apply b).receivable b.account
      = (s.receivable b.account).filter (fun p => p.hash != b.link) ∧
    (s.apply b).rejects = s.rejects := by
  have hnot : ¬ b.balance < ((s.accounts b.account).map (·.balance)).getD 0 := by
    unfold Ledger.balanceOf at hb
    omega
  refine ⟨?_, ?_, rfl⟩
  · simp [Ledger.apply, Ledger.balanceOf, setAt]
  · simp only [Ledger.apply, if_neg hnot, setAt, if_true]

theorem ledger_receiveLoop (L : Lib) (walletData : WalletData) (pending : List PendingBlock) :
    ∀ (totalReceived : Nat) (w : World Ledger), (∀ b, w.node.rejects b = none) →
      (FaucetSentry.receiveLoop Ledger.env L walletData pending totalReceived w).1
        = totalReceived + (pending.map (·.amount)).sum ∧
      (FaucetSentry.receiveLoop Ledger.env L walletData pending totalReceived w).2.node.balanceOf
          walletData.address
        = w.node.balanceOf walletData.address + (pending.map (·.amount)).sum ∧
      (FaucetSentry.receiveLoop Ledger.env L walletData pending totalReceived w).2.node.receivable
          walletData.address
        = (w.node.receivable walletData.address).filter
            (fun e => !(pending.map (·.hash)).contains e.hash) ∧
      broadcastLinks
          (FaucetSentry.receiveLoop Ledger.env L walletData pending totalReceived w).2.trace
        = broadcastLinks w.trace ++ pending.map (·.hash) := by
  induction pending with
  | nil =>
    intro totalReceived w _
    simp [FaucetSentry.receiveLoop]
  | cons p rest ih =>
    intro totalReceived w hrej
    obtain ⟨b, hash, hok, hnode, hacc, hlink, hbal, hlinks⟩ :=
      ledger_receiveToWallet L walletData p.hash p.amount w hrej
    rw [← hacc] at hbal
    obtain ⟨ha1, ha2, ha3⟩ := ledger_apply_receive w.node b p.amount hbal
    rw [hacc] at ha1 ha2 hbal
    unfold FaucetSentry.receiveLoop
    split
    · next hash1 w1 h1 =>
      rw [h1] at hnode hlinks
      dsimp only at hnode hlinks
      have hrej1 : ∀ b', (FaucetSentry.log "success" ("Received " ++ p.amountNano ++ " NANO")
          w1).node.rejects b' = none := by
        intro b'
        show w1.node.rejects b' = none
        rw [hnode, ha3]
        exact hrej b'
      obtain ⟨i1, i2, i3, i4⟩ := ih (totalReceived + p.amount)
        (FaucetSentry.log "success" ("Received " ++ p.amountNano ++ " NANO") w1) hrej1
      have hn : (FaucetSentry.log "success" ("Received " ++ p.amountNano ++ " NANO") w1).node
          = w.node.apply b := hnode
      rw [hn] at i2 i3
      refine ⟨?_, ?_, ?_, ?_⟩
      · rw [i1]; simp; omega
      · rw [i2, ha1, hbal]; simp; omega
      · rw [i3, ha2, List.filter_filter, hlink]
        congr 1
        funext e
        simp only [List.map_cons, List.contains_cons, Bool.not_or, bne, Bool.and_comm]
      · rw [i4, log_trace, broadcastLinks_append, hlinks]
        simp [broadcastLinks]
    · next message w1 h1 =>
      rw [h1] at hok
      cases hok

theorem filter_not_contains_self (l : List PendingJsonEntry) :
    l.filter (fun e => !(l.map (·.hash)).contains e.hash) = [] := by
  rw [List.filter_eq_nil_iff]
  intro e he
  simp only [Bool.not_eq_true', Bool.not_eq_false, List.contains_iff_exists_mem_beq]
  exact ⟨e.hash, List.mem_map_of_mem _ he, by simp⟩

theorem ledger_receiveAllPending (L : Lib) (walletData : WalletData) (w : World Ledger)
    (hrej : ∀ b, w.node.rejects b = none) :
    (FaucetSentry.receiveAllPending Ledger.env L walletData w).2.node.balanceOf
        walletData.address
      = w.node.balanceOf walletData.address
        + (((w.node.receivable walletData.address).take 10).map (·.amount)).sum ∧
    (FaucetSentry.receiveAllPending Ledger.env L walletData w).2.node.receivable
        walletData.address
      = (w.node.receivable walletData.address).filter (fun e =>
          !(((w.node.receivable walletData.address).take 10).map (·.hash)).contains e.hash) ∧
    broadcastLinks (FaucetSentry.receiveAllPending Ledger.env L walletData w).2.trace
      = broadcastLinks w.trace
        ++ ((w.node.receivable walletData.address).take 10).map (·.hash) := by
  unfold FaucetSentry.receiveAllPending
  rw [ledger_getPendingBlocks]
  dsimp only
  split
  · next h0 =>
    have hnil : (w.node.receivable walletData.address).take 10 = [] := by
      have := List.length_eq_zero.mp h0
      simpa using this
    rw [hnil]
    simp [emit, broadcastLinks_append, broadcastLinks]
  · obtain ⟨-, i2, i3, i4⟩ := ledger_receiveLoop L walletData
      (((w.node.receivable walletData.address).take 10).map (toPendingBlock L)) 0
      (emit (.pending RPC_URL walletData.address 10) w) hrej
    have hm1 : List.map (fun x => x.amount)
        (List.map (toPendingBlock L) (List.take 10 (w.node.receivable walletData.address)))
        = List.map (fun x => x.amount) (List.take 10 (w.node.receivable walletData.address)) := by
      simp [List.map_map, Function.comp_def, toPendingBlock]
    have hm2 : List.map (fun x => x.hash)
        (List.map (toPendingBlock L) (List.take 10 (w.node.receivable walletData.address)))
        = List.map (fun x => x.hash) (List.take 10 (w.node.receivable walletData.address)) := by
      simp [List.map_map, Function.comp_def, toPendingBlock]
    rw [hm1] at i2
    rw [hm2] at i3 i4
    refine ⟨i2, i3, ?_⟩
    rw [i4]
    simp [emit, broadcastLinks_append, broadcastLinks]

/-- C5 (amended): over a mock ledger that applies every broadcast block,
`receiveAllPending` on an account holding `old` with pending set {A:5, B:3} leaves the
balance at `old + 8` and the pending set empty, broadcasting the receive of A and then of
B; in general the final balance is the old balance plus the amounts of the pending blocks
returned by the pending query (which asks for at most 10), these are received in the
order returned, and when the account has at most 10 pending blocks the balance grows by
the sum of all of them and the pending set is left empty. -/
theorem receiveAllPending_credits_returned_blocks (L : Lib) (walletData : WalletData) :
    (∀ old : Nat,
      (FaucetSentry.receiveAllPending Ledger.env L walletData
          (ledgerWithPending walletData.address old pendingAB)).2.node.balanceOf
            walletData.address = old + 8 ∧
      (FaucetSentry.receiveAllPending Ledger.env L walletData
          (ledgerWithPending walletData.address old pendingAB)).2.node.receivable
            walletData.address = [] ∧
      broadcastLinks (FaucetSentry.receiveAllPending Ledger.env L walletData
          (ledgerWithPending walletData.address old pendingAB)).2.trace = ["A", "B"]) ∧
    (∀ w : World Ledger, (∀ b, w.node.rejects b = none) →
      (FaucetSentry.receiveAllPending Ledger.env L walletData w).2.node.balanceOf
          walletData.address
        = w.node.balanceOf walletData.address
          + (((w.node.receivable walletData.address).take 10).map (·.amount)).sum ∧
      broadcastLinks (FaucetSentry.receiveAllPending Ledger.env L walletData w).2.trace
        = broadcastLinks w.trace
          ++ ((w.node.receivable walletData.address).take 10).map (·.hash) ∧
      ((w.node.receivable walletData.address).length ≤ 10 →
        (FaucetSentry.receiveAllPending Ledger.env L walletData w).2.node.balanceOf
            walletData.address
          = w.node.balanceOf walletData.address
            + ((w.node.receivable walletData.address).map (·.amount)).sum ∧
        (FaucetSentry.receiveAllPending Ledger.env L walletData w).2.node.receivable
            walletData.address = [])) := by
  have hgen : ∀ w : World Ledger, (∀ b, w.node.rejects b = none) →
      (w.node.receivable walletData.address).length ≤ 10 →
        (FaucetSentry.receiveAllPending Ledger.env L walletData w).2.node.balanceOf
            walletData.address
          = w.node.balanceOf walletData.address
            + ((w.node.receivable walletData.address).map (·.amount)).sum ∧
        (FaucetSentry.receiveAllPending Ledger.env L walletData w).2.node.receivable
            walletData.address = [] ∧
        broadcastLinks (FaucetSentry.receiveAllPending Ledger.env L walletData w).2.trace
          = broadcastLinks w.trace ++ (w.node.receivable walletData.address).map (·.hash) := by
    intro w hrej hlen
    obtain ⟨h1, h2, h3⟩ := ledger_receiveAllPending L walletData w hrej
    rw [List.take_of_length_le hlen] at h1 h2 h3
    exact ⟨h1, h2.trans (filter_not_contains_self _), h3⟩
  refine ⟨?_, ?_⟩
  · intro old
    obtain ⟨h1, h2, h3⟩ := hgen (ledgerWithPending walletData.address old pendingAB)
      (fun _ => rfl) (by simp [ledgerWithPending, pendingAB])
    refine ⟨?_, h2, ?_⟩
    · rw [h1]
      simp [ledgerWithPending, Ledger.balanceOf, pendingAB]
    · rw [h3]
      simp [ledgerWithPending, broadcastLinks, pendingAB]
  · intro w hrej
    obtain ⟨h1, -, h3⟩ := ledger_receiveAllPending L walletData w hrej
    exact ⟨h1, h3, fun hlen => ⟨(hgen w hrej hlen).1, (hgen w hrej hlen).2.1⟩⟩

theorem receiveAllPending_credits_returned_blocks_witness :
    (FaucetSentry.receiveAllPending Ledger.env tallyLib demoWallet
        (ledgerWithPending "nano_claim" 100 pendingAB)).2.node.balanceOf demoWallet.address
      = (ledgerWithPending "nano_claim" 100 pendingAB).node.balanceOf demoWallet.address
        + (((ledgerWithPending "nano_claim" 100 pendingAB).node.receivable
            demoWallet.address).map (·.amount)).sum ∧
    (FaucetSentry.receiveAllPending Ledger.env tallyLib demoWallet
        (ledgerWithPending "nano_claim" 100 pendingAB)).2.node.receivable demoWallet.address
      = [] :=
  ((receiveAllPending_credits_returned_blocks tallyLib demoWallet).2
    (ledgerWithPending "nano_claim" 100 pendingAB) (fun _ => rfl)).2.2 (by decide)

/-- C5 (counterexample): with eleven pending blocks of 1 raw each on a ledger that applies
every block, `receiveAllPending` receives the ten blocks the pending query returns: the
balance grows by 10, not by the sum 11 of all pending amounts, and one block stays
pending. -/
theorem receiveAllPending_leaves_eleventh_block :
    (FaucetSentry.receiveAllPending Ledger.env tallyLib demoWallet
        (ledgerWithPending "nano_claim" 0 pendingEleven)).2.node.balanceOf "nano_claim" = 10 ∧
    0 + ((pendingEleven).map (·.amount)).sum = 11 ∧
    ((FaucetSentry.receiveAllPending Ledger.env tallyLib demoWallet
        (ledgerWithPending "nano_claim" 0 pendingEleven)).2.node.receivable "nano_claim").map
          (·.hash) = ["P10"] := by
  refine ⟨?_, ?_, ?_⟩
  · decide
  · decide
  · decide

/-! ## C7: cancellation and timeout of `waitForPending` -/

/-- C7: at the top of a poll iteration, for every value of the counter and every state:
if the deadline has elapsed the wait fails with the timeout error; otherwise, if the
session is not running or is paused, it fails with 'Session stopped or paused'. In both
cases the state is returned unchanged: no further pending query (nor any other request)
is issued. -/
theorem waitLoop_cancel_or_timeout (E : Env σ) (L : Lib) (address : String)
    (timeout checkInterval startTime fuel consecutiveEmptyChecks : Nat) (w : World σ) :
    (¬ ((E.now w.node : Int) - (startTime : Int) < (timeout : Int)) →
      FaucetSentry.waitLoop E L address timeout checkInterval startTime (fuel + 1)
        consecutiveEmptyChecks w
        = some (.error "Timeout waiting for pending transaction", w)) ∧
    ((E.now w.node : Int) - (startTime : Int) < (timeout : Int) →
      (w.isRunning = false ∨ w.isPaused = true) →
      FaucetSentry.waitLoop E L address timeout checkInterval startTime (fuel + 1)
        consecutiveEmptyChecks w
        = some (.error "Session stopped or paused", w)) := by
  constructor
  · intro h
    unfold FaucetSentry.waitLoop
    rw [if_pos h]
  · intro h hflag
    unfold FaucetSentry.waitLoop
    rw [if_neg (not_not.mpr h), if_pos]
    rcases hflag with h1 | h1 <;> simp [h1]

theorem waitLoop_cancel_or_timeout_witness :
    FaucetSentry.waitLoop Script.env tallyLib "nano_claim" 1800000 1000 1000 (5 + 1) 2
        demoStoppedWorld
      = some (.error "Session stopped or paused", demoStoppedWorld) :=
  (waitLoop_cancel_or_timeout Script.env tallyLib "nano_claim" 1800000 1000 1000 5 2
    demoStoppedWorld).2 (by decide) (Or.inl rfl)

/-! ## C8: the backup check of `waitForPending` -/

theorem getPendingFromAccountInfoLoop_value (E : Env σ) (L : Lib) (address : String)
    (urls : List String) :
    ∀ w : World σ,
      (FaucetSentry.getPendingFromAccountInfoLoop E L address urls w).1 = "0" ∨
      ∃ p, 0 < p ∧ (FaucetSentry.getPendingFromAccountInfoLoop E L address urls w).1
        = L.rawToNano p := by
  induction urls with
  | nil => intro w; exact Or.inl rfl
  | cons url rest ih =>
    intro w
    unfold FaucetSentry.getPendingFromAccountInfoLoop
    split
    · exact ih _
    · split
      · exact ih _
      · split
        · split
          · next p _ hp => exact Or.inr ⟨p, hp, rfl⟩
          · exact ih _
        · exact ih _

theorem waitLoop_empty_poll (E : Env σ) (L : Lib) (address : String)
    (timeout checkInterval startTime fuel c : Nat) (w w1 : World σ)
    (hguard : (E.now w.node : Int) - (startTime : Int) < (timeout : Int))
    (hrun : w.isRunning = true) (hpause : w.isPaused = false)
    (hpoll : FaucetSentry.getPendingBlocks E L address w = (.ok [], w1)) :
    FaucetSentry.waitLoop E L address timeout checkInterval startTime (fuel + 1) c w
      = match FaucetSentry.backupCheck E L address c w1 with
        | (.error e, w2) => some (.error e, w2)
        | (.ok (.found retryPending), w2) => some (.ok retryPending, w2)
        | (.ok (.again count), w2) =>
          FaucetSentry.waitLoop E L address timeout checkInterval startTime fuel count
            (FaucetSentry.waitTick E startTime checkInterval w2) := by
  rw [FaucetSentry.waitLoop]
  rw [if_neg (not_not.mpr hguard), if_neg (by simp [hrun, hpause]), hpoll]
  simp

theorem waitLoop_found (E : Env σ) (L : Lib) (address : String)
    (timeout checkInterval startTime fuel c : Nat) (w w1 : World σ)
    (pending : List PendingBlock)
    (hguard : (E.now w.node : Int) - (startTime : Int) < (timeout : Int))
    (hrun : w.isRunning = true) (hpause : w.isPaused = false)
    (hpoll : FaucetSentry.getPendingBlocks E L address w = (.ok pending, w1))
    (hne : pending ≠ []) :
    FaucetSentry.waitLoop E L address timeout checkInterval startTime (fuel + 1) c w
      = some (.ok pending,
          FaucetSentry.log "success" "Pending transaction detected via RPC!" w1) := by
  rw [FaucetSentry.waitLoop]
  rw [if_neg (not_not.mpr hguard), if_neg (by simp [hrun, hpause]), hpoll]
  simp [List.length_pos.mpr hne]

theorem backupCheck_below (E : Env σ) (L : Lib) (address : String) (c : Nat) (w : World σ)
    (hc : c + 1 < 3) :
    FaucetSentry.backupCheck E L address c w = (.ok (.again (c + 1)), w) := by
  unfold FaucetSentry.backupCheck
  simp only [ge_iff_le]
  rw [if_neg (by omega)]

theorem backupCheck_zero (E : Env σ) (L : Lib) (address : String) (c : Nat) (w : World σ)
    (hc : 3 ≤ c + 1)
    (h0 : (L.parseFloat (FaucetSentry.getPendingFromAccountInfo E L address w).1).gtZero
      = false) :
    FaucetSentry.backupCheck E L address c w
      = (.ok (.again 0), (FaucetSentry.getPendingFromAccountInfo E L address w).2) := by
  unfold FaucetSentry.backupCheck
  simp only [ge_iff_le]
  rw [if_pos hc]
  simp only [h0]
  rfl

theorem backupCheck_retry (E : Env σ) (L : Lib) (address : String) (c : Nat) (w : World σ)
    (blocks : List PendingBlock) (w4 : World σ) (hc : 3 ≤ c + 1)
    (hgt : (L.parseFloat (FaucetSentry.getPendingFromAccountInfo E L address w).1).gtZero
      = true)
    (hretry : FaucetSentry.getPendingBlocks E L address
      (FaucetSentry.delay E 3000 (FaucetSentry.log "info"
        ("Account shows " ++ (FaucetSentry.getPendingFromAccountInfo E L address w).1
          ++ " NANO pending, retrying block fetch...")
        (FaucetSentry.getPendingFromAccountInfo E L address w).2)) = (.ok blocks, w4)) :
    FaucetSentry.backupCheck E L address c w
      = if blocks.length > 0 then (.ok (.found blocks), w4)
        else (.ok (.again 0), FaucetSentry.log "warning"
          ("Pending amount exists but blocks not returned - RPC sync issue, " ++
            "will keep trying...") w4) := by
  unfold FaucetSentry.backupCheck
  simp only [ge_iff_le]
  rw [if_pos hc]
  simp only [hgt, if_true, hretry]

/-- C8: in a poll iteration that passes the guards and whose poll is empty, with `c` the
counter before the iteration: below the third consecutive empty poll nothing is
inspected and the loop resumes with counter `c + 1`; at the third, the aggregate pending
total is read once (it is `0` or the converted positive total some endpoint reported); if
it is zero there is no retry and the loop resumes with counter 0; if it is nonzero the
block query is retried once after 3000 ms, a non-empty retry result is the result of
`waitForPending`, and an empty one resumes the loop with counter 0. -/
theorem waitLoop_backup_check (E : Env σ) (L : Lib) (address : String)
    (timeout checkInterval startTime fuel c : Nat) (w w1 : World σ)
    (hzero : (L.parseFloat "0").gtZero = false)
    (hpos : ∀ p, 0 < p → (L.parseFloat (L.rawToNano p)).gtZero = true)
    (hguard : (E.now w.node : Int) - (startTime : Int) < (timeout : Int))
    (hrun : w.isRunning = true) (hpause : w.isPaused = false)
    (hpoll : FaucetSentry.getPendingBlocks E L address w = (.ok [], w1)) :
    (c + 1 < 3 →
      FaucetSentry.waitLoop E L address timeout checkInterval startTime (fuel + 1) c w
        = FaucetSentry.waitLoop E L address timeout checkInterval startTime fuel (c + 1)
            (FaucetSentry.waitTick E startTime checkInterval w1)) ∧
    (3 ≤ c + 1 →
      ((FaucetSentry.getPendingFromAccountInfo E L address w1).1 = "0" ∨
        ∃ p, 0 < p ∧ (FaucetSentry.getPendingFromAccountInfo E L address w1).1
          = L.rawToNano p) ∧
      ((FaucetSentry.getPendingFromAccountInfo E L address w1).1 = "0" →
        FaucetSentry.waitLoop E L address timeout checkInterval startTime (fuel + 1) c w
          = FaucetSentry.waitLoop E L address timeout checkInterval startTime fuel 0
              (FaucetSentry.waitTick E startTime checkInterval
                (FaucetSentry.getPendingFromAccountInfo E L address w1).2)) ∧
      ((∃ p, 0 < p ∧ (FaucetSentry.getPendingFromAccountInfo E L address w1).1
          = L.rawToNano p) →
        ∀ blocks w4,
          FaucetSentry.getPendingBlocks E L address
            (FaucetSentry.delay E 3000 (FaucetSentry.log "info"
              ("Account shows " ++ (FaucetSentry.getPendingFromAccountInfo E L address w1).1
                ++ " NANO pending, retrying block fetch...")
              (FaucetSentry.getPendingFromAccountInfo E L address w1).2))
            = (.ok blocks, w4) →
          (blocks ≠ [] →
            FaucetSentry.waitLoop E L address timeout checkInterval startTime (fuel + 1) c w
              = some (.ok blocks, w4)) ∧
          (blocks = [] →
            FaucetSentry.waitLoop E L address timeout checkInterval startTime (fuel + 1) c w
              = FaucetSentry.waitLoop E L address timeout checkInterval startTime fuel 0
                  (FaucetSentry.waitTick E startTime checkInterval
                    (FaucetSentry.log "warning"
                      ("Pending amount exists but blocks not returned - RPC sync issue, " ++
                        "will keep trying...") w4))))) := by
  have hloop := waitLoop_empty_poll E L address timeout checkInterval startTime fuel c w w1
    hguard hrun hpause hpoll
  refine ⟨?_, ?_⟩
  · intro hc
    rw [hloop, backupCheck_below E L address c w1 hc]
  · intro hc
    refine ⟨getPendingFromAccountInfoLoop_value E L address RPC_FALLBACK_URLS w1, ?_, ?_⟩
    · intro h0
      rw [hloop, backupCheck_zero E L address c w1 hc (by rw [h0]; exact hzero)]
    · rintro ⟨p, hp, hamt⟩ blocks w4 hretry
      have hgt : (L.parseFloat (FaucetSentry.getPendingFromAccountInfo E L address w1).1).gtZero
          = true := by rw [hamt]; exact hpos p hp
      have hb := backupCheck_retry E L address c w1 blocks w4 hc hgt hretry
      constructor
      · intro hne
        rw [hloop, hb, if_pos (List.length_pos.mpr hne)]
      · intro hnil
        rw [hloop, hb, if_neg (by simp [hnil])]

theorem tallyLib_zero : (tallyLib.parseFloat "0").gtZero = false := by decide

theorem tallyLib_pos (p : Nat) (hp : 0 < p) :
    (tallyLib.parseFloat (tallyLib.rawToNano p)).gtZero = true := by
  have hne : p ≠ 0 := by omega
  have hs : String.mk (List.replicate p 'I') ≠ "0" := by
    intro h
    have h2 := congrArg String.data h
    cases p with
    | zero => exact hne rfl
    | succ n =>
      have h3 : 'I' :: List.replicate n 'I' = ['0'] := h2
      have h4 := (List.cons.inj h3).1
      exact absurd h4 (by decide)
  simp only [tallyLib, if_neg hne, if_neg hs, JsNum.gtZero, String.length, List.length_replicate]
  simpa using hp

theorem waitLoop_backup_check_witness :
    ∃ w4, FaucetSentry.waitLoop Script.env tallyLib "nano_claim" 1800000 1000 0 (0 + 1) 2
        demoLaggingWorld
      = some (.ok [⟨"A", 5, "IIIII", "nano_faucet"⟩], w4) :=
  ⟨_, ((((waitLoop_backup_check Script.env tallyLib "nano_claim" 1800000 1000 0 0 2
    demoLaggingWorld _ tallyLib_zero tallyLib_pos (by decide) rfl rfl rfl).2 (by decide)).2.2
      ⟨5, by decide, rfl⟩ _ _ rfl).1 (by decide))⟩

/-! ## C6: five empty polls, then one entry -/

theorem accumulatedWait_append (xs ys : List Event) :
    accumulatedWait (xs ++ ys) = accumulatedWait xs + accumulatedWait ys := by
  induction xs with
  | nil => simp [accumulatedWait]
  | cons e rest ih => cases e <;> simp [accumulatedWait, ih, Nat.add_assoc]

theorem script_poll_empty (L : Lib) (address : String) (w : World Script)
    (ps : List (Except String (Response PendingJson)))
    (infos : List (Except String (Response AccountInfoJson))) (clock wait : Nat)
    (h : ScriptAt w (emptyAnswer :: ps) infos clock wait) :
    ∃ w1, FaucetSentry.getPendingBlocks Script.env L address w = (.ok [], w1) ∧
      ScriptAt w1 ps infos clock wait := by
  have hp := h.pendings
  refine ⟨emit (.pending RPC_URL address 10) { w with node := { w.node with pendings := ps } },
    ?_, ?_⟩
  · simp [FaucetSentry.getPendingBlocks, RPC_FALLBACK_URLS, FaucetSentry.getPendingBlocksLoop,
      fetchPending, Script.env, hp, Script.next, emptyAnswer, truthyOpt, emit, RPC_URL]
  · exact ⟨rfl, h.infos, h.clock, h.running, h.paused, by
      simp [emit, accumulatedWait_append, accumulatedWait, h.wait]⟩

theorem script_poll_found (L : Lib) (address : String) (w : World Script)
    (entry : PendingJsonEntry)
    (ps : List (Except String (Response PendingJson)))
    (infos : List (Except String (Response AccountInfoJson))) (clock wait : Nat)
    (h : ScriptAt w (foundAnswer entry :: ps) infos clock wait) :
    ∃ w1, FaucetSentry.getPendingBlocks Script.env L address w
        = (.ok [toPendingBlock L entry], w1) ∧
      ScriptAt w1 ps infos clock wait := by
  have hp := h.pendings
  refine ⟨emit (.pending RPC_URL address 10) { w with node := { w.node with pendings := ps } },
    ?_, ?_⟩
  · simp [FaucetSentry.getPendingBlocks, RPC_FALLBACK_URLS, FaucetSentry.getPendingBlocksLoop,
      fetchPending, Script.env, hp, Script.next, foundAnswer, truthyOpt, emit, RPC_URL]
  · exact ⟨rfl, h.infos, h.clock, h.running, h.paused, by
      simp [emit, accumulatedWait_append, accumulatedWait, h.wait]⟩

theorem script_tick (startTime checkInterval : Nat) (w : World Script)
    (ps : List (Except String (Response PendingJson)))
    (infos : List (Except String (Response AccountInfoJson))) (clock wait : Nat)
    (h : ScriptAt w ps infos clock wait) :
    ScriptAt (FaucetSentry.waitTick Script.env startTime checkInterval w) ps infos
      (clock + checkInterval) (wait + checkInterval) := by
  refine ⟨h.pendings, h.infos, ?_, h.running, h.paused, ?_⟩
  · show w.node.clock + checkInterval = _
    rw [h.clock]
  · show accumulatedWait ((w.trace ++ [_]) ++ [Event.delay checkInterval]) = _
    simp [accumulatedWait_append, accumulatedWait, h.wait]

theorem script_log (level message : String) (w : World Script)
    (ps : List (Except String (Response PendingJson)))
    (infos : List (Except String (Response AccountInfoJson))) (clock wait : Nat)
    (h : ScriptAt w ps infos clock wait) :
    ScriptAt (FaucetSentry.log level message w) ps infos clock wait := by
  refine ⟨h.pendings, h.infos, h.clock, h.running, h.paused, ?_⟩
  show accumulatedWait (w.trace ++ [_]) = _
  simp [accumulatedWait_append, accumulatedWait, h.wait]

theorem script_delay (ms : Nat) (w : World Script)
    (ps : List (Except String (Response PendingJson)))
    (infos : List (Except String (Response AccountInfoJson))) (clock wait : Nat)
    (h : ScriptAt w ps infos clock wait) :
    ScriptAt (FaucetSentry.delay Script.env ms w) ps infos (clock + ms) (wait + ms) := by
  refine ⟨h.pendings, h.infos, ?_, h.running, h.paused, ?_⟩
  · show w.node.clock + ms = _
    rw [h.clock]
  · show accumulatedWait (w.trace ++ [Event.delay ms]) = _
    simp [accumulatedWait_append, accumulatedWait, h.wait]

theorem script_inspect (L : Lib) (address : String) (w : World Script)
    (ps : List (Except String (Response PendingJson)))
    (infos : List (Except String (Response AccountInfoJson))) (clock wait : Nat)
    (h : ScriptAt w ps infos clock wait) :
    ScriptAt (FaucetSentry.getPendingFromAccountInfo Script.env L address w).2 ps infos.tail
        clock wait ∧
    (reportsPending infos = false →
      (FaucetSentry.getPendingFromAccountInfo Script.env L address w).1 = "0") ∧
    (reportsPending infos = true →
      ∃ p, 0 < p ∧ (FaucetSentry.getPendingFromAccountInfo Script.env L address w).1
        = L.rawToNano p) := by
  have hi := h.infos
  have hbase : ScriptAt (emit (.accountInfo RPC_URL address)
      { w with node := { w.node with accountInfos := infos.tail } }) ps infos.tail clock wait :=
    ⟨h.pendings, rfl, h.clock, h.running, h.paused, by
      simp [emit, accumulatedWait_append, accumulatedWait, h.wait]⟩
  unfold FaucetSentry.getPendingFromAccountInfo RPC_FALLBACK_URLS
    FaucetSentry.getPendingFromAccountInfoLoop fetchAccountInfo
  cases infos with
  | nil =>
    simp only [Script.env, hi, Script.next, FaucetSentry.getPendingFromAccountInfoLoop, emit]
    exact ⟨hbase, fun _ => trivial, fun hr => by simp [reportsPending] at hr⟩
  | cons r rest =>
    simp only [Script.env, hi, Script.next, emit]
    cases r with
    | error e =>
      simp only [FaucetSentry.getPendingFromAccountInfoLoop]
      exact ⟨hbase, fun _ => trivial, fun hr => by simp [reportsPending] at hr⟩
    | ok response =>
      dsimp only
      cases hj : response.json with
      | error e =>
        simp only [FaucetSentry.getPendingFromAccountInfoLoop]
        exact ⟨hbase, fun _ => trivial, fun hr => by simp [reportsPending, hj] at hr⟩
      | ok data =>
        dsimp only
        cases hp : data.pending with
        | none =>
          simp only [FaucetSentry.getPendingFromAccountInfoLoop]
          exact ⟨hbase, fun _ => trivial, fun hr => by simp [reportsPending, hj, hp] at hr⟩
        | some p =>
          dsimp only
          by_cases hpp : 0 < p
          · rw [if_pos hpp]
            exact ⟨hbase, fun hr => by simp [reportsPending, hj, hp, hpp] at hr,
              fun _ => ⟨p, hpp, rfl⟩⟩
          · rw [if_neg hpp]
            simp only [FaucetSentry.getPendingFromAccountInfoLoop]
            exact ⟨hbase, fun _ => trivial, fun hr => by simp [reportsPending, hj, hp, hpp] at hr⟩

theorem script_guard (w : World Script)
    (ps : List (Except String (Response PendingJson)))
    (infos : List (Except String (Response AccountInfoJson))) (clock wait : Nat)
    (h : ScriptAt w ps infos clock wait) (startTime timeout : Nat)
    (hlt : clock < startTime + timeout) :
    (Script.env.now w.node : Int) - (startTime : Int) < (timeout : Int) := by
  show ((w.node.clock : Nat) : Int) - _ < _
  rw [h.clock]
  omega

theorem script_iter_below (L : Lib) (address : String) (timeout checkInterval startTime : Nat)
    (fuel c : Nat) (w : World Script)
    (ps : List (Except String (Response PendingJson)))
    (infos : List (Except String (Response AccountInfoJson))) (clock wait : Nat)
    (h : ScriptAt w (emptyAnswer :: ps) infos clock wait)
    (hlt : clock < startTime + timeout) (hc : c + 1 < 3) :
    ∃ w', FaucetSentry.waitLoop Script.env L address timeout checkInterval startTime
          (fuel + 1) c w
        = FaucetSentry.waitLoop Script.env L address timeout checkInterval startTime fuel
            (c + 1) w' ∧
      ScriptAt w' ps infos (clock + checkInterval) (wait + checkInterval) := by
  obtain ⟨w1, hpoll, h1⟩ := script_poll_empty L address w ps infos clock wait h
  refine ⟨FaucetSentry.waitTick Script.env startTime checkInterval w1, ?_,
    script_tick startTime checkInterval w1 ps infos clock wait h1⟩
  rw [waitLoop_empty_poll Script.env L address timeout checkInterval startTime fuel c w w1
    (script_guard w _ _ _ _ h startTime timeout hlt) h.running h.paused hpoll,
    backupCheck_below Script.env L address c w1 hc]

theorem script_iter_third_zero (L : Lib) (address : String)
    (timeout checkInterval startTime : Nat) (fuel c : Nat) (w : World Script)
    (ps : List (Except String (Response PendingJson)))
    (infos : List (Except String (Response AccountInfoJson))) (clock wait : Nat)
    (hzero : (L.parseFloat "0").gtZero = false)
    (h : ScriptAt w (emptyAnswer :: ps) infos clock wait)
    (hlt : clock < startTime + timeout) (hc : 3 ≤ c + 1)
    (hinfo : reportsPending infos = false) :
    ∃ w', FaucetSentry.waitLoop Script.env L address timeout checkInterval startTime
          (fuel + 1) c w
        = FaucetSentry.waitLoop Script.env L address timeout checkInterval startTime fuel 0 w' ∧
      ScriptAt w' ps infos.tail (clock + checkInterval) (wait + checkInterval) := by
  obtain ⟨w1, hpoll, h1⟩ := script_poll_empty L address w ps infos clock wait h
  obtain ⟨h2, hz, -⟩ := script_inspect L address w1 ps infos clock wait h1
  refine ⟨FaucetSentry.waitTick Script.env startTime checkInterval
    (FaucetSentry.getPendingFromAccountInfo Script.env L address w1).2, ?_,
    script_tick startTime checkInterval _ ps infos.tail clock wait h2⟩
  rw [waitLoop_empty_poll Script.env L address timeout checkInterval startTime fuel c w w1
    (script_guard w _ _ _ _ h startTime timeout hlt) h.running h.paused hpoll,
    backupCheck_zero Script.env L address c w1 hc (by rw [hz hinfo]; exact hzero)]

theorem script_iter_third_retry (L : Lib) (address : String)
    (timeout checkInterval startTime : Nat) (fuel c : Nat) (w : World Script)
    (ps : List (Except String (Response PendingJson)))
    (infos : List (Except String (Response AccountInfoJson))) (clock wait : Nat)
    (hpos : ∀ p, 0 < p → (L.parseFloat (L.rawToNano p)).gtZero = true)
    (h : ScriptAt w (emptyAnswer :: emptyAnswer :: ps) infos clock wait)
    (hlt : clock < startTime + timeout) (hc : 3 ≤ c + 1)
    (hinfo : reportsPending infos = true) :
    ∃ w', FaucetSentry.waitLoop Script.env L address timeout checkInterval startTime
          (fuel + 1) c w
        = FaucetSentry.waitLoop Script.env L address timeout checkInterval startTime fuel 0 w' ∧
      ScriptAt w' ps infos.tail (clock + 3000 + checkInterval) (wait + 3000 + checkInterval) := by
  obtain ⟨w1, hpoll, h1⟩ := script_poll_empty L address w _ infos clock wait h
  obtain ⟨h2, -, hp⟩ := script_inspect L address w1 _ infos clock wait h1
  obtain ⟨p, hp0, hamt⟩ := hp hinfo
  have h3 := script_delay 3000 _ _ _ _ _ (script_log "info"
    ("Account shows " ++ (FaucetSentry.getPendingFromAccountInfo Script.env L address w1).1
      ++ " NANO pending, retrying block fetch...") _ _ _ _ _ h2)
  obtain ⟨w4, hretry, h4⟩ := script_poll_empty L address _ ps infos.tail _ _ h3
  have h5 := script_log "warning"
    ("Pending amount exists but blocks not returned - RPC sync issue, " ++
      "will keep trying...") w4 _ _ _ _ h4
  refine ⟨_, ?_, script_tick startTime checkInterval _ ps infos.tail _ _ h5⟩
  rw [waitLoop_empty_poll Script.env L address timeout checkInterval startTime fuel c w w1
    (script_guard w _ _ _ _ h startTime timeout hlt) h.running h.paused hpoll,
    backupCheck_retry Script.env L address c w1 [] w4 hc (by rw [hamt]; exact hpos p hp0)
      hretry]
  simp

theorem script_iter_found (L : Lib) (address : String)
    (timeout checkInterval startTime : Nat) (fuel c : Nat) (w : World Script)
    (entry : PendingJsonEntry)
    (ps : List (Except String (Response PendingJson)))
    (infos : List (Except String (Response AccountInfoJson))) (clock wait : Nat)
    (h : ScriptAt w (foundAnswer entry :: ps) infos clock wait)
    (hlt : clock < startTime + timeout) :
    ∃ w', FaucetSentry.waitLoop Script.env L address timeout checkInterval startTime
          (fuel + 1) c w
        = some (.ok [toPendingBlock L entry], w') ∧
      ScriptAt w' ps infos clock wait := by
  obtain ⟨w1, hpoll, h1⟩ := script_poll_found L address w entry ps infos clock wait h
  refine ⟨FaucetSentry.log "success" "Pending transaction detected via RPC!" w1, ?_,
    script_log _ _ w1 ps infos clock wait h1⟩
  exact waitLoop_found Script.env L address timeout checkInterval startTime fuel c w w1 _
    (script_guard w _ _ _ _ h startTime timeout hlt) h.running h.paused hpoll (by simp)

/-- C6 (amended): for every poll interval, `waitForPending` run with a sufficient
timeout in a running, unpaused session against a scripted RPC whose pending query answers
empty five times and then with one entry returns exactly that entry (six loop iterations
are enough). The time slept before it returns is `5 × checkInterval` when the backup check
after the third empty poll sees no pending total, and `4 × checkInterval + 3000` when it
sees one (the retry then consumes one of the five empty answers); so it is at least
`5 × checkInterval` whenever no pending total is reported or `checkInterval ≤ 3000`. -/
theorem waitForPending_five_empty_polls (L : Lib) (address : String)
    (timeout checkInterval fuel : Nat) (entry : PendingJsonEntry)
    (rest : List (Except String (Response PendingJson)))
    (infos : List (Except String (Response AccountInfoJson))) (clock wait : Nat)
    (w : World Script)
    (hzero : (L.parseFloat "0").gtZero = false)
    (hpos : ∀ p, 0 < p → (L.parseFloat (L.rawToNano p)).gtZero = true)
    (hw : ScriptAt w (List.replicate 5 emptyAnswer ++ foundAnswer entry :: rest) infos
      clock wait)
    (htimeout : 5 * checkInterval + 3000 < timeout) :
    ∃ w', FaucetSentry.waitForPending Script.env L (fuel + 6) address timeout checkInterval w
        = some (.ok [toPendingBlock L entry], w') ∧
      accumulatedWait w'.trace
        = wait + (if reportsPending infos then 4 * checkInterval + 3000
            else 5 * checkInterval) ∧
      ((reportsPending infos = false ∨ checkInterval ≤ 3000) →
        wait + 5 * checkInterval ≤ accumulatedWait w'.trace) := by
  have hstart : Script.env.now w.node = clock := hw.clock
  unfold FaucetSentry.waitForPending
  rw [hstart]
  have hw0 : ScriptAt w (emptyAnswer :: emptyAnswer :: emptyAnswer :: emptyAnswer ::
      emptyAnswer :: foundAnswer entry :: rest) infos clock wait := hw
  obtain ⟨w1, e1, h1⟩ := script_iter_below L address timeout checkInterval clock (fuel + 5) 0 w
    _ infos clock wait hw0 (by omega) (by omega)
  obtain ⟨w2, e2, h2⟩ := script_iter_below L address timeout checkInterval clock (fuel + 4) 1 w1
    _ infos _ _ h1 (by omega) (by omega)
  rw [e1, e2]
  cases hinfo : reportsPending infos with
  | false =>
    obtain ⟨w3, e3, h3⟩ := script_iter_third_zero L address timeout checkInterval clock
      (fuel + 3) 2 w2 _ infos _ _ hzero h2 (by omega) (by omega) hinfo
    obtain ⟨w4, e4, h4⟩ := script_iter_below L address timeout checkInterval clock
      (fuel + 2) 0 w3 _ _ _ _ h3 (by omega) (by omega)
    obtain ⟨w5, e5, h5⟩ := script_iter_below L address timeout checkInterval clock
      (fuel + 1) 1 w4 _ _ _ _ h4 (by omega) (by omega)
    obtain ⟨w6, e6, h6⟩ := script_iter_found L address timeout checkInterval clock
      fuel 2 w5 entry _ _ _ _ h5 (by omega)
    rw [e3, e4, e5, e6]
    refine ⟨w6, rfl, ?_, fun _ => ?_⟩
    · rw [h6.wait]; simp; omega
    · rw [h6.wait]; omega
  | true =>
    obtain ⟨w3, e3, h3⟩ := script_iter_third_retry L address timeout checkInterval clock
      (fuel + 3) 2 w2 _ infos _ _ hpos h2 (by omega) (by omega) hinfo
    obtain ⟨w4, e4, h4⟩ := script_iter_below L address timeout checkInterval clock
      (fuel + 2) 0 w3 _ _ _ _ h3 (by omega) (by omega)
    obtain ⟨w5, e5, h5⟩ := script_iter_found L address timeout checkInterval clock
      (fuel + 1) 1 w4 entry _ _ _ _ h4 (by omega)
    rw [e3, e4, e5]
    refine ⟨w5, rfl, ?_, fun hcase => ?_⟩
    · rw [h5.wait]; simp; omega
    · rw [h5.wait]
      rcases hcase with hf | hle
      · cases hf
      · omega

theorem waitForPending_five_empty_polls_witness :
    ∃ w', FaucetSentry.waitForPending Script.env tallyLib (0 + 6) "nano_claim" 1800000 1000
        demoFiveEmptyWorld
        = some (.ok [toPendingBlock tallyLib ⟨"A", 5, "nano_faucet"⟩], w') ∧
      accumulatedWait w'.trace
        = 0 + (if reportsPending demoFiveEmptyWorld.node.accountInfos then 4 * 1000 + 3000
            else 5 * 1000) ∧
      ((reportsPending demoFiveEmptyWorld.node.accountInfos = false ∨ 1000 ≤ 3000) →
        0 + 5 * 1000 ≤ accumulatedWait w'.trace) :=
  waitForPending_five_empty_polls tallyLib "nano_claim" 1800000 1000 0 ⟨"A", 5, "nano_faucet"⟩
    [] demoFiveEmptyWorld.node.accountInfos 0 0 demoFiveEmptyWorld tallyLib_zero tallyLib_pos
    ⟨rfl, rfl, rfl, rfl, rfl, rfl⟩ (by decide)

/-- C6 (counterexample): with a poll interval of 10000 ms, five empty answers then block
`A`, and an `account_info` that reports a pending total at the backup check,
`waitForPending` returns the entry after sleeping 43000 ms, less than 5 × 10000. -/
theorem waitForPending_returns_before_five_intervals :
    (FaucetSentry.waitForPending Script.env tallyLib 6 "nano_claim" 1800000 10000
        demoFiveEmptyWorld).map (fun r => (r.1, accumulatedWait r.2.trace))
      = some (.ok [⟨"A", 5, "IIIII", "nano_faucet"⟩], 43000) ∧
    43000 < 5 * 10000 := by
  constructor
  · rfl
  · decide

/-! ## The rate-limit verdict of the donation step -/

theorem takeScreenshot_flags (P : Page σ) (label : String) (w : World σ) :
    (FaucetSentry.takeScreenshot P label w).connectionType = w.connectionType ∧
    (FaucetSentry.takeScreenshot P label w).autoRestartEnabled = w.autoRestartEnabled := by
  unfold FaucetSentry.takeScreenshot
  split <;> exact ⟨rfl, rfl⟩

theorem extractFinish_rateLimited (P : Page σ) (w : World σ) :
    (FaucetSentry.extractFinish P .rateLimited w).1 = .error (rateLimitError w) := by
  obtain ⟨h1, h2⟩ := takeScreenshot_flags P "Rate limit detected" (FaucetSentry.log "warning"
    "Rate limit detected - \"come back tomorrow\" or similar message found" w)
  have h1' : (FaucetSentry.takeScreenshot P "Rate limit detected" (FaucetSentry.log "warning"
    "Rate limit detected - \"come back tomorrow\" or similar message found" w)).connectionType
      = w.connectionType := h1
  have h2' : (FaucetSentry.takeScreenshot P "Rate limit detected" (FaucetSentry.log "warning"
    "Rate limit detected - \"come back tomorrow\" or similar message found"
      w)).autoRestartEnabled = w.autoRestartEnabled := h2
  unfold FaucetSentry.extractFinish rateLimitError
  simp only [h1', h2']
  split <;> rfl

/-! ## C10: net-reward accounting -/

theorem fixed6Units_close (q : ℚ) (hq : 0 ≤ q) :
    |(fixed6Units q : ℚ) / 10 ^ 6 - q| ≤ 1 / (2 * 10 ^ 6) := by
  unfold fixed6Units
  have hnn : (0 : ℤ) ≤ ⌊q * 10 ^ 6 + 1 / 2⌋ := Int.floor_nonneg.mpr (by positivity)
  have hcast : ((⌊q * 10 ^ 6 + 1 / 2⌋.toNat : ℕ) : ℚ) = (⌊q * 10 ^ 6 + 1 / 2⌋ : ℚ) := by
    have := Int.toNat_of_nonneg hnn
    exact_mod_cast congrArg (fun z : ℤ => (z : ℚ)) this
  rw [hcast]
  have h1 := Int.floor_le (q * 10 ^ 6 + 1 / 2)
  have h2 := Int.lt_floor_add_one (q * 10 ^ 6 + 1 / 2)
  rw [abs_le]
  constructor
  · have : q - 1 / (2 * 10 ^ 6) ≤ (⌊q * 10 ^ 6 + 1 / 2⌋ : ℚ) / 10 ^ 6 := by
      rw [le_div_iff₀ (by positivity)]
      linarith
    linarith
  · have : (⌊q * 10 ^ 6 + 1 / 2⌋ : ℚ) / 10 ^ 6 ≤ q + 1 / (2 * 10 ^ 6) := by
      rw [div_le_iff₀ (by positivity)]
      linarith
    linarith

theorem foldl_amounts_exact (L : Lib) :
    ∀ (amounts : List ℚ) (rewardPending : List PendingBlock) (start : ℚ),
      rewardPending.map (fun block => L.parseFloat block.amountNano)
        = amounts.map JsNum.fin →
      (∀ k, k ≤ amounts.length →
        roundToDouble (start + (amounts.take k).sum) = .fin (start + (amounts.take k).sum)) →
      rewardPending.foldl
          (fun (sum : JsNum) block => sum.add (L.parseFloat block.amountNano))
          (JsNum.fin start)
        = .fin (start + amounts.sum) := by
  intro amounts
  induction amounts with
  | nil =>
    intro rewardPending start hmap _
    have hnil : rewardPending = [] := by
      cases rewardPending with
      | nil => rfl
      | cons b bs => simp at hmap
    subst hnil
    simp
  | cons a rest ih =>
    intro rewardPending start hmap hexact
    cases rewardPending with
    | nil => simp at hmap
    | cons b bs =>
      simp only [List.map_cons, List.cons.injEq] at hmap
      obtain ⟨hb, hbs⟩ := hmap
      have h1 := hexact 1 (by simp)
      simp only [List.take_succ_cons, List.take_zero, List.sum_cons, List.sum_nil,
        add_zero] at h1
      rw [List.foldl_cons, hb]
      show List.foldl _ (roundToDouble (start + a)) bs = _
      rw [h1, ih bs (start + a) hbs]
      · rw [List.sum_cons, add_assoc]
      · intro k hk
        have h2 := hexact (k + 1) (by simp; omega)
        simp only [List.take_succ_cons, List.sum_cons] at h2
        rw [add_assoc]
        exact h2

/-- C10 (amended): at the end of every completed claim the net reward is the sum of the
amounts of all reward blocks minus the donation, computed in double precision: the
running sum starts at 0, every block of the array adds its amount to it (none is left
out), and the donation is subtracted from the sum of them all; when no addition rounds,
the net is the exact sum of all the amounts minus the donation, rounded once.
`totalClaims` grows by exactly 1 whatever the net; `totalRewards` is unchanged when the
net is not positive, and when it is positive it becomes the old total plus the net
rendered with six decimals (`toFixed(6)`), that is, a number within half a millionth of
the sum: it grows by the net only up to that rounding. -/
theorem recordClaim_accounting (L : Lib) (rewardPending : List PendingBlock)
    (donationAmount : String) (w : World σ) :
    (FaucetSentry.recordClaim L rewardPending donationAmount w).sessionStats.totalClaims
      = w.sessionStats.totalClaims + 1 ∧
    ((FaucetSentry.netReward L rewardPending donationAmount).gtZero = false →
      (FaucetSentry.recordClaim L rewardPending donationAmount w).sessionStats.totalRewards
        = w.sessionStats.totalRewards) ∧
    ((FaucetSentry.netReward L rewardPending donationAmount).gtZero = true →
      (FaucetSentry.recordClaim L rewardPending donationAmount w).sessionStats.totalRewards
        = ((L.parseFloat w.sessionStats.totalRewards).add
            (FaucetSentry.netReward L rewardPending donationAmount)).toFixed6 L) ∧
    (∀ q : ℚ, 0 ≤ q → q < 10 ^ 21 →
      (JsNum.fin q).toFixed6 L = renderFixed6 (fixed6Units q) ∧
      |(fixed6Units q : ℚ) / 10 ^ 6 - q| ≤ 1 / (2 * 10 ^ 6)) ∧
    FaucetSentry.netReward L rewardPending donationAmount
      = (FaucetSentry.totalRewardAmount L rewardPending).add
          (L.parseFloat donationAmount).neg ∧
    FaucetSentry.totalRewardAmount L [] = JsNum.fin 0 ∧
    (∀ (blocks : List PendingBlock) (block : PendingBlock),
      FaucetSentry.totalRewardAmount L (blocks ++ [block])
        = (FaucetSentry.totalRewardAmount L blocks).add (L.parseFloat block.amountNano)) ∧
    (∀ (amounts : List ℚ) (donation : ℚ),
      rewardPending.map (fun block => L.parseFloat block.amountNano)
        = amounts.map JsNum.fin →
      L.parseFloat donationAmount = JsNum.fin donation →
      (∀ k, k ≤ amounts.length →
        roundToDouble ((amounts.take k).sum) = .fin ((amounts.take k).sum)) →
      FaucetSentry.netReward L rewardPending donationAmount
        = roundToDouble (amounts.sum - donation)) := by
  refine ⟨?_, ?_, ?_, ?_, rfl, rfl, ?_, ?_⟩
  · unfold FaucetSentry.recordClaim
    dsimp only
    split <;> rfl
  · intro h
    unfold FaucetSentry.recordClaim
    simp only [h]
    rfl
  · intro h
    unfold FaucetSentry.recordClaim
    simp only [h]
    rfl
  · intro q h0 h1
    refine ⟨?_, fixed6Units_close q h0⟩
    have hbig : ¬ (10 ^ 21 ≤ |q|) := by rw [abs_of_nonneg h0]; exact not_le.mpr h1
    simp only [JsNum.toFixed6, if_neg hbig, if_neg (not_lt.mpr h0)]
  · intro blocks block
    unfold FaucetSentry.totalRewardAmount
    rw [List.foldl_append]
    rfl
  · intro amounts donation hmap hdonation hexact
    have hsum := foldl_amounts_exact L amounts rewardPending 0 hmap
      (by intro k hk; rw [zero_add]; exact hexact k hk)
    rw [zero_add] at hsum
    unfold FaucetSentry.netReward FaucetSentry.totalRewardAmount
    dsimp only
    rw [hsum, hdonation]
    show roundToDouble (amounts.sum + -donation) = _
    rw [sub_eq_add_neg]

theorem recordClaim_accounting_witness :
    (FaucetSentry.recordClaim jsLib [rewardBlock "0.0015", rewardBlock "0.0015"] "0.002"
        (statsWorld "0")).sessionStats.totalClaims = 3 + 1 ∧
    (FaucetSentry.recordClaim jsLib [rewardBlock "0.0015", rewardBlock "0.0015"] "0.002"
        (statsWorld "0")).sessionStats.totalRewards = "0.001000" ∧
    (FaucetSentry.recordClaim jsLib [rewardBlock "0.0005"] "0.002"
        (statsWorld "0")).sessionStats.totalClaims = 3 + 1 ∧
    (FaucetSentry.recordClaim jsLib [rewardBlock "0.0005"] "0.002"
        (statsWorld "0")).sessionStats.totalRewards = "0" ∧
    (FaucetSentry.recordClaim jsLib
        [rewardBlock "0.001", rewardBlock "0.001", rewardBlock "0.001"] "0.002"
        (statsWorld "0")).sessionStats.totalRewards = "0.001000" ∧
    FaucetSentry.netReward jsLib [rewardBlock "1", rewardBlock "2", rewardBlock "4"] "3"
      = JsNum.fin 4 :=
  ⟨(recordClaim_accounting jsLib [rewardBlock "0.0015", rewardBlock "0.0015"] "0.002"
      (statsWorld "0")).1,
   ((recordClaim_accounting jsLib [rewardBlock "0.0015", rewardBlock "0.0015"] "0.002"
      (statsWorld "0")).2.2.1 (by decide!)).trans (by decide!),
   (recordClaim_accounting jsLib [rewardBlock "0.0005"] "0.002" (statsWorld "0")).1,
   (recordClaim_accounting jsLib [rewardBlock "0.0005"] "0.002" (statsWorld "0")).2.1
      (by decide!),
   ((recordClaim_accounting jsLib
      [rewardBlock "0.001", rewardBlock "0.001", rewardBlock "0.001"] "0.002"
      (statsWorld "0")).2.2.1 (by decide!)).trans (by decide!),
   ((recordClaim_accounting jsLib [rewardBlock "1", rewardBlock "2", rewardBlock "4"] "3"
      (statsWorld "0")).2.2.2.2.2.2.2 [1, 2, 4] 3 (by decide!) (by decide!)
      (by decide!)).trans (by decide!)⟩

/-- C10 (counterexample): donation 0.002 and one reward block of 0.0020004 give a
positive net reward (about 0.0000004), yet a cumulative reward of 0.001000 stays
0.001000: the total does not grow by the net. -/
theorem tiny_profit_leaves_total_unchanged :
    (FaucetSentry.netReward jsLib [rewardBlock "0.0020004"] "0.002").gtZero = true ∧
    (FaucetSentry.recordClaim jsLib [rewardBlock "0.0020004"] "0.002"
        (statsWorld "0.001000")).sessionStats.totalRewards = "0.001000" ∧
    (FaucetSentry.recordClaim jsLib [rewardBlock "0.0020004"] "0.002"
        (statsWorld "0.001000")).sessionStats.totalClaims = 4 := by
  refine ⟨?_, ?_, ?_⟩ <;> decide!

/-! ## C22: the unopened sentinel of `getAccountInfo` -/

/-- C22: for a response of the node whose body is `data`, `getAccountInfo` (of the session
and, for a valid address and an OK status, of the wallet manager) returns the unopened
sentinel (not opened, balance 0, pending 0, frontier of 64 zeros) exactly when
`data.error` is 'Account not found'; every other non-empty error string is raised as the
error; a response without error yields an opened state with the reported balance,
frontier and representative. -/
theorem getAccountInfo_sentinel (E : Env σ) (L : Lib) (address : String) (w w1 : World σ)
    (response : Response AccountInfoJson) (data : AccountInfoJson)
    (hfetch : fetchAccountInfo E RPC_URL address w = (.ok response, w1))
    (hjson : response.json = .ok data) :
    ((FaucetSentry.getAccountInfo E L address w).1 = .ok AccountInfo.unopened ↔
      data.error = some "Account not found") ∧
    (AccountInfo.unopened.opened = false ∧ AccountInfo.unopened.balance = 0 ∧
      AccountInfo.unopened.pending = 0 ∧
      AccountInfo.unopened.frontier = String.mk (List.replicate 64 '0')) ∧
    (∀ e, data.error = some e → e ≠ "Account not found" → truthy e = true →
      FaucetSentry.getAccountInfo E L address w = (.error e, w1)) ∧
    (truthyOpt data.error = false →
      ∃ info, FaucetSentry.getAccountInfo E L address w = (.ok info, w1) ∧
        info.opened = true ∧ info.balance = data.balance ∧ info.frontier = data.frontier ∧
        info.representative = data.representative) ∧
    (isValidNanoAddress address = true → response.ok = true →
      ((NanoWalletManager.getAccountInfo E L address w).1 = .ok AccountInfo.unopened ↔
        data.error = some "Account not found") ∧
      (∀ e, data.error = some e → e ≠ "Account not found" → truthy e = true →
        (NanoWalletManager.getAccountInfo E L address w).1 = .error e) ∧
      (truthyOpt data.error = false →
        ∃ info, (NanoWalletManager.getAccountInfo E L address w).1 = .ok info ∧
          info.opened = true ∧ info.balance = data.balance ∧ info.frontier = data.frontier ∧
          info.representative = data.representative)) := by
  have hF : FaucetSentry.getAccountInfo E L address w
      = if data.error = some "Account not found" then (.ok AccountInfo.unopened, w1)
        else if truthyOpt data.error then (.error (data.error.getD ""), w1)
        else (.ok { opened := true, balance := data.balance,
                    balanceNano := some (L.rawToNano data.balance),
                    pending := data.pending.getD 0,
                    pendingNano := some (match data.pending with
                      | some p => L.rawToNano p
                      | none => "0"),
                    frontier := data.frontier, representative := data.representative,
                    blockCount := data.blockCount }, w1) := by
    simp only [FaucetSentry.getAccountInfo, hfetch, hjson]
  have hN : isValidNanoAddress address = true → response.ok = true →
      NanoWalletManager.getAccountInfoBody E L address w
      = if data.error = some "Account not found" then (.ok AccountInfo.unopened, w1)
        else if truthyOpt data.error then (.error (data.error.getD ""), w1)
        else (.ok { opened := true, balance := data.balance,
                    balanceNano := some (L.rawToNano data.balance),
                    pending := data.pending.getD 0,
                    pendingNano := some (match data.pending with
                      | some p => L.rawToNano p
                      | none => "0"),
                    frontier := data.frontier, representative := data.representative,
                    blockCount := data.blockCount }, w1) := by
    intro hv hok
    simp [NanoWalletManager.getAccountInfoBody, hfetch, hjson, hv, hok]
  refine ⟨?_, ⟨rfl, rfl, rfl, by decide⟩, ?_, ?_, ?_⟩
  · rw [hF]
    constructor
    · intro h
      by_contra hne
      rw [if_neg hne] at h
      split at h
      · cases h
      · have := congrArg AccountInfo.opened (Except.ok.inj h)
        simp [AccountInfo.unopened] at this
    · intro h
      rw [if_pos h]
  · intro e he hne ht
    rw [hF, if_neg (by rw [he]; simpa using hne), if_pos (by rw [he]; exact ht), he]
    rfl
  · intro hfalse
    have hne : data.error ≠ some "Account not found" := by
      intro h
      rw [h] at hfalse
      exact absurd hfalse (by decide)
    rw [hF, if_neg hne, if_neg (by simp [hfalse])]
    exact ⟨_, rfl, rfl, rfl, rfl, rfl⟩
  · intro hv hok
    have hB := hN hv hok
    rw [nw_getAccountInfo_fst, hB]
    refine ⟨?_, ?_, ?_⟩
    · constructor
      · intro h
        by_contra hne
        rw [if_neg hne] at h
        split at h
        · cases h
        · have := congrArg AccountInfo.opened (Except.ok.inj h)
          simp [AccountInfo.unopened] at this
      · intro h
        rw [if_pos h]
    · intro e he hne ht
      rw [if_neg (by rw [he]; simpa using hne), if_pos (by rw [he]; exact ht), he]
      rfl
    · intro hfalse
      have hne : data.error ≠ some "Account not found" := by
        intro h
        rw [h] at hfalse
        exact absurd hfalse (by decide)
      rw [if_neg hne, if_neg (by simp [hfalse])]
      exact ⟨_, rfl, rfl, rfl, rfl, rfl⟩

theorem getAccountInfo_sentinel_witness :
    (FaucetSentry.getAccountInfo Script.env tallyLib "nano_claim" demoUnopenedWorld).1
      = .ok AccountInfo.unopened :=
  (getAccountInfo_sentinel Script.env tallyLib "nano_claim" demoUnopenedWorld _
    ⟨true, 200, .ok { error := some "Account not found" }⟩
    { error := some "Account not found" } rfl rfl).1.2 rfl

/-! ## C23: `getPendingBlocks` walks the fallback endpoints -/

theorem pendingRequests_append (xs ys : List Event) :
    pendingRequests (xs ++ ys) = pendingRequests xs ++ pendingRequests ys := by
  induction xs with
  | nil => rfl
  | cons e rest ih => cases e <;> simp [pendingRequests, ih]

theorem fetchPending_node (E : Env σ) (url account : String) (n : Nat) (w : World σ) :
    (fetchPending E url account n w).2.node = (E.pending url account n w.node).2 := rfl

theorem fetchPending_fst (E : Env σ) (url account : String) (n : Nat) (w : World σ) :
    (fetchPending E url account n w).1 = (E.pending url account n w.node).1 := rfl

/-- The loop of `getPendingBlocks` returns the first non-empty yield of the endpoints in
list order and asks exactly the endpoints up to that one. -/
theorem getPendingBlocksLoop_first (E : Env σ) (L : Lib) (address : String)
    (urls : List String) :
    ∀ (lastError : Option String) (w : World σ),
      (FaucetSentry.getPendingBlocksLoop E L address urls lastError w).1
        = .ok (((pollAll E L address urls w.node).find? (fun l => !l.isEmpty)).getD []) ∧
      pendingRequests (FaucetSentry.getPendingBlocksLoop E L address urls lastError w).2.trace
        = pendingRequests w.trace ++
          urls.take ((pollAll E L address urls w.node).findIdx (fun l => !l.isEmpty) + 1) := by
  induction urls with
  | nil =>
    intro lastError w
    unfold FaucetSentry.getPendingBlocksLoop
    split
    · split
      · exact ⟨rfl, by rw [log_trace, pendingRequests_append]; simp [pendingRequests]⟩
      · exact ⟨rfl, by simp⟩
    · exact ⟨rfl, by simp⟩
  | cons url rest ih =>
    intro lastError w
    have hn := fetchPending_node E url address 10 w
    have hf := fetchPending_fst E url address 10 w
    have ht := fetchPending_trace E url address 10 w
    have hskip : ∀ (le : Option String) (w1 : World σ),
        w1.node = (E.pending url address 10 w.node).2 →
        w1.trace = w.trace ++ [Event.pending url address 10] →
        pendingYield L (E.pending url address 10 w.node).1 = [] →
        (FaucetSentry.getPendingBlocksLoop E L address rest le w1).1
          = .ok (((pollAll E L address (url :: rest) w.node).find?
              (fun l => !l.isEmpty)).getD []) ∧
        pendingRequests (FaucetSentry.getPendingBlocksLoop E L address rest le w1).2.trace
          = pendingRequests w.trace ++ (url :: rest).take
            ((pollAll E L address (url :: rest) w.node).findIdx (fun l => !l.isEmpty) + 1) := by
      intro le w1 hnode htrace hy
      obtain ⟨h1, h2⟩ := ih le w1
      rw [hnode] at h1 h2
      refine ⟨?_, ?_⟩
      · rw [h1]
        simp [pollAll, hy, List.find?]
      · rw [h2, htrace, pendingRequests_append]
        simp [pollAll, hy, List.findIdx_cons, pendingRequests]
    unfold FaucetSentry.getPendingBlocksLoop
    split
    · next e w1 h =>
      rw [h] at hn hf ht
      exact hskip _ w1 hn ht (by rw [← hf]; rfl)
    · next response w1 h =>
      rw [h] at hn hf ht
      dsimp only at hn hf ht
      split
      · next e hj =>
        exact hskip _ w1 hn ht (by rw [← hf]; simp [pendingYield, hj])
      · next data hj =>
        split
        · next herr =>
          exact hskip _ w1 hn ht (by rw [← hf]; simp only [pendingYield, hj, herr, if_true])
        · next herr =>
          dsimp only
          have hy : pendingYield L (E.pending url address 10 w.node).1
              = (data.blocks.getD []).map (toPendingBlock L) := by
            rw [← hf]; simp only [pendingYield, hj, herr]; rfl
          split
          · next hlen =>
            have hne : ((data.blocks.getD []).map (toPendingBlock L)).isEmpty = false := by
              cases hl : (data.blocks.getD []).map (toPendingBlock L) with
              | nil => rw [hl] at hlen; simp at hlen
              | cons a b => rfl
            refine ⟨?_, ?_⟩
            · simp [pollAll, hy, List.find?, hne]
            · rw [ht, pendingRequests_append]
              simp [pollAll, hy, List.findIdx_cons, hne, pendingRequests]
          · next hlen =>
            refine hskip _ w1 hn ht ?_
            rw [hy]
            cases hl : (data.blocks.getD []).map (toPendingBlock L) with
            | nil => rfl
            | cons a b => rw [hl] at hlen; simp at hlen

theorem pollAll_length (E : Env σ) (L : Lib) (address : String) (urls : List String) :
    ∀ s : σ, (pollAll E L address urls s).length = urls.length := by
  induction urls with
  | nil => intro s; rfl
  | cons u rest ih => intro s; simp [pollAll, ih]

/-- C23: whatever the fallback endpoint list and whatever each endpoint answers (timeout,
transport error, remote error, 'Account not found', empty or non-empty block set),
`getPendingBlocks` never raises; it asks the endpoints in list order, returns the block
list of the first endpoint that yields a non-empty one and asks no endpoint after it, and
returns the empty list, having asked every endpoint, when no endpoint yields a block. -/
theorem getPendingBlocks_fallback (E : Env σ) (L : Lib) (address : String)
    (urls : List String) (w : World σ) :
    (FaucetSentry.getPendingBlocksLoop E L address urls none w).1
      = .ok (((pollAll E L address urls w.node).find? (fun l => !l.isEmpty)).getD []) ∧
    pendingRequests (FaucetSentry.getPendingBlocksLoop E L address urls none w).2.trace
      = pendingRequests w.trace ++
        urls.take ((pollAll E L address urls w.node).findIdx (fun l => !l.isEmpty) + 1) ∧
    ((∀ l ∈ pollAll E L address urls w.node, l = []) →
      (FaucetSentry.getPendingBlocksLoop E L address urls none w).1 = .ok [] ∧
      pendingRequests (FaucetSentry.getPendingBlocksLoop E L address urls none w).2.trace
        = pendingRequests w.trace ++ urls) ∧
    (FaucetSentry.getPendingBlocks E L address w).1
      = .ok (((pollAll E L address RPC_FALLBACK_URLS w.node).find?
          (fun l => !l.isEmpty)).getD []) := by
  obtain ⟨h1, h2⟩ := getPendingBlocksLoop_first E L address urls none w
  refine ⟨h1, h2, ?_, (getPendingBlocksLoop_first E L address RPC_FALLBACK_URLS none w).1⟩
  intro hall
  have hlen := pollAll_length E L address urls w.node
  have hnone : (pollAll E L address urls w.node).find? (fun l => !l.isEmpty) = none := by
    rw [List.find?_eq_none]
    intro l hl
    simp [hall l hl]
  have hidx : (pollAll E L address urls w.node).findIdx (fun l => !l.isEmpty)
      = urls.length := by
    rw [← hlen, List.findIdx_eq_length]
    intro l hl
    simp [hall l hl]
  rw [h1, h2, hnone, hidx]
  simp

/-- A closed run of the fallback loop: after a timeout and a remote error the third
endpoint yields block `A`, which is returned, and the fourth endpoint is never asked. -/
theorem getPendingBlocks_fallback_example :
    (FaucetSentry.getPendingBlocksLoop Script.env tallyLib "nano_claim"
        ["u1", "u2", "u3", "u4"] none demoFallbackWorld).1
      = .ok [{ hash := "A", amount := 5, amountNano := "IIIII", source := "nano_faucet" }] ∧
    pendingRequests (FaucetSentry.getPendingBlocksLoop Script.env tallyLib "nano_claim"
        ["u1", "u2", "u3", "u4"] none demoFallbackWorld).2.trace = ["u1", "u2", "u3"] := by
  constructor <;> decide

/-! ## C24: a work response without `work` -/

/-- C24: a remote error of the public work endpoint makes `generateWork` raise, but a
response with neither an error nor a `work` field does not: both `generateWork` methods
return `undefined` to the caller, and `sendFromWallet` then signs and broadcasts a block
without work. -/
theorem generateWork_missing_work_returned (hash message : String) (s : Script)
    (rest : List (Except String (Response WorkJson))) :
    (FaucetSentry.generateWork Script.env hash
        { node := { s with works := noWorkAnswer :: rest } }).1 = .ok none ∧
    (NanoWalletManager.generateWork Script.env hash
        { node := { s with works := noWorkAnswer :: rest } }).1 = .ok none ∧
    (FaucetSentry.generateWork Script.env hash
        { node := { s with works := .ok { json := .ok { error := some message } } :: rest } }).1
      = (if truthy message then .error ("Work generation failed: " ++ message)
         else .ok none) ∧
    (FaucetSentry.sendFromWallet Script.env tallyLib demoWallet "nano_dest" "II"
        demoNoWorkWorld).1 = .ok (some "H") ∧
    Event.process (blockSend 3 "nano_claim" "nano_dest" FALLBACK_REPRESENTATIVE "F" 2 none
        "PRIV") ∈
      (FaucetSentry.sendFromWallet Script.env tallyLib demoWallet "nano_dest" "II"
        demoNoWorkWorld).2.trace := by
  refine ⟨rfl, rfl, ?_, by decide, by decide⟩
  by_cases h : truthy message = true <;>
    simp [FaucetSentry.generateWork, FaucetSentry.generateWorkPublic, fetchWork, Script.env,
      Script.next, truthyOpt, h]

/-! ## C25: work hash and representative of a receive -/

theorem workRequests_append (xs ys : List Event) :
    workRequests (xs ++ ys) = workRequests xs ++ workRequests ys := by
  induction xs with
  | nil => rfl
  | cons e rest ih => cases e <;> simp [workRequests, ih]

theorem broadcasts_append (xs ys : List Event) :
    broadcasts (xs ++ ys) = broadcasts xs ++ broadcasts ys := by
  induction xs with
  | nil => rfl
  | cons e rest ih => cases e <;> simp [broadcasts, ih]

theorem nw_log_trace (level message : String) (w : World σ) :
    (NanoWalletManager.log level message w).trace
      = w.trace ++ [Event.log "nano-log" level ("[Nano] " ++ message)] := rfl

/-- Every work request of `FaucetSentry.generateWork` is for the given hash, there is at
least one, and nothing is broadcast. -/
theorem generateWork_requests (E : Env σ) (hash : String) (w : World σ) :
    (∃ n, 0 < n ∧ workRequests (FaucetSentry.generateWork E hash w).2.trace
      = workRequests w.trace ++ List.replicate n hash) ∧
    broadcasts (FaucetSentry.generateWork E hash w).2.trace = broadcasts w.trace := by
  unfold FaucetSentry.generateWork
  split
  · split
    · next e w1 h =>
      have hw : w1 = (fetchWork E (w.gpuWorkerUrl.getD "") hash w).2 := by rw [h]
      subst hw
      rw [generateWorkPublic_trace, log_trace, fetchWork_trace]
      exact ⟨⟨2, by decide, by simp [workRequests_append, workRequests, List.replicate]⟩,
        by simp [broadcasts_append, broadcasts]⟩
    · next r w1 h =>
      have hw : w1 = (fetchWork E (w.gpuWorkerUrl.getD "") hash w).2 := by rw [h]
      subst hw
      split
      · rw [generateWorkPublic_trace, log_trace, fetchWork_trace]
        exact ⟨⟨2, by decide, by simp [workRequests_append, workRequests, List.replicate]⟩,
          by simp [broadcasts_append, broadcasts]⟩
      · split
        · rw [log_trace, fetchWork_trace]
          exact ⟨⟨1, by decide, by simp [workRequests_append, workRequests, List.replicate]⟩,
            by simp [broadcasts_append, broadcasts]⟩
        · rw [generateWorkPublic_trace, fetchWork_trace]
          exact ⟨⟨2, by decide, by simp [workRequests_append, workRequests, List.replicate]⟩,
            by simp [broadcasts_append, broadcasts]⟩
  · rw [generateWorkPublic_trace]
    exact ⟨⟨1, by decide, by simp [workRequests_append, workRequests, List.replicate]⟩,
      by simp [broadcasts_append, broadcasts]⟩

theorem nw_generateWorkPublic_trace (E : Env σ) (hash : String) (w : World σ) :
    (NanoWalletManager.generateWorkPublic E hash w).2.trace
      = w.trace ++ [Event.workGenerate POW_RPC_URL hash] := by
  rw [nw_generateWorkPublic_world]; rfl

/-- Every work request of `NanoWalletManager.generateWork` is for the given hash, there
is at least one, and nothing is broadcast. -/
theorem nw_generateWork_requests (E : Env σ) (hash : String) (w : World σ) :
    (∃ n, 0 < n ∧ workRequests (NanoWalletManager.generateWork E hash w).2.trace
      = workRequests w.trace ++ List.replicate n hash) ∧
    broadcasts (NanoWalletManager.generateWork E hash w).2.trace = broadcasts w.trace := by
  unfold NanoWalletManager.generateWork
  split
  · split
    · next e w1 h =>
      have hw : w1 = (fetchWork E (w.gpuWorkerUrl.getD "") hash w).2 := by rw [h]
      subst hw
      rw [nw_generateWorkPublic_trace, nw_log_trace, fetchWork_trace]
      exact ⟨⟨2, by decide, by simp [workRequests_append, workRequests, List.replicate]⟩,
        by simp [broadcasts_append, broadcasts]⟩
    · next r w1 h =>
      have hw : w1 = (fetchWork E (w.gpuWorkerUrl.getD "") hash w).2 := by rw [h]
      subst hw
      split
      · rw [nw_generateWorkPublic_trace, nw_log_trace, fetchWork_trace]
        exact ⟨⟨2, by decide, by simp [workRequests_append, workRequests, List.replicate]⟩,
          by simp [broadcasts_append, broadcasts]⟩
      · split
        · rw [nw_log_trace, fetchWork_trace]
          exact ⟨⟨1, by decide, by simp [workRequests_append, workRequests, List.replicate]⟩,
            by simp [broadcasts_append, broadcasts]⟩
        · rw [nw_generateWorkPublic_trace, fetchWork_trace]
          exact ⟨⟨2, by decide, by simp [workRequests_append, workRequests, List.replicate]⟩,
            by simp [broadcasts_append, broadcasts]⟩
  · rw [nw_generateWorkPublic_trace]
    exact ⟨⟨1, by decide, by simp [workRequests_append, workRequests, List.replicate]⟩,
      by simp [broadcasts_append, broadcasts]⟩

theorem nw_processBlock_trace (E : Env σ) (b : Block) (w : World σ) :
    (NanoWalletManager.processBlock E b w).2.trace = w.trace ++ [Event.process b] := by
  unfold NanoWalletManager.processBlock
  split
  · next e w1 h =>
    have hw : w1 = (fetchProcess E b w).2 := by rw [h]
    subst hw; rfl
  · next r w1 h =>
    have hw : w1 = (fetchProcess E b w).2 := by rw [h]
    subst hw
    split
    · rfl
    · split
      · rfl
      · split <;> rfl

/-- C25: in `receiveToWallet` and in `receiveSingleBlock`, once the account state is
fetched, every work request is for the frontier if the state is opened and for the
public key of the account otherwise (and work is requested), and every block broadcast
carries the representative of the state when it has one and the fallback address
otherwise, with the pending hash as link. -/
theorem receive_work_hash_and_representative (E : Env σ) (L : Lib) (toWallet : WalletData)
    (walletData : StoredWallet) (account : StoredAccount) (more : List StoredAccount)
    (pendingHash : String) (amountRaw : Nat) (w w1 w2 : World σ) (info info2 : AccountInfo)
    (hF : FaucetSentry.getAccountInfo E L toWallet.address w = (.ok info, w1))
    (hacc : walletData.accounts = account :: more)
    (hN : NanoWalletManager.getAccountInfo E L account.address w = (.ok info2, w2)) :
    ((∃ n, 0 < n ∧
        workRequests (FaucetSentry.receiveToWallet E L toWallet pendingHash amountRaw w).2.trace
          = workRequests w1.trace ++
            List.replicate n (if info.opened then info.frontier else toWallet.publicKey)) ∧
      ∃ bs, broadcasts (FaucetSentry.receiveToWallet E L toWallet pendingHash amountRaw w).2.trace
          = broadcasts w1.trace ++ bs ∧
        ∀ b ∈ bs, b.representative = (if truthyOpt info.representative
            then info.representative.getD "" else FALLBACK_REPRESENTATIVE) ∧
          b.link = pendingHash ∧ b.previous = info.frontier) ∧
    ((∃ n, 0 < n ∧
        workRequests (NanoWalletManager.receiveSingleBlock E L walletData pendingHash amountRaw
            w).2.trace
          = workRequests w2.trace ++
            List.replicate n (if info2.opened then info2.frontier else account.publicKey)) ∧
      ∃ bs, broadcasts (NanoWalletManager.receiveSingleBlock E L walletData pendingHash
            amountRaw w).2.trace = broadcasts w2.trace ++ bs ∧
        ∀ b ∈ bs, b.representative = (if truthyOpt info2.representative
            then info2.representative.getD "" else FALLBACK_REPRESENTATIVE) ∧
          b.link = pendingHash ∧ b.previous = info2.frontier) := by
  constructor
  · unfold FaucetSentry.receiveToWallet
    rw [hF]
    dsimp only
    obtain ⟨⟨n, hn, hreq⟩, hbc⟩ := generateWork_requests E
      (if info.opened = true then info.frontier else toWallet.publicKey)
      (FaucetSentry.log "info" "Generating proof of work for receive..." w1)
    simp only [log_trace, workRequests_append, broadcasts_append, workRequests, broadcasts,
      List.append_nil] at hreq hbc
    split
    · next e w3 h3 =>
      rw [h3] at hreq hbc
      exact ⟨⟨n, hn, hreq⟩, [], by simpa using hbc, by simp⟩
    · next work w3 h3 =>
      rw [h3] at hreq hbc
      dsimp only at hreq hbc
      rw [processBlock_trace, workRequests_append, broadcasts_append, hreq, hbc]
      refine ⟨⟨n, hn, by simp [workRequests]⟩, [_], rfl, ?_⟩
      intro b hb
      rw [List.mem_singleton] at hb
      subst hb
      exact ⟨rfl, rfl, rfl⟩
  · unfold NanoWalletManager.receiveSingleBlock
    rw [hacc]
    dsimp only
    rw [hN]
    dsimp only
    obtain ⟨⟨n, hn, hreq⟩, hbc⟩ := nw_generateWork_requests E
      (if info2.opened = true then info2.frontier else account.publicKey)
      (NanoWalletManager.log "info" "Generating proof of work for receive..." w2)
    simp only [nw_log_trace, workRequests_append, broadcasts_append, workRequests, broadcasts,
      List.append_nil] at hreq hbc
    split
    · next e w3 h3 =>
      rw [h3] at hreq hbc
      exact ⟨⟨n, hn, hreq⟩, [], by simpa using hbc, by simp⟩
    · next work w3 h3 =>
      rw [h3] at hreq hbc
      dsimp only at hreq hbc
      have hp := nw_processBlock_trace E
        (blockReceive info2.balance account.address (orFallback info2.representative)
          info2.frontier pendingHash amountRaw work account.privateKey)
        (NanoWalletManager.log "info" "Broadcasting receive block..." w3)
      rw [nw_log_trace] at hp
      split
      · next e w5 h5 =>
        rw [h5] at hp
        dsimp only at hp ⊢
        rw [hp]
        simp only [workRequests_append, broadcasts_append, hreq, hbc, workRequests, broadcasts,
          List.append_nil]
        refine ⟨⟨n, hn, rfl⟩, [_], rfl, ?_⟩
        intro b hb
        rw [List.mem_singleton] at hb
        subst hb
        exact ⟨rfl, rfl, rfl⟩
      · next hash w5 h5 =>
        rw [h5] at hp
        dsimp only at hp ⊢
        rw [nw_log_trace, hp]
        simp only [workRequests_append, broadcasts_append, hreq, hbc, workRequests, broadcasts,
          List.append_nil]
        refine ⟨⟨n, hn, rfl⟩, [_], rfl, ?_⟩
        intro b hb
        rw [List.mem_singleton] at hb
        subst hb
        exact ⟨rfl, rfl, rfl⟩

theorem receive_work_hash_and_representative_witness :
    ∃ n, 0 < n ∧
      workRequests (FaucetSentry.receiveToWallet Script.env tallyLib demoWallet "A" 5
          demoUnopenedWorld).2.trace
        = workRequests (FaucetSentry.getAccountInfo Script.env tallyLib demoWallet.address
            demoUnopenedWorld).2.trace ++
          List.replicate n (if AccountInfo.unopened.opened then AccountInfo.unopened.frontier
            else demoWallet.publicKey) :=
  (receive_work_hash_and_representative Script.env tallyLib demoWallet demoBankWallet
    ⟨0, demoBankAddress, "BANKPUB", "BANKPRIV"⟩ [] "A" 5 demoUnopenedWorld _ _
    AccountInfo.unopened AccountInfo.unopened rfl rfl rfl).1.1

/-- A closed first receive: the account is unopened, so work is requested for the public
key and the block names the fallback representative. -/
theorem receive_first_block_example :
    workRequests (FaucetSentry.receiveToWallet Script.env tallyLib demoWallet "A" 5
        demoUnopenedWorld).2.trace = ["PUB"] ∧
    (broadcasts (NanoWalletManager.receiveSingleBlock Script.env tallyLib demoBankWallet "A" 5
        { demoUnopenedWorld with node := { demoUnopenedWorld.node with
            works := [.ok { json := .ok { work := some "w" } }] } }).2.trace).map
      (fun b => (b.representative, b.previous))
      = [(FALLBACK_REPRESENTATIVE, ZERO_FRONTIER)] := by
  constructor <;> decide

/-! ## C30: the address validator -/

theorem nanoAlphabet_bmp : ∀ c ∈ nanoAlphabet, c.toNat < 0x10000 := by decide

theorem utf16_sum_of_bmp (l : List Char) (h : ∀ c ∈ l, c.toNat < 0x10000) :
    (l.map fun c => if c.toNat < 0x10000 then 1 else 2).sum = l.length := by
  induction l with
  | nil => rfl
  | cons a rest ih =>
    have ha : a.toNat < 0x10000 := h a (List.mem_cons_self _ _)
    have hr := ih (fun c hc => h c (List.mem_cons_of_mem _ hc))
    simp only [List.map_cons, List.sum_cons, List.length_cons, if_pos ha, hr]
    omega

/-- A string accepted by the regular expression has 65 characters, all of one code
unit. -/
theorem isValidNanoAddress_shape (s : String) (h : isValidNanoAddress s = true) :
    ∃ c rest, s.toList = 'n' :: 'a' :: 'n' :: 'o' :: '_' :: c :: rest ∧ (c = '1' ∨ c = '3') ∧
      rest.length = 59 ∧ (∀ x ∈ rest, x ∈ nanoAlphabet) := by
  unfold isValidNanoAddress at h
  split at h
  · next c rest heq =>
    simp only [Bool.and_eq_true, Bool.or_eq_true, beq_iff_eq, List.all_eq_true] at h
    exact ⟨c, rest, heq, h.1.1, h.1.2, fun x hx => by simpa using h.2 x hx⟩
  · cases h

theorem isValidNanoAddress_of_shape (s : String) (c : Char) (rest : List Char)
    (hl : s.toList = 'n' :: 'a' :: 'n' :: 'o' :: '_' :: c :: rest) :
    isValidNanoAddress s
      = ((c == '1' || c == '3') && rest.length == 59 &&
          rest.all (fun x => nanoAlphabet.contains x)) := by
  unfold isValidNanoAddress
  rw [hl]
  split
  · next c2 rest2 heq => cases heq; rfl
  · next hne => exact absurd rfl (hne c rest)

theorem isValidNanoAddress_eq_shape (s : String) :
    isValidNanoAddress s = addressShape (.string s) := by
  rw [Bool.eq_iff_iff]
  constructor
  · intro h
    obtain ⟨c, rest, hl, hc, hlen, hall⟩ := isValidNanoAddress_shape s h
    have hbmp : ∀ x ∈ s.toList, x.toNat < 0x10000 := by
      rw [hl]
      intro x hx
      simp only [List.mem_cons] at hx
      rcases hx with rfl | rfl | rfl | rfl | rfl | rfl | hx
      · decide
      · decide
      · decide
      · decide
      · decide
      · rcases hc with rfl | rfl <;> decide
      · exact nanoAlphabet_bmp x (hall x hx)
    have hu : utf16Length s = 65 := by
      unfold utf16Length
      rw [utf16_sum_of_bmp _ hbmp, hl]
      simp [hlen]
    have hall2 : rest.all (fun x => nanoAlphabet.contains x) = true := by
      rw [List.all_eq_true]
      intro x hx
      simpa using hall x hx
    simp only [addressShape, hu, hl]
    rcases hc with rfl | rfl <;> simp [hlen] <;> exact hall
  · intro h
    unfold addressShape at h
    simp only [Bool.and_eq_true, Bool.or_eq_true, beq_iff_eq] at h
    obtain ⟨⟨⟨⟨-, htake⟩, hhead⟩, hlen⟩, hall⟩ := h
    have hsplit : s.toList = s.toList.take 5 ++ s.toList.drop 5 := (List.take_append_drop 5 _).symm
    have hdrop : ∃ c, (c = '1' ∨ c = '3') ∧ s.toList.drop 5 = c :: s.toList.drop 6 := by
      cases hd : s.toList.drop 5 with
      | nil => rw [hd] at hhead; simp at hhead
      | cons c rest =>
        rw [hd] at hhead
        have hrest : s.toList.drop 6 = rest := by
          have : s.toList.drop 6 = (s.toList.drop 5).drop 1 := by simp
          rw [this, hd]; rfl
        refine ⟨c, ?_, by rw [hrest]⟩
        simpa using hhead
    obtain ⟨c, hc, hd⟩ := hdrop
    have hl : s.toList = 'n' :: 'a' :: 'n' :: 'o' :: '_' :: c :: s.toList.drop 6 := by
      have h5 : s.toList = "nano_".toList ++ (c :: s.toList.drop 6) := by
        rw [← htake, ← hd]; exact hsplit
      exact h5
    rw [isValidNanoAddress_of_shape s c _ hl, hall, hlen]
    rcases hc with rfl | rfl <;> decide

/-- C30: `isValidNanoAddress` is true exactly for a string of length 65 made of the
prefix `nano_`, one character `1` or `3`, and 59 characters of the alphabet
13456789abcdefghijkmnopqrstuwxyz; it is false for every non-string, for the empty string,
and for a valid address with extra leading or trailing characters, a trailing newline
included. -/
theorem isValidNanoAddress_characterization :
    (∀ v, isValidNanoAddressValue v = addressShape v) ∧
    (∀ v, (∀ s, v ≠ JsValue.string s) → isValidNanoAddressValue v = false) ∧
    isValidNanoAddressValue (.string "") = false ∧
    (∀ s before after, isValidNanoAddressValue (.string s) = true →
      (before ≠ "" ∨ after ≠ "") →
      isValidNanoAddressValue (.string (before ++ s ++ after)) = false) ∧
    (∀ s, isValidNanoAddressValue (.string (s ++ "\n")) = false) ∧
    isValidNanoAddressValue (.string FALLBACK_REPRESENTATIVE) = true := by
  have hstr : ∀ s, isValidNanoAddressValue (.string s) = isValidNanoAddress s := by
    intro s
    unfold isValidNanoAddressValue
    by_cases hs : s = ""
    · subst hs; rfl
    · simp [JsValue.truthy, hs]
  have hlen : ∀ s, isValidNanoAddress s = true → s.toList.length = 65 := by
    intro s h
    obtain ⟨c, rest, hl, -, hlen, -⟩ := isValidNanoAddress_shape s h
    rw [hl]; simp [hlen]
  refine ⟨?_, ?_, rfl, ?_, ?_, by decide⟩
  · intro v
    cases v with
    | string s => rw [hstr, isValidNanoAddress_eq_shape]
    | undefined => rfl
    | null => rfl
    | object => rfl
    | boolean b => cases b <;> rfl
    | number n => unfold isValidNanoAddressValue addressShape; split <;> rfl
  · intro v hv
    cases v with
    | string s => exact absurd rfl (hv s)
    | undefined => rfl
    | null => rfl
    | object => rfl
    | boolean b => cases b <;> rfl
    | number n => unfold isValidNanoAddressValue; split <;> rfl
  · intro s before after hs hne
    rw [hstr] at hs ⊢
    have h65 : s.data.length = 65 := hlen s hs
    by_contra hcon
    have h65b : (before ++ s ++ after).data.length = 65 := hlen _ (by simpa using hcon)
    rw [String.data_append, String.data_append, List.length_append, List.length_append] at h65b
    have hb : before.data.length = 0 := by omega
    have ha : after.data.length = 0 := by omega
    rcases hne with h | h
    · exact h (String.ext (by simpa using List.length_eq_zero.mp hb))
    · exact h (String.ext (by simpa using List.length_eq_zero.mp ha))
  · intro s
    rw [hstr]
    by_contra hcon
    obtain ⟨c, rest, hl, hc, hlen59, hall⟩ := isValidNanoAddress_shape _ (by simpa using hcon)
    have hmem : '\n' ∈ (s ++ "\n").toList := by simp
    rw [hl] at hmem
    simp only [List.mem_cons] at hmem
    rcases hmem with h | h | h | h | h | h | h
    · exact absurd h (by decide)
    · exact absurd h (by decide)
    · exact absurd h (by decide)
    · exact absurd h (by decide)
    · exact absurd h (by decide)
    · rcases hc with rfl | rfl <;> exact absurd h (by decide)
    · exact absurd (hall _ h) (by decide)

/-! ## C26: the wallet name is a unique key -/

theorem utf16Length_ge (s : String) : s.length ≤ utf16Length s := by
  have key : ∀ l : List Char,
      l.length ≤ (l.map fun c => if c.toNat < 0x10000 then 1 else 2).sum := by
    intro l
    induction l with
    | nil => simp
    | cons a rest ih =>
      simp only [List.map_cons, List.sum_cons, List.length_cons]
      split <;> omega
  exact key s.data

/-- A rejected name, or an accepted name that the store already has, makes `createWallet`
and `importWallet` fail without touching the store or the outside world. -/
theorem wallet_ops_rejected (K : Keygen σ) (name seedOrMnemonic : JsValue) (type : String)
    (w : World σ)
    (h : walletNameOf name = none ∨
      ∃ n, walletNameOf name = some n ∧ storeHas w.wallets n = true) :
    ((NanoWalletManager.createWallet K name type w).1.success = false ∧
      (NanoWalletManager.createWallet K name type w).2.wallets = w.wallets ∧
      (NanoWalletManager.createWallet K name type w).2.node = w.node) ∧
    ((NanoWalletManager.importWallet K name seedOrMnemonic type w).1.success = false ∧
      (NanoWalletManager.importWallet K name seedOrMnemonic type w).2.wallets = w.wallets ∧
      (NanoWalletManager.importWallet K name seedOrMnemonic type w).2.node = w.node) := by
  have hc : ∃ message, NanoWalletManager.createWalletBody K name type w = (.error message, w) := by
    unfold NanoWalletManager.createWalletBody
    rcases h with h | ⟨n, hn, hs⟩
    · rw [h]; exact ⟨_, rfl⟩
    · rw [hn]; dsimp only; rw [if_pos hs]; exact ⟨_, rfl⟩
  have hi : ∃ message,
      NanoWalletManager.importWalletBody K name seedOrMnemonic type w = (.error message, w) := by
    unfold NanoWalletManager.importWalletBody
    rcases h with h | ⟨n, hn, hs⟩
    · rw [h]; exact ⟨_, rfl⟩
    · rw [hn]
      dsimp only
      split
      · split
        · exact ⟨_, rfl⟩
        · exact ⟨_, rfl⟩
      · exact ⟨_, rfl⟩
  obtain ⟨m1, h1⟩ := hc
  obtain ⟨m2, h2⟩ := hi
  unfold NanoWalletManager.createWallet NanoWalletManager.importWallet
  rw [h1, h2]
  exact ⟨⟨rfl, rfl, rfl⟩, rfl, rfl, rfl⟩

/-- C26: `createWallet` and `importWallet` with a name that is already a key of the store
return `success: false` and leave the store as it was (the existing wallet with its seed,
accounts and creation timestamp, and every other wallet); so do they for a name that is
not a string, is empty, or is longer than 50 characters. -/
theorem wallet_name_is_unique_key (K : Keygen σ) (name seedOrMnemonic : JsValue)
    (type : String) (w : World σ)
    (h : (∃ n stored, name = .string n ∧ w.wallets.lookup n = some stored) ∨
      (∀ s, name ≠ .string s) ∨ name = .string "" ∨
      (∃ s, name = .string s ∧ 50 < s.length)) :
    (NanoWalletManager.createWallet K name type w).1.success = false ∧
    (NanoWalletManager.createWallet K name type w).2.wallets = w.wallets ∧
    (NanoWalletManager.importWallet K name seedOrMnemonic type w).1.success = false ∧
    (NanoWalletManager.importWallet K name seedOrMnemonic type w).2.wallets = w.wallets := by
  have key : walletNameOf name = none ∨
      ∃ n, walletNameOf name = some n ∧ storeHas w.wallets n = true := by
    rcases h with ⟨n, stored, rfl, hl⟩ | hns | rfl | ⟨s, rfl, hlen⟩
    · cases hw : walletNameOf (.string n) with
      | none => exact Or.inl rfl
      | some m =>
        right
        have hm : m = n := by
          unfold walletNameOf at hw
          split at hw
          · cases hw
          · dsimp only at hw
            split at hw
            · cases hw
            · exact (Option.some.inj hw).symm
        subst hm
        exact ⟨m, rfl, by simp [storeHas, hl]⟩
    · left
      cases name with
      | string s => exact absurd rfl (hns s)
      | undefined => rfl
      | null => rfl
      | object => rfl
      | boolean b => cases b <;> rfl
      | number n => unfold walletNameOf; split <;> rfl
    · left; rfl
    · left
      have := utf16Length_ge s
      unfold walletNameOf
      split
      · rfl
      · dsimp only
        rw [if_pos]
        simp only [Bool.or_eq_true, decide_eq_true_eq]
        right; omega
  obtain ⟨⟨a, b, -⟩, c, d, -⟩ := wallet_ops_rejected K name seedOrMnemonic type w key
  exact ⟨a, b, c, d⟩

theorem wallet_name_is_unique_key_witness :
    (NanoWalletManager.createWallet demoKeygen (.string "bank") "hd" demoStoreWorld).1.success
      = false ∧
    (NanoWalletManager.createWallet demoKeygen (.string "bank") "hd" demoStoreWorld).2.wallets
      = demoStoreWorld.wallets ∧
    (NanoWalletManager.importWallet demoKeygen (.string "bank") (.string "S2") "hd"
      demoStoreWorld).1.success = false ∧
    (NanoWalletManager.importWallet demoKeygen (.string "bank") (.string "S2") "hd"
      demoStoreWorld).2.wallets = demoStoreWorld.wallets :=
  wallet_name_is_unique_key demoKeygen (.string "bank") (.string "S2") "hd" demoStoreWorld
    (Or.inl ⟨"bank", demoBankWallet, rfl, rfl⟩)

/-- A closed run of the store: a fresh name is added after the existing wallet, which
stays as it was. -/
theorem createWallet_fresh_name_example :
    (NanoWalletManager.createWallet demoKeygen (.string "second") "hd" demoStoreWorld).1.success
      = true ∧
    ((NanoWalletManager.createWallet demoKeygen (.string "second") "hd"
      demoStoreWorld).2.wallets.map (·.1)) = ["bank", "second"] ∧
    (NanoWalletManager.createWallet demoKeygen (.string "second") "hd"
      demoStoreWorld).2.wallets.lookup "bank" = some demoBankWallet := by
  refine ⟨?_, ?_, ?_⟩ <;> decide

/-! ## C14 and C15: identity histories -/

theorem newnymRequests_append (xs ys : List Event) :
    newnymRequests (xs ++ ys) = newnymRequests xs ++ newnymRequests ys := by
  induction xs with
  | nil => rfl
  | cons e rest ih => cases e <;> simp [newnymRequests, ih]

theorem observedIPs_append (xs ys : List Event) :
    observedIPs (xs ++ ys) = observedIPs xs ++ observedIPs ys := by
  induction xs with
  | nil => rfl
  | cons e rest ih => cases e <;> simp [observedIPs, ih]

theorem fifoInsert_length (history : List String) (entry : String)
    (h : history.length ≤ maxIPHistory) : (fifoInsert history entry).length ≤ maxIPHistory := by
  unfold fifoInsert
  split
  · simp only [List.length_tail, List.length_append, List.length_singleton]; omega
  · next hle => exact Nat.le_of_not_lt hle

/-- A full history loses its oldest entry, and only that one, on insertion. -/
theorem fifoInsert_full (oldest : String) (others : List String) (entry : String)
    (h : (oldest :: others).length = maxIPHistory) :
    fifoInsert (oldest :: others) entry = others ++ [entry] := by
  unfold fifoInsert
  rw [if_pos]
  · rfl
  · simp only [List.length_append, List.length_singleton, h]; omega

theorem fifoInsert_room (history : List String) (entry : String)
    (h : history.length < maxIPHistory) : fifoInsert history entry = history ++ [entry] := by
  unfold fifoInsert
  rw [if_neg]
  simp only [List.length_append, List.length_singleton]; omega

theorem rememberUserAgent_spec (userAgent : String) (w : World σ) :
    (FaucetSentry.rememberUserAgent userAgent w).usedTorIPs = w.usedTorIPs ∧
    (FaucetSentry.rememberUserAgent userAgent w).usedUserAgents
      = fifoInsert w.usedUserAgents userAgent ∧
    (FaucetSentry.rememberUserAgent userAgent w).trace = w.trace := by
  unfold FaucetSentry.rememberUserAgent fifoInsert
  dsimp only
  split <;> exact ⟨rfl, rfl, rfl⟩

theorem rememberTorIP_spec (ip : String) (w : World σ) :
    (FaucetSentry.rememberTorIP ip w).usedUserAgents = w.usedUserAgents ∧
    (FaucetSentry.rememberTorIP ip w).usedTorIPs = fifoInsert w.usedTorIPs ip ∧
    (FaucetSentry.rememberTorIP ip w).trace = w.trace := by
  unfold FaucetSentry.rememberTorIP fifoInsert
  dsimp only
  split <;> exact ⟨rfl, rfl, rfl⟩

/-- One pass of the generator only draws random numbers. -/
theorem randomUserAgent_same (H : Host σ) (w : World σ) :
    (FaucetSentry.randomUserAgent H w).2
      = { w with node := (FaucetSentry.randomUserAgent H w).2.node } := by
  simp only [FaucetSentry.randomUserAgent, drawBuild, draw]
  split_ifs <;> rfl

/-- What `generateRandomUserAgent` does to the histories: the address history is left
alone, the user-agent history is left alone or receives one new entry. -/
theorem generateRandomUserAgent_history (H : Host σ) (depth : Nat) :
    ∀ w : World σ,
      (FaucetSentry.generateRandomUserAgent H depth w).2.usedTorIPs = w.usedTorIPs ∧
      (((FaucetSentry.generateRandomUserAgent H depth w).2.usedUserAgents = w.usedUserAgents ∧
          ∃ e, (FaucetSentry.generateRandomUserAgent H depth w).1 = .error e) ∨
        ∃ userAgent, (FaucetSentry.generateRandomUserAgent H depth w).1 = .ok userAgent ∧
          userAgent ∉ w.usedUserAgents ∧
          (FaucetSentry.generateRandomUserAgent H depth w).2.usedUserAgents
            = fifoInsert w.usedUserAgents userAgent) := by
  induction depth with
  | zero => intro w; exact ⟨rfl, Or.inl ⟨rfl, _, rfl⟩⟩
  | succ depth ih =>
    intro w
    have hs := randomUserAgent_same H w
    have hua : (FaucetSentry.randomUserAgent H w).2.usedUserAgents = w.usedUserAgents := by
      rw [hs]
    have hip : (FaucetSentry.randomUserAgent H w).2.usedTorIPs = w.usedTorIPs := by
      rw [hs]
    unfold FaucetSentry.generateRandomUserAgent
    dsimp only
    split
    · obtain ⟨h1, h2⟩ := ih (FaucetSentry.randomUserAgent H w).2
      rw [hip] at h1
      rw [hua] at h2
      exact ⟨h1, h2⟩
    · next hnot =>
      rw [hua] at hnot
      have hnotin : (FaucetSentry.randomUserAgent H w).1 ∉ w.usedUserAgents := by
        simpa using hnot
      obtain ⟨h1, h2, -⟩ := rememberUserAgent_spec (FaucetSentry.randomUserAgent H w).1
        (FaucetSentry.randomUserAgent H w).2
      refine ⟨h1.trans hip, Or.inr ⟨_, rfl, hnotin, ?_⟩⟩
      show (FaucetSentry.rememberUserAgent _ _).usedUserAgents = _
      rw [h2, hua]

theorem Same.refl_same (w : World σ) : Same w w := ⟨w.node, w.trace, rfl⟩

theorem Same.trans_same {a b c : World σ} (h1 : Same a b) (h2 : Same b c) : Same a c := by
  obtain ⟨s1, t1, rfl⟩ := h1
  obtain ⟨s2, t2, rfl⟩ := h2
  exact ⟨s2, t2, rfl⟩

theorem same_emit (e : Event) (w : World σ) : Same w (emit e w) := ⟨_, _, rfl⟩

theorem same_log (level message : String) (w : World σ) :
    Same w (FaucetSentry.log level message w) := ⟨_, _, rfl⟩

theorem same_delay (E : Env σ) (ms : Nat) (w : World σ) : Same w (FaucetSentry.delay E ms w) :=
  ⟨_, _, rfl⟩

theorem same_node (s : σ) (w : World σ) : Same w { w with node := s } := ⟨_, _, rfl⟩

theorem Same.usedTorIPs {a b : World σ} (h : Same a b) : b.usedTorIPs = a.usedTorIPs := by
  obtain ⟨s, t, rfl⟩ := h; rfl

theorem Same.usedUserAgents {a b : World σ} (h : Same a b) :
    b.usedUserAgents = a.usedUserAgents := by
  obtain ⟨s, t, rfl⟩ := h; rfl

theorem Same.torSocksPort {a b : World σ} (h : Same a b) : b.torSocksPort = a.torSocksPort := by
  obtain ⟨s, t, rfl⟩ := h; rfl

theorem Same.torControlPort {a b : World σ} (h : Same a b) :
    b.torControlPort = a.torControlPort := by
  obtain ⟨s, t, rfl⟩ := h; rfl

theorem requestNewTorIdentity_same (H : Host σ) (w : World σ) :
    Same w (FaucetSentry.requestNewTorIdentity H w) := by
  unfold FaucetSentry.requestNewTorIdentity
  dsimp only
  split <;> exact ⟨_, _, rfl⟩

/-- A request for a new identity makes exactly one connection to the control port. -/
theorem requestNewTorIdentity_trace (H : Host σ) (w : World σ) :
    newnymRequests (FaucetSentry.requestNewTorIdentity H w).trace
      = newnymRequests w.trace ++ [w.torControlPort] ∧
    observedIPs (FaucetSentry.requestNewTorIdentity H w).trace = observedIPs w.trace := by
  unfold FaucetSentry.requestNewTorIdentity
  dsimp only
  split <;>
    simp [FaucetSentry.log, emit, newnymRequests_append, newnymRequests, observedIPs_append,
      observedIPs]

theorem collides_of_not_long (history : List String) (currentIP : Option String)
    (h : ¬ (truthyOpt currentIP && decide (utf16Length (currentIP.getD "") > 6)) = true) :
    collides history currentIP = false := by
  cases currentIP with
  | none => rfl
  | some ip =>
    simp only [collides, Bool.and_eq_false_imp, decide_eq_true_eq]
    intro hlong
    exfalso
    apply h
    have hne : ip ≠ "" := by
      rintro rfl
      simp [utf16Length] at hlong
    simp [truthyOpt, truthy, hne, hlong]

theorem identityProbe_spec (E : Env σ) (H : Host σ) (w : World σ) :
    Same w (FaucetSentry.identityProbe E H w).2 ∧
    newnymRequests (FaucetSentry.identityProbe E H w).2.trace
      = newnymRequests w.trace ++ [w.torControlPort] ∧
    observedIPs (FaucetSentry.identityProbe E H w).2.trace
      = observedIPs w.trace ++ [(FaucetSentry.identityProbe E H w).1.toOption.getD none] := by
  obtain ⟨hn, ho⟩ := requestNewTorIdentity_trace H w
  refine ⟨?_, ?_, ?_⟩
  · exact (requestNewTorIdentity_same H w).trans_same
      ((same_delay E 2000 _).trans_same ((same_node _ _).trans_same (same_emit _ _)))
  · simp only [FaucetSentry.identityProbe, emit, FaucetSentry.delay, newnymRequests_append,
      hn, newnymRequests, List.append_nil]
  · simp only [FaucetSentry.identityProbe, emit, FaucetSentry.delay, observedIPs_append,
      ho, observedIPs, List.append_nil]

/-- What the loop of `getVerifiedFreshTorIdentity` does, for every remote side. -/
theorem identityLoop_spec (E : Env σ) (H : Host σ) (left : Nat) :
    ∀ (attempts : Nat) (w : World σ),
      (FaucetSentry.identityLoop E H left attempts w).1.success = true ∧
      (FaucetSentry.identityLoop E H left attempts w).2.usedUserAgents = w.usedUserAgents ∧
      ∃ ports obs,
        newnymRequests (FaucetSentry.identityLoop E H left attempts w).2.trace
          = newnymRequests w.trace ++ ports ∧
        observedIPs (FaucetSentry.identityLoop E H left attempts w).2.trace
          = observedIPs w.trace ++ obs ∧
        ports.length ≤ left ∧ obs.length = ports.length ∧
        (((FaucetSentry.identityLoop E H left attempts w).1.ip = none ∧
            (FaucetSentry.identityLoop E H left attempts w).2.usedTorIPs = [] ∧
            ports.length = left ∧ ∀ o ∈ obs, collides w.usedTorIPs o = true) ∨
          ((∃ o ∈ obs, collides w.usedTorIPs o = false) ∧
            (((FaucetSentry.identityLoop E H left attempts w).1.ip = none ∧
                (FaucetSentry.identityLoop E H left attempts w).2.usedTorIPs = w.usedTorIPs) ∨
              ∃ ip, (FaucetSentry.identityLoop E H left attempts w).1.ip = some ip ∧
                ip ∉ w.usedTorIPs ∧
                (FaucetSentry.identityLoop E H left attempts w).2.usedTorIPs
                  = fifoInsert w.usedTorIPs ip))) := by
  induction left with
  | zero =>
    intro attempts w
    refine ⟨rfl, rfl, [], [], ?_, ?_, le_refl _, rfl, Or.inl ⟨rfl, rfl, rfl, by simp⟩⟩
    · simp [FaucetSentry.identityLoop, FaucetSentry.log, emit, newnymRequests_append,
        newnymRequests]
    · simp [FaucetSentry.identityLoop, FaucetSentry.log, emit, observedIPs_append, observedIPs]
  | succ left ih =>
    intro attempts w
    obtain ⟨hsame, hn, ho⟩ := identityProbe_spec E H w
    unfold FaucetSentry.identityLoop
    dsimp only
    split
    · next e w3 h =>
      rw [h] at hsame hn ho
      dsimp only at hsame hn ho
      refine ⟨rfl, hsame.usedUserAgents, [w.torControlPort], [none], ?_, ?_, by simp, rfl,
        Or.inr ⟨⟨none, by simp, rfl⟩, Or.inl ⟨rfl, hsame.usedTorIPs⟩⟩⟩
      · simp [FaucetSentry.log, emit, newnymRequests_append, newnymRequests, hn]
      · simp [FaucetSentry.log, emit, observedIPs_append, observedIPs, ho, Except.toOption]
    · next currentIP w3 h =>
      rw [h] at hsame hn ho
      dsimp only at hsame hn ho
      have ho2 : observedIPs w3.trace = observedIPs w.trace ++ [currentIP] := by
        rw [ho]; simp [Except.toOption]
      split
      · next hlong =>
        have hsome : currentIP = some (currentIP.getD "") := by
          cases currentIP with
          | none => simp [truthyOpt] at hlong
          | some ip => rfl
        have hlen : 6 < utf16Length (currentIP.getD "") := by
          simp only [Bool.and_eq_true, decide_eq_true_eq] at hlong
          exact hlong.2
        split
        · next hfresh =>
          have hnotin : currentIP.getD "" ∉ w.usedTorIPs := by
            rw [hsame.usedTorIPs] at hfresh
            simpa using hfresh
          obtain ⟨r1, r2, r3⟩ := rememberTorIP_spec (currentIP.getD "") w3
          refine ⟨rfl, r1.trans hsame.usedUserAgents, [w.torControlPort], [currentIP], ?_, ?_,
            by simp, rfl, Or.inr ⟨⟨currentIP, by simp, ?_⟩, Or.inr ⟨_, rfl, hnotin, ?_⟩⟩⟩
          · simp [FaucetSentry.log, emit, newnymRequests_append, newnymRequests, hn, r3]
          · simp [FaucetSentry.log, emit, observedIPs_append, observedIPs, ho2, r3]
          · rw [hsome]
            simp only [collides, Bool.and_eq_false_imp]
            intro _
            simpa using hnotin
          · show (FaucetSentry.rememberTorIP (currentIP.getD "") w3).usedTorIPs = _
            rw [r2, hsame.usedTorIPs]
        · next hused =>
          have hin : (currentIP.getD "") ∈ w.usedTorIPs := by
            rw [hsame.usedTorIPs] at hused
            simpa using hused
          obtain ⟨hs, hua, ports, obs, hp, hobs, hpl, hol, hcase⟩ := ih (attempts + 1)
            (FaucetSentry.log "warning"
              ("IP " ++ currentIP.getD "" ++ " already used (attempt " ++
                toString (attempts + 1) ++ "/3)") w3)
          have hhist : (FaucetSentry.log "warning"
              ("IP " ++ currentIP.getD "" ++ " already used (attempt " ++
                toString (attempts + 1) ++ "/3)") w3).usedTorIPs = w.usedTorIPs :=
            hsame.usedTorIPs
          have hcol : collides w.usedTorIPs currentIP = true := by
            rw [hsome]
            simp [collides, hlen, hin]
          rw [hhist] at hcase
          refine ⟨hs, hua.trans hsame.usedUserAgents, w.torControlPort :: ports,
            currentIP :: obs, ?_, ?_, by simpa using hpl, by simp [hol], ?_⟩
          · rw [hp]
            simp [FaucetSentry.log, emit, newnymRequests_append, newnymRequests, hn]
          · rw [hobs]
            simp [FaucetSentry.log, emit, observedIPs_append, observedIPs, ho2]
          · rcases hcase with ⟨h1, h2, h3, h4⟩ | ⟨⟨o, ho1, ho3⟩, h5⟩
            · refine Or.inl ⟨h1, h2, by simp [h3], ?_⟩
              intro o ho'
              rcases List.mem_cons.mp ho' with rfl | ho'
              · exact hcol
              · exact h4 o ho'
            · exact Or.inr ⟨⟨o, List.mem_cons_of_mem _ ho1, ho3⟩, h5⟩
      · next hshort =>
        refine ⟨rfl, hsame.usedUserAgents, [w.torControlPort], [currentIP], ?_, ?_, by simp,
          rfl, Or.inr ⟨⟨currentIP, by simp, collides_of_not_long _ _ hshort⟩,
            Or.inl ⟨rfl, hsame.usedTorIPs⟩⟩⟩
        · simp [FaucetSentry.log, emit, newnymRequests_append, newnymRequests, hn]
        · simp [FaucetSentry.log, emit, observedIPs_append, observedIPs, ho2]

theorem getVerifiedFreshTorIdentity_history (E : Env σ) (H : Host σ) (w : World σ) :
    (FaucetSentry.getVerifiedFreshTorIdentity E H w).2.usedUserAgents = w.usedUserAgents ∧
    ((FaucetSentry.getVerifiedFreshTorIdentity E H w).2.usedTorIPs = w.usedTorIPs ∨
      (FaucetSentry.getVerifiedFreshTorIdentity E H w).2.usedTorIPs = [] ∨
      ∃ ip, ip ∉ w.usedTorIPs ∧
        (FaucetSentry.getVerifiedFreshTorIdentity E H w).2.usedTorIPs
          = fifoInsert w.usedTorIPs ip) := by
  obtain ⟨-, hua, ports, obs, -, -, -, -, hcase⟩ := identityLoop_spec E H 3 0 w
  refine ⟨hua, ?_⟩
  rcases hcase with ⟨-, h, -, -⟩ | ⟨-, ⟨-, h⟩ | ⟨ip, -, h1, h2⟩⟩
  · exact Or.inr (Or.inl h)
  · exact Or.inl h
  · exact Or.inr (Or.inr ⟨ip, h1, h2⟩)

theorem runIdentityCalls_bounded (E : Env σ) (H : Host σ) (calls : List IdentityCall) :
    ∀ w : World σ, w.usedTorIPs.length ≤ maxIPHistory →
      w.usedUserAgents.length ≤ maxIPHistory →
      (runIdentityCalls E H calls w).usedTorIPs.length ≤ maxIPHistory ∧
      (runIdentityCalls E H calls w).usedUserAgents.length ≤ maxIPHistory := by
  induction calls with
  | nil => intro w h1 h2; exact ⟨h1, h2⟩
  | cons call rest ih =>
    intro w h1 h2
    cases call with
    | userAgent depth =>
      obtain ⟨hip, hua⟩ := generateRandomUserAgent_history H depth w
      refine ih _ (by rw [hip]; exact h1) ?_
      rcases hua with ⟨h, -⟩ | ⟨x, -, -, h⟩
      · rw [h]; exact h2
      · rw [h]; exact fifoInsert_length _ _ h2
    | torIdentity =>
      obtain ⟨hua, hip⟩ := getVerifiedFreshTorIdentity_history E H w
      refine ih _ ?_ (by rw [hua]; exact h2)
      rcases hip with h | h | ⟨ip, -, h⟩
      · rw [h]; exact h1
      · rw [h]; exact Nat.zero_le _
      · rw [h]; exact fifoInsert_length _ _ h1

theorem fifoInsert_explicit (history : List String) (entry : String) :
    fifoInsert history entry
      = if history.length < maxIPHistory then history ++ [entry]
        else history.drop 1 ++ [entry] := by
  unfold fifoInsert
  by_cases h : history.length < maxIPHistory
  · rw [if_pos h, if_neg (by simp only [List.length_append, List.length_singleton]; omega)]
  · rw [if_neg h, if_pos (by simp only [List.length_append, List.length_singleton]; omega)]
    cases history with
    | nil => exact absurd (by simp [maxIPHistory]) h
    | cons oldest others => rfl

theorem drop_window (entries : List String) (entry : String) (capacity : Nat)
    (hcap : 0 < capacity) :
    (if (entries.drop (entries.length - capacity)).length < capacity then
        entries.drop (entries.length - capacity) ++ [entry]
      else (entries.drop (entries.length - capacity)).drop 1 ++ [entry])
      = (entries ++ [entry]).drop ((entries ++ [entry]).length - capacity) := by
  simp only [List.length_drop, List.length_append, List.length_singleton, List.drop_drop]
  by_cases h : entries.length < capacity
  · have h1 : entries.length - capacity = 0 := by omega
    have h2 : entries.length + 1 - capacity = 0 := by omega
    rw [if_pos (by omega), h1, h2]
    rfl
  · have h2 : entries.length + 1 - capacity = 1 + (entries.length - capacity) := by omega
    rw [if_neg (by omega), h2, List.drop_append_of_le_length (by omega), Nat.add_comm]

theorem rememberUserAgent_fold (entries : List String) (w : World σ) :
    (entries.foldl (fun session entry => FaucetSentry.rememberUserAgent entry session)
        { w with usedUserAgents := [] }).usedUserAgents
      = entries.drop (entries.length - maxIPHistory) := by
  induction entries using List.reverseRecOn with
  | nil => rfl
  | append_singleton entries entry ih =>
    rw [List.foldl_append, List.foldl_cons, List.foldl_nil,
      (rememberUserAgent_spec _ _).2.1, fifoInsert_explicit, ih]
    exact drop_window entries entry maxIPHistory (by decide)

theorem rememberTorIP_fold (entries : List String) (w : World σ) :
    (entries.foldl (fun session entry => FaucetSentry.rememberTorIP entry session)
        { w with usedTorIPs := [] }).usedTorIPs
      = entries.drop (entries.length - maxIPHistory) := by
  induction entries using List.reverseRecOn with
  | nil => rfl
  | append_singleton entries entry ih =>
    rw [List.foldl_append, List.foldl_cons, List.foldl_nil,
      (rememberTorIP_spec _ _).2.1, fifoInsert_explicit, ih]
    exact drop_window entries entry maxIPHistory (by decide)

/-- C14: starting from empty histories, after any sequence of `generateRandomUserAgent`
and `getVerifiedFreshTorIdentity` calls each history holds at most `maxIPHistory` = 50
entries. The statements that insert an entry append it at the end of the history and,
when the history already held 50 entries, remove the entry at its front; a call of
`generateRandomUserAgent` that returns a user agent has inserted it in this way and a
call that throws has left the history as it was; a call of
`getVerifiedFreshTorIdentity` that returns an address has inserted it in this way and a
call that returns none has left the address history as it was or has emptied it.
Hence, after the insertion of any sequence of entries into an empty history, the history
is the last 50 of them in the order of insertion: what an insertion evicts is the oldest
entry inserted. -/
theorem identity_histories_bounded (E : Env σ) (H : Host σ) :
    maxIPHistory = 50 ∧
    (∀ (calls : List IdentityCall) (w : World σ),
      (runIdentityCalls E H calls
          { w with usedTorIPs := [], usedUserAgents := [] }).usedTorIPs.length ≤ maxIPHistory ∧
      (runIdentityCalls E H calls
          { w with usedTorIPs := [], usedUserAgents := [] }).usedUserAgents.length
        ≤ maxIPHistory) ∧
    (∀ (userAgent : String) (w : World σ),
      (FaucetSentry.rememberUserAgent userAgent w).usedUserAgents
        = if w.usedUserAgents.length < 50 then w.usedUserAgents ++ [userAgent]
          else w.usedUserAgents.drop 1 ++ [userAgent]) ∧
    (∀ (ip : String) (w : World σ),
      (FaucetSentry.rememberTorIP ip w).usedTorIPs
        = if w.usedTorIPs.length < 50 then w.usedTorIPs ++ [ip]
          else w.usedTorIPs.drop 1 ++ [ip]) ∧
    (∀ (depth : Nat) (w : World σ),
      (FaucetSentry.generateRandomUserAgent H depth w).2.usedTorIPs = w.usedTorIPs ∧
      (∀ e, (FaucetSentry.generateRandomUserAgent H depth w).1 = .error e →
        (FaucetSentry.generateRandomUserAgent H depth w).2.usedUserAgents
          = w.usedUserAgents) ∧
      (∀ userAgent, (FaucetSentry.generateRandomUserAgent H depth w).1 = .ok userAgent →
        userAgent ∉ w.usedUserAgents ∧
        (FaucetSentry.generateRandomUserAgent H depth w).2.usedUserAgents
          = if w.usedUserAgents.length < 50 then w.usedUserAgents ++ [userAgent]
            else w.usedUserAgents.drop 1 ++ [userAgent])) ∧
    (∀ w : World σ,
      (FaucetSentry.getVerifiedFreshTorIdentity E H w).2.usedUserAgents = w.usedUserAgents ∧
      (∀ ip, (FaucetSentry.getVerifiedFreshTorIdentity E H w).1.ip = some ip →
        ip ∉ w.usedTorIPs ∧
        (FaucetSentry.getVerifiedFreshTorIdentity E H w).2.usedTorIPs
          = if w.usedTorIPs.length < 50 then w.usedTorIPs ++ [ip]
            else w.usedTorIPs.drop 1 ++ [ip]) ∧
      ((FaucetSentry.getVerifiedFreshTorIdentity E H w).1.ip = none →
        (FaucetSentry.getVerifiedFreshTorIdentity E H w).2.usedTorIPs = w.usedTorIPs ∨
        (FaucetSentry.getVerifiedFreshTorIdentity E H w).2.usedTorIPs = [])) ∧
    (∀ (entries : List String) (w : World σ),
      (entries.foldl (fun session entry => FaucetSentry.rememberUserAgent entry session)
          { w with usedUserAgents := [] }).usedUserAgents
        = entries.drop (entries.length - 50)) ∧
    (∀ (entries : List String) (w : World σ),
      (entries.foldl (fun session entry => FaucetSentry.rememberTorIP entry session)
          { w with usedTorIPs := [] }).usedTorIPs
        = entries.drop (entries.length - 50)) := by
  refine ⟨rfl, ?_, ?_, ?_, ?_, ?_, rememberUserAgent_fold, rememberTorIP_fold⟩
  · intro calls w
    exact runIdentityCalls_bounded E H calls _ (Nat.zero_le _) (Nat.zero_le _)
  · intro userAgent w
    rw [(rememberUserAgent_spec userAgent w).2.1, fifoInsert_explicit]
    rfl
  · intro ip w
    rw [(rememberTorIP_spec ip w).2.1, fifoInsert_explicit]
    rfl
  · intro depth w
    obtain ⟨hip, hua⟩ := generateRandomUserAgent_history H depth w
    refine ⟨hip, ?_, ?_⟩
    · intro e he
      rcases hua with ⟨h, -⟩ | ⟨x, hx, -, -⟩
      · exact h
      · rw [hx] at he; cases he
    · intro userAgent hok
      rcases hua with ⟨-, e, he⟩ | ⟨x, hx, h1, h2⟩
      · rw [he] at hok; cases hok
      · have hxu : x = userAgent := by
          rw [hx] at hok
          exact Except.ok.inj hok
        subst hxu
        refine ⟨h1, ?_⟩
        rw [h2, fifoInsert_explicit]
        rfl
  · intro w
    obtain ⟨-, hua, ports, obs, -, -, -, -, hcase⟩ := identityLoop_spec E H 3 0 w
    refine ⟨hua, ?_, ?_⟩
    · intro ip hip
      rcases hcase with ⟨h, -, -, -⟩ | ⟨-, ⟨h, -⟩ | ⟨ip2, h1, h2, h3⟩⟩
      · exact absurd (h.symm.trans hip) (by simp)
      · exact absurd (h.symm.trans hip) (by simp)
      · have hxi : ip2 = ip := Option.some.inj (h1.symm.trans hip)
        subst hxi
        refine ⟨h2, ?_⟩
        show (FaucetSentry.identityLoop E H 3 0 w).2.usedTorIPs = _
        rw [h3, fifoInsert_explicit]
        rfl
    · intro hnone
      rcases hcase with ⟨-, h, -, -⟩ | ⟨-, ⟨-, h⟩ | ⟨ip2, h1, -, -⟩⟩
      · exact Or.inr h
      · exact Or.inl h
      · exact absurd (h1.symm.trans hnone) (by simp)

/-- Fifty-two insertions into an empty user-agent history: the two entries inserted first
are the ones that are gone, and the entry inserted third is now at the front. -/
theorem rememberUserAgent_example :
    (((List.range 52).map toString).foldl
        (fun session entry => FaucetSentry.rememberUserAgent entry session)
        demoUsedIPWorld).usedUserAgents
      = ((List.range 52).map toString).drop 2 := by
  decide!

/-- C15: `getVerifiedFreshTorIdentity` always returns `success: true`, whatever the
egress addresses observed; it makes at most 3 identity-renewal requests, one per address
lookup; an address it returns was not in the history and is then inserted (oldest entry
evicted when full); without a returned address the history is unchanged or empty; and
when every observed address collides with the history, three were observed and the
history is empty on return. -/
theorem getVerifiedFreshTorIdentity_bounded (E : Env σ) (H : Host σ) (w : World σ) :
    (FaucetSentry.getVerifiedFreshTorIdentity E H w).1.success = true ∧
    ∃ ports obs,
      newnymRequests (FaucetSentry.getVerifiedFreshTorIdentity E H w).2.trace
        = newnymRequests w.trace ++ ports ∧
      observedIPs (FaucetSentry.getVerifiedFreshTorIdentity E H w).2.trace
        = observedIPs w.trace ++ obs ∧
      ports.length ≤ 3 ∧ obs.length = ports.length ∧
      (∀ ip, (FaucetSentry.getVerifiedFreshTorIdentity E H w).1.ip = some ip →
        ip ∉ w.usedTorIPs ∧
        (FaucetSentry.getVerifiedFreshTorIdentity E H w).2.usedTorIPs
          = fifoInsert w.usedTorIPs ip) ∧
      ((FaucetSentry.getVerifiedFreshTorIdentity E H w).1.ip = none →
        (FaucetSentry.getVerifiedFreshTorIdentity E H w).2.usedTorIPs = w.usedTorIPs ∨
        (FaucetSentry.getVerifiedFreshTorIdentity E H w).2.usedTorIPs = []) ∧
      ((∀ o ∈ obs, collides w.usedTorIPs o = true) →
        obs.length = 3 ∧
        (FaucetSentry.getVerifiedFreshTorIdentity E H w).1.ip = none ∧
        (FaucetSentry.getVerifiedFreshTorIdentity E H w).2.usedTorIPs = []) := by
  obtain ⟨hs, -, ports, obs, hp, ho, hpl, hol, hcase⟩ := identityLoop_spec E H 3 0 w
  refine ⟨hs, ports, obs, hp, ho, hpl, hol, ?_, ?_, ?_⟩
  · intro ip hip
    rcases hcase with ⟨h, -, -, -⟩ | ⟨-, ⟨h, -⟩ | ⟨ip2, h1, h2, h3⟩⟩
    · exact absurd (h.symm.trans hip) (by simp)
    · exact absurd (h.symm.trans hip) (by simp)
    · have : ip2 = ip := Option.some.inj (h1.symm.trans hip)
      subst this
      exact ⟨h2, h3⟩
  · intro hnone
    rcases hcase with ⟨-, h, -, -⟩ | ⟨-, ⟨-, h⟩ | ⟨ip2, h1, -, -⟩⟩
    · exact Or.inr h
    · exact Or.inl h
    · exact absurd (h1.symm.trans hnone) (by simp)
  · intro hall
    rcases hcase with ⟨h1, h2, h3, -⟩ | ⟨⟨o, ho1, ho2⟩, -⟩
    · exact ⟨hol.trans h3, h1, h2⟩
    · rw [hall o ho1] at ho2
      cases ho2

/-- A closed run of the identity check: the address observed three times is already in
the history, so three renewals are requested and the history is cleared; on a fresh
history the first address is accepted after one request. -/
theorem getVerifiedFreshTorIdentity_example :
    (FaucetSentry.getVerifiedFreshTorIdentity Script.env demoHost demoUsedIPWorld).2.usedTorIPs
      = [] ∧
    newnymRequests
      (FaucetSentry.getVerifiedFreshTorIdentity Script.env demoHost demoUsedIPWorld).2.trace
      = [9051, 9051, 9051] ∧
    (FaucetSentry.getVerifiedFreshTorIdentity Script.env demoHost
      { demoUsedIPWorld with usedTorIPs := [] }).1 = ⟨true, some "203.0.113.7"⟩ ∧
    (FaucetSentry.getVerifiedFreshTorIdentity Script.env demoHost
      { demoUsedIPWorld with usedTorIPs := [] }).2.usedTorIPs = ["203.0.113.7"] := by
  refine ⟨?_, ?_, ?_, ?_⟩ <;> decide

/-- A closed run of the user-agent generator: with a random source stuck at 0 the first
call yields the first Chrome agent, and a second call collides until the stack is
exhausted, leaving the history as it was. -/
theorem generateRandomUserAgent_example :
    (FaucetSentry.generateRandomUserAgent demoHost 3 demoUsedIPWorld).1
      = .ok ("Mozilla/5.0 (Windows NT 10.0; Win64; x64) AppleWebKit/537.36 " ++
          "(KHTML, like Gecko) Chrome/120.0.1000.0 Safari/537.36") ∧
    (FaucetSentry.generateRandomUserAgent demoHost 3
      (FaucetSentry.generateRandomUserAgent demoHost 3 demoUsedIPWorld).2).1
      = .error "Maximum call stack size exceeded" := by
  constructor <;> decide!

/-! ## Frames of the ledger operations -/

theorem statuses_append (xs ys : List Event) :
    statuses (xs ++ ys) = statuses xs ++ statuses ys := by
  induction xs with
  | nil => rfl
  | cons e rest ih => cases e <;> simp [statuses, ih]

theorem restartCalls_append (xs ys : List Event) :
    restartCalls (xs ++ ys) = restartCalls xs ++ restartCalls ys := by
  induction xs with
  | nil => rfl
  | cons e rest ih => cases e <;> simp [restartCalls, ih]

theorem processStarts_append (xs ys : List Event) :
    processStarts (xs ++ ys) = processStarts xs + processStarts ys := by
  induction xs with
  | nil => simp [processStarts]
  | cons e rest ih => cases e <;> (simp [processStarts, ih]; try omega)

theorem quiet_events (evs : List Event) (h : ∀ e ∈ evs, e.isLoud = false) :
    statuses evs = [] ∧ restartCalls evs = [] ∧ processStarts evs = 0 ∧
      newnymRequests evs = [] ∧ observedIPs evs = [] := by
  induction evs with
  | nil => exact ⟨rfl, rfl, rfl, rfl, rfl⟩
  | cons e rest ih =>
    have he := h e (List.mem_cons_self _ _)
    obtain ⟨h1, h2, h3, h4, h5⟩ := ih (fun x hx => h x (List.mem_cons_of_mem _ hx))
    cases e <;> simp_all [Event.isLoud, statuses, restartCalls, processStarts, newnymRequests,
      observedIPs]

theorem Quiet.refl (w : World σ) : Quiet w w :=
  ⟨w.node, [], by simp, by simp⟩

theorem Quiet.trans {a b c : World σ} (h1 : Quiet a b) (h2 : Quiet b c) : Quiet a c := by
  obtain ⟨s1, e1, rfl, q1⟩ := h1
  obtain ⟨s2, e2, rfl, q2⟩ := h2
  refine ⟨s2, e1 ++ e2, by simp, ?_⟩
  intro e he
  rcases List.mem_append.mp he with h | h
  · exact q1 e h
  · exact q2 e h

theorem quiet_emit (e : Event) (w : World σ) (h : e.isLoud = false) : Quiet w (emit e w) :=
  ⟨w.node, [e], rfl, by simpa using h⟩

theorem quiet_node (s : σ) (w : World σ) : Quiet w { w with node := s } :=
  ⟨s, [], by simp, by simp⟩

theorem quiet_log (level message : String) (w : World σ) :
    Quiet w (FaucetSentry.log level message w) := quiet_emit _ _ rfl

theorem quiet_nw_log (level message : String) (w : World σ) :
    Quiet w (NanoWalletManager.log level message w) := quiet_emit _ _ rfl

theorem quiet_delay (E : Env σ) (ms : Nat) (w : World σ) : Quiet w (FaucetSentry.delay E ms w) :=
  (quiet_node _ w).trans (quiet_emit _ _ rfl)

theorem quiet_fetchAccountInfo (E : Env σ) (url account : String) (w : World σ) :
    Quiet w (fetchAccountInfo E url account w).2 :=
  (quiet_node _ w).trans (quiet_emit _ _ rfl)

theorem quiet_fetchPending (E : Env σ) (url account : String) (n : Nat) (w : World σ) :
    Quiet w (fetchPending E url account n w).2 :=
  (quiet_node _ w).trans (quiet_emit _ _ rfl)

theorem quiet_fetchProcess (E : Env σ) (b : Block) (w : World σ) :
    Quiet w (fetchProcess E b w).2 :=
  (quiet_node _ w).trans (quiet_emit _ _ rfl)

theorem quiet_fetchWork (E : Env σ) (url hash : String) (w : World σ) :
    Quiet w (fetchWork E url hash w).2 :=
  (quiet_node _ w).trans (quiet_emit _ _ rfl)

theorem Quiet.calm {a b : World σ} (h : Quiet a b) : Calm a b := by
  obtain ⟨s, evs, rfl, q⟩ := h
  obtain ⟨h1, h2, h3, h4, -⟩ := quiet_events evs q
  exact {
    statuses := by simp [statuses_append, h1]
    restarts := by simp [restartCalls_append, h2]
    starts := by simp [processStarts_append, h3]
    newnyms := by simp [newnymRequests_append, h4]
    connectionType := rfl
    autoRestartEnabled := rfl
    wallets := rfl
    bankWalletName := rfl
    isRunning := rfl
    isPaused := rfl
    status := rfl
    totalClaims := rfl
    totalRewards := rfl
    consecutiveSessions := rfl
    sync := fun h => h }

theorem Calm.refl_calm (w : World σ) : Calm w w := (Quiet.refl w).calm

theorem Calm.trans_calm {a b c : World σ} (h1 : Calm a b) (h2 : Calm b c) : Calm a c where
  statuses := h2.statuses.trans h1.statuses
  restarts := h2.restarts.trans h1.restarts
  starts := h2.starts.trans h1.starts
  newnyms := h2.newnyms.trans h1.newnyms
  connectionType := h2.connectionType.trans h1.connectionType
  autoRestartEnabled := h2.autoRestartEnabled.trans h1.autoRestartEnabled
  wallets := h2.wallets.trans h1.wallets
  bankWalletName := h2.bankWalletName.trans h1.bankWalletName
  isRunning := h2.isRunning.trans h1.isRunning
  isPaused := h2.isPaused.trans h1.isPaused
  status := h2.status.trans h1.status
  totalClaims := h2.totalClaims.trans h1.totalClaims
  totalRewards := h2.totalRewards.trans h1.totalRewards
  consecutiveSessions := h2.consecutiveSessions.trans h1.consecutiveSessions
  sync := fun h => h2.sync (h1.sync h)

theorem Quiet.of_eq {α : Type} {w w1 : World σ} {p : α × World σ} {a : α}
    (hq : Quiet w p.2) (h : p = (a, w1)) : Quiet w w1 := by
  subst h; exact hq

theorem quiet_getAccountInfo (E : Env σ) (L : Lib) (address : String) (w : World σ) :
    Quiet w (FaucetSentry.getAccountInfo E L address w).2 := by
  rw [getAccountInfo_world]; exact quiet_fetchAccountInfo E _ _ w

theorem quiet_generateWorkPublic (E : Env σ) (hash : String) (w : World σ) :
    Quiet w (FaucetSentry.generateWorkPublic E hash w).2 := by
  rw [generateWorkPublic_world]; exact quiet_fetchWork E _ _ w

theorem quiet_generateWork (E : Env σ) (hash : String) (w : World σ) :
    Quiet w (FaucetSentry.generateWork E hash w).2 := by
  unfold FaucetSentry.generateWork
  split
  · have hf := quiet_fetchWork E (w.gpuWorkerUrl.getD "") hash w
    split
    · next e w1 h =>
      exact (hf.of_eq h).trans ((quiet_log _ _ _).trans (quiet_generateWorkPublic E hash _))
    · next r w1 h =>
      have h1 := hf.of_eq h
      split
      · exact h1.trans ((quiet_log _ _ _).trans (quiet_generateWorkPublic E hash _))
      · split
        · exact h1.trans (quiet_log _ _ _)
        · exact h1.trans (quiet_generateWorkPublic E hash _)
  · exact quiet_generateWorkPublic E hash w

theorem quiet_processBlock (E : Env σ) (b : Block) (w : World σ) :
    Quiet w (FaucetSentry.processBlock E b w).2 := by
  rw [processBlock_world]; exact quiet_fetchProcess E _ w

theorem quiet_sendFromWallet (E : Env σ) (L : Lib) (fromWallet : WalletData)
    (toAddress amountNano : String) (w : World σ) :
    Quiet w (FaucetSentry.sendFromWallet E L fromWallet toAddress amountNano w).2 := by
  unfold FaucetSentry.sendFromWallet
  have hi := quiet_getAccountInfo E L fromWallet.address w
  split
  · next e w1 h => exact hi.of_eq h
  · next info w1 h =>
    have h1 := hi.of_eq h
    split
    · exact h1
    · split
      · exact h1
      · split
        · exact h1
        · dsimp only
          have hg := quiet_generateWork E info.frontier
            (FaucetSentry.log "info" "Generating proof of work for send..." w1)
          split
          · next e w3 h3 => exact h1.trans ((quiet_log _ _ _).trans (hg.of_eq h3))
          · next work w3 h3 =>
            exact h1.trans ((quiet_log _ _ _).trans ((hg.of_eq h3).trans
              (quiet_processBlock E _ _)))

theorem quiet_getPendingBlocksLoop (E : Env σ) (L : Lib) (address : String)
    (urls : List String) :
    ∀ (lastError : Option String) (w : World σ),
      Quiet w (FaucetSentry.getPendingBlocksLoop E L address urls lastError w).2 := by
  induction urls with
  | nil =>
    intro lastError w
    unfold FaucetSentry.getPendingBlocksLoop
    split
    · split
      · exact quiet_log _ _ _
      · exact Quiet.refl w
    · exact Quiet.refl w
  | cons url rest ih =>
    intro lastError w
    have hf := quiet_fetchPending E url address 10 w
    unfold FaucetSentry.getPendingBlocksLoop
    split
    · next e w1 h => exact (hf.of_eq h).trans (ih _ _)
    · next r w1 h =>
      have h1 := hf.of_eq h
      split
      · exact h1.trans (ih _ _)
      · split
        · exact h1.trans (ih _ _)
        · dsimp only
          split
          · exact h1
          · exact h1.trans (ih _ _)

theorem quiet_getPendingBlocks (E : Env σ) (L : Lib) (address : String) (w : World σ) :
    Quiet w (FaucetSentry.getPendingBlocks E L address w).2 :=
  quiet_getPendingBlocksLoop E L address _ _ w

theorem quiet_getPendingFromAccountInfoLoop (E : Env σ) (L : Lib) (address : String)
    (urls : List String) :
    ∀ w : World σ, Quiet w (FaucetSentry.getPendingFromAccountInfoLoop E L address urls w).2 := by
  induction urls with
  | nil => intro w; exact Quiet.refl w
  | cons url rest ih =>
    intro w
    have hf := quiet_fetchAccountInfo E url address w
    unfold FaucetSentry.getPendingFromAccountInfoLoop
    split
    · next e w1 h => exact (hf.of_eq h).trans (ih _)
    · next r w1 h =>
      have h1 := hf.of_eq h
      split
      · exact h1.trans (ih _)
      · split
        · split
          · exact h1
          · exact h1.trans (ih _)
        · exact h1.trans (ih _)

theorem quiet_getPendingFromAccountInfo (E : Env σ) (L : Lib) (address : String)
    (w : World σ) : Quiet w (FaucetSentry.getPendingFromAccountInfo E L address w).2 :=
  quiet_getPendingFromAccountInfoLoop E L address _ w

theorem quiet_receiveToWallet (E : Env σ) (L : Lib) (toWallet : WalletData)
    (pendingHash : String) (amountRaw : Nat) (w : World σ) :
    Quiet w (FaucetSentry.receiveToWallet E L toWallet pendingHash amountRaw w).2 := by
  unfold FaucetSentry.receiveToWallet
  have hi := quiet_getAccountInfo E L toWallet.address w
  split
  · next e w1 h => exact hi.of_eq h
  · next info w1 h =>
    have h1 := hi.of_eq h
    dsimp only
    have hg := quiet_generateWork E
      (if info.opened = true then info.frontier else toWallet.publicKey)
      (FaucetSentry.log "info" "Generating proof of work for receive..." w1)
    split
    · next e w3 h3 => exact h1.trans ((quiet_log _ _ _).trans (hg.of_eq h3))
    · next work w3 h3 =>
      exact h1.trans ((quiet_log _ _ _).trans ((hg.of_eq h3).trans (quiet_processBlock E _ _)))

theorem quiet_receiveLoop (E : Env σ) (L : Lib) (walletData : WalletData)
    (pending : List PendingBlock) :
    ∀ (total : Nat) (w : World σ),
      Quiet w (FaucetSentry.receiveLoop E L walletData pending total w).2 := by
  induction pending with
  | nil => intro total w; exact Quiet.refl w
  | cons p rest ih =>
    intro total w
    have hr := quiet_receiveToWallet E L walletData p.hash p.amount w
    unfold FaucetSentry.receiveLoop
    split
    · next x w1 h => exact (hr.of_eq h).trans ((quiet_log _ _ _).trans (ih _ _))
    · next m w1 h => exact (hr.of_eq h).trans ((quiet_log _ _ _).trans (ih _ _))

theorem quiet_receiveAllPending (E : Env σ) (L : Lib) (walletData : WalletData)
    (w : World σ) : Quiet w (FaucetSentry.receiveAllPending E L walletData w).2 := by
  unfold FaucetSentry.receiveAllPending
  have hp := quiet_getPendingBlocks E L walletData.address w
  split
  · next e w1 h => exact hp.of_eq h
  · next pending w1 h =>
    split
    · exact hp.of_eq h
    · exact (hp.of_eq h).trans (quiet_receiveLoop E L walletData pending 0 w1)

theorem quiet_takeScreenshot (P : Page σ) (label : String) (w : World σ) :
    Quiet w (FaucetSentry.takeScreenshot P label w) := by
  unfold FaucetSentry.takeScreenshot
  split
  · exact (quiet_node _ w).trans (quiet_emit _ _ rfl)
  · exact (quiet_node _ w).trans (quiet_log _ _ _)

theorem quiet_backupCheck (E : Env σ) (L : Lib) (address : String) (count : Nat)
    (w : World σ) : Quiet w (FaucetSentry.backupCheck E L address count w).2 := by
  unfold FaucetSentry.backupCheck
  dsimp only
  split
  · have h1 := quiet_getPendingFromAccountInfo E L address w
    split
    · have hg := quiet_getPendingBlocks E L address
        (FaucetSentry.delay E 3000 (FaucetSentry.log "info"
          ("Account shows " ++ (FaucetSentry.getPendingFromAccountInfo E L address w).1 ++
            " NANO pending, retrying block fetch...")
          (FaucetSentry.getPendingFromAccountInfo E L address w).2))
      have h2 := h1.trans ((quiet_log "info"
          ("Account shows " ++ (FaucetSentry.getPendingFromAccountInfo E L address w).1 ++
            " NANO pending, retrying block fetch...") _).trans (quiet_delay E 3000 _))
      split
      · next e w4 h4 => exact h2.trans (hg.of_eq h4)
      · next retry w4 h4 =>
        split
        · exact h2.trans (hg.of_eq h4)
        · exact h2.trans ((hg.of_eq h4).trans (quiet_log _ _ _))
    · exact h1
  · exact Quiet.refl w

theorem quiet_waitTick (E : Env σ) (startTime checkInterval : Nat) (w : World σ) :
    Quiet w (FaucetSentry.waitTick E startTime checkInterval w) :=
  (quiet_log _ _ _).trans (quiet_delay E _ _)

theorem quiet_waitLoop (E : Env σ) (L : Lib) (address : String)
    (timeout checkInterval startTime : Nat) (fuel : Nat) :
    ∀ (count : Nat) (w : World σ) (r : Outcome σ (List PendingBlock)),
      FaucetSentry.waitLoop E L address timeout checkInterval startTime fuel count w = some r →
      Quiet w r.2 := by
  induction fuel with
  | zero => intro count w r h; cases h
  | succ fuel ih =>
    intro count w r h
    unfold FaucetSentry.waitLoop at h
    split at h
    · cases h; exact Quiet.refl w
    · split at h
      · cases h; exact Quiet.refl w
      · have hp := quiet_getPendingBlocks E L address w
        split at h
        · next e w1 h1 => cases h; exact hp.of_eq h1
        · next pending w1 h1 =>
          have q1 := hp.of_eq h1
          split at h
          · cases h; exact q1.trans (quiet_log _ _ _)
          · have hb := quiet_backupCheck E L address count w1
            split at h
            · next e w2 h2 => cases h; exact q1.trans (hb.of_eq h2)
            · next retry w2 h2 => cases h; exact q1.trans (hb.of_eq h2)
            · next c w2 h2 =>
              exact q1.trans ((hb.of_eq h2).trans ((quiet_waitTick E _ _ _).trans (ih _ _ _ h)))

theorem quiet_waitForPending (E : Env σ) (L : Lib) (fuel : Nat) (address : String)
    (timeout checkInterval : Nat) (w : World σ) (r : Outcome σ (List PendingBlock))
    (h : FaucetSentry.waitForPending E L fuel address timeout checkInterval w = some r) :
    Quiet w r.2 :=
  quiet_waitLoop E L address timeout checkInterval _ fuel 0 w r h

theorem quiet_extractTick (E : Env σ) (P : Page σ) (startWait : Nat) (w : World σ) :
    Quiet w (FaucetSentry.extractTick E P startWait w) :=
  (quiet_log _ _ _).trans ((quiet_takeScreenshot P _ _).trans (quiet_delay E _ _))

theorem quiet_extractLoop (E : Env σ) (P : Page σ) (L : Lib) (startWait : Nat) (fuel : Nat) :
    ∀ (w : World σ) (r : PageVerdict × World σ),
      FaucetSentry.extractLoop E P L startWait fuel w = some r → Quiet w r.2 := by
  induction fuel with
  | zero => intro w r h; cases h
  | succ fuel ih =>
    intro w r h
    unfold FaucetSentry.extractLoop at h
    split at h
    · cases h; exact Quiet.refl w
    · dsimp only at h
      have q1 : Quiet w { w with node := (P.waitForSelector "body" 5000 w.node).2 } :=
        quiet_node _ w
      split at h
      · next message s2 h2 =>
        exact q1.trans ((quiet_node _ _).trans ((quiet_log _ _ _).trans
          ((quiet_extractTick E P _ _).trans (ih _ _ h))))
      · next pageContent s2 h2 =>
        split at h
        · next message s3 h3 =>
          exact q1.trans ((quiet_node _ _).trans ((quiet_log _ _ _).trans
            ((quiet_extractTick E P _ _).trans (ih _ _ h))))
        · next innerText s3 h3 =>
          split at h
          · cases h; exact q1.trans (quiet_node _ _)
          · split at h
            · cases h; exact q1.trans ((quiet_node _ _).trans (quiet_log _ _ _))
            · exact q1.trans ((quiet_node _ _).trans
                ((quiet_extractTick E P _ _).trans (ih _ _ h)))

theorem quiet_extractFinish (P : Page σ) (verdict : PageVerdict) (w : World σ) :
    Quiet w (FaucetSentry.extractFinish P verdict w).2 := by
  unfold FaucetSentry.extractFinish
  split
  · dsimp only
    split
    · exact (quiet_log _ _ _).trans ((quiet_takeScreenshot P _ _).trans (quiet_log _ _ _))
    · exact (quiet_log _ _ _).trans (quiet_takeScreenshot P _ _)
  · exact quiet_takeScreenshot P _ _
  · exact Quiet.refl w

theorem quiet_extractDonation (E : Env σ) (P : Page σ) (L : Lib) (fuel : Nat) (w : World σ)
    (r : Outcome σ String) (h : FaucetSentry.extractDonation E P L fuel w = some r) :
    Quiet w r.2 := by
  unfold FaucetSentry.extractDonation at h
  dsimp only at h
  rw [Option.map_eq_some'] at h
  obtain ⟨v, hv, rfl⟩ := h
  exact (quiet_log _ _ _).trans ((quiet_extractLoop E P L _ fuel _ _ hv).trans
    (quiet_extractFinish P _ _))

/-! ## C9: the rate-limit phrases in the polling loop -/

theorem rateLimitError_quiet {w w' : World σ} (q : Quiet w w') :
    rateLimitError w' = rateLimitError w := by
  obtain ⟨s, evs, rfl, -⟩ := q
  rfl

theorem extractLoop_donation_sound (E : Env σ) (P : Page σ) (L : Lib) (startWait : Nat)
    (fuel : Nat) :
    ∀ (w : World σ) (amount : String) (w' : World σ),
      FaucetSentry.extractLoop E P L startWait fuel w = some (.donation amount, w') →
      ∃ s pageContent s2 innerText s3,
        P.content s = (.ok pageContent, s2) ∧ P.innerText s2 = (.ok innerText, s3) ∧
        (∀ pattern ∈ comeBackPatterns,
          includes (renderedText L innerText) pattern = false) ∧
        donationMatch pageContent = some amount := by
  induction fuel with
  | zero => intro w amount w' h; cases h
  | succ fuel ih =>
    intro w amount w' h
    unfold FaucetSentry.extractLoop at h
    split at h
    · cases h
    · dsimp only at h
      split at h
      · exact ih _ _ _ h
      · next pageContent s2 h2 =>
        split at h
        · exact ih _ _ _ h
        · next innerText s3 h3 =>
          split at h
          · cases h
          · next hno =>
            split at h
            · next found hfound =>
              have hamount : found = amount := by
                have h1 := Option.some.inj h
                exact PageVerdict.donation.inj (congrArg Prod.fst h1)
              subst hamount
              refine ⟨_, pageContent, s2, innerText, s3, h2, h3, ?_, hfound⟩
              intro pattern hmem
              by_contra hinc
              exact hno (List.any_eq_true.mpr ⟨pattern, hmem, by simpa using hinc⟩)
            · exact ih _ _ _ h

theorem extractLoop_nothing_late (E : Env σ) (P : Page σ) (L : Lib) (startWait : Nat)
    (fuel : Nat) :
    ∀ (w w' : World σ),
      FaucetSentry.extractLoop E P L startWait fuel w = some (.nothing, w') →
      ¬ ((E.now w'.node : Int) - (startWait : Int) < 60000) := by
  induction fuel with
  | zero => intro w w' h; cases h
  | succ fuel ih =>
    intro w w' h
    unfold FaucetSentry.extractLoop at h
    split at h
    · next hlate =>
      have h1 := Option.some.inj h
      have h2 : w = w' := congrArg Prod.snd h1
      subst h2
      exact hlate
    · dsimp only at h
      split at h
      · exact ih _ _ h
      · split at h
        · exact ih _ _ h
        · split at h
          · cases h
          · split at h
            · cases h
            · exact ih _ _ h

/-- C9: in every iteration of the polling loop of `extracting_donation`, whatever the
time already waited, a reading of the page whose rendered text contains one of the
rate-limit phrases ends the loop at once with the rate-limit flag, whether or not the
HTML matches a donation pattern; the flag makes the step raise the rate-limit error,
which is not the extraction failure and not a donation amount. An iteration whose
reading fails, or shows neither a phrase nor an amount, logs, waits two seconds and
goes to the next iteration, so a phrase that shows on a later reading is treated in the
same way. Conversely, a donation amount is only returned from a reading that contained
no rate-limit phrase, and the extraction failure is only raised once the minute is
over. In particular, when the first reading of the step succeeds and shows a phrase,
the step raises the rate-limit error. -/
theorem rate_limit_phrase_wins (E : Env σ) (P : Page σ) (L : Lib) :
    (∀ (startWait fuel : Nat) (w : World σ) (pageContent : String)
        (innerText : Option String) (s2 s3 : σ),
      (E.now w.node : Int) - (startWait : Int) < 60000 →
      P.content (P.waitForSelector "body" 5000 w.node).2 = (.ok pageContent, s2) →
      P.innerText s2 = (.ok innerText, s3) →
      (∃ pattern ∈ comeBackPatterns, includes (renderedText L innerText) pattern = true) →
      FaucetSentry.extractLoop E P L startWait (fuel + 1) w
        = some (.rateLimited, { w with node := s3 })) ∧
    (∀ w : World σ,
      (FaucetSentry.extractFinish P .rateLimited w).1 = .error (rateLimitError w) ∧
      rateLimitError w ≠
        "Could not extract donation amount from page (timeout - page may still be loading)") ∧
    (∀ (startWait fuel : Nat) (w : World σ) (message : String) (s2 : σ),
      (E.now w.node : Int) - (startWait : Int) < 60000 →
      P.content (P.waitForSelector "body" 5000 w.node).2 = (.error message, s2) →
      FaucetSentry.extractLoop E P L startWait (fuel + 1) w
        = FaucetSentry.extractLoop E P L startWait fuel
            (FaucetSentry.extractTick E P startWait
              (FaucetSentry.log "warning" ("Page check error: " ++ message.take 50)
                { w with node := s2 }))) ∧
    (∀ (startWait fuel : Nat) (w : World σ) (pageContent : String)
        (innerText : Option String) (s2 s3 : σ),
      (E.now w.node : Int) - (startWait : Int) < 60000 →
      P.content (P.waitForSelector "body" 5000 w.node).2 = (.ok pageContent, s2) →
      P.innerText s2 = (.ok innerText, s3) →
      (∀ pattern ∈ comeBackPatterns, includes (renderedText L innerText) pattern = false) →
      donationMatch pageContent = none →
      FaucetSentry.extractLoop E P L startWait (fuel + 1) w
        = FaucetSentry.extractLoop E P L startWait fuel
            (FaucetSentry.extractTick E P startWait { w with node := s3 })) ∧
    (∀ (startWait fuel : Nat) (w : World σ) (amount : String) (w' : World σ),
      FaucetSentry.extractLoop E P L startWait fuel w = some (.donation amount, w') →
      ∃ s pageContent s2 innerText s3,
        P.content s = (.ok pageContent, s2) ∧ P.innerText s2 = (.ok innerText, s3) ∧
        (∀ pattern ∈ comeBackPatterns,
          includes (renderedText L innerText) pattern = false) ∧
        donationMatch pageContent = some amount) ∧
    (∀ (startWait fuel : Nat) (w w' : World σ),
      FaucetSentry.extractLoop E P L startWait fuel w = some (.nothing, w') →
      ¬ ((E.now w'.node : Int) - (startWait : Int) < 60000)) ∧
    (∀ (fuel : Nat) (w : World σ) (verdict : PageVerdict) (w1 : World σ),
      FaucetSentry.extractLoop E P L
          (E.now (FaucetSentry.log "action" "Waiting for donation amount to load..." w).node)
          fuel (FaucetSentry.log "action" "Waiting for donation amount to load..." w)
        = some (verdict, w1) →
      FaucetSentry.extractDonation E P L fuel w
        = some (FaucetSentry.extractFinish P verdict w1) ∧
      (verdict = .rateLimited →
        (FaucetSentry.extractFinish P verdict w1).1 = .error (rateLimitError w))) ∧
    (∀ (fuel : Nat) (w : World σ) (pageContent : String) (innerText : Option String)
        (s2 s3 : σ),
      P.content (P.waitForSelector "body" 5000 w.node).2 = (.ok pageContent, s2) →
      P.innerText s2 = (.ok innerText, s3) →
      (∃ pattern ∈ comeBackPatterns, includes (renderedText L innerText) pattern = true) →
      ∃ w', FaucetSentry.extractDonation E P L (fuel + 1) w
        = some (.error (rateLimitError w), w')) := by
  have hhead : ∀ (startWait fuel : Nat) (w : World σ) (pageContent : String)
      (innerText : Option String) (s2 s3 : σ),
      (E.now w.node : Int) - (startWait : Int) < 60000 →
      P.content (P.waitForSelector "body" 5000 w.node).2 = (.ok pageContent, s2) →
      P.innerText s2 = (.ok innerText, s3) →
      (∃ pattern ∈ comeBackPatterns, includes (renderedText L innerText) pattern = true) →
      FaucetSentry.extractLoop E P L startWait (fuel + 1) w
        = some (.rateLimited, { w with node := s3 }) := by
    intro startWait fuel w pageContent innerText s2 s3 hdeadline hcontent htext hphrase
    have hany : comeBackPatterns.any
        (fun pattern => includes (renderedText L innerText) pattern) = true := by
      obtain ⟨pattern, hmem, hinc⟩ := hphrase
      exact List.any_eq_true.mpr ⟨pattern, hmem, hinc⟩
    rw [FaucetSentry.extractLoop]
    rw [if_neg (not_not.mpr hdeadline)]
    simp only [hcontent, htext, hany, if_true]
  have hfinish : ∀ (fuel : Nat) (w : World σ) (verdict : PageVerdict) (w1 : World σ),
      FaucetSentry.extractLoop E P L
          (E.now (FaucetSentry.log "action" "Waiting for donation amount to load..." w).node)
          fuel (FaucetSentry.log "action" "Waiting for donation amount to load..." w)
        = some (verdict, w1) →
      FaucetSentry.extractDonation E P L fuel w
        = some (FaucetSentry.extractFinish P verdict w1) ∧
      (verdict = .rateLimited →
        (FaucetSentry.extractFinish P verdict w1).1 = .error (rateLimitError w)) := by
    intro fuel w verdict w1 hloop
    refine ⟨?_, ?_⟩
    · unfold FaucetSentry.extractDonation
      simp only [hloop, Option.map_some']
    · intro hv
      subst hv
      rw [extractFinish_rateLimited]
      have q := (quiet_log "action" "Waiting for donation amount to load..." w).trans
        (quiet_extractLoop E P L _ fuel _ _ hloop)
      rw [rateLimitError_quiet q]
  refine ⟨hhead, ?_, ?_, ?_, ?_, ?_, hfinish, ?_⟩
  · intro w
    refine ⟨extractFinish_rateLimited P w, ?_⟩
    unfold rateLimitError
    split <;> decide
  · intro startWait fuel w message s2 hdeadline hcontent
    rw [FaucetSentry.extractLoop]
    rw [if_neg (not_not.mpr hdeadline)]
    simp only [hcontent]
  · intro startWait fuel w pageContent innerText s2 s3 hdeadline hcontent htext hno hnone
    have hany : comeBackPatterns.any
        (fun pattern => includes (renderedText L innerText) pattern) = false := by
      rw [List.any_eq_false]
      intro pattern hmem
      rw [hno pattern hmem]
      simp
    rw [FaucetSentry.extractLoop]
    rw [if_neg (not_not.mpr hdeadline)]
    simp only [hcontent, htext, hany, hnone]
    rfl
  · intro startWait fuel
    exact extractLoop_donation_sound E P L startWait fuel
  · intro startWait fuel
    exact extractLoop_nothing_late E P L startWait fuel
  · intro fuel w pageContent innerText s2 s3 hcontent htext hphrase
    have hloop := hhead
      (E.now (FaucetSentry.log "action" "Waiting for donation amount to load..." w).node) fuel
      (FaucetSentry.log "action" "Waiting for donation amount to load..." w)
      pageContent innerText s2 s3 (by simp) hcontent htext hphrase
    obtain ⟨h1, h2⟩ := hfinish (fuel + 1) w _ _ hloop
    refine ⟨(FaucetSentry.extractFinish P .rateLimited
      { FaucetSentry.log "action" "Waiting for donation amount to load..." w
        with node := s3 }).2, ?_⟩
    rw [h1]
    congr 1
    exact Prod.ext (h2 rfl) rfl

theorem rate_limit_phrase_wins_witness :
    (∃ w', FaucetSentry.extractDonation Script.env
        (staticPage "<p>Send 0.002 XNO</p><p>Please COME BACK tomorrow</p>"
          "Send 0.002 XNO\nPlease COME BACK tomorrow") tallyLib (0 + 1) demoTorWorld
        = some (.error (rateLimitError demoTorWorld), w')) ∧
    FaucetSentry.extractLoop Script.env
        (staticPage "<p>Send 0.002 XNO</p><p>Please COME BACK tomorrow</p>"
          "Send 0.002 XNO\nPlease COME BACK tomorrow") tallyLib 1000 (0 + 1)
        { demoTorWorld with node := { clock := 59000 } }
      = some (.rateLimited, { demoTorWorld with node := { clock := 59000 } }) :=
  ⟨(rate_limit_phrase_wins Script.env
      (staticPage "<p>Send 0.002 XNO</p><p>Please COME BACK tomorrow</p>"
        "Send 0.002 XNO\nPlease COME BACK tomorrow") tallyLib).2.2.2.2.2.2.2 0 demoTorWorld
      "<p>Send 0.002 XNO</p><p>Please COME BACK tomorrow</p>"
      (some "Send 0.002 XNO\nPlease COME BACK tomorrow") _ _ rfl rfl
      ⟨"come back tomorrow", by decide, by decide⟩,
   (rate_limit_phrase_wins Script.env
      (staticPage "<p>Send 0.002 XNO</p><p>Please COME BACK tomorrow</p>"
        "Send 0.002 XNO\nPlease COME BACK tomorrow") tallyLib).1 1000 0
      { demoTorWorld with node := { clock := 59000 } }
      "<p>Send 0.002 XNO</p><p>Please COME BACK tomorrow</p>"
      (some "Send 0.002 XNO\nPlease COME BACK tomorrow") _ _ (by decide) rfl rfl
      ⟨"come back tomorrow", by decide, by decide⟩⟩

/-- Closed runs of the step in which the rate-limit phrase only shows on the third
reading, four seconds after the step began, next to a donation amount: the step raises
the rate-limit error after having waited twice two seconds, whether the first two
readings showed a page still loading or failed. -/
theorem late_rate_limit_example :
    (FaucetSentry.extractDonation Script.env loadingThenLimitedPage tallyLib 31
        demoTorWorld).map (fun r => (r.1, accumulatedWait r.2.trace, r.2.node.clock))
      = some (.error "RATE_LIMIT_RETRY", 4000, 4000) ∧
    (FaucetSentry.extractDonation Script.env failingThenLimitedPage tallyLib 31
        demoTorWorld).map (fun r => (r.1, accumulatedWait r.2.trace, r.2.node.clock))
      = some (.error "RATE_LIMIT_RETRY", 4000, 4000) ∧
    (FaucetSentry.extractDonation Script.env loadingThenLimitedPage tallyLib 31
        { demoTorWorld with connectionType := "direct" }).map (fun r => r.1)
      = some (.error "Rate limit reached - please try again tomorrow") := by
  refine ⟨?_, ?_, ?_⟩ <;> decide!

theorem quiet_nw_getAccountInfoBody (E : Env σ) (L : Lib) (address : String) (w : World σ) :
    Quiet w (NanoWalletManager.getAccountInfoBody E L address w).2 := by
  unfold NanoWalletManager.getAccountInfoBody
  split
  · exact Quiet.refl w
  · have hf := quiet_fetchAccountInfo E RPC_URL address w
    split
    · next e w1 h => exact hf.of_eq h
    · next r w1 h =>
      have h1 := hf.of_eq h
      split
      · exact h1
      · split
        · exact h1
        · split
          · exact h1
          · split <;> exact h1

theorem quiet_nw_getAccountInfo (E : Env σ) (L : Lib) (address : String) (w : World σ) :
    Quiet w (NanoWalletManager.getAccountInfo E L address w).2 := by
  unfold NanoWalletManager.getAccountInfo
  have hb := quiet_nw_getAccountInfoBody E L address w
  split
  · next info w1 h => exact hb.of_eq h
  · next m w1 h => exact (hb.of_eq h).trans (quiet_nw_log _ _ _)

theorem quiet_nw_generateWorkPublic (E : Env σ) (hash : String) (w : World σ) :
    Quiet w (NanoWalletManager.generateWorkPublic E hash w).2 := by
  rw [nw_generateWorkPublic_world]; exact quiet_fetchWork E _ _ w

theorem quiet_nw_generateWork (E : Env σ) (hash : String) (w : World σ) :
    Quiet w (NanoWalletManager.generateWork E hash w).2 := by
  unfold NanoWalletManager.generateWork
  split
  · have hf := quiet_fetchWork E (w.gpuWorkerUrl.getD "") hash w
    split
    · next e w1 h =>
      exact (hf.of_eq h).trans ((quiet_nw_log _ _ _).trans (quiet_nw_generateWorkPublic E hash _))
    · next r w1 h =>
      have h1 := hf.of_eq h
      split
      · exact h1.trans ((quiet_nw_log _ _ _).trans (quiet_nw_generateWorkPublic E hash _))
      · split
        · exact h1.trans (quiet_nw_log _ _ _)
        · exact h1.trans (quiet_nw_generateWorkPublic E hash _)
  · exact quiet_nw_generateWorkPublic E hash w

theorem quiet_nw_processBlock (E : Env σ) (b : Block) (w : World σ) :
    Quiet w (NanoWalletManager.processBlock E b w).2 := by
  unfold NanoWalletManager.processBlock
  have hf := quiet_fetchProcess E b w
  split
  · next e w1 h => exact hf.of_eq h
  · next r w1 h =>
    have h1 := hf.of_eq h
    split
    · exact h1
    · split
      · exact h1
      · split <;> exact h1

theorem quiet_sendNanoBody (E : Env σ) (L : Lib) (walletName toAddress amountNano : String)
    (w : World σ) :
    Quiet w (NanoWalletManager.sendNanoBody E L walletName toAddress amountNano w).2 := by
  unfold NanoWalletManager.sendNanoBody
  split
  · exact Quiet.refl w
  · split
    · exact Quiet.refl w
    · split
      · exact Quiet.refl w
      · split
        · exact Quiet.refl w
        · next stored account rest hacc =>
          dsimp only
          have hi := quiet_nw_getAccountInfo E L account.address
            (NanoWalletManager.log "info" ("Preparing to send " ++ amountNano ++ " NANO") w)
          have h0 := quiet_nw_log "info" ("Preparing to send " ++ amountNano ++ " NANO") w
          split
          · next e w1 h => exact h0.trans (hi.of_eq h)
          · next info w1 h =>
            have h1 := h0.trans (hi.of_eq h)
            split
            · exact h1
            · split
              · exact h1
              · split
                · exact h1
                · have hg := quiet_nw_generateWork E info.frontier
                    (NanoWalletManager.log "info" "Generating proof of work..." w1)
                  split
                  · next e w3 h3 => exact h1.trans ((quiet_nw_log _ _ _).trans (hg.of_eq h3))
                  · next work w3 h3 =>
                    have h3' := h1.trans ((quiet_nw_log _ _ _).trans (hg.of_eq h3))
                    split
                    · next e w5 h5 =>
                      exact h3'.trans ((quiet_nw_log _ _ _).trans
                        ((quiet_nw_processBlock E _ _).of_eq h5))
                    · next hash w5 h5 =>
                      exact h3'.trans ((quiet_nw_log _ _ _).trans
                        (((quiet_nw_processBlock E _ _).of_eq h5).trans (quiet_nw_log _ _ _)))

theorem quiet_sendNano (E : Env σ) (L : Lib) (walletName toAddress amountNano : String)
    (w : World σ) :
    Quiet w (NanoWalletManager.sendNano E L walletName toAddress amountNano w).2 := by
  unfold NanoWalletManager.sendNano
  have hb := quiet_sendNanoBody E L walletName toAddress amountNano w
  split
  · next hash w1 h => exact hb.of_eq h
  · next m w1 h => exact (hb.of_eq h).trans (quiet_nw_log _ _ _)

theorem quiet_nw_getPendingBlocksBody (E : Env σ) (L : Lib) (address : String)
    (w : World σ) : Quiet w (NanoWalletManager.getPendingBlocksBody E L address w).2 := by
  unfold NanoWalletManager.getPendingBlocksBody
  split
  · exact Quiet.refl w
  · have hf := quiet_fetchPending E RPC_URL address 10 w
    split
    · next e w1 h => exact hf.of_eq h
    · next r w1 h =>
      have h1 := hf.of_eq h
      split
      · exact h1
      · split
        · exact h1
        · split
          · split <;> exact h1
          · exact h1

theorem quiet_nw_getPendingBlocks (E : Env σ) (L : Lib) (address : String) (w : World σ) :
    Quiet w (NanoWalletManager.getPendingBlocks E L address w).2 := by
  unfold NanoWalletManager.getPendingBlocks
  have hb := quiet_nw_getPendingBlocksBody E L address w
  split
  · next blocks w1 h => exact hb.of_eq h
  · next m w1 h => exact (hb.of_eq h).trans (quiet_nw_log _ _ _)

theorem quiet_receiveSingleBlock (E : Env σ) (L : Lib) (walletData : StoredWallet)
    (pendingHash : String) (amountRaw : Nat) (w : World σ) :
    Quiet w (NanoWalletManager.receiveSingleBlock E L walletData pendingHash amountRaw w).2 := by
  unfold NanoWalletManager.receiveSingleBlock
  split
  · exact Quiet.refl w
  · next account rest hacc =>
    dsimp only
    have hi := quiet_nw_getAccountInfo E L account.address w
    split
    · next e w1 h => exact hi.of_eq h
    · next info w1 h =>
      have h1 := hi.of_eq h
      have hg := quiet_nw_generateWork E
        (if info.opened = true then info.frontier else account.publicKey)
        (NanoWalletManager.log "info" "Generating proof of work for receive..." w1)
      split
      · next e w3 h3 => exact h1.trans ((quiet_nw_log _ _ _).trans (hg.of_eq h3))
      · next work w3 h3 =>
        have h3' := h1.trans ((quiet_nw_log _ _ _).trans (hg.of_eq h3))
        have hp := quiet_nw_processBlock E
          (blockReceive info.balance account.address (orFallback info.representative)
            info.frontier pendingHash amountRaw work account.privateKey)
          (NanoWalletManager.log "info" "Broadcasting receive block..." w3)
        split
        · next e w5 h5 => exact h3'.trans ((quiet_nw_log _ _ _).trans (hp.of_eq h5))
        · next hash w5 h5 =>
          exact h3'.trans ((quiet_nw_log _ _ _).trans ((hp.of_eq h5).trans (quiet_nw_log _ _ _)))

theorem quiet_receiveEach (E : Env σ) (L : Lib) (stored : StoredWallet)
    (pending : List PendingBlock) :
    ∀ (results : List ReceiveResult) (w : World σ),
      Quiet w (NanoWalletManager.receiveEach E L stored pending results w).2 := by
  induction pending with
  | nil => intro results w; exact Quiet.refl w
  | cons p rest ih =>
    intro results w
    have hr := quiet_receiveSingleBlock E L stored p.hash p.amount w
    unfold NanoWalletManager.receiveEach
    split
    · next e w1 h => exact hr.of_eq h
    · next result w1 h => exact (hr.of_eq h).trans (ih _ _)

theorem quiet_receiveNanoBody (E : Env σ) (L : Lib) (walletName : String)
    (blockHash : Option String) (w : World σ) :
    Quiet w (NanoWalletManager.receiveNanoBody E L walletName blockHash w).2 := by
  unfold NanoWalletManager.receiveNanoBody
  split
  · exact Quiet.refl w
  · split
    · exact Quiet.refl w
    · next stored hs account rest hacc =>
      have hp := quiet_nw_getPendingBlocks E L account.address w
      split
      · split
        · next e w1 h => exact hp.of_eq h
        · next pendingBlocks w1 h =>
          have h1 := hp.of_eq h
          split
          · exact h1.trans (quiet_nw_log _ _ _)
          · split
            · next e w2 h2 => exact h1.trans ((quiet_receiveEach E L _ _ _ _).of_eq h2)
            · next results w2 h2 => exact h1.trans ((quiet_receiveEach E L _ _ _ _).of_eq h2)
      · split
        · next e w1 h => exact hp.of_eq h
        · next pending w1 h =>
          have h1 := hp.of_eq h
          split
          · exact h1
          · split
            · next e w2 h2 => exact h1.trans ((quiet_receiveSingleBlock E L _ _ _ _).of_eq h2)
            · next result w2 h2 =>
              exact h1.trans ((quiet_receiveSingleBlock E L _ _ _ _).of_eq h2)

theorem quiet_receiveNano (E : Env σ) (L : Lib) (walletName : String)
    (blockHash : Option String) (w : World σ) :
    Quiet w (NanoWalletManager.receiveNano E L walletName blockHash w).2 := by
  unfold NanoWalletManager.receiveNano
  have hb := quiet_receiveNanoBody E L walletName blockHash w
  split
  · next result w1 h => exact hb.of_eq h
  · next m w1 h => exact (hb.of_eq h).trans (quiet_nw_log _ _ _)

theorem quiet_syncWalletBody (E : Env σ) (L : Lib) (walletName : String) (w : World σ) :
    Quiet w (NanoWalletManager.syncWalletBody E L walletName w).2 := by
  unfold NanoWalletManager.syncWalletBody
  split
  · exact Quiet.refl w
  · split
    · exact Quiet.refl w
    · next stored hs account rest hacc =>
      dsimp only
      have h0 := quiet_nw_log "info" ("Syncing wallet: " ++ walletName) w
      have hi := quiet_nw_getAccountInfo E L account.address
        (NanoWalletManager.log "info" ("Syncing wallet: " ++ walletName) w)
      split
      · next e w1 h => exact h0.trans (hi.of_eq h)
      · next info w1 h =>
        have h1 := h0.trans (hi.of_eq h)
        have hp := quiet_nw_getPendingBlocks E L account.address w1
        split
        · next e w2 h2 => exact h1.trans (hp.of_eq h2)
        · next blocks w2 h2 => exact h1.trans (hp.of_eq h2)

theorem quiet_syncWallet (E : Env σ) (L : Lib) (walletName : String) (w : World σ) :
    Quiet w (NanoWalletManager.syncWallet E L walletName w).2 := by
  unfold NanoWalletManager.syncWallet
  have hb := quiet_syncWalletBody E L walletName w
  split
  · next result w1 h => exact hb.of_eq h
  · next m w1 h => exact (hb.of_eq h).trans (quiet_nw_log _ _ _)

theorem quiet_getBankWalletBalance (E : Env σ) (L : Lib) (w : World σ) :
    Quiet w (FaucetSentry.getBankWalletBalance E L w).2 := by
  unfold FaucetSentry.getBankWalletBalance
  split
  · exact Quiet.refl w
  · have hs := quiet_syncWallet E L (w.bankWalletName.getD "") w
    split
    next result w1 h =>
    split <;> exact hs.of_eq h

/-! ## Frames of the steps of the claim process -/

theorem Calm.of_core {w w' : World σ} (hcore : w'.core = w.core) (hs : Sync w → Sync w') :
    Calm w w' := by
  simp only [World.core, Prod.mk.injEq] at hcore
  obtain ⟨h1, h2, h3, h4, h5, h6, h7, h8, h9, h10, h11, h12, h13, h14⟩ := hcore
  exact ⟨h1, h2, h3, h4, h5, h6, h7, h8, h9, h10, h11, h12, h13, h14, hs⟩

theorem Calm.of_eq_calm {α : Type} {w w1 : World σ} {p : α × World σ} {a : α}
    (hq : Calm w p.2) (h : p = (a, w1)) : Calm w w1 := by
  subst h; exact hq

theorem quiet_emitStatus (w : World σ) : Quiet w (FaucetSentry.emitStatus w) :=
  quiet_emit _ _ rfl

theorem calm_createTemporaryClaimWallet (E : Env σ) (K : Keygen σ) (w : World σ) :
    Calm w (FaucetSentry.createTemporaryClaimWallet E K w).2 := by
  unfold FaucetSentry.createTemporaryClaimWallet
  dsimp only
  split
  · exact (quiet_node _ w).calm
  · split
    · exact (quiet_node _ w).calm
    · show Calm w (FaucetSentry.log _ _ _)
      refine Calm.trans_calm ?_ (quiet_log _ _ _).calm
      exact Calm.of_core rfl (fun _ h => absurd h (Option.some_ne_none _))

theorem calm_deleteTemporaryClaimWallet (w : World σ) :
    Calm w (FaucetSentry.deleteTemporaryClaimWallet w) := by
  unfold FaucetSentry.deleteTemporaryClaimWallet
  split
  · next claimWallet hc =>
    exact Calm.trans_calm (quiet_log "info"
      ("Deleting temporary claim wallet: " ++ claimWallet.address.take 20 ++ "...") w).calm
      (Calm.of_core rfl (fun _ _ => rfl))
  · exact Calm.refl_calm w

theorem calm_randomUserAgent (H : Host σ) (w : World σ) :
    Calm w (FaucetSentry.randomUserAgent H w).2 := by
  rw [randomUserAgent_same]
  exact (quiet_node _ w).calm

theorem calm_generateRandomUserAgent (H : Host σ) (depth : Nat) :
    ∀ w : World σ, Calm w (FaucetSentry.generateRandomUserAgent H depth w).2 := by
  induction depth with
  | zero => intro w; exact Calm.refl_calm w
  | succ depth ih =>
    intro w
    unfold FaucetSentry.generateRandomUserAgent
    dsimp only
    split
    · exact (calm_randomUserAgent H w).trans_calm (ih _)
    · refine (calm_randomUserAgent H w).trans_calm ?_
      unfold FaucetSentry.rememberUserAgent
      dsimp only
      split <;> exact Calm.of_core rfl (fun h => h)

theorem quiet_proxyArguments (B : Browser σ) (w : World σ) :
    Quiet w (FaucetSentry.proxyArguments B w).2 := by
  unfold FaucetSentry.proxyArguments
  split
  · dsimp only
    split
    · exact (quiet_log _ _ _).trans (quiet_log _ _ _)
    · exact quiet_log _ _ _
    · split
      · exact (quiet_log _ _ _).trans (quiet_log _ _ _)
      · exact quiet_log _ _ _
  · split
    · exact quiet_log _ _ _
    · exact Quiet.refl w

theorem quiet_authenticateProxy (B : Browser σ) (proxyAuth : Option (String × String))
    (w : World σ) : Quiet w (FaucetSentry.authenticateProxy B proxyAuth w).2 := by
  unfold FaucetSentry.authenticateProxy
  split
  · exact Quiet.refl w
  · split
    · exact quiet_node _ w
    · exact (quiet_node _ w).trans (quiet_log _ _ _)

theorem calm_launchBrowser (B : Browser σ) (H : Host σ) (stack : Nat) (w : World σ) :
    Calm w (FaucetSentry.launchBrowser B H stack w).2 := by
  unfold FaucetSentry.launchBrowser
  split
  · exact (quiet_node _ w).calm
  · next chromePath s hc =>
    dsimp only
    have h1 : Quiet w (FaucetSentry.proxyArguments B
        (FaucetSentry.log "info" ("Using Chrome at: " ++ chromePath) { w with node := s })).2 :=
      (quiet_node _ w).trans ((quiet_log _ _ _).trans (quiet_proxyArguments B _))
    split
    · exact (h1.trans (quiet_node _ _)).calm
    · next u s2 h2 =>
      have h3 : Calm w { (FaucetSentry.proxyArguments B
          (FaucetSentry.log "info" ("Using Chrome at: " ++ chromePath)
            { w with node := s })).2 with node := s2, browserOpen := true } :=
        h1.calm.trans_calm (Calm.of_core rfl (fun h => h))
      split
      · next e w4 h4 => exact h3.trans_calm ((quiet_authenticateProxy B _ _).of_eq h4).calm
      · next u2 w4 h4 =>
        have h5 := h3.trans_calm ((quiet_authenticateProxy B _ _).of_eq h4).calm
        split
        · next e w5 h6 => exact h5.trans_calm ((calm_generateRandomUserAgent H stack w4).of_eq_calm h6)
        · next userAgent w5 h6 =>
          have h7 := h5.trans_calm ((calm_generateRandomUserAgent H stack w4).of_eq_calm h6)
          split
          · exact h7.trans_calm (quiet_node _ _).calm
          · exact h7.trans_calm ((quiet_node _ _).trans (quiet_log _ _ _)).calm

theorem Calm.thenLog {a b : World σ} (level message : String) (h : Calm a b) :
    Calm a (FaucetSentry.log level message b) := h.trans_calm (quiet_log _ _ _).calm

theorem Calm.thenQuiet {a b c : World σ} (hq : Quiet b c) (h : Calm a b) : Calm a c :=
  h.trans_calm hq.calm

/-- An update of the timestamps of the statistics is calm. -/
theorem Calm.withStats {a b : World σ} (stats : SessionStats)
    (h1 : stats.status = b.sessionStats.status)
    (h2 : stats.totalClaims = b.sessionStats.totalClaims)
    (h3 : stats.totalRewards = b.sessionStats.totalRewards)
    (h4 : stats.consecutiveSessions = b.sessionStats.consecutiveSessions)
    (h5 : stats.tempClaimWallet = b.sessionStats.tempClaimWallet) (h : Calm a b) :
    Calm a { b with sessionStats := stats } := by
  refine h.trans_calm (Calm.of_core ?_ ?_)
  · simp only [World.core, h1, h2, h3, h4]
  · intro hs hc
    show stats.tempClaimWallet = none
    rw [h5]
    exact hs hc

theorem calm_creatingTempWallet (E : Env σ) (K : Keygen σ) (w : World σ) :
    Calm (FaucetSentry.setStatus "creating_temp_wallet" w)
      (FaucetSentry.creatingTempWallet E K w).2 :=
  (quiet_emitStatus _).calm.trans_calm (calm_createTemporaryClaimWallet E K _)

theorem calm_launchingBrowser (B : Browser σ) (H : Host σ) (stack : Nat) (w : World σ) :
    Calm (FaucetSentry.setStatus "launching_browser" w)
      (FaucetSentry.launchingBrowser B H stack w).2 :=
  (quiet_emitStatus _).calm.trans_calm (calm_launchBrowser B H stack _)

theorem calm_navigating (E : Env σ) (P : Page σ) (B : Browser σ) (w : World σ) :
    Calm (FaucetSentry.setStatus "navigating" w) (FaucetSentry.navigating E P B w).2 := by
  unfold FaucetSentry.navigating
  dsimp only
  have h0 : Quiet (FaucetSentry.setStatus "navigating" w)
      (FaucetSentry.log "action" "Navigating to faucet..."
        (FaucetSentry.emitStatus (FaucetSentry.setStatus "navigating" w))) :=
    (quiet_emitStatus _).trans (quiet_log _ _ _)
  have h4 : ∀ w3 : World σ, Quiet w3
      (match P.waitForSelector "body" 30000 w3.node with
        | (.ok _, s4) => { w3 with node := s4 }
        | (.error _, s4) =>
          FaucetSentry.log "warning" "Body selector timeout, continuing anyway..."
            { w3 with node := s4 }) := by
    intro w3
    split
    · exact quiet_node _ _
    · exact (quiet_node _ _).trans (quiet_log _ _ _)
  split
  · exact (h0.trans (quiet_node _ _)).calm
  · exact (h0.trans ((quiet_node _ _).trans ((h4 _).trans ((quiet_delay E 3000 _).trans
      (quiet_takeScreenshot P _ _))))).calm

theorem calm_enteringAddress (E : Env σ) (P : Page σ) (B : Browser σ)
    (claimWallet : WalletData) (w : World σ) :
    Calm (FaucetSentry.setStatus "entering_address" w)
      (FaucetSentry.enteringAddress E P B claimWallet w).2 := by
  unfold FaucetSentry.enteringAddress
  dsimp only
  have h0 : Quiet (FaucetSentry.setStatus "entering_address" w)
      (FaucetSentry.log "action" "Entering claim wallet address..."
        (FaucetSentry.emitStatus (FaucetSentry.setStatus "entering_address" w))) :=
    (quiet_emitStatus _).trans (quiet_log _ _ _)
  split
  · exact (h0.trans (quiet_node _ _)).calm
  · split
    · exact (h0.trans (quiet_node _ _)).calm
    · split
      · exact (h0.trans (quiet_node _ _)).calm
      · split
        · exact (h0.trans ((quiet_node _ _).trans ((quiet_delay E 500 _).trans
            (quiet_node _ _)))).calm
        · exact (h0.trans ((quiet_node _ _).trans ((quiet_delay E 500 _).trans
            ((quiet_node _ _).trans ((quiet_delay E 1000 _).trans
              (quiet_takeScreenshot P _ _)))))).calm

theorem calm_clickingClaim (E : Env σ) (P : Page σ) (B : Browser σ) (w : World σ) :
    Calm (FaucetSentry.setStatus "clicking_claim" w) (FaucetSentry.clickingClaim E P B w).2 := by
  unfold FaucetSentry.clickingClaim
  dsimp only
  have h0 : Quiet (FaucetSentry.setStatus "clicking_claim" w)
      (FaucetSentry.log "action" "Clicking claim button..."
        (FaucetSentry.emitStatus (FaucetSentry.setStatus "clicking_claim" w))) :=
    (quiet_emitStatus _).trans (quiet_log _ _ _)
  split
  · exact (h0.trans (quiet_node _ _)).calm
  · split
    · exact (h0.trans (quiet_node _ _)).calm
    · split
      · exact (h0.trans (quiet_node _ _)).calm
      · exact (h0.trans ((quiet_node _ _).trans ((quiet_log _ _ _).trans
          ((quiet_node _ _).trans ((quiet_emit (.delay 5000) _ rfl).trans ((quiet_node _ _).trans
            ((quiet_delay E 2000 _).trans (quiet_takeScreenshot P _ _)))))))).calm

theorem calm_extractingDonation (E : Env σ) (P : Page σ) (L : Lib) (fuel : Nat)
    (w : World σ) (r : Outcome σ String)
    (h : FaucetSentry.extractingDonation E P L fuel w = some r) :
    Calm (FaucetSentry.setStatus "extracting_donation" w) r.2 := by
  unfold FaucetSentry.extractingDonation at h
  dsimp only at h
  rw [Option.map_eq_some'] at h
  obtain ⟨x, hx, rfl⟩ := h
  have h1 := (quiet_emitStatus _).trans (quiet_extractDonation E P L fuel _ x hx)
  split
  · exact h1.calm
  · exact (h1.trans ((quiet_log _ _ _).trans (quiet_takeScreenshot P _ _))).calm

theorem calm_fundingClaimWallet (E : Env σ) (L : Lib) (H : Host σ) (claimWallet : WalletData)
    (donationAmount : String) (w : World σ) :
    Calm (FaucetSentry.setStatus "funding_claim_wallet" w)
      (FaucetSentry.fundingClaimWallet E L H claimWallet donationAmount w).2 := by
  unfold FaucetSentry.fundingClaimWallet
  dsimp only
  have h0 : Quiet (FaucetSentry.setStatus "funding_claim_wallet" w)
      (FaucetSentry.log "action"
        ("Sending " ++ donationAmount ++ " NANO from Bank to Claim wallet...")
        (FaucetSentry.emitStatus (FaucetSentry.setStatus "funding_claim_wallet" w))) :=
    (quiet_emitStatus _).trans (quiet_log _ _ _)
  split
  · exact h0.calm
  · show Calm _ (FaucetSentry.log "success" "Sent NANO to claim wallet" _)
    refine Calm.thenLog _ _ ?_
    refine Calm.withStats _ rfl rfl rfl rfl rfl ?_
    exact (h0.trans (quiet_sendNano E L _ _ _ _)).calm

theorem quiet_claimPollLoop (E : Env σ) (L : Lib) (claimWallet : WalletData) (left : Nat) :
    ∀ w : World σ, Quiet w (FaucetSentry.claimPollLoop E L claimWallet left w).2 := by
  induction left with
  | zero => intro w; exact Quiet.refl w
  | succ left ih =>
    intro w
    unfold FaucetSentry.claimPollLoop
    have hp := quiet_getPendingBlocks E L claimWallet.address w
    split
    · next e w1 h => exact hp.of_eq h
    · next pending w1 h =>
      have h1 := hp.of_eq h
      split
      · split
        · next e w2 h2 => exact h1.trans ((quiet_receiveAllPending E L _ _).of_eq h2)
        · next x w2 h2 => exact h1.trans ((quiet_receiveAllPending E L _ _).of_eq h2)
      · exact h1.trans ((quiet_delay E 2000 _).trans (ih _))

theorem calm_receivingToClaim (E : Env σ) (L : Lib) (claimWallet : WalletData)
    (w : World σ) :
    Calm (FaucetSentry.setStatus "receiving_to_claim" w)
      (FaucetSentry.receivingToClaim E L claimWallet w).2 :=
  ((quiet_emitStatus _).trans ((quiet_log _ _ _).trans ((quiet_delay E 5000 _).trans
    (quiet_claimPollLoop E L claimWallet 30 _)))).calm

theorem calm_sendingDonation (E : Env σ) (P : Page σ) (L : Lib) (claimWallet : WalletData)
    (donationAmount : String) (w : World σ) :
    Calm (FaucetSentry.setStatus "sending_donation" w)
      (FaucetSentry.sendingDonation E P L claimWallet donationAmount w).2 := by
  unfold FaucetSentry.sendingDonation
  dsimp only
  have h0 : Quiet (FaucetSentry.setStatus "sending_donation" w)
      (FaucetSentry.log "action"
        ("Sending donation to faucet: " ++ FAUCET_DONATION_ADDRESS.take 20 ++ "...")
        (FaucetSentry.emitStatus (FaucetSentry.setStatus "sending_donation" w))) :=
    (quiet_emitStatus _).trans (quiet_log _ _ _)
  split
  · next e w3 h3 => exact (h0.trans ((quiet_sendFromWallet E L _ _ _ _).of_eq h3)).calm
  · next x w3 h3 =>
    exact (h0.trans (((quiet_sendFromWallet E L _ _ _ _).of_eq h3).trans
      ((quiet_log _ _ _).trans (quiet_takeScreenshot P _ _)))).calm

theorem calm_waitingReward (E : Env σ) (L : Lib) (fuel : Nat) (claimWallet : WalletData)
    (w : World σ) (r : Outcome σ (List PendingBlock))
    (h : FaucetSentry.waitingReward E L fuel claimWallet w = some r) :
    Calm (FaucetSentry.setStatus "waiting_reward" w) r.2 :=
  ((quiet_emitStatus _).trans ((quiet_log _ _ _).trans
    (quiet_waitForPending E L fuel _ _ _ _ r h))).calm

theorem calm_receivingReward (E : Env σ) (L : Lib) (H : Host σ) (claimWallet : WalletData)
    (rewardPending : List PendingBlock) (w : World σ) :
    Calm (FaucetSentry.setStatus "receiving_reward" w)
      (FaucetSentry.receivingReward E L H claimWallet rewardPending w).2 := by
  unfold FaucetSentry.receivingReward
  dsimp only
  have h0 := (quiet_emitStatus (FaucetSentry.setStatus "receiving_reward" w)).calm
  split
  · exact h0
  · next first rest =>
    split
    · next e w4 h4 =>
      refine Calm.thenQuiet ((quiet_receiveAllPending E L _ _).of_eq h4) ?_
      refine Calm.withStats _ rfl rfl rfl rfl rfl ?_
      exact h0.thenLog _ _
    · next x w4 h4 =>
      refine Calm.thenQuiet ((quiet_receiveAllPending E L _ _).of_eq h4) ?_
      refine Calm.withStats _ rfl rfl rfl rfl rfl ?_
      exact h0.thenLog _ _

theorem calm_sendingToBank (E : Env σ) (L : Lib) (claimWallet : WalletData)
    (bankWalletData : StoredWallet) (w : World σ) :
    Calm (FaucetSentry.setStatus "sending_to_bank" w)
      (FaucetSentry.sendingToBank E L claimWallet bankWalletData w).2 := by
  unfold FaucetSentry.sendingToBank
  dsimp only
  have h0 := quiet_emitStatus (FaucetSentry.setStatus "sending_to_bank" w)
  split
  · next e w2 h2 => exact (h0.trans ((quiet_getAccountInfo E L _ _).of_eq h2)).calm
  · next info w2 h2 =>
    have h1 := (h0.trans ((quiet_getAccountInfo E L _ _).of_eq h2)).trans
      (quiet_log "action"
        ("Sending " ++ info.balanceNano.getD "undefined" ++ " NANO to Bank wallet...") w2)
    split
    · exact h1.calm
    · split
      · next e w4 h4 => exact (h1.trans ((quiet_sendFromWallet E L _ _ _ _).of_eq h4)).calm
      · next x w4 h4 =>
        exact (h1.trans (((quiet_sendFromWallet E L _ _ _ _).of_eq h4).trans
          (quiet_log _ _ _))).calm

theorem calm_receivingToBank (E : Env σ) (L : Lib) (w : World σ) :
    Calm (FaucetSentry.setStatus "receiving_to_bank" w) (FaucetSentry.receivingToBank E L w) := by
  unfold FaucetSentry.receivingToBank
  dsimp only
  split
  · exact ((quiet_emitStatus (FaucetSentry.setStatus "receiving_to_bank" w)).trans
      ((quiet_log "action" "Processing bank wallet receive..." _).trans
        ((quiet_delay E 3000 _).trans ((quiet_receiveNano E L _ none _).trans
          (quiet_log _ _ _))))).calm
  · split
    · exact ((quiet_emitStatus (FaucetSentry.setStatus "receiving_to_bank" w)).trans
        ((quiet_log "action" "Processing bank wallet receive..." _).trans
          ((quiet_delay E 3000 _).trans ((quiet_receiveNano E L _ none _).trans
            (quiet_log _ _ _))))).calm
    · exact ((quiet_emitStatus (FaucetSentry.setStatus "receiving_to_bank" w)).trans
        ((quiet_log "action" "Processing bank wallet receive..." _).trans
          ((quiet_delay E 3000 _).trans ((quiet_receiveNano E L _ none _).trans
            (quiet_log _ _ _))))).calm

/-! ## The claim process, step by step -/

theorem Progress.start (w : World σ) : Progress w 0 w :=
  ⟨by simp, rfl, rfl, rfl, rfl, rfl, rfl, rfl, rfl, rfl, rfl, rfl, fun h => h⟩

theorem Progress.then_calm {w0 w w' : World σ} {j : Nat} (p : Progress w0 j w) (c : Calm w w') :
    Progress w0 j w' where
  statuses := c.statuses.trans p.statuses
  restarts := c.restarts.trans p.restarts
  starts := c.starts.trans p.starts
  newnyms := c.newnyms.trans p.newnyms
  connectionType := c.connectionType.trans p.connectionType
  autoRestartEnabled := c.autoRestartEnabled.trans p.autoRestartEnabled
  wallets := c.wallets.trans p.wallets
  bankWalletName := c.bankWalletName.trans p.bankWalletName
  isPaused := c.isPaused.trans p.isPaused
  totalClaims := c.totalClaims.trans p.totalClaims
  totalRewards := c.totalRewards.trans p.totalRewards
  consecutiveSessions := c.consecutiveSessions.trans p.consecutiveSessions
  sync := fun h => c.sync (p.sync h)

theorem Progress.enter {w0 w : World σ} {j : Nat} (p : Progress w0 j w) (value : String)
    (hv : claimStatuses.take (j + 1) = claimStatuses.take j ++ [value]) :
    Progress w0 (j + 1) (FaucetSentry.setStatus value w) where
  statuses := by
    simp only [FaucetSentry.setStatus, emit, statuses_append, p.statuses, hv, Secret.statuses,
      List.append_assoc]
  restarts := by
    simp only [FaucetSentry.setStatus, emit, restartCalls_append, p.restarts, restartCalls,
      List.append_nil]
  starts := by
    simp only [FaucetSentry.setStatus, emit, processStarts_append, p.starts, processStarts,
      Nat.add_zero]
  newnyms := by
    simp only [FaucetSentry.setStatus, emit, newnymRequests_append, p.newnyms, newnymRequests,
      List.append_nil]
  connectionType := p.connectionType
  autoRestartEnabled := p.autoRestartEnabled
  wallets := p.wallets
  bankWalletName := p.bankWalletName
  isPaused := p.isPaused
  totalClaims := p.totalClaims
  totalRewards := p.totalRewards
  consecutiveSessions := p.consecutiveSessions
  sync := fun h => p.sync h

theorem Progress.step {w0 w w' : World σ} {j : Nat} (p : Progress w0 j w) (value : String)
    (hv : claimStatuses.take (j + 1) = claimStatuses.take j ++ [value])
    (c : Calm (FaucetSentry.setStatus value w) w') : Progress w0 (j + 1) w' :=
  (p.enter value hv).then_calm c

theorem andThen_cases {α β : Type} {r : Outcome σ α}
    {next : α → World σ → Option (Outcome σ β)} {out : Outcome σ β}
    (h : r.andThen next = some out) :
    (∃ e, out = (.error e, r.2)) ∨ (∃ a, r = (.ok a, r.2) ∧ next a r.2 = some out) := by
  obtain ⟨x, w⟩ := r
  cases x with
  | error e => left; exact ⟨e, (Option.some.inj h).symm⟩
  | ok a => right; exact ⟨a, rfl, h⟩

theorem andThenBounded_cases {α β : Type} {r : Option (Outcome σ α)}
    {next : α → World σ → Option (Outcome σ β)} {out : Outcome σ β}
    (h : andThenBounded r next = some out) :
    ∃ x, r = some x ∧
      ((∃ e, out = (.error e, x.2)) ∨ (∃ a, x = (.ok a, x.2) ∧ next a x.2 = some out)) := by
  unfold andThenBounded at h
  cases r with
  | none => cases h
  | some x => exact ⟨x, rfl, andThen_cases h⟩

/-- The `try` block of `runClaimProcess` either throws after having entered between 1 and
13 steps of the happy path, in order, or reaches its end after all 13. -/
theorem claimSteps_progress (E : Env σ) (P : Page σ) (B : Browser σ) (L : Lib) (K : Keygen σ)
    (H : Host σ) (fuel stack : Nat) (w : World σ) (out : Outcome σ Unit)
    (h : FaucetSentry.claimSteps E P B L K H fuel stack w = some out) :
    (∃ j e, 1 ≤ j ∧ j ≤ 13 ∧ Progress w j out.2 ∧ out.1 = .error e) ∨
    (∃ rewardPending donationAmount wb, Progress w 13 wb ∧
      out = (.ok (), FaucetSentry.completeClaim E B L H rewardPending donationAmount wb)) := by
  unfold FaucetSentry.claimSteps at h
  have p0 := Progress.start w
  rcases andThen_cases h with ⟨e, rfl⟩ | ⟨claimWallet, -, h⟩
  · exact Or.inl ⟨1, e, by omega, by omega, p0.step _ rfl (calm_creatingTempWallet E K w), rfl⟩
  have p1 := p0.step _ rfl (calm_creatingTempWallet E K w)
  rcases andThen_cases h with ⟨e, rfl⟩ | ⟨-, -, h⟩
  · exact Or.inl ⟨2, e, by omega, by omega, p1.step _ rfl (calm_launchingBrowser B H stack _), rfl⟩
  have p2 := p1.step _ rfl (calm_launchingBrowser B H stack _)
  rcases andThen_cases h with ⟨e, rfl⟩ | ⟨-, -, h⟩
  · exact Or.inl ⟨3, e, by omega, by omega, p2.step _ rfl (calm_navigating E P B _), rfl⟩
  have p3 := p2.step _ rfl (calm_navigating E P B _)
  rcases andThen_cases h with ⟨e, rfl⟩ | ⟨-, -, h⟩
  · exact Or.inl ⟨4, e, by omega, by omega,
      p3.step _ rfl (calm_enteringAddress E P B claimWallet _), rfl⟩
  have p4 := p3.step _ rfl (calm_enteringAddress E P B claimWallet _)
  rcases andThen_cases h with ⟨e, rfl⟩ | ⟨-, -, h⟩
  · exact Or.inl ⟨5, e, by omega, by omega, p4.step _ rfl (calm_clickingClaim E P B _), rfl⟩
  have p5 := p4.step _ rfl (calm_clickingClaim E P B _)
  obtain ⟨x6, hx6, h⟩ := andThenBounded_cases h
  have p6 := p5.step _ rfl (calm_extractingDonation E P L fuel _ x6 hx6)
  rcases h with ⟨e, rfl⟩ | ⟨donationAmount, -, h⟩
  · exact Or.inl ⟨6, e, by omega, by omega, p6, rfl⟩
  rcases andThen_cases h with ⟨e, rfl⟩ | ⟨bankWalletData, -, h⟩
  · exact Or.inl ⟨7, e, by omega, by omega,
      p6.step _ rfl (calm_fundingClaimWallet E L H claimWallet donationAmount _), rfl⟩
  have p7 := p6.step _ rfl (calm_fundingClaimWallet E L H claimWallet donationAmount _)
  rcases andThen_cases h with ⟨e, rfl⟩ | ⟨-, -, h⟩
  · exact Or.inl ⟨8, e, by omega, by omega,
      p7.step _ rfl (calm_receivingToClaim E L claimWallet _), rfl⟩
  have p8 := p7.step _ rfl (calm_receivingToClaim E L claimWallet _)
  rcases andThen_cases h with ⟨e, rfl⟩ | ⟨-, -, h⟩
  · exact Or.inl ⟨9, e, by omega, by omega,
      p8.step _ rfl (calm_sendingDonation E P L claimWallet donationAmount _), rfl⟩
  have p9 := p8.step _ rfl (calm_sendingDonation E P L claimWallet donationAmount _)
  obtain ⟨x10, hx10, h⟩ := andThenBounded_cases h
  have p10 := p9.step _ rfl (calm_waitingReward E L fuel claimWallet _ x10 hx10)
  rcases h with ⟨e, rfl⟩ | ⟨rewardPending, -, h⟩
  · exact Or.inl ⟨10, e, by omega, by omega, p10, rfl⟩
  rcases andThen_cases h with ⟨e, rfl⟩ | ⟨-, -, h⟩
  · exact Or.inl ⟨11, e, by omega, by omega,
      p10.step _ rfl (calm_receivingReward E L H claimWallet rewardPending _), rfl⟩
  have p11 := p10.step _ rfl (calm_receivingReward E L H claimWallet rewardPending _)
  rcases andThen_cases h with ⟨e, rfl⟩ | ⟨-, -, h⟩
  · exact Or.inl ⟨12, e, by omega, by omega,
      p11.step _ rfl (calm_sendingToBank E L claimWallet bankWalletData _), rfl⟩
  have p12 := p11.step _ rfl (calm_sendingToBank E L claimWallet bankWalletData _)
  have p13 := p12.step _ rfl (calm_receivingToBank E L _)
  exact Or.inr ⟨rewardPending, donationAmount, _, p13, (Option.some.inj h).symm⟩

/-! ## How the claim process ends -/

theorem Calm.policy {a b : World σ} (h : Calm a b) : b.policy = a.policy := by
  simp only [World.policy, h.statuses, h.restarts, h.starts, h.newnyms, h.connectionType,
    h.autoRestartEnabled, h.wallets, h.bankWalletName, h.isPaused]

theorem log_policy (level message : String) (w : World σ) :
    (FaucetSentry.log level message w).policy = w.policy :=
  (quiet_log level message w).calm.policy

theorem emitStatus_policy (w : World σ) : (FaucetSentry.emitStatus w).policy = w.policy :=
  (quiet_emitStatus w).calm.policy

theorem deleteTemporaryClaimWallet_policy (w : World σ) :
    (FaucetSentry.deleteTemporaryClaimWallet w).policy = w.policy :=
  (calm_deleteTemporaryClaimWallet w).policy

theorem cleanup_policy (B : Browser σ) (w : World σ) :
    (FaucetSentry.cleanup B w).policy = w.policy := by
  unfold FaucetSentry.cleanup
  dsimp only
  rw [emitStatus_policy]
  split <;> rfl

theorem recordClaim_policy (L : Lib) (rewardPending : List PendingBlock)
    (donationAmount : String) (w : World σ) :
    (FaucetSentry.recordClaim L rewardPending donationAmount w).policy = w.policy := by
  unfold FaucetSentry.recordClaim
  dsimp only
  split <;> (rw [log_policy]; rfl)

/-- The teardown `deleteTemporaryClaimWallet` then `cleanup`: no claim wallet, no shown
address, not running, no browser; the counters are untouched. -/
theorem teardown_spec (B : Browser σ) (w : World σ) :
    (FaucetSentry.cleanup B (FaucetSentry.deleteTemporaryClaimWallet w)).claimWallet = none ∧
    (Sync w → (FaucetSentry.cleanup B
      (FaucetSentry.deleteTemporaryClaimWallet w)).sessionStats.tempClaimWallet = none) ∧
    (FaucetSentry.cleanup B (FaucetSentry.deleteTemporaryClaimWallet w)).isRunning = false ∧
    (FaucetSentry.cleanup B (FaucetSentry.deleteTemporaryClaimWallet w)).browserOpen = false ∧
    (FaucetSentry.cleanup B (FaucetSentry.deleteTemporaryClaimWallet w)).sessionStats.status
      = w.sessionStats.status ∧
    (FaucetSentry.cleanup B (FaucetSentry.deleteTemporaryClaimWallet w)).sessionStats.totalClaims
      = w.sessionStats.totalClaims ∧
    (FaucetSentry.cleanup B (FaucetSentry.deleteTemporaryClaimWallet w)).sessionStats.totalRewards
      = w.sessionStats.totalRewards ∧
    (FaucetSentry.cleanup B
      (FaucetSentry.deleteTemporaryClaimWallet w)).sessionStats.consecutiveSessions
      = w.sessionStats.consecutiveSessions := by
  have hd : (FaucetSentry.deleteTemporaryClaimWallet w).claimWallet = none ∧
      (Sync w → (FaucetSentry.deleteTemporaryClaimWallet w).sessionStats.tempClaimWallet = none) ∧
      (FaucetSentry.deleteTemporaryClaimWallet w).sessionStats.status = w.sessionStats.status ∧
      (FaucetSentry.deleteTemporaryClaimWallet w).sessionStats.totalClaims
        = w.sessionStats.totalClaims ∧
      (FaucetSentry.deleteTemporaryClaimWallet w).sessionStats.totalRewards
        = w.sessionStats.totalRewards ∧
      (FaucetSentry.deleteTemporaryClaimWallet w).sessionStats.consecutiveSessions
        = w.sessionStats.consecutiveSessions := by
    unfold FaucetSentry.deleteTemporaryClaimWallet
    split
    · exact ⟨rfl, fun _ => rfl, rfl, rfl, rfl, rfl⟩
    · next hnone => exact ⟨hnone, fun hs => hs hnone, rfl, rfl, rfl, rfl⟩
  obtain ⟨d1, d2, d3, d4, d5, d6⟩ := hd
  have hc : ∀ v : World σ,
      (FaucetSentry.cleanup B v).claimWallet = v.claimWallet ∧
      (FaucetSentry.cleanup B v).sessionStats = v.sessionStats ∧
      (FaucetSentry.cleanup B v).isRunning = false ∧
      (FaucetSentry.cleanup B v).browserOpen = false := by
    intro v
    unfold FaucetSentry.cleanup
    dsimp only
    split
    · exact ⟨rfl, rfl, rfl, rfl⟩
    · next hb => exact ⟨rfl, rfl, rfl, by simpa using hb⟩
  obtain ⟨c1, c2, c3, c4⟩ := hc (FaucetSentry.deleteTemporaryClaimWallet w)
  refine ⟨c1.trans d1, fun hs => ?_, c3, c4, ?_, ?_, ?_, ?_⟩
  · rw [c2]; exact d2 hs
  · rw [c2]; exact d3
  · rw [c2]; exact d4
  · rw [c2]; exact d5
  · rw [c2]; exact d6

theorem policy_fields {a b : World σ} (h : b.policy = a.policy) :
    statuses b.trace = statuses a.trace ∧ restartCalls b.trace = restartCalls a.trace ∧
    processStarts b.trace = processStarts a.trace ∧
    newnymRequests b.trace = newnymRequests a.trace ∧
    b.connectionType = a.connectionType ∧ b.autoRestartEnabled = a.autoRestartEnabled ∧
    b.wallets = a.wallets ∧ b.bankWalletName = a.bankWalletName ∧ b.isPaused = a.isPaused := by
  simpa only [World.policy, Prod.mk.injEq] using h

theorem trace_emit (e : Event) (w : World σ) : (emit e w).trace = w.trace ++ [e] := rfl

theorem trace_log (level message : String) (w : World σ) :
    (FaucetSentry.log level message w).trace
      = w.trace ++ [Event.log "faucet-log" level message] := rfl

/-- The `catch` block of `runClaimProcess`, entered after `j` steps. -/
theorem claimFailed_spec (B : Browser σ) (message : String) (w0 wb : World σ) (j : Nat)
    (p : Progress w0 j wb) :
    Ended w0 (claimStatuses.take j ++ ["failed"]) (restartEligible w0)
      (FaucetSentry.claimFailed B message wb).2 ∧
    (FaucetSentry.claimFailed B message wb).1
      = (if restartEligible w0 then .ok () else .error message) ∧
    (FaucetSentry.claimFailed B message wb).2.sessionStats.status = "failed" ∧
    (FaucetSentry.claimFailed B message wb).2.sessionStats.totalClaims
      = w0.sessionStats.totalClaims ∧
    (FaucetSentry.claimFailed B message wb).2.sessionStats.totalRewards
      = w0.sessionStats.totalRewards ∧
    (FaucetSentry.claimFailed B message wb).2.sessionStats.consecutiveSessions
      = w0.sessionStats.consecutiveSessions := by
  have hpol : (FaucetSentry.cleanup B (FaucetSentry.deleteTemporaryClaimWallet
      (FaucetSentry.setStatus "failed"
        (FaucetSentry.log "error" ("Claim process error: " ++ message) wb)))).policy
      = (FaucetSentry.setStatus "failed"
        (FaucetSentry.log "error" ("Claim process error: " ++ message) wb)).policy := by
    rw [cleanup_policy, deleteTemporaryClaimWallet_policy]
  obtain ⟨q1, q2, q3, q4, q5, q6, q7, q8, q9⟩ := policy_fields hpol
  obtain ⟨t1, t2, t3, t4, t5, t6, t7, t8⟩ := teardown_spec B
    (FaucetSentry.setStatus "failed"
      (FaucetSentry.log "error" ("Claim process error: " ++ message) wb))
  have hcond : ((FaucetSentry.cleanup B (FaucetSentry.deleteTemporaryClaimWallet
      (FaucetSentry.setStatus "failed"
        (FaucetSentry.log "error" ("Claim process error: " ++ message) wb)))).connectionType
        != "direct" &&
      (FaucetSentry.cleanup B (FaucetSentry.deleteTemporaryClaimWallet
        (FaucetSentry.setStatus "failed"
          (FaucetSentry.log "error" ("Claim process error: " ++ message) wb)))).autoRestartEnabled)
      = restartEligible w0 := by
    rw [q5, q6]
    show (wb.connectionType != "direct" && wb.autoRestartEnabled) = _
    rw [p.connectionType, p.autoRestartEnabled]
    rfl
  have hst : statuses (FaucetSentry.setStatus "failed"
      (FaucetSentry.log "error" ("Claim process error: " ++ message) wb)).trace
      = statuses w0.trace ++ (claimStatuses.take j ++ ["failed"]) := by
    simp only [FaucetSentry.setStatus, FaucetSentry.log, emit, statuses_append, statuses,
      p.statuses, List.append_nil, List.append_assoc]
  have hre : restartCalls (FaucetSentry.setStatus "failed"
      (FaucetSentry.log "error" ("Claim process error: " ++ message) wb)).trace
      = restartCalls w0.trace := by
    simp only [FaucetSentry.setStatus, FaucetSentry.log, emit, restartCalls_append,
      restartCalls, p.restarts, List.append_nil]
  have hps : processStarts (FaucetSentry.setStatus "failed"
      (FaucetSentry.log "error" ("Claim process error: " ++ message) wb)).trace
      = processStarts w0.trace := by
    simp only [FaucetSentry.setStatus, FaucetSentry.log, emit, processStarts_append,
      processStarts, p.starts, Nat.add_zero]
  have hnn : newnymRequests (FaucetSentry.setStatus "failed"
      (FaucetSentry.log "error" ("Claim process error: " ++ message) wb)).trace
      = newnymRequests w0.trace := by
    simp only [FaucetSentry.setStatus, FaucetSentry.log, emit, newnymRequests_append,
      newnymRequests, p.newnyms, List.append_nil]
  unfold FaucetSentry.claimFailed
  dsimp only
  rw [hcond]
  by_cases hr : restartEligible w0 = true
  · rw [if_pos hr, if_pos hr]
    refine ⟨⟨?_, ?_, ?_, ?_, q5.trans p.connectionType, q6.trans p.autoRestartEnabled,
      q7.trans p.wallets, q8.trans p.bankWalletName, q9.trans p.isPaused, t1,
      fun hs => t2 (p.sync hs), t3, t4⟩, rfl, t5, t6.trans p.totalClaims,
      t7.trans p.totalRewards, t8.trans p.consecutiveSessions⟩
    · rw [trace_emit, trace_log, statuses_append, statuses_append, q1, hst]
      simp only [statuses, List.append_nil]
    · rw [trace_emit, trace_log, restartCalls_append, restartCalls_append, q2, hre]
      simp only [restartCalls, List.append_nil, hr, if_true]
    · rw [trace_emit, trace_log, processStarts_append, processStarts_append, q3, hps]
      simp only [processStarts, Nat.add_zero]
    · rw [trace_emit, trace_log, newnymRequests_append, newnymRequests_append, q4, hnn]
      simp only [newnymRequests, List.append_nil]
  · rw [if_neg hr, if_neg hr]
    refine ⟨⟨q1.trans hst, ?_, q3.trans hps, q4.trans hnn, q5.trans p.connectionType,
      q6.trans p.autoRestartEnabled, q7.trans p.wallets, q8.trans p.bankWalletName,
      q9.trans p.isPaused, t1, fun hs => t2 (p.sync hs), t3, t4⟩, rfl, t5,
      t6.trans p.totalClaims, t7.trans p.totalRewards, t8.trans p.consecutiveSessions⟩
    rw [if_neg hr, List.append_nil]
    exact q2.trans hre

/-- What the last statements of the `try` block change. -/
theorem sessionCompleted_spec (w : World σ) :
    statuses (FaucetSentry.sessionCompleted w).trace = statuses w.trace ++ ["completed"] ∧
    restartCalls (FaucetSentry.sessionCompleted w).trace
      = restartCalls w.trace ++ (if restartEligible w then [500] else []) ∧
    processStarts (FaucetSentry.sessionCompleted w).trace = processStarts w.trace ∧
    newnymRequests (FaucetSentry.sessionCompleted w).trace = newnymRequests w.trace ∧
    (FaucetSentry.sessionCompleted w).connectionType = w.connectionType ∧
    (FaucetSentry.sessionCompleted w).autoRestartEnabled = w.autoRestartEnabled ∧
    (FaucetSentry.sessionCompleted w).wallets = w.wallets ∧
    (FaucetSentry.sessionCompleted w).bankWalletName = w.bankWalletName ∧
    (FaucetSentry.sessionCompleted w).isPaused = w.isPaused ∧
    (FaucetSentry.sessionCompleted w).isRunning = w.isRunning ∧
    (FaucetSentry.sessionCompleted w).browserOpen = w.browserOpen ∧
    (FaucetSentry.sessionCompleted w).claimWallet = w.claimWallet ∧
    (FaucetSentry.sessionCompleted w).sessionStats
      = { w.sessionStats with
          status := "completed"
          consecutiveSessions := w.sessionStats.consecutiveSessions + 1 } := by
  unfold FaucetSentry.sessionCompleted
  dsimp only
  by_cases hr : restartEligible w = true
  · have hc : ((FaucetSentry.emitStatus
        { FaucetSentry.setStatus "completed" w with
          sessionStats :=
            { (FaucetSentry.setStatus "completed" w).sessionStats with
              consecutiveSessions :=
                (FaucetSentry.setStatus "completed" w).sessionStats.consecutiveSessions + 1 }
        }).connectionType != "direct" &&
        (FaucetSentry.emitStatus
        { FaucetSentry.setStatus "completed" w with
          sessionStats :=
            { (FaucetSentry.setStatus "completed" w).sessionStats with
              consecutiveSessions :=
                (FaucetSentry.setStatus "completed" w).sessionStats.consecutiveSessions + 1 }
        }).autoRestartEnabled) = true := hr
    rw [if_pos hc, if_pos hr]
    refine ⟨?_, ?_, ?_, ?_, rfl, rfl, rfl, rfl, rfl, rfl, rfl, rfl, rfl⟩ <;>
      simp [FaucetSentry.emitStatus, FaucetSentry.setStatus, FaucetSentry.log, emit,
        statuses_append, restartCalls_append, processStarts_append, newnymRequests_append,
        statuses, restartCalls, processStarts, newnymRequests]
  · have hc : ¬ ((FaucetSentry.emitStatus
        { FaucetSentry.setStatus "completed" w with
          sessionStats :=
            { (FaucetSentry.setStatus "completed" w).sessionStats with
              consecutiveSessions :=
                (FaucetSentry.setStatus "completed" w).sessionStats.consecutiveSessions + 1 }
        }).connectionType != "direct" &&
        (FaucetSentry.emitStatus
        { FaucetSentry.setStatus "completed" w with
          sessionStats :=
            { (FaucetSentry.setStatus "completed" w).sessionStats with
              consecutiveSessions :=
                (FaucetSentry.setStatus "completed" w).sessionStats.consecutiveSessions + 1 }
        }).autoRestartEnabled) = true := hr
    rw [if_neg hc, if_neg hr]
    refine ⟨?_, ?_, ?_, ?_, rfl, rfl, rfl, rfl, rfl, rfl, rfl, rfl, rfl⟩ <;>
      simp [FaucetSentry.emitStatus, FaucetSentry.setStatus, FaucetSentry.log, emit,
        statuses_append, restartCalls_append, processStarts_append, newnymRequests_append,
        statuses, restartCalls, processStarts, newnymRequests]

theorem recordClaim_fields (L : Lib) (rewardPending : List PendingBlock)
    (donationAmount : String) (w : World σ) :
    (FaucetSentry.recordClaim L rewardPending donationAmount w).claimWallet = w.claimWallet ∧
    (FaucetSentry.recordClaim L rewardPending donationAmount w).sessionStats.tempClaimWallet
      = w.sessionStats.tempClaimWallet ∧
    (FaucetSentry.recordClaim L rewardPending donationAmount w).sessionStats.totalClaims
      = w.sessionStats.totalClaims + 1 ∧
    (FaucetSentry.recordClaim L rewardPending donationAmount w).sessionStats.consecutiveSessions
      = w.sessionStats.consecutiveSessions := by
  unfold FaucetSentry.recordClaim
  dsimp only
  split <;> exact ⟨rfl, rfl, rfl, rfl⟩

/-- The teardown and the last statements of the `try` block, from a state `w2` that
differs from the state `wb` after the thirteen steps in the statistics only. -/
theorem completed_spec (B : Browser σ) (w0 wb w2 : World σ) (p : Progress w0 13 wb)
    (hpol : w2.policy = wb.policy) (hsync : Sync wb → Sync w2) :
    Ended w0 (claimStatuses ++ ["completed"]) (restartEligible w0)
      (FaucetSentry.sessionCompleted
        (FaucetSentry.cleanup B (FaucetSentry.deleteTemporaryClaimWallet w2))) ∧
    (FaucetSentry.sessionCompleted
      (FaucetSentry.cleanup B (FaucetSentry.deleteTemporaryClaimWallet w2))).sessionStats.status
      = "completed" ∧
    (FaucetSentry.sessionCompleted
      (FaucetSentry.cleanup B
        (FaucetSentry.deleteTemporaryClaimWallet w2))).sessionStats.totalClaims
      = w2.sessionStats.totalClaims ∧
    (FaucetSentry.sessionCompleted
      (FaucetSentry.cleanup B
        (FaucetSentry.deleteTemporaryClaimWallet w2))).sessionStats.totalRewards
      = w2.sessionStats.totalRewards ∧
    (FaucetSentry.sessionCompleted
      (FaucetSentry.cleanup B
        (FaucetSentry.deleteTemporaryClaimWallet w2))).sessionStats.consecutiveSessions
      = w2.sessionStats.consecutiveSessions + 1 := by
  have hpol3 : (FaucetSentry.cleanup B (FaucetSentry.deleteTemporaryClaimWallet w2)).policy
      = wb.policy := by
    rw [cleanup_policy, deleteTemporaryClaimWallet_policy, hpol]
  obtain ⟨q1, q2, q3, q4, q5, q6, q7, q8, q9⟩ := policy_fields hpol3
  obtain ⟨t1, t2, t3, t4, _, t6, t7, t8⟩ := teardown_spec B w2
  obtain ⟨s1, s2, s3, s4, s5, s6, s7, s8, s9, s10, s11, s12, s13⟩ :=
    sessionCompleted_spec (FaucetSentry.cleanup B (FaucetSentry.deleteTemporaryClaimWallet w2))
  have hr : restartEligible
      (FaucetSentry.cleanup B (FaucetSentry.deleteTemporaryClaimWallet w2))
      = restartEligible w0 := by
    unfold restartEligible
    rw [q5, q6, p.connectionType, p.autoRestartEnabled]
  refine ⟨⟨?_, ?_, s3.trans (q3.trans p.starts), s4.trans (q4.trans p.newnyms),
    s5.trans (q5.trans p.connectionType), s6.trans (q6.trans p.autoRestartEnabled),
    s7.trans (q7.trans p.wallets), s8.trans (q8.trans p.bankWalletName),
    s9.trans (q9.trans p.isPaused), s12.trans t1, ?_, s10.trans t3, s11.trans t4⟩,
    ?_, ?_, ?_, ?_⟩
  · rw [s1, q1, p.statuses, List.append_assoc]
    rfl
  · rw [s2, q2, p.restarts, hr]
  · intro hs
    rw [s13]
    exact t2 (hsync (p.sync hs))
  · rw [s13]
  · rw [s13]
    exact t6
  · rw [s13]
    exact t7
  · rw [s13]
    show _ + 1 = _ + 1
    rw [t8]

/-- The end of the `try` block after the thirteen steps. -/
theorem completeClaim_spec (E : Env σ) (B : Browser σ) (L : Lib) (H : Host σ)
    (rewardPending : List PendingBlock) (donationAmount : String) (w0 wb : World σ)
    (p : Progress w0 13 wb) :
    Ended w0 (claimStatuses ++ ["completed"]) (restartEligible w0)
      (FaucetSentry.completeClaim E B L H rewardPending donationAmount wb) ∧
    (FaucetSentry.completeClaim E B L H rewardPending donationAmount wb).sessionStats.status
      = "completed" ∧
    (FaucetSentry.completeClaim E B L H rewardPending donationAmount wb).sessionStats.totalClaims
      = w0.sessionStats.totalClaims + 1 ∧
    (FaucetSentry.completeClaim E B L H rewardPending
      donationAmount wb).sessionStats.consecutiveSessions
      = w0.sessionStats.consecutiveSessions + 1 := by
  obtain ⟨r1, r2, r3, r4⟩ := recordClaim_fields L rewardPending donationAmount wb
  have h := completed_spec B w0 wb
    { FaucetSentry.recordClaim L rewardPending donationAmount wb with
      sessionStats :=
        { (FaucetSentry.recordClaim L rewardPending donationAmount wb).sessionStats with
          nextClaimAvailable := some (H.toISOString
            (E.now (FaucetSentry.recordClaim L rewardPending donationAmount wb).node +
              (FaucetSentry.recordClaim L rewardPending donationAmount wb).claimInterval
                * 3600000)) } }
    p (recordClaim_policy L rewardPending donationAmount wb)
    (fun hs hc => (r2.trans (hs (r1.symm.trans hc) )))
  obtain ⟨h1, h2, h3, h4⟩ := h
  refine ⟨h1, h2, ?_, ?_⟩
  · exact h3.trans (r3.trans (congrArg (· + 1) p.totalClaims))
  · exact h4.2.trans (congrArg (· + 1) (r4.trans p.consecutiveSessions))

/-- How `runClaimProcess` ends: either all thirteen steps were done and the session is
`completed`, or a step threw, the session is `failed` and the error is propagated exactly
when no restart is scheduled. -/
theorem runClaimProcess_spec (E : Env σ) (P : Page σ) (B : Browser σ) (L : Lib) (K : Keygen σ)
    (H : Host σ) (fuel stack : Nat) (w : World σ) (out : Outcome σ Unit)
    (h : FaucetSentry.runClaimProcess E P B L K H fuel stack w = some out) :
    (out.1 = .ok () ∧
      Ended w (claimStatuses ++ ["completed"]) (restartEligible w) out.2 ∧
      out.2.sessionStats.status = "completed" ∧
      out.2.sessionStats.totalClaims = w.sessionStats.totalClaims + 1 ∧
      out.2.sessionStats.consecutiveSessions = w.sessionStats.consecutiveSessions + 1) ∨
    (∃ j e, 1 ≤ j ∧ j ≤ 13 ∧
      Ended w (claimStatuses.take j ++ ["failed"]) (restartEligible w) out.2 ∧
      out.1 = (if restartEligible w then .ok () else .error e) ∧
      out.2.sessionStats.status = "failed" ∧
      out.2.sessionStats.totalClaims = w.sessionStats.totalClaims ∧
      out.2.sessionStats.totalRewards = w.sessionStats.totalRewards ∧
      out.2.sessionStats.consecutiveSessions = w.sessionStats.consecutiveSessions) := by
  unfold FaucetSentry.runClaimProcess at h
  cases hs : FaucetSentry.claimSteps E P B L K H fuel stack w with
  | none => rw [hs] at h; cases h
  | some r =>
    rw [hs] at h
    have h := Option.some.inj h
    rcases claimSteps_progress E P B L K H fuel stack w r hs with
      ⟨j, e, hj1, hj2, p, he⟩ | ⟨rewardPending, donationAmount, wb, p, hr⟩
    · obtain ⟨r1, r2⟩ := r
      simp only at he
      subst he
      simp only at h
      subst h
      exact Or.inr ⟨j, e, hj1, hj2, claimFailed_spec B e w r2 j p⟩
    · subst hr
      simp only at h
      subst h
      exact Or.inl ⟨rfl, completeClaim_spec E B L H rewardPending donationAmount w wb p⟩

/-! ## Termination of the polling loops -/

theorem Later.refl_later (E : Env σ) (w : World σ) : Later E w w := Nat.le_refl _

theorem Later.trans_later {E : Env σ} {a b c : World σ} (h1 : Later E a b) (h2 : Later E b c) :
    Later E a c := Nat.le_trans h1 h2

theorem Later.of_eq_later {E : Env σ} {α : Type} {w : World σ} {r : α × World σ} {a : α}
    {w1 : World σ} (h : Later E w r.2) (e : r = (a, w1)) : Later E w w1 := by
  subst e
  exact h

theorem later_emit (E : Env σ) (e : Event) (w : World σ) : Later E w (emit e w) :=
  Nat.le_refl _

theorem later_log (E : Env σ) (level message : String) (w : World σ) :
    Later E w (FaucetSentry.log level message w) := Nat.le_refl _

theorem delay_advance {E : Env σ} {P : Page σ} (c : Clock E P) (ms : Nat) (w : World σ) :
    E.now w.node + ms ≤ E.now (FaucetSentry.delay E ms w).node := c.sleep ms w.node

theorem later_delay {E : Env σ} {P : Page σ} (c : Clock E P) (ms : Nat) (w : World σ) :
    Later E w (FaucetSentry.delay E ms w) :=
  Nat.le_trans (Nat.le_add_right _ _) (delay_advance c ms w)

theorem later_fetchAccountInfo {E : Env σ} {P : Page σ} (c : Clock E P) (url account : String)
    (w : World σ) : Later E w (fetchAccountInfo E url account w).2 :=
  c.accountInfo url account w.node

theorem later_fetchPending {E : Env σ} {P : Page σ} (c : Clock E P) (url account : String)
    (n : Nat) (w : World σ) : Later E w (fetchPending E url account n w).2 :=
  c.pending url account n w.node

theorem later_getPendingBlocksLoop {E : Env σ} {P : Page σ} (c : Clock E P) (L : Lib)
    (address : String) (urls : List String) :
    ∀ (lastError : Option String) (w : World σ),
      Later E w (FaucetSentry.getPendingBlocksLoop E L address urls lastError w).2 := by
  induction urls with
  | nil =>
    intro lastError w
    unfold FaucetSentry.getPendingBlocksLoop
    split
    · split
      · exact later_log E _ _ _
      · exact Later.refl_later E w
    · exact Later.refl_later E w
  | cons url rest ih =>
    intro lastError w
    have hf := later_fetchPending c url address 10 w
    unfold FaucetSentry.getPendingBlocksLoop
    split
    · next e w1 h => exact (hf.of_eq_later h).trans (ih _ _)
    · next r w1 h =>
      have h1 := hf.of_eq_later h
      split
      · exact h1.trans (ih _ _)
      · split
        · exact h1.trans (ih _ _)
        · dsimp only
          split
          · exact h1
          · exact h1.trans (ih _ _)

theorem later_getPendingBlocks {E : Env σ} {P : Page σ} (c : Clock E P) (L : Lib)
    (address : String) (w : World σ) :
    Later E w (FaucetSentry.getPendingBlocks E L address w).2 :=
  later_getPendingBlocksLoop c L address _ _ w

theorem later_getPendingFromAccountInfoLoop {E : Env σ} {P : Page σ} (c : Clock E P) (L : Lib)
    (address : String) (urls : List String) :
    ∀ w : World σ,
      Later E w (FaucetSentry.getPendingFromAccountInfoLoop E L address urls w).2 := by
  induction urls with
  | nil => intro w; exact Later.refl_later E w
  | cons url rest ih =>
    intro w
    have hf := later_fetchAccountInfo c url address w
    unfold FaucetSentry.getPendingFromAccountInfoLoop
    split
    · next e w1 h => exact (hf.of_eq_later h).trans (ih _)
    · next r w1 h =>
      have h1 := hf.of_eq_later h
      split
      · exact h1.trans (ih _)
      · split
        · split
          · exact h1
          · exact h1.trans (ih _)
        · exact h1.trans (ih _)

theorem later_getPendingFromAccountInfo {E : Env σ} {P : Page σ} (c : Clock E P) (L : Lib)
    (address : String) (w : World σ) :
    Later E w (FaucetSentry.getPendingFromAccountInfo E L address w).2 :=
  later_getPendingFromAccountInfoLoop c L address _ w

theorem later_takeScreenshot {E : Env σ} {P : Page σ} (c : Clock E P) (label : String)
    (w : World σ) : Later E w (FaucetSentry.takeScreenshot P label w) := by
  have h := c.screenshot w.node
  unfold FaucetSentry.takeScreenshot
  split
  · next x s hs => rw [hs] at h; exact h
  · next x s hs => rw [hs] at h; exact h

theorem later_backupCheck {E : Env σ} {P : Page σ} (c : Clock E P) (L : Lib)
    (address : String) (count : Nat) (w : World σ) :
    Later E w (FaucetSentry.backupCheck E L address count w).2 := by
  unfold FaucetSentry.backupCheck
  dsimp only
  split
  · have h1 := later_getPendingFromAccountInfo c L address w
    split
    · have hg := later_getPendingBlocks c L address
        (FaucetSentry.delay E 3000 (FaucetSentry.log "info"
          ("Account shows " ++ (FaucetSentry.getPendingFromAccountInfo E L address w).1 ++
            " NANO pending, retrying block fetch...")
          (FaucetSentry.getPendingFromAccountInfo E L address w).2))
      have h2 := h1.trans ((later_log E "info"
          ("Account shows " ++ (FaucetSentry.getPendingFromAccountInfo E L address w).1 ++
            " NANO pending, retrying block fetch...") _).trans (later_delay c 3000 _))
      split
      · next e w4 h4 => exact h2.trans (hg.of_eq_later h4)
      · next retry w4 h4 =>
        split
        · exact h2.trans (hg.of_eq_later h4)
        · exact h2.trans ((hg.of_eq_later h4).trans (later_log E _ _ _))
    · exact h1
  · exact Later.refl_later E w

theorem waitTick_advance {E : Env σ} {P : Page σ} (c : Clock E P)
    (startTime checkInterval : Nat) (w : World σ) :
    E.now w.node + checkInterval
      ≤ E.now (FaucetSentry.waitTick E startTime checkInterval w).node :=
  delay_advance c checkInterval _

theorem extractTick_advance {E : Env σ} {P : Page σ} (c : Clock E P) (startWait : Nat)
    (w : World σ) :
    E.now w.node + 2000 ≤ E.now (FaucetSentry.extractTick E P startWait w).node := by
  unfold FaucetSentry.extractTick
  dsimp only
  refine Nat.le_trans ?_ (delay_advance c 2000 _)
  exact Nat.add_le_add_right
    ((later_log E _ _ w).trans (later_takeScreenshot c _ _)) 2000

/-- With a clock that advances, the wait loop ends within the number of sleeps that fit
into what is left of the timeout, plus one. -/
theorem waitLoop_total {E : Env σ} {P : Page σ} (c : Clock E P) (L : Lib) (address : String)
    (timeout checkInterval startTime : Nat) (fuel : Nat) :
    ∀ (count : Nat) (w : World σ),
      startTime + timeout ≤ E.now w.node + fuel * checkInterval →
      ∃ r, FaucetSentry.waitLoop E L address timeout checkInterval startTime (fuel + 1)
        count w = some r := by
  induction fuel with
  | zero =>
    intro count w hle
    unfold FaucetSentry.waitLoop
    rw [if_pos (by omega)]
    exact ⟨_, rfl⟩
  | succ fuel ih =>
    intro count w hle
    unfold FaucetSentry.waitLoop
    split
    · exact ⟨_, rfl⟩
    · split
      · exact ⟨_, rfl⟩
      · have hp := later_getPendingBlocks c L address w
        split
        · exact ⟨_, rfl⟩
        · next pending w1 h1 =>
          have q1 := hp.of_eq_later h1
          split
          · exact ⟨_, rfl⟩
          · have hb := later_backupCheck c L address count w1
            split
            · exact ⟨_, rfl⟩
            · exact ⟨_, rfl⟩
            · next n w2 h2 =>
              have q2 : Later E w w2 := q1.trans (hb.of_eq_later h2)
              have q3 := waitTick_advance c startTime checkInterval w2
              apply ih
              unfold Later at q2
              have : (fuel + 1) * checkInterval = fuel * checkInterval + checkInterval := by
                ring
              omega

theorem waitForPending_total {E : Env σ} {P : Page σ} (c : Clock E P) (L : Lib)
    (address : String) (timeout checkInterval : Nat) (fuel : Nat)
    (hfuel : timeout ≤ fuel * checkInterval) (w : World σ) :
    ∃ r, FaucetSentry.waitForPending E L (fuel + 1) address timeout checkInterval w
      = some r := by
  unfold FaucetSentry.waitForPending
  exact waitLoop_total c L address timeout checkInterval _ fuel 0 w (by omega)

/-- With a clock that advances, the polling loop of `extracting_donation` ends within
the number of sleeps that fit into what is left of the minute, plus one. -/
theorem extractLoop_total {E : Env σ} {P : Page σ} (c : Clock E P) (L : Lib)
    (startWait : Nat) (fuel : Nat) :
    ∀ w : World σ, startWait + 60000 ≤ E.now w.node + fuel * 2000 →
      ∃ r, FaucetSentry.extractLoop E P L startWait (fuel + 1) w = some r := by
  induction fuel with
  | zero =>
    intro w hle
    unfold FaucetSentry.extractLoop
    rw [if_pos (by omega)]
    exact ⟨_, rfl⟩
  | succ fuel ih =>
    intro w hle
    have a1 := c.waitForSelector "body" 5000 w.node
    have a2 := c.content (P.waitForSelector "body" 5000 w.node).2
    unfold FaucetSentry.extractLoop
    split
    · exact ⟨_, rfl⟩
    · dsimp only
      split
      · next message s2 h2 =>
        rw [h2] at a2
        dsimp only at a2
        apply ih
        have q := extractTick_advance c startWait
          (FaucetSentry.log "warning" ("Page check error: " ++ message.take 50)
            { w with node := s2 })
        have q0 : E.now s2 = E.now (FaucetSentry.log "warning"
            ("Page check error: " ++ message.take 50) { w with node := s2 }).node := rfl
        omega
      · next pageContent s2 h2 =>
        rw [h2] at a2
        dsimp only at a2
        have a3 := c.innerText s2
        split
        · next message s3 h3 =>
          rw [h3] at a3
          dsimp only at a3
          apply ih
          have q := extractTick_advance c startWait
            (FaucetSentry.log "warning" ("Page check error: " ++ message.take 50)
              { w with node := s3 })
          have q0 : E.now s3 = E.now (FaucetSentry.log "warning"
              ("Page check error: " ++ message.take 50) { w with node := s3 }).node := rfl
          omega
        · next innerText s3 h3 =>
          rw [h3] at a3
          dsimp only at a3
          split
          · exact ⟨_, rfl⟩
          · split
            · exact ⟨_, rfl⟩
            · apply ih
              have q := extractTick_advance c startWait { w with node := s3 }
              have q0 : E.now s3 = E.now ({ w with node := s3 } : World σ).node := rfl
              omega

theorem andThen_total {α β : Type} (r : Outcome σ α)
    (next : α → World σ → Option (Outcome σ β))
    (h : ∀ a w, ∃ out, next a w = some out) : ∃ out, r.andThen next = some out := by
  obtain ⟨x, w⟩ := r
  cases x with
  | error e => exact ⟨_, rfl⟩
  | ok a => exact h a w

theorem andThenBounded_total {α β : Type} (r : Option (Outcome σ α))
    (next : α → World σ → Option (Outcome σ β)) (hr : ∃ x, r = some x)
    (h : ∀ a w, ∃ out, next a w = some out) : ∃ out, andThenBounded r next = some out := by
  obtain ⟨x, rfl⟩ := hr
  exact andThen_total x next h

theorem extractingDonation_total {E : Env σ} {P : Page σ} (c : Clock E P) (L : Lib)
    (fuel : Nat) (hfuel : 31 ≤ fuel) (w : World σ) :
    ∃ r, FaucetSentry.extractingDonation E P L fuel w = some r := by
  obtain ⟨f, rfl⟩ : ∃ f, fuel = f + 1 := ⟨fuel - 1, by omega⟩
  unfold FaucetSentry.extractingDonation FaucetSentry.extractDonation
  dsimp only
  obtain ⟨r, hr⟩ := extractLoop_total c L
    (E.now (FaucetSentry.log "action" "Waiting for donation amount to load..."
      (FaucetSentry.emitStatus (FaucetSentry.setStatus "extracting_donation" w))).node) f
    (FaucetSentry.log "action" "Waiting for donation amount to load..."
      (FaucetSentry.emitStatus (FaucetSentry.setStatus "extracting_donation" w))) (by omega)
  rw [hr]
  exact ⟨_, rfl⟩

theorem waitingReward_total {E : Env σ} {P : Page σ} (c : Clock E P) (L : Lib)
    (fuel : Nat) (hfuel : 1801 ≤ fuel) (claimWallet : WalletData) (w : World σ) :
    ∃ r, FaucetSentry.waitingReward E L fuel claimWallet w = some r := by
  obtain ⟨f, rfl⟩ : ∃ f, fuel = f + 1 := ⟨fuel - 1, by omega⟩
  unfold FaucetSentry.waitingReward
  dsimp only
  exact waitForPending_total c L _ 1800000 1000 f (by omega) _

/-- With a clock that advances and 1801 iterations allowed to each polling loop, the `try`
block of `runClaimProcess` comes to an end. -/
theorem claimSteps_total {E : Env σ} {P : Page σ} (c : Clock E P) (B : Browser σ) (L : Lib)
    (K : Keygen σ) (H : Host σ) (fuel stack : Nat) (hfuel : 1801 ≤ fuel) (w : World σ) :
    ∃ out, FaucetSentry.claimSteps E P B L K H fuel stack w = some out := by
  unfold FaucetSentry.claimSteps
  refine andThen_total _ _ fun claimWallet w => ?_
  refine andThen_total _ _ fun _ w => ?_
  refine andThen_total _ _ fun _ w => ?_
  refine andThen_total _ _ fun _ w => ?_
  refine andThen_total _ _ fun _ w => ?_
  refine andThenBounded_total _ _ (extractingDonation_total c L fuel (by omega) w)
    fun donationAmount w => ?_
  refine andThen_total _ _ fun bankWalletData w => ?_
  refine andThen_total _ _ fun _ w => ?_
  refine andThen_total _ _ fun _ w => ?_
  refine andThenBounded_total _ _ (waitingReward_total c L fuel hfuel claimWallet w)
    fun rewardPending w => ?_
  refine andThen_total _ _ fun _ w => ?_
  refine andThen_total _ _ fun _ w => ?_
  exact ⟨_, rfl⟩

/-- With a clock that advances and 1801 iterations allowed to each polling loop,
`runClaimProcess` comes to an end. -/
theorem runClaimProcess_total {E : Env σ} {P : Page σ} (c : Clock E P) (B : Browser σ)
    (L : Lib) (K : Keygen σ) (H : Host σ) (fuel stack : Nat) (hfuel : 1801 ≤ fuel)
    (w : World σ) :
    ∃ out, FaucetSentry.runClaimProcess E P B L K H fuel stack w = some out := by
  obtain ⟨r, hr⟩ := claimSteps_total c B L K H fuel stack hfuel w
  unfold FaucetSentry.runClaimProcess
  rw [hr]
  exact ⟨_, rfl⟩

/-- The scripted remote side keeps time: timers advance its clock exactly and no request
changes it. -/
theorem script_clock (html text : String) : Clock Script.env (staticPage html text) where
  sleep _ _ := Nat.le_refl _
  accountInfo _ _ _ := Nat.le_refl _
  pending _ _ _ _ := Nat.le_refl _
  waitForSelector _ _ _ := Nat.le_refl _
  content _ := Nat.le_refl _
  innerText _ := Nat.le_refl _
  screenshot _ := Nat.le_refl _

/-- The handler for a failure that `runClaimProcess` propagates. -/
theorem sessionFailed_spec (B : Browser σ) (message : String) (w : World σ) :
    statuses (FaucetSentry.sessionFailed B message w).trace = statuses w.trace ++ ["failed"] ∧
    restartCalls (FaucetSentry.sessionFailed B message w).trace
      = restartCalls w.trace ++ (if restartEligible w then [500] else []) ∧
    processStarts (FaucetSentry.sessionFailed B message w).trace = processStarts w.trace ∧
    newnymRequests (FaucetSentry.sessionFailed B message w).trace = newnymRequests w.trace ∧
    (FaucetSentry.sessionFailed B message w).sessionStats.totalClaims
      = w.sessionStats.totalClaims ∧
    (FaucetSentry.sessionFailed B message w).sessionStats.totalRewards
      = w.sessionStats.totalRewards ∧
    (FaucetSentry.sessionFailed B message w).sessionStats.consecutiveSessions
      = w.sessionStats.consecutiveSessions := by
  have hpol : (FaucetSentry.cleanup B (FaucetSentry.setStatus "failed"
      (FaucetSentry.log "error" ("Claim session failed: " ++ message) w))).policy
      = (FaucetSentry.setStatus "failed"
        (FaucetSentry.log "error" ("Claim session failed: " ++ message) w)).policy :=
    cleanup_policy B _
  obtain ⟨q1, q2, q3, q4, q5, q6, -, -, -⟩ := policy_fields hpol
  have hst : (FaucetSentry.cleanup B (FaucetSentry.setStatus "failed"
      (FaucetSentry.log "error" ("Claim session failed: " ++ message) w))).sessionStats
      = (FaucetSentry.setStatus "failed"
        (FaucetSentry.log "error" ("Claim session failed: " ++ message) w)).sessionStats := by
    unfold FaucetSentry.cleanup
    dsimp only
    split <;> rfl
  have hcond : ((FaucetSentry.cleanup B (FaucetSentry.setStatus "failed"
      (FaucetSentry.log "error" ("Claim session failed: " ++ message) w))).connectionType
        != "direct" &&
      (FaucetSentry.cleanup B (FaucetSentry.setStatus "failed"
        (FaucetSentry.log "error" ("Claim session failed: " ++ message) w))).autoRestartEnabled)
      = restartEligible w := by
    rw [q5, q6]
    rfl
  have h1 : statuses (FaucetSentry.setStatus "failed"
      (FaucetSentry.log "error" ("Claim session failed: " ++ message) w)).trace
      = statuses w.trace ++ ["failed"] := by
    simp only [FaucetSentry.setStatus, FaucetSentry.log, emit, statuses_append, statuses,
      List.append_nil, List.append_assoc]
  have h2 : restartCalls (FaucetSentry.setStatus "failed"
      (FaucetSentry.log "error" ("Claim session failed: " ++ message) w)).trace
      = restartCalls w.trace := by
    simp only [FaucetSentry.setStatus, FaucetSentry.log, emit, restartCalls_append,
      restartCalls, List.append_nil]
  have h3 : processStarts (FaucetSentry.setStatus "failed"
      (FaucetSentry.log "error" ("Claim session failed: " ++ message) w)).trace
      = processStarts w.trace := by
    simp only [FaucetSentry.setStatus, FaucetSentry.log, emit, processStarts_append,
      processStarts, Nat.add_zero]
  have h4 : newnymRequests (FaucetSentry.setStatus "failed"
      (FaucetSentry.log "error" ("Claim session failed: " ++ message) w)).trace
      = newnymRequests w.trace := by
    simp only [FaucetSentry.setStatus, FaucetSentry.log, emit, newnymRequests_append,
      newnymRequests, List.append_nil]
  have c1 : (FaucetSentry.cleanup B (FaucetSentry.setStatus "failed"
      (FaucetSentry.log "error" ("Claim session failed: " ++ message) w))).sessionStats.totalClaims
      = w.sessionStats.totalClaims := by rw [hst]; rfl
  have c2 : (FaucetSentry.cleanup B (FaucetSentry.setStatus "failed"
      (FaucetSentry.log "error" ("Claim session failed: " ++ message) w))).sessionStats.totalRewards
      = w.sessionStats.totalRewards := by rw [hst]; rfl
  have c3 : (FaucetSentry.cleanup B (FaucetSentry.setStatus "failed"
      (FaucetSentry.log "error"
        ("Claim session failed: " ++ message) w))).sessionStats.consecutiveSessions
      = w.sessionStats.consecutiveSessions := by rw [hst]; rfl
  unfold FaucetSentry.sessionFailed
  dsimp only
  rw [hcond]
  by_cases hr : restartEligible w = true
  · rw [if_pos hr, if_pos hr]
    refine ⟨?_, ?_, ?_, ?_, c1, c2, c3⟩
    · rw [trace_emit, trace_log, statuses_append, statuses_append, q1, h1]
      simp only [statuses, List.append_nil]
    · rw [trace_emit, trace_log, restartCalls_append, restartCalls_append, q2, h2]
      simp only [restartCalls, List.append_nil]
    · rw [trace_emit, trace_log, processStarts_append, processStarts_append, q3, h3]
      simp only [processStarts, Nat.add_zero]
    · rw [trace_emit, trace_log, newnymRequests_append, newnymRequests_append, q4, h4]
      simp only [newnymRequests, List.append_nil]
  · rw [if_neg hr, if_neg hr, List.append_nil]
    exact ⟨q1.trans h1, q2.trans h2, q3.trans h3, q4.trans h4, c1, c2, c3⟩

/-- A run of `runClaimProcess` with a clock that advances: the `try` block comes to an
end, and the process ends as `claimFailed` or `completeClaim` leave it. -/
theorem runClaimProcess_run {E : Env σ} {P : Page σ} (c : Clock E P) (B : Browser σ) (L : Lib)
    (K : Keygen σ) (H : Host σ) (fuel stack : Nat) (hfuel : 1801 ≤ fuel) (w : World σ) :
    ∃ r out, FaucetSentry.claimSteps E P B L K H fuel stack w = some r ∧
      FaucetSentry.runClaimProcess E P B L K H fuel stack w = some out ∧
      ((r.1 = .ok () ∧ out = r ∧
          Ended w (claimStatuses ++ ["completed"]) (restartEligible w) out.2 ∧
          out.2.sessionStats.status = "completed" ∧
          out.2.sessionStats.totalClaims = w.sessionStats.totalClaims + 1 ∧
          out.2.sessionStats.consecutiveSessions = w.sessionStats.consecutiveSessions + 1) ∨
        (∃ j e, 1 ≤ j ∧ j ≤ 13 ∧ r.1 = .error e ∧ Progress w j r.2 ∧
          out = FaucetSentry.claimFailed B e r.2 ∧
          Ended w (claimStatuses.take j ++ ["failed"]) (restartEligible w) out.2 ∧
          out.1 = (if restartEligible w then .ok () else .error e) ∧
          out.2.sessionStats.status = "failed" ∧
          out.2.sessionStats.totalClaims = w.sessionStats.totalClaims ∧
          out.2.sessionStats.totalRewards = w.sessionStats.totalRewards ∧
          out.2.sessionStats.consecutiveSessions = w.sessionStats.consecutiveSessions)) := by
  obtain ⟨r, hr⟩ := claimSteps_total c B L K H fuel stack hfuel w
  rcases claimSteps_progress E P B L K H fuel stack w r hr with
    ⟨j, e, hj1, hj2, p, he⟩ | ⟨rewardPending, donationAmount, wb, p, hout⟩
  · obtain ⟨r1, r2⟩ := r
    dsimp only at he p
    subst he
    refine ⟨_, FaucetSentry.claimFailed B e r2, hr, ?_, Or.inr ⟨j, e, hj1, hj2, rfl, p, rfl,
      claimFailed_spec B e w r2 j p⟩⟩
    unfold FaucetSentry.runClaimProcess
    rw [hr]
    rfl
  · subst hout
    refine ⟨_, _, hr, ?_, Or.inl ⟨rfl, rfl,
      completeClaim_spec E B L H rewardPending donationAmount w wb p⟩⟩
    unfold FaucetSentry.runClaimProcess
    rw [hr]
    rfl

theorem restartEligible_direct (w : World σ) (h : w.connectionType = "direct") :
    restartEligible w = false := by
  unfold restartEligible
  rw [h]
  rfl

theorem restartEligible_on (w : World σ) (h : w.connectionType ≠ "direct")
    (ha : w.autoRestartEnabled = true) : restartEligible w = true := by
  unfold restartEligible
  rw [ha]
  simpa using h

/-! ## The restart policy -/

/-- C11: in direct connection mode, whatever `autoRestartEnabled` is, a run of
`runClaimProcess` comes to an end, calls `scheduleAutoRestart` neither on success nor on a
failure, returns the failure of its `try` block to the caller as it is, and the handler of
`startClaimSession` for that failure calls `scheduleAutoRestart` neither and starts no
claim process. -/
theorem direct_mode_never_restarts {E : Env σ} {P : Page σ} (c : Clock E P) (B : Browser σ)
    (L : Lib) (K : Keygen σ) (H : Host σ) (fuel stack : Nat) (hfuel : 1801 ≤ fuel)
    (w : World σ) (hdirect : w.connectionType = "direct") :
    ∃ r out done,
      FaucetSentry.claimSteps E P B L K H fuel stack w = some r ∧
      FaucetSentry.runClaimProcess E P B L K H fuel stack w = some out ∧
      FaucetSentry.claimProcessTask E P B L K H fuel stack w = some done ∧
      out.1 = r.1 ∧
      restartCalls out.2.trace = restartCalls w.trace ∧
      restartCalls done.trace = restartCalls w.trace ∧
      processStarts done.trace = processStarts w.trace := by
  have hre := restartEligible_direct w hdirect
  obtain ⟨r, out, hr, hout, hcase⟩ := runClaimProcess_run c B L K H fuel stack hfuel w
  have hrestarts : restartCalls out.2.trace = restartCalls w.trace ∧
      processStarts out.2.trace = processStarts w.trace ∧
      out.2.connectionType = w.connectionType ∧ out.1 = r.1 := by
    rcases hcase with ⟨h1, h2, hend, -⟩ | ⟨j, e, -, -, h1, -, -, hend, h3, -⟩
    · refine ⟨?_, hend.starts, hend.connectionType, by rw [h2]⟩
      have := hend.restarts
      rw [hre] at this
      simpa using this
    · refine ⟨?_, hend.starts, hend.connectionType, ?_⟩
      · have := hend.restarts
        rw [hre] at this
        simpa using this
      · rw [h3, h1, hre]
        rfl
  obtain ⟨k1, k2, k3, k4⟩ := hrestarts
  obtain ⟨o1, o2⟩ := out
  dsimp only at k1 k2 k3 k4
  cases o1 with
  | ok u =>
    refine ⟨r, _, o2, hr, hout, ?_, k4, k1, k1, k2⟩
    unfold FaucetSentry.claimProcessTask
    rw [hout]
    rfl
  | error message =>
    obtain ⟨s1, s2, s3, -⟩ := sessionFailed_spec B message o2
    refine ⟨r, _, FaucetSentry.sessionFailed B message o2, hr, hout, ?_, k4, k1, ?_, s3.trans k2⟩
    · unfold FaucetSentry.claimProcessTask
      rw [hout]
      rfl
    · rw [s2, restartEligible_direct o2 (k3.trans hdirect), k1]
      simp

/-- C11 on a closed instance: a direct-mode session over the scripted remote side. -/
theorem direct_mode_never_restarts_witness :
    ∃ r out done,
      FaucetSentry.claimSteps Script.env blankPage demoBrowser tallyLib demoKeygen demoHost
        1801 100 demoDirectWorld = some r ∧
      FaucetSentry.runClaimProcess Script.env blankPage demoBrowser tallyLib demoKeygen demoHost
        1801 100 demoDirectWorld = some out ∧
      FaucetSentry.claimProcessTask Script.env blankPage demoBrowser tallyLib demoKeygen
        demoHost 1801 100 demoDirectWorld = some done ∧
      out.1 = r.1 ∧
      restartCalls out.2.trace = restartCalls demoDirectWorld.trace ∧
      restartCalls done.trace = restartCalls demoDirectWorld.trace ∧
      processStarts done.trace = processStarts demoDirectWorld.trace :=
  direct_mode_never_restarts (script_clock "" "") demoBrowser tallyLib demoKeygen demoHost
    1801 100 (by decide) demoDirectWorld rfl

/-! ## The status of a session -/

/-- What `startClaimSession` does: it refuses and changes nothing but the node and the
log, or it marks the session running, assigns the status `starting` and starts the claim
process. -/
theorem startClaimSession_spec (E : Env σ) (L : Lib) (w : World σ) :
    ((FaucetSentry.startClaimSession E L w).1.success = false ∧
      Quiet w (FaucetSentry.startClaimSession E L w).2) ∨
    ((FaucetSentry.startClaimSession E L w).1.success = true ∧ w.isRunning = false ∧
      ∃ w1, Quiet w w1 ∧ (FaucetSentry.startClaimSession E L w).2
        = emit .claimProcess (FaucetSentry.emitStatus (FaucetSentry.setStatus "starting"
            { w1 with isRunning := true, isPaused := false }))) := by
  unfold FaucetSentry.startClaimSession
  split
  · exact Or.inl ⟨rfl, Quiet.refl w⟩
  · next hrun =>
    split
    · exact Or.inl ⟨rfl, Quiet.refl w⟩
    · have hq := quiet_getBankWalletBalance E L w
      split
      next result w1 heq =>
      have hq1 := hq.of_eq heq
      split
      · exact Or.inl ⟨rfl, hq1⟩
      · split
        · exact Or.inl ⟨rfl, hq1⟩
        · exact Or.inr ⟨rfl, by simpa using hrun, w1, hq1, rfl⟩

/-- A successful `startClaimSession` assigns the status `starting`, once, and starts one
claim process. -/
theorem startClaimSession_started (E : Env σ) (L : Lib) (w : World σ)
    (h : (FaucetSentry.startClaimSession E L w).1.success = true) :
    statuses (FaucetSentry.startClaimSession E L w).2.trace = statuses w.trace ++ ["starting"] ∧
    restartCalls (FaucetSentry.startClaimSession E L w).2.trace = restartCalls w.trace ∧
    processStarts (FaucetSentry.startClaimSession E L w).2.trace = processStarts w.trace + 1 ∧
    newnymRequests (FaucetSentry.startClaimSession E L w).2.trace = newnymRequests w.trace ∧
    (FaucetSentry.startClaimSession E L w).2.sessionStats.status = "starting" ∧
    (FaucetSentry.startClaimSession E L w).2.sessionStats.totalClaims
      = w.sessionStats.totalClaims ∧
    (FaucetSentry.startClaimSession E L w).2.sessionStats.totalRewards
      = w.sessionStats.totalRewards ∧
    (FaucetSentry.startClaimSession E L w).2.sessionStats.consecutiveSessions
      = w.sessionStats.consecutiveSessions ∧
    (FaucetSentry.startClaimSession E L w).2.isRunning = true ∧
    (FaucetSentry.startClaimSession E L w).2.connectionType = w.connectionType ∧
    (FaucetSentry.startClaimSession E L w).2.autoRestartEnabled = w.autoRestartEnabled ∧
    (FaucetSentry.startClaimSession E L w).2.wallets = w.wallets ∧
    w.isRunning = false := by
  rcases startClaimSession_spec E L w with ⟨hf, -⟩ | ⟨-, hrun, w1, hq, heq⟩
  · rw [h] at hf
    cases hf
  · have hc := hq.calm
    rw [heq]
    refine ⟨?_, ?_, ?_, ?_, rfl, hc.totalClaims, hc.totalRewards, hc.consecutiveSessions, rfl,
      hc.connectionType, hc.autoRestartEnabled, hc.wallets, hrun⟩
    · simp only [FaucetSentry.emitStatus, FaucetSentry.setStatus, emit, statuses_append,
        Secret.statuses, List.append_nil, hc.statuses]
    · simp only [FaucetSentry.emitStatus, FaucetSentry.setStatus, emit, restartCalls_append,
        restartCalls, List.append_nil, hc.restarts]
    · simp only [FaucetSentry.emitStatus, FaucetSentry.setStatus, emit, processStarts_append,
        processStarts, Nat.add_zero, hc.starts]
    · simp only [FaucetSentry.emitStatus, FaucetSentry.setStatus, emit, newnymRequests_append,
        newnymRequests, List.append_nil, hc.newnyms]

/-- A refused `startClaimSession` assigns no status and starts nothing. -/
theorem startClaimSession_refused (E : Env σ) (L : Lib) (w : World σ)
    (h : (FaucetSentry.startClaimSession E L w).1.success = false) :
    Calm w (FaucetSentry.startClaimSession E L w).2 := by
  rcases startClaimSession_spec E L w with ⟨-, hq⟩ | ⟨hs, -⟩
  · exact hq.calm
  · rw [h] at hs
    cases hs

/-! ## C12: the automatic restart -/

theorem Renewed.refl_renewed (w : World σ) : Renewed w w :=
  ⟨w.node, [], w.usedTorIPs, by simp, by simp⟩

theorem Renewed.trans_renewed {a b c : World σ} (h1 : Renewed a b) (h2 : Renewed b c) :
    Renewed a c := by
  obtain ⟨s1, e1, i1, rfl, q1⟩ := h1
  obtain ⟨s2, e2, i2, rfl, q2⟩ := h2
  refine ⟨s2, e1 ++ e2, i2, by simp, ?_⟩
  intro e he
  rcases List.mem_append.mp he with h | h
  · exact q1 e h
  · exact q2 e h

theorem Renewed.of_eq_renewed {α : Type} {w w1 : World σ} {p : α × World σ} {a : α}
    (hq : Renewed w p.2) (h : p = (a, w1)) : Renewed w w1 := by
  subst h; exact hq

theorem renewed_emit (e : Event) (w : World σ) (h : e.isRenewal = true) :
    Renewed w (emit e w) :=
  ⟨w.node, [e], w.usedTorIPs, rfl, by simpa using h⟩

theorem renewed_node (s : σ) (w : World σ) : Renewed w { w with node := s } :=
  ⟨s, [], w.usedTorIPs, by simp, by simp⟩

theorem renewed_history (ips : List String) (w : World σ) :
    Renewed w { w with usedTorIPs := ips } :=
  ⟨w.node, [], ips, by simp, by simp⟩

theorem renewed_log (level message : String) (w : World σ) :
    Renewed w (FaucetSentry.log level message w) := renewed_emit _ _ rfl

theorem renewed_delay (E : Env σ) (ms : Nat) (w : World σ) :
    Renewed w (FaucetSentry.delay E ms w) :=
  (renewed_node _ w).trans_renewed (renewed_emit _ _ rfl)

theorem renewed_requestNewTorIdentity (H : Host σ) (w : World σ) :
    Renewed w (FaucetSentry.requestNewTorIdentity H w) := by
  unfold FaucetSentry.requestNewTorIdentity
  dsimp only
  have h : Renewed w (emit (.newnym (FaucetSentry.log "info" "Requesting new Tor identity..."
      w).torControlPort)
      { FaucetSentry.log "info" "Requesting new Tor identity..." w with
        node := (H.torControl (FaucetSentry.log "info" "Requesting new Tor identity..."
          w).torControlPort (FaucetSentry.log "info" "Requesting new Tor identity..."
          w).node).2 }) :=
    (renewed_log _ _ w).trans_renewed ((renewed_node _ _).trans_renewed (renewed_emit _ _ rfl))
  split <;> exact h.trans_renewed (renewed_log _ _ _)

theorem renewed_identityProbe (E : Env σ) (H : Host σ) (w : World σ) :
    Renewed w (FaucetSentry.identityProbe E H w).2 :=
  (renewed_requestNewTorIdentity H w).trans_renewed
    ((renewed_delay E 2000 _).trans_renewed
      ((renewed_node _ _).trans_renewed (renewed_emit _ _ rfl)))

theorem renewed_rememberTorIP (ip : String) (w : World σ) :
    Renewed w (FaucetSentry.rememberTorIP ip w) := by
  unfold FaucetSentry.rememberTorIP
  dsimp only
  split
  · exact renewed_history _ w
  · exact renewed_history _ w

theorem renewed_identityLoop (E : Env σ) (H : Host σ) (left : Nat) :
    ∀ (attempts : Nat) (w : World σ),
      Renewed w (FaucetSentry.identityLoop E H left attempts w).2 := by
  induction left with
  | zero =>
    intro attempts w
    exact (renewed_log _ _ w).trans_renewed (renewed_history [] _)
  | succ left ih =>
    intro attempts w
    have hp := renewed_identityProbe E H w
    unfold FaucetSentry.identityLoop
    dsimp only
    split
    · next e w3 h =>
      exact (hp.of_eq_renewed h).trans_renewed (renewed_log _ _ _)
    · next currentIP w3 h =>
      have hp3 := hp.of_eq_renewed h
      split
      · split
        · exact hp3.trans_renewed ((renewed_rememberTorIP _ _).trans_renewed
            (renewed_log _ _ _))
        · exact hp3.trans_renewed ((renewed_log _ _ _).trans_renewed (ih _ _))
      · exact hp3.trans_renewed (renewed_log _ _ _)

theorem renewal_events (evs : List Event) (h : ∀ e ∈ evs, e.isRenewal = true) :
    statuses evs = [] ∧ restartCalls evs = [] ∧ processStarts evs = 0 := by
  induction evs with
  | nil => exact ⟨rfl, rfl, rfl⟩
  | cons e rest ih =>
    obtain ⟨h1, h2, h3⟩ := ih (fun x hx => h x (List.mem_cons_of_mem _ hx))
    have he := h e (List.mem_cons_self _ _)
    cases e <;> first | exact ⟨h1, h2, h3⟩ | cases he

/-- What an identity renewal leaves as it was. -/
theorem Renewed.frame {w w' : World σ} (h : Renewed w w') :
    (∃ evs, w'.trace = w.trace ++ evs) ∧
    statuses w'.trace = statuses w.trace ∧
    restartCalls w'.trace = restartCalls w.trace ∧
    processStarts w'.trace = processStarts w.trace ∧
    w'.isRunning = w.isRunning ∧ w'.isPaused = w.isPaused ∧
    w'.autoRestartEnabled = w.autoRestartEnabled ∧
    w'.connectionType = w.connectionType ∧
    w'.bankWalletName = w.bankWalletName ∧ w'.wallets = w.wallets ∧
    w'.sessionStats = w.sessionStats := by
  obtain ⟨s, evs, ips, rfl, q⟩ := h
  obtain ⟨h1, h2, h3⟩ := renewal_events evs q
  refine ⟨⟨evs, rfl⟩, ?_, ?_, ?_, rfl, rfl, rfl, rfl, rfl, rfl, rfl⟩
  · simp [statuses_append, h1]
  · simp [restartCalls_append, h2]
  · simp [processStarts_append, h3]

/-- When the session is not running, `startClaimSession` succeeds exactly when a bank
wallet is configured, its balance can be read and is not below the minimum. -/
theorem startClaimSession_accepts (E : Env σ) (L : Lib) (w : World σ)
    (hrun : w.isRunning = false) :
    (FaucetSentry.startClaimSession E L w).1.success = true ↔
      (truthyOpt w.bankWalletName = true ∧
        (FaucetSentry.getBankWalletBalance E L w).1.success = true ∧
        (L.parseFloat ((FaucetSentry.getBankWalletBalance E L w).1.balance.getD
          "undefined")).lt MIN_BANK_BALANCE = false) := by
  unfold FaucetSentry.startClaimSession
  rw [hrun]
  simp only [Bool.false_eq_true, if_false]
  by_cases hb : truthyOpt w.bankWalletName = true
  · simp only [hb, Bool.not_true, Bool.false_eq_true, if_false, true_and]
    rcases hbal : FaucetSentry.getBankWalletBalance E L w with ⟨bankBalance, w1⟩
    dsimp only
    by_cases hs : bankBalance.success = true
    · simp only [hs, Bool.not_true, Bool.false_eq_true, if_false, true_and]
      by_cases hl : (L.parseFloat (bankBalance.balance.getD "undefined")).lt MIN_BANK_BALANCE
          = true
      · simp [hl]
      · simp [hl]
    · simp [hs]
  · simp [hb]

/-- What `scheduleAutoRestart` does when auto-restart is still enabled after its wait: it
has waited, renewed the identity in tor mode only, and then calls `startClaimSession`,
whose refusal it logs. -/
theorem scheduleAutoRestart_enabled (E : Env σ) (L : Lib) (H : Host σ) (delayMs : Nat)
    (w : World σ) (hauto : w.autoRestartEnabled = true) :
    ∃ w4, Renewed (FaucetSentry.delay E delayMs w) w4 ∧
      (w.connectionType ≠ "tor" → newnymRequests w4.trace = newnymRequests w.trace) ∧
      (w.connectionType = "tor" →
        ∃ ports, ports ≠ [] ∧ newnymRequests w4.trace = newnymRequests w.trace ++ ports) ∧
      FaucetSentry.scheduleAutoRestart E L H delayMs w
        = if (FaucetSentry.startClaimSession E L w4).1.success then
            (FaucetSentry.startClaimSession E L w4).2
          else FaucetSentry.log "error"
            ("Auto-restart failed: " ++
              (FaucetSentry.startClaimSession E L w4).1.error.getD "undefined")
            (FaucetSentry.startClaimSession E L w4).2 := by
  have h1 : (!(FaucetSentry.delay E delayMs w).autoRestartEnabled) = false := by
    show (!w.autoRestartEnabled) = false
    rw [hauto]
    rfl
  have hn1 : newnymRequests (FaucetSentry.delay E delayMs w).trace = newnymRequests w.trace := by
    show newnymRequests (w.trace ++ [Event.delay delayMs]) = _
    rw [newnymRequests_append]
    simp [newnymRequests]
  have hfinal : ∀ w4 : World σ,
      (match FaucetSentry.startClaimSession E L w4 with
        | (result, w5) =>
          if !result.success then
            FaucetSentry.log "error" ("Auto-restart failed: " ++ result.error.getD "undefined") w5
          else w5)
        = if (FaucetSentry.startClaimSession E L w4).1.success then
            (FaucetSentry.startClaimSession E L w4).2
          else FaucetSentry.log "error"
            ("Auto-restart failed: " ++
              (FaucetSentry.startClaimSession E L w4).1.error.getD "undefined")
            (FaucetSentry.startClaimSession E L w4).2 := by
    intro w4
    rcases FaucetSentry.startClaimSession E L w4 with ⟨result, w5⟩
    dsimp only
    cases result.success <;> rfl
  unfold FaucetSentry.scheduleAutoRestart
  simp only [h1, Bool.false_eq_true, if_false]
  by_cases htor : w.connectionType = "tor"
  · have htor1 : (FaucetSentry.delay E delayMs w).connectionType = "tor" := htor
    simp only [htor1, if_true]
    obtain ⟨-, -, ports, obs, hports, -, -, hlen, hcase⟩ := identityLoop_spec E H 3 0
      (FaucetSentry.log "info" "Requesting fresh Tor identity..."
        (FaucetSentry.delay E delayMs w))
    have hne : ports ≠ [] := by
      intro hnil
      subst hnil
      rcases hcase with ⟨-, -, h3, -⟩ | ⟨⟨o, ho, -⟩, -⟩
      · cases h3
      · have : obs = [] := List.length_eq_zero.mp (by rw [hlen]; rfl)
        rw [this] at ho
        cases ho
    have hr : Renewed (FaucetSentry.delay E delayMs w)
        (FaucetSentry.getVerifiedFreshTorIdentity E H
          (FaucetSentry.log "info" "Requesting fresh Tor identity..."
            (FaucetSentry.delay E delayMs w))).2 :=
      (renewed_log _ _ _).trans_renewed (renewed_identityLoop E H 3 0 _)
    have hnew : newnymRequests (FaucetSentry.getVerifiedFreshTorIdentity E H
          (FaucetSentry.log "info" "Requesting fresh Tor identity..."
            (FaucetSentry.delay E delayMs w))).2.trace = newnymRequests w.trace ++ ports := by
      show newnymRequests (FaucetSentry.identityLoop E H 3 0 _).2.trace = _
      rw [hports, trace_log, newnymRequests_append, hn1]
      simp [newnymRequests]
    split
    · refine ⟨_, (hr.trans_renewed (renewed_log _ _ _)).trans_renewed (renewed_log _ _ _),
        fun h => absurd htor h, fun _ => ⟨ports, hne, ?_⟩, hfinal _⟩
      rw [trace_log, trace_log, newnymRequests_append, newnymRequests_append, hnew]
      simp [newnymRequests]
    · refine ⟨_, hr.trans_renewed (renewed_log _ _ _),
        fun h => absurd htor h, fun _ => ⟨ports, hne, ?_⟩, hfinal _⟩
      rw [trace_log, newnymRequests_append, hnew]
      simp [newnymRequests]
  · have htor1 : ¬ (FaucetSentry.delay E delayMs w).connectionType = "tor" := htor
    simp only [htor1, if_false]
    refine ⟨_, renewed_log _ _ _, fun _ => ?_, fun h => absurd h htor, hfinal _⟩
    rw [trace_log, newnymRequests_append, hn1]
    simp [newnymRequests]

/-- C12: in a connection mode other than direct with auto-restart enabled, a run of
`runClaimProcess` comes to an end, and whether its `try` block succeeded or threw any
error (the rate-limit signal included) it has called `scheduleAutoRestart` exactly once,
with 500 ms, and returns normally: the failure does not reach the caller, whose handler
is not run. That call of `scheduleAutoRestart(500)` first waits 500 ms; auto-restart
being still enabled, it then renews the identity (in tor mode only, with at least one
request) and calls `startClaimSession` on a session that is not running. The start is
accepted exactly when a bank wallet is configured and its balance can be read and is not
below the minimum: then one new claim process is started and the session is running with
status `starting`; otherwise the refusal is logged and nothing is started. -/
theorem anonymized_mode_always_restarts {E : Env σ} {P : Page σ} (c : Clock E P)
    (B : Browser σ) (L : Lib) (K : Keygen σ) (H : Host σ) (fuel stack : Nat)
    (hfuel : 1801 ≤ fuel) (w : World σ) (hmode : w.connectionType ≠ "direct")
    (hauto : w.autoRestartEnabled = true) :
    ∃ r out,
      FaucetSentry.claimSteps E P B L K H fuel stack w = some r ∧
      FaucetSentry.runClaimProcess E P B L K H fuel stack w = some out ∧
      FaucetSentry.claimProcessTask E P B L K H fuel stack w = some out.2 ∧
      out.1 = .ok () ∧
      restartCalls out.2.trace = restartCalls w.trace ++ [500] ∧
      (r.1 = .ok () → out.2.sessionStats.status = "completed") ∧
      (∀ e, r.1 = .error e → out.2.sessionStats.status = "failed") ∧
      ∃ w4 evs,
        w4.trace = out.2.trace ++ Event.delay 500 :: evs ∧
        (∀ e ∈ evs, e.isRenewal = true) ∧
        processStarts w4.trace = processStarts w.trace ∧
        w4.isRunning = false ∧
        w4.bankWalletName = w.bankWalletName ∧
        (w.connectionType ≠ "tor" → newnymRequests w4.trace = newnymRequests w.trace) ∧
        (w.connectionType = "tor" →
          ∃ ports, ports ≠ [] ∧ newnymRequests w4.trace = newnymRequests w.trace ++ ports) ∧
        ((FaucetSentry.startClaimSession E L w4).1.success = true ↔
          (truthyOpt w.bankWalletName = true ∧
            (FaucetSentry.getBankWalletBalance E L w4).1.success = true ∧
            (L.parseFloat ((FaucetSentry.getBankWalletBalance E L w4).1.balance.getD
              "undefined")).lt MIN_BANK_BALANCE = false)) ∧
        ((FaucetSentry.startClaimSession E L w4).1.success = true →
          FaucetSentry.scheduleAutoRestart E L H 500 out.2
            = (FaucetSentry.startClaimSession E L w4).2 ∧
          processStarts (FaucetSentry.scheduleAutoRestart E L H 500 out.2).trace
            = processStarts w.trace + 1 ∧
          (FaucetSentry.scheduleAutoRestart E L H 500 out.2).isRunning = true ∧
          (FaucetSentry.scheduleAutoRestart E L H 500 out.2).sessionStats.status
            = "starting") ∧
        ((FaucetSentry.startClaimSession E L w4).1.success = false →
          FaucetSentry.scheduleAutoRestart E L H 500 out.2
            = FaucetSentry.log "error"
                ("Auto-restart failed: " ++
                  (FaucetSentry.startClaimSession E L w4).1.error.getD "undefined")
                (FaucetSentry.startClaimSession E L w4).2 ∧
          processStarts (FaucetSentry.scheduleAutoRestart E L H 500 out.2).trace
            = processStarts w.trace ∧
          (FaucetSentry.scheduleAutoRestart E L H 500 out.2).isRunning = false) := by
  have hre := restartEligible_on w hmode hauto
  obtain ⟨r, out, hr, hout, hcase⟩ := runClaimProcess_run c B L K H fuel stack hfuel w
  have key : out.1 = .ok () ∧ restartCalls out.2.trace = restartCalls w.trace ++ [500] ∧
      (r.1 = .ok () → out.2.sessionStats.status = "completed") ∧
      (∀ e, r.1 = .error e → out.2.sessionStats.status = "failed") ∧
      ∃ seen, Ended w seen true out.2 := by
    rcases hcase with ⟨h1, h2, hend, hs, -⟩ | ⟨j, e, -, -, h1, -, -, hend, h3, hs, -⟩
    · rw [hre] at hend
      refine ⟨by rw [h2]; exact h1, ?_, fun _ => hs, ?_, _, hend⟩
      · simpa using hend.restarts
      · intro e he
        rw [h1] at he
        cases he
    · rw [hre] at hend
      refine ⟨?_, ?_, ?_, fun _ _ => hs, _, hend⟩
      · rw [h3, hre]
        rfl
      · simpa using hend.restarts
      · intro he
        rw [h1] at he
        cases he
  obtain ⟨k1, k2, k3, k4, seen, hend⟩ := key
  have htask : FaucetSentry.claimProcessTask E P B L K H fuel stack w = some out.2 := by
    obtain ⟨o1, o2⟩ := out
    dsimp only at k1
    subst k1
    unfold FaucetSentry.claimProcessTask
    rw [hout]
    rfl
  have hauto2 : out.2.autoRestartEnabled = true := hend.autoRestartEnabled.trans hauto
  obtain ⟨w4, hren, hn1, hn2, hsched⟩ :=
    scheduleAutoRestart_enabled E L H 500 out.2 hauto2
  obtain ⟨⟨evs0, htrace⟩, -, -, f3, f4, -, -, -, f8, -, -⟩ := hren.frame
  have hevs : ∃ evs, w4.trace = out.2.trace ++ Event.delay 500 :: evs ∧
      ∀ e ∈ evs, e.isRenewal = true := by
    obtain ⟨s, evs, ips, rfl, q⟩ := hren
    exact ⟨evs, by
      show (out.2.trace ++ [Event.delay 500]) ++ evs = _
      simp, q⟩
  obtain ⟨evs, he1, he2⟩ := hevs
  have hstarts4 : processStarts w4.trace = processStarts w.trace := by
    rw [f3]
    show processStarts (out.2.trace ++ [Event.delay 500]) = _
    rw [processStarts_append, hend.starts]
    rfl
  have hrun4 : w4.isRunning = false := by
    rw [f4]
    exact hend.isRunning
  have hbank4 : w4.bankWalletName = w.bankWalletName := by
    rw [f8]
    exact hend.bankWalletName
  have hacc := startClaimSession_accepts E L w4 hrun4
  rw [hbank4] at hacc
  refine ⟨r, out, hr, hout, htask, k1, k2, k3, k4, w4, evs, he1, he2, hstarts4, hrun4, hbank4,
    ?_, ?_, hacc, ?_, ?_⟩
  · intro h
    rw [hn1 (by rw [hend.connectionType]; exact h), hend.newnyms]
  · intro h
    obtain ⟨ports, hp1, hp2⟩ := hn2 (by rw [hend.connectionType]; exact h)
    exact ⟨ports, hp1, by rw [hp2, hend.newnyms]⟩
  · intro hs
    have heq : FaucetSentry.scheduleAutoRestart E L H 500 out.2
        = (FaucetSentry.startClaimSession E L w4).2 := by
      rw [hsched, if_pos hs]
    obtain ⟨-, -, s3, -, s5, -, -, -, s9, -⟩ := startClaimSession_started E L w4 hs
    refine ⟨heq, ?_, ?_, ?_⟩
    · rw [heq, s3, hstarts4]
    · rw [heq, s9]
    · rw [heq, s5]
  · intro hs
    have heq : FaucetSentry.scheduleAutoRestart E L H 500 out.2
        = FaucetSentry.log "error"
            ("Auto-restart failed: " ++
              (FaucetSentry.startClaimSession E L w4).1.error.getD "undefined")
            (FaucetSentry.startClaimSession E L w4).2 := by
      rw [hsched, if_neg (by rw [hs]; simp)]
    have hc := startClaimSession_refused E L w4 hs
    refine ⟨heq, ?_, ?_⟩
    · rw [heq, trace_log, processStarts_append, hc.starts, hstarts4]
      rfl
    · rw [heq]
      show (FaucetSentry.startClaimSession E L w4).2.isRunning = false
      rw [hc.isRunning, hrun4]

/-- C12 on a closed instance: a proxy-mode session over the scripted remote side, whose
faucet page shows a rate-limit message. -/
theorem anonymized_mode_always_restarts_witness :
    ∃ r out,
      FaucetSentry.claimSteps Script.env rateLimitedPage demoBrowser jsLib
        happyKeygen demoHost 1801 100 demoRestartWorld = some r ∧
      FaucetSentry.runClaimProcess Script.env rateLimitedPage demoBrowser jsLib
        happyKeygen demoHost 1801 100 demoRestartWorld = some out ∧
      FaucetSentry.claimProcessTask Script.env rateLimitedPage demoBrowser jsLib
        happyKeygen demoHost 1801 100 demoRestartWorld = some out.2 ∧
      out.1 = .ok () ∧
      restartCalls out.2.trace = restartCalls demoRestartWorld.trace ++ [500] ∧
      (r.1 = .ok () → out.2.sessionStats.status = "completed") ∧
      (∀ e, r.1 = .error e → out.2.sessionStats.status = "failed") ∧
      ∃ w4 evs,
        w4.trace = out.2.trace ++ Event.delay 500 :: evs ∧
        (∀ e ∈ evs, e.isRenewal = true) ∧
        processStarts w4.trace = processStarts demoRestartWorld.trace ∧
        w4.isRunning = false ∧
        w4.bankWalletName = demoRestartWorld.bankWalletName ∧
        (demoRestartWorld.connectionType ≠ "tor" → newnymRequests w4.trace = newnymRequests demoRestartWorld.trace) ∧
        (demoRestartWorld.connectionType = "tor" →
          ∃ ports, ports ≠ [] ∧ newnymRequests w4.trace = newnymRequests demoRestartWorld.trace ++ ports) ∧
        ((FaucetSentry.startClaimSession Script.env jsLib w4).1.success = true ↔
          (truthyOpt demoRestartWorld.bankWalletName = true ∧
            (FaucetSentry.getBankWalletBalance Script.env jsLib w4).1.success = true ∧
            (jsLib.parseFloat ((FaucetSentry.getBankWalletBalance Script.env jsLib w4).1.balance.getD
              "undefined")).lt MIN_BANK_BALANCE = false)) ∧
        ((FaucetSentry.startClaimSession Script.env jsLib w4).1.success = true →
          FaucetSentry.scheduleAutoRestart Script.env jsLib demoHost 500 out.2
            = (FaucetSentry.startClaimSession Script.env jsLib w4).2 ∧
          processStarts (FaucetSentry.scheduleAutoRestart Script.env jsLib demoHost 500 out.2).trace
            = processStarts demoRestartWorld.trace + 1 ∧
          (FaucetSentry.scheduleAutoRestart Script.env jsLib demoHost 500 out.2).isRunning = true ∧
          (FaucetSentry.scheduleAutoRestart Script.env jsLib demoHost 500 out.2).sessionStats.status
            = "starting") ∧
        ((FaucetSentry.startClaimSession Script.env jsLib w4).1.success = false →
          FaucetSentry.scheduleAutoRestart Script.env jsLib demoHost 500 out.2
            = FaucetSentry.log "error"
                ("Auto-restart failed: " ++
                  (FaucetSentry.startClaimSession Script.env jsLib w4).1.error.getD "undefined")
                (FaucetSentry.startClaimSession Script.env jsLib w4).2 ∧
          processStarts (FaucetSentry.scheduleAutoRestart Script.env jsLib demoHost 500 out.2).trace
            = processStarts demoRestartWorld.trace ∧
          (FaucetSentry.scheduleAutoRestart Script.env jsLib demoHost 500 out.2).isRunning = false) :=
  anonymized_mode_always_restarts
    (script_clock "<p>Send 2 XNO</p><p>Come back tomorrow</p>" "Send 2 XNO\nCome back tomorrow")
    demoBrowser jsLib happyKeygen demoHost 1801 100 (by decide) demoRestartWorld (by decide) rfl

/-- A closed run in proxy mode: the faucet page shows a rate-limit message, the claim
process fails at `extracting_donation` and calls `scheduleAutoRestart(500)` once; that
call waits 500 ms, requests no identity, and starts a new session: one claim process is
started, the session is running again with status `starting`. -/
theorem restart_after_rate_limit_example :
    (FaucetSentry.claimProcessTask Script.env rateLimitedPage demoBrowser jsLib happyKeygen
        demoHost 1801 100 demoRestartWorld).map
      (fun ended =>
        (ended.sessionStats.status, ended.isRunning, restartCalls ended.trace,
          processStarts ended.trace))
      = some ("failed", false, [500], 0) ∧
    (FaucetSentry.claimProcessTask Script.env rateLimitedPage demoBrowser jsLib happyKeygen
        demoHost 1801 100 demoRestartWorld).map
      (fun ended =>
        (accumulatedWait (FaucetSentry.scheduleAutoRestart Script.env jsLib demoHost 500
            ended).trace - accumulatedWait ended.trace,
          processStarts (FaucetSentry.scheduleAutoRestart Script.env jsLib demoHost 500
            ended).trace,
          newnymRequests (FaucetSentry.scheduleAutoRestart Script.env jsLib demoHost 500
            ended).trace,
          (FaucetSentry.scheduleAutoRestart Script.env jsLib demoHost 500 ended).isRunning,
          (FaucetSentry.scheduleAutoRestart Script.env jsLib demoHost 500
            ended).sessionStats.status))
      = some (500, 1, [], true, "starting") := by
  constructor <;> decide!

/-- C20: after a successful `startClaimSession` the status is `starting`, and the claim
process it starts comes to an end. When every step of the process succeeded, the values
assigned to `sessionStats.status` since the start are exactly starting,
creating_temp_wallet, launching_browser, navigating, entering_address, clicking_claim,
extracting_donation, funding_claim_wallet, receiving_to_claim, sending_donation,
waiting_reward, receiving_reward, sending_to_bank, receiving_to_bank, completed, in this
order, each once, and the status is `completed`. When a step threw, the values assigned
are `starting`, the statuses of the steps up to the one that threw, in order, and then
`failed`, and the status is `failed`. -/
theorem status_sequence {E : Env σ} {P : Page σ} (c : Clock E P) (B : Browser σ) (L : Lib)
    (K : Keygen σ) (H : Host σ) (fuel stack : Nat) (hfuel : 1801 ≤ fuel) (w0 : World σ)
    (hstart : (FaucetSentry.startClaimSession E L w0).1.success = true) :
    (FaucetSentry.startClaimSession E L w0).2.sessionStats.status = "starting" ∧
    ∃ r out,
      FaucetSentry.claimSteps E P B L K H fuel stack (FaucetSentry.startClaimSession E L w0).2
        = some r ∧
      FaucetSentry.runClaimProcess E P B L K H fuel stack
        (FaucetSentry.startClaimSession E L w0).2 = some out ∧
      (r.1 = .ok () →
        statuses out.2.trace = statuses w0.trace ++
          ["starting", "creating_temp_wallet", "launching_browser", "navigating",
           "entering_address", "clicking_claim", "extracting_donation",
           "funding_claim_wallet", "receiving_to_claim", "sending_donation",
           "waiting_reward", "receiving_reward", "sending_to_bank", "receiving_to_bank",
           "completed"] ∧
        out.2.sessionStats.status = "completed") ∧
      (∀ e, r.1 = .error e →
        ∃ j, 1 ≤ j ∧ j ≤ 13 ∧
          statuses out.2.trace = statuses w0.trace ++
            ("starting" ::
              (["creating_temp_wallet", "launching_browser", "navigating", "entering_address",
                "clicking_claim", "extracting_donation", "funding_claim_wallet",
                "receiving_to_claim", "sending_donation", "waiting_reward",
                "receiving_reward", "sending_to_bank", "receiving_to_bank"].take j
                ++ ["failed"])) ∧
          out.2.sessionStats.status = "failed") := by
  obtain ⟨s1, -, -, -, s5, -⟩ := startClaimSession_started E L w0 hstart
  refine ⟨s5, ?_⟩
  obtain ⟨r, out, hr, hout, hcase⟩ := runClaimProcess_run c B L K H fuel stack hfuel
    (FaucetSentry.startClaimSession E L w0).2
  refine ⟨r, out, hr, hout, ?_, ?_⟩
  · intro hok
    rcases hcase with ⟨-, -, hend, hs, -⟩ | ⟨j, e, -, -, h1, -⟩
    · refine ⟨?_, hs⟩
      rw [hend.statuses, s1, List.append_assoc]
      rfl
    · rw [h1] at hok
      cases hok
  · intro e he
    rcases hcase with ⟨h1, -⟩ | ⟨j, e2, hj1, hj2, -, -, -, hend, -, hs, -⟩
    · rw [h1] at he
      cases he
    · refine ⟨j, hj1, hj2, ?_, hs⟩
      rw [hend.statuses, s1, List.append_assoc]
      rfl

/-- C20 on a closed instance: the scripted session with a funded bank wallet. -/
theorem status_sequence_witness :
    (FaucetSentry.startClaimSession Script.env jsLib demoHappyWorld).2.sessionStats.status
      = "starting" ∧
    ∃ r out,
      FaucetSentry.claimSteps Script.env happyPage demoBrowser jsLib happyKeygen demoHost 1801 100
        (FaucetSentry.startClaimSession Script.env jsLib demoHappyWorld).2 = some r ∧
      FaucetSentry.runClaimProcess Script.env happyPage demoBrowser jsLib happyKeygen demoHost
        1801 100 (FaucetSentry.startClaimSession Script.env jsLib demoHappyWorld).2 = some out ∧
      (r.1 = .ok () →
        statuses out.2.trace = statuses demoHappyWorld.trace ++
          ["starting", "creating_temp_wallet", "launching_browser", "navigating",
           "entering_address", "clicking_claim", "extracting_donation",
           "funding_claim_wallet", "receiving_to_claim", "sending_donation",
           "waiting_reward", "receiving_reward", "sending_to_bank", "receiving_to_bank",
           "completed"] ∧
        out.2.sessionStats.status = "completed") ∧
      (∀ e, r.1 = .error e →
        ∃ j, 1 ≤ j ∧ j ≤ 13 ∧
          statuses out.2.trace = statuses demoHappyWorld.trace ++
            ("starting" ::
              (["creating_temp_wallet", "launching_browser", "navigating", "entering_address",
                "clicking_claim", "extracting_donation", "funding_claim_wallet",
                "receiving_to_claim", "sending_donation", "waiting_reward",
                "receiving_reward", "sending_to_bank", "receiving_to_bank"].take j
                ++ ["failed"])) ∧
          out.2.sessionStats.status = "failed") :=
  status_sequence (script_clock _ _) demoBrowser jsLib happyKeygen demoHost 1801 100 (by decide)
    demoHappyWorld (by decide!)

/-- A run in which every step succeeds, evaluated: the scripted session goes through the
fifteen statuses and ends `completed` with one claim counted. -/
theorem happy_run_example :
    (FaucetSentry.startClaimSession Script.env jsLib demoHappyWorld).1.success = true ∧
    (FaucetSentry.runClaimProcess Script.env happyPage demoBrowser jsLib happyKeygen demoHost
        1801 100 (FaucetSentry.startClaimSession Script.env jsLib demoHappyWorld).2).map
      (fun out => (out.1, statuses out.2.trace, out.2.sessionStats.status,
        out.2.sessionStats.totalClaims, out.2.sessionStats.totalRewards))
      = some (.ok (),
          ["starting", "creating_temp_wallet", "launching_browser", "navigating",
           "entering_address", "clicking_claim", "extracting_donation",
           "funding_claim_wallet", "receiving_to_claim", "sending_donation",
           "waiting_reward", "receiving_reward", "sending_to_bank", "receiving_to_bank",
           "completed"], "completed", 1, "3.000000") := by
  decide!

/-- A run in which a step throws, evaluated: in a session without a bank wallet the step
`funding_claim_wallet` throws, the later steps are not entered, and the status becomes
`failed`; in direct mode the error reaches the caller. -/
theorem failed_run_example :
    (FaucetSentry.runClaimProcess Script.env happyPage demoBrowser jsLib happyKeygen demoHost
        1801 100 demoDirectWorld).map
      (fun out => (out.1, statuses out.2.trace, out.2.sessionStats.status))
      = some (.error "Bank wallet data not found",
          ["creating_temp_wallet", "launching_browser", "navigating", "entering_address",
           "clicking_claim", "extracting_donation", "funding_claim_wallet", "failed"],
          "failed") := by
  decide!

/-! ## The claim wallet -/

/-- What `stopSession` leaves: no claim wallet, no browser, not running, not paused, the
status `stopped`; the restart policy, the wallet store and the counters are untouched, and
neither a restart nor a claim process is started. -/
theorem stopSession_spec (B : Browser σ) (w : World σ) :
    (FaucetSentry.stopSession B w).claimWallet = none ∧
    (Sync w → (FaucetSentry.stopSession B w).sessionStats.tempClaimWallet = none) ∧
    (FaucetSentry.stopSession B w).isRunning = false ∧
    (FaucetSentry.stopSession B w).isPaused = false ∧
    (FaucetSentry.stopSession B w).browserOpen = false ∧
    (FaucetSentry.stopSession B w).sessionStats.status = "stopped" ∧
    (FaucetSentry.stopSession B w).wallets = w.wallets ∧
    (FaucetSentry.stopSession B w).connectionType = w.connectionType ∧
    (FaucetSentry.stopSession B w).autoRestartEnabled = w.autoRestartEnabled ∧
    restartCalls (FaucetSentry.stopSession B w).trace = restartCalls w.trace ∧
    processStarts (FaucetSentry.stopSession B w).trace = processStarts w.trace ∧
    newnymRequests (FaucetSentry.stopSession B w).trace = newnymRequests w.trace ∧
    (FaucetSentry.stopSession B w).sessionStats.totalClaims = w.sessionStats.totalClaims ∧
    (FaucetSentry.stopSession B w).sessionStats.totalRewards = w.sessionStats.totalRewards ∧
    (FaucetSentry.stopSession B w).sessionStats.consecutiveSessions
      = w.sessionStats.consecutiveSessions := by
  obtain ⟨t1, t2, t3, t4, -, t6, t7, t8⟩ := teardown_spec B
    ({ FaucetSentry.log "info" "Stopping claim session..." w with
        isRunning := false, isPaused := false } : World σ)
  have hpol : (FaucetSentry.cleanup B (FaucetSentry.deleteTemporaryClaimWallet
      ({ FaucetSentry.log "info" "Stopping claim session..." w with
          isRunning := false, isPaused := false } : World σ))).policy
      = ({ FaucetSentry.log "info" "Stopping claim session..." w with
          isRunning := false, isPaused := false } : World σ).policy := by
    rw [cleanup_policy, deleteTemporaryClaimWallet_policy]
  obtain ⟨-, q2, q3, q4, q5, q6, q7, -, q9⟩ := policy_fields hpol
  unfold FaucetSentry.stopSession
  dsimp only
  refine ⟨t1, fun hs => t2 hs, t3, q9, t4, rfl, q7, q5, q6, ?_, ?_, ?_, t6, t7, t8⟩
  · simp only [FaucetSentry.emitStatus, FaucetSentry.setStatus, emit, restartCalls_append,
      restartCalls, List.append_nil]
    rw [q2]
    simp only [FaucetSentry.log, emit, restartCalls_append, restartCalls, List.append_nil]
  · simp only [FaucetSentry.emitStatus, FaucetSentry.setStatus, emit, processStarts_append,
      processStarts, Nat.add_zero]
    rw [q3]
    simp only [FaucetSentry.log, emit, processStarts_append, processStarts, Nat.add_zero]
  · simp only [FaucetSentry.emitStatus, FaucetSentry.setStatus, emit, newnymRequests_append,
      newnymRequests, List.append_nil]
    rw [q4]
    simp only [FaucetSentry.log, emit, newnymRequests_append, newnymRequests, List.append_nil]

/-- A session as the constructor leaves it shows no claim address. -/
theorem sync_initial (s : σ) : Sync ({ node := s } : World σ) := fun _ => rfl

/-- A state without a claim wallet and without a shown address keeps the two together. -/
theorem sync_of_discarded (w : World σ) (h : w.sessionStats.tempClaimWallet = none) : Sync w :=
  fun _ => h

/-- C21: in a session in which the shown address `sessionStats.tempClaimWallet` is null
whenever `claimWallet` is (as it is after the constructor and after each of the calls
below), a run of `runClaimProcess` comes to an end and, after a success as after a
failure, `claimWallet` and `sessionStats.tempClaimWallet` are null and the wallet store is
the one the run started with, also at the point where a step threw; the same holds when
`stopSession` returns. -/
theorem claim_wallet_discarded {E : Env σ} {P : Page σ} (c : Clock E P) (B : Browser σ)
    (L : Lib) (K : Keygen σ) (H : Host σ) (fuel stack : Nat) (hfuel : 1801 ≤ fuel)
    (w : World σ) (hsync : Sync w) :
    (∃ r out,
      FaucetSentry.claimSteps E P B L K H fuel stack w = some r ∧
      FaucetSentry.runClaimProcess E P B L K H fuel stack w = some out ∧
      out.2.claimWallet = none ∧ out.2.sessionStats.tempClaimWallet = none ∧
      r.2.wallets = w.wallets ∧ out.2.wallets = w.wallets) ∧
    (FaucetSentry.stopSession B w).claimWallet = none ∧
    (FaucetSentry.stopSession B w).sessionStats.tempClaimWallet = none ∧
    (FaucetSentry.stopSession B w).wallets = w.wallets := by
  obtain ⟨s1, s2, -, -, -, -, s7, -⟩ := stopSession_spec B w
  refine ⟨?_, s1, s2 hsync, s7⟩
  obtain ⟨r, out, hr, hout, hcase⟩ := runClaimProcess_run c B L K H fuel stack hfuel w
  refine ⟨r, out, hr, hout, ?_⟩
  rcases hcase with ⟨-, h2, hend, -⟩ | ⟨j, e, -, -, -, p, -, hend, -⟩
  · exact ⟨hend.claimWallet, hend.tempClaimWallet hsync, by rw [← h2]; exact hend.wallets,
      hend.wallets⟩
  · exact ⟨hend.claimWallet, hend.tempClaimWallet hsync, p.wallets, hend.wallets⟩

/-- C21 on a closed instance: the scripted session in which every step succeeds. -/
theorem claim_wallet_discarded_witness :
    (∃ r out,
      FaucetSentry.claimSteps Script.env happyPage demoBrowser jsLib happyKeygen demoHost 1801 100
        demoHappyWorld = some r ∧
      FaucetSentry.runClaimProcess Script.env happyPage demoBrowser jsLib happyKeygen demoHost
        1801 100 demoHappyWorld = some out ∧
      out.2.claimWallet = none ∧ out.2.sessionStats.tempClaimWallet = none ∧
      r.2.wallets = demoHappyWorld.wallets ∧ out.2.wallets = demoHappyWorld.wallets) ∧
    (FaucetSentry.stopSession demoBrowser demoHappyWorld).claimWallet = none ∧
    (FaucetSentry.stopSession demoBrowser demoHappyWorld).sessionStats.tempClaimWallet = none ∧
    (FaucetSentry.stopSession demoBrowser demoHappyWorld).wallets = demoHappyWorld.wallets :=
  claim_wallet_discarded (script_clock _ _) demoBrowser jsLib happyKeygen demoHost 1801 100
    (by decide) demoHappyWorld (sync_initial happyScript)

/-- The claim wallet is there during the run: after the first step of the scripted session
`claimWallet` holds the generated wallet and its address is shown, while the wallet store
still holds the bank wallet only. -/
theorem claim_wallet_created_example :
    ((FaucetSentry.creatingTempWallet Script.env happyKeygen demoHappyWorld).2.claimWallet.map
        (fun wallet => wallet.address)) = some demoClaimAddress ∧
    (FaucetSentry.creatingTempWallet Script.env happyKeygen
        demoHappyWorld).2.sessionStats.tempClaimWallet = some demoClaimAddress ∧
    (FaucetSentry.creatingTempWallet Script.env happyKeygen demoHappyWorld).2.wallets
      = [("bank", demoBankWallet)] := by
  decide!

/-! ## Stopping a session -/

/-- C13 (code bug): a session in tor mode waits for its reward when `stopSession` is
called. The call leaves the session stopped (status `stopped`, not running) but does not
touch `autoRestartEnabled`. When the claim process is resumed, its wait loop throws
'Session stopped or paused', the `catch` block treats this like any other failure and
calls `scheduleAutoRestart(500)`, and that call requests a new identity and starts a new
session: a claim process is started, the session is running again with status
`starting`. -/
theorem stop_in_tor_mode_restarts :
    (FaucetSentry.stopSession demoBrowser demoWaitingWorld).isRunning = false ∧
    (FaucetSentry.stopSession demoBrowser demoWaitingWorld).sessionStats.status = "stopped" ∧
    (FaucetSentry.stopSession demoBrowser demoWaitingWorld).autoRestartEnabled = true ∧
    (FaucetSentry.resumeWaitingReward Script.env demoBrowser jsLib demoHost 1801 demoClaimWallet
        demoBankWallet "2" 15000 0 (FaucetSentry.stopSession demoBrowser demoWaitingWorld)).map
      (fun out =>
        (out.1, restartCalls out.2.trace, out.2.sessionStats.status))
      = some (.ok (), [500], "failed") ∧
    (FaucetSentry.resumeWaitingReward Script.env demoBrowser jsLib demoHost 1801 demoClaimWallet
        demoBankWallet "2" 15000 0 (FaucetSentry.stopSession demoBrowser demoWaitingWorld)).map
      (fun out =>
        (processStarts (FaucetSentry.scheduleAutoRestart Script.env jsLib demoHost 500
            out.2).trace,
          newnymRequests (FaucetSentry.scheduleAutoRestart Script.env jsLib demoHost 500
            out.2).trace,
          (FaucetSentry.scheduleAutoRestart Script.env jsLib demoHost 500 out.2).isRunning,
          (FaucetSentry.scheduleAutoRestart Script.env jsLib demoHost 500
            out.2).sessionStats.status))
      = some (1, [9051], true, "starting") := by
  decide!

/-! ## Funding the claim wallet -/

theorem wait_emit (e : Event) (w : World σ) (h : accumulatedWait [e] = 0) :
    accumulatedWait (emit e w).trace = accumulatedWait w.trace := by
  rw [trace_emit, accumulatedWait_append, h, Nat.add_zero]

theorem wait_log (level message : String) (w : World σ) :
    accumulatedWait (FaucetSentry.log level message w).trace = accumulatedWait w.trace :=
  wait_emit _ w rfl

theorem wait_delay (E : Env σ) (ms : Nat) (w : World σ) :
    accumulatedWait (FaucetSentry.delay E ms w).trace = accumulatedWait w.trace + ms := by
  show accumulatedWait (w.trace ++ [Event.delay ms]) = _
  rw [accumulatedWait_append]
  rfl

theorem wait_fetchPending (E : Env σ) (url account : String) (n : Nat) (w : World σ) :
    accumulatedWait (fetchPending E url account n w).2.trace = accumulatedWait w.trace := by
  show accumulatedWait (w.trace ++ [Event.pending url account n]) = _
  rw [accumulatedWait_append]
  rfl

theorem wait_getPendingBlocksLoop (E : Env σ) (L : Lib) (address : String)
    (urls : List String) :
    ∀ (lastError : Option String) (w : World σ),
      accumulatedWait (FaucetSentry.getPendingBlocksLoop E L address urls lastError w).2.trace
        = accumulatedWait w.trace := by
  induction urls with
  | nil =>
    intro lastError w
    unfold FaucetSentry.getPendingBlocksLoop
    split
    · split
      · exact wait_log _ _ _
      · rfl
    · rfl
  | cons url rest ih =>
    intro lastError w
    have hf := wait_fetchPending E url address 10 w
    unfold FaucetSentry.getPendingBlocksLoop
    split
    · next e w1 h => rw [h] at hf; exact (ih _ _).trans hf
    · next r w1 h =>
      rw [h] at hf
      split
      · exact (ih _ _).trans hf
      · split
        · exact (ih _ _).trans hf
        · dsimp only
          split
          · exact hf
          · exact (ih _ _).trans hf

theorem wait_getPendingBlocks (E : Env σ) (L : Lib) (address : String) (w : World σ) :
    accumulatedWait (FaucetSentry.getPendingBlocks E L address w).2.trace
      = accumulatedWait w.trace :=
  wait_getPendingBlocksLoop E L address _ _ w

/-- When the next `left` polls find nothing, the loop of step `receiving_to_claim` sleeps
`left` times 2 s and the check after it throws. -/
theorem claimPollLoop_empty (E : Env σ) (L : Lib) (claimWallet : WalletData) (left : Nat) :
    ∀ w : World σ, allPollsEmpty E L claimWallet left w = true →
      (FaucetSentry.claimPollLoop E L claimWallet left w).1
        = .error "Claim wallet did not receive NANO in time" ∧
      accumulatedWait (FaucetSentry.claimPollLoop E L claimWallet left w).2.trace
        = accumulatedWait w.trace + left * 2000 := by
  induction left with
  | zero =>
    intro w _
    exact ⟨rfl, by simp [FaucetSentry.claimPollLoop]⟩
  | succ left ih =>
    intro w h
    have hw := wait_getPendingBlocks E L claimWallet.address w
    unfold allPollsEmpty at h
    unfold FaucetSentry.claimPollLoop
    split at h
    · cases h
    · next pending w1 hp =>
      rw [hp] at hw
      dsimp only at hw
      simp only [Bool.and_eq_true, beq_iff_eq] at h
      obtain ⟨hlen, hrest⟩ := h
      rw [if_neg (by omega)]
      obtain ⟨i1, i2⟩ := ih _ hrest
      refine ⟨i1, ?_⟩
      rw [i2, wait_delay, hw]
      ring

/-- C28: in step `funding_claim_wallet`, once the bank wallet data is found, whatever
`nanoWallet.sendNano` returns (`success: true` or `success: false`) the step does not
throw: it sets `lastDonationSent`, its last log entry is 'Sent NANO to claim wallet', and
the only statuses assigned up to the loop of the next step are `funding_claim_wallet` and
`receiving_to_claim`. When then each of the 30 polls of that step finds nothing pending,
the step has slept 5 s and 30 times 2 s and throws 'Claim wallet did not receive NANO in
time'. -/
theorem funding_send_not_inspected (E : Env σ) (L : Lib) (H : Host σ)
    (claimWallet : WalletData) (donationAmount : String) (w : World σ) (bank : StoredWallet)
    (hbank : FaucetSentry.getBankWalletData w = some bank) :
    (∀ sent w1,
      NanoWalletManager.sendNano E L (w.bankWalletName.getD "") claimWallet.address
        donationAmount
        (FaucetSentry.log "action"
          ("Sending " ++ donationAmount ++ " NANO from Bank to Claim wallet...")
          (FaucetSentry.emitStatus (FaucetSentry.setStatus "funding_claim_wallet" w)))
        = (sent, w1) →
      FaucetSentry.fundingClaimWallet E L H claimWallet donationAmount w
        = (.ok bank, FaucetSentry.log "success" "Sent NANO to claim wallet"
            { w1 with sessionStats :=
                { w1.sessionStats with
                  lastDonationSent := some (H.toISOString (E.now w1.node)) } })) ∧
    (FaucetSentry.fundingClaimWallet E L H claimWallet donationAmount w).1 = .ok bank ∧
    (FaucetSentry.fundingClaimWallet E L H claimWallet donationAmount
      w).2.sessionStats.lastDonationSent.isSome = true ∧
    (FaucetSentry.fundingClaimWallet E L H claimWallet donationAmount w).2.trace.getLast?
      = some (Event.log "faucet-log" "success" "Sent NANO to claim wallet") ∧
    statuses (FaucetSentry.receivingToClaimStart E
        (FaucetSentry.fundingClaimWallet E L H claimWallet donationAmount w).2).trace
      = statuses w.trace ++ ["funding_claim_wallet", "receiving_to_claim"] ∧
    (allPollsEmpty E L claimWallet 30 (FaucetSentry.receivingToClaimStart E
        (FaucetSentry.fundingClaimWallet E L H claimWallet donationAmount w).2) = true →
      (FaucetSentry.receivingToClaim E L claimWallet
          (FaucetSentry.fundingClaimWallet E L H claimWallet donationAmount w).2).1
        = .error "Claim wallet did not receive NANO in time" ∧
      accumulatedWait (FaucetSentry.receivingToClaim E L claimWallet
          (FaucetSentry.fundingClaimWallet E L H claimWallet donationAmount w).2).2.trace
        = accumulatedWait
            (FaucetSentry.fundingClaimWallet E L H claimWallet donationAmount w).2.trace
          + 5000 + 30 * 2000) := by
  have hbank2 : FaucetSentry.getBankWalletData
      (FaucetSentry.log "action"
        ("Sending " ++ donationAmount ++ " NANO from Bank to Claim wallet...")
        (FaucetSentry.emitStatus (FaucetSentry.setStatus "funding_claim_wallet" w)))
      = some bank := hbank
  have heq : FaucetSentry.fundingClaimWallet E L H claimWallet donationAmount w
      = (.ok bank, FaucetSentry.log "success" "Sent NANO to claim wallet"
          { (NanoWalletManager.sendNano E L (w.bankWalletName.getD "") claimWallet.address
              donationAmount
              (FaucetSentry.log "action"
                ("Sending " ++ donationAmount ++ " NANO from Bank to Claim wallet...")
                (FaucetSentry.emitStatus
                  (FaucetSentry.setStatus "funding_claim_wallet" w)))).2 with
            sessionStats :=
              { (NanoWalletManager.sendNano E L (w.bankWalletName.getD "")
                  claimWallet.address donationAmount
                  (FaucetSentry.log "action"
                    ("Sending " ++ donationAmount ++ " NANO from Bank to Claim wallet...")
                    (FaucetSentry.emitStatus
                      (FaucetSentry.setStatus "funding_claim_wallet" w)))).2.sessionStats with
                lastDonationSent := some (H.toISOString (E.now
                  (NanoWalletManager.sendNano E L (w.bankWalletName.getD "")
                    claimWallet.address donationAmount
                    (FaucetSentry.log "action"
                      ("Sending " ++ donationAmount ++ " NANO from Bank to Claim wallet...")
                      (FaucetSentry.emitStatus
                        (FaucetSentry.setStatus "funding_claim_wallet" w)))).2.node)) } }) := by
    unfold FaucetSentry.fundingClaimWallet
    dsimp only
    rw [hbank2]
    rfl
  have hcalm := calm_fundingClaimWallet E L H claimWallet donationAmount w
  refine ⟨?_, ?_, ?_, ?_, ?_, ?_⟩
  · intro sent w1 hs
    rw [heq, hs]
  · rw [heq]
  · rw [heq]
    rfl
  · rw [heq]
    show (_ ++ [Event.log "faucet-log" "success" "Sent NANO to claim wallet"]).getLast? = _
    simp
  · have h1 : statuses (FaucetSentry.fundingClaimWallet E L H claimWallet donationAmount
        w).2.trace = statuses w.trace ++ ["funding_claim_wallet"] := by
      rw [hcalm.statuses]
      simp only [FaucetSentry.setStatus, emit, statuses_append, Secret.statuses]
    simp only [FaucetSentry.receivingToClaimStart, FaucetSentry.delay, FaucetSentry.log,
      FaucetSentry.emitStatus, FaucetSentry.setStatus, emit, statuses_append, Secret.statuses,
      List.append_nil, h1, List.append_assoc, List.singleton_append]
  · intro hpolls
    obtain ⟨p1, p2⟩ := claimPollLoop_empty E L claimWallet 30 _ hpolls
    refine ⟨p1, ?_⟩
    have : accumulatedWait (FaucetSentry.receivingToClaimStart E
        (FaucetSentry.fundingClaimWallet E L H claimWallet donationAmount w).2).trace
        = accumulatedWait
            (FaucetSentry.fundingClaimWallet E L H claimWallet donationAmount w).2.trace
          + 5000 := by
      unfold FaucetSentry.receivingToClaimStart
      rw [wait_delay, wait_log]
      simp only [FaucetSentry.emitStatus, FaucetSentry.setStatus, emit,
        accumulatedWait_append, accumulatedWait, Nat.add_zero]
    show accumulatedWait (FaucetSentry.claimPollLoop E L claimWallet 30
      (FaucetSentry.receivingToClaimStart E _)).2.trace = _
    rw [p2, this]

/-- C28 on a closed instance: the bank wallet is empty, so the funding send fails with
'Insufficient balance'; the step succeeds all the same and the next step throws after its
30 polls. -/
theorem funding_send_not_inspected_witness :
    (NanoWalletManager.sendNano Script.env jsLib "bank" demoClaimAddress "2"
        (FaucetSentry.log "action" "Sending 2 NANO from Bank to Claim wallet..."
          (FaucetSentry.emitStatus
            (FaucetSentry.setStatus "funding_claim_wallet" demoEmptyBankWorld)))).1
      = { success := false, error := some "Insufficient balance" } ∧
    (FaucetSentry.fundingClaimWallet Script.env jsLib demoHost demoClaimWallet "2"
        demoEmptyBankWorld).1 = .ok demoBankWallet ∧
    (FaucetSentry.receivingToClaim Script.env jsLib demoClaimWallet
        (FaucetSentry.fundingClaimWallet Script.env jsLib demoHost demoClaimWallet "2"
          demoEmptyBankWorld).2).1
      = .error "Claim wallet did not receive NANO in time" :=
  ⟨by decide!,
    (funding_send_not_inspected Script.env jsLib demoHost demoClaimWallet "2"
      demoEmptyBankWorld demoBankWallet (by decide!)).2.1,
    ((funding_send_not_inspected Script.env jsLib demoHost demoClaimWallet "2"
      demoEmptyBankWorld demoBankWallet (by decide!)).2.2.2.2.2 (by decide!)).1⟩

/-- The whole process with a funding send that fails, evaluated: the send is logged as
failed by the wallet manager and as sent by the session, the status goes on to
`receiving_to_claim`, and the process fails there. -/
theorem failed_funding_example :
    (FaucetSentry.runClaimProcess Script.env happyPage demoBrowser jsLib happyKeygen demoHost
        1801 100 demoEmptyBankWorld).map
      (fun out => (out.1, statuses out.2.trace,
        ((logLines out.2.trace).drop 12).take 2))
      = some (.error "Claim wallet did not receive NANO in time",
          ["creating_temp_wallet", "launching_browser", "navigating", "entering_address",
           "clicking_claim", "extracting_donation", "funding_claim_wallet",
           "receiving_to_claim", "failed"],
          [("error", "[Nano] Send failed: Insufficient balance"),
           ("success", "Sent NANO to claim wallet")]) := by
  decide!

/-! ## The orchestrator -/

theorem instanceStarts_append (xs ys : List Event) :
    instanceStarts (xs ++ ys) = instanceStarts xs ++ instanceStarts ys := by
  induction xs with
  | nil => rfl
  | cons e rest ih => cases e <;> simp [instanceStarts, ih]

theorem mem_loopIndices (count : ℚ) (i : Nat) : i ∈ loopIndices count ↔ (i : ℚ) < count := by
  unfold loopIndices
  rw [List.mem_range]
  exact Nat.lt_ceil

theorem loopIndices_nat (n : Nat) : loopIndices (n : ℚ) = List.range n := by
  unfold loopIndices
  rw [Nat.ceil_natCast]

theorem loopIndices_length_le (count : ℚ) (h : count ≤ 10) : (loopIndices count).length ≤ 10 := by
  unfold loopIndices
  rw [List.length_range]
  exact Nat.ceil_le.mpr (by exact_mod_cast h)

theorem instanceIdOf_injective (i j : Nat) (hi : i < 10) (hj : j < 10)
    (h : instanceIdOf i = instanceIdOf j) : i = j := by
  interval_cases i <;> interval_cases j <;> first | rfl | (exact absurd h (by decide))

theorem mapSet_fresh (key : String) (value : Nat) (entries : List (String × Nat))
    (h : key ∉ entries.map Prod.fst) : mapSet key value entries = entries ++ [(key, value)] := by
  induction entries with
  | nil => rfl
  | cons entry rest ih =>
    obtain ⟨k, x⟩ := entry
    have hk : ¬ k = key := fun hk => h (by simp [hk])
    have hrest : key ∉ rest.map Prod.fst := fun hm => h (by simp [hm])
    unfold mapSet
    rw [if_neg hk, ih hrest]
    rfl

/-- The state after the first `k` iterations of the allocation loop. -/
theorem configure_fold_succ (config : Nat) (m : Manager σ) (k : Nat) :
    (List.range (k + 1)).foldl (MultiInstanceManager.configure config) m
      = MultiInstanceManager.configure config
          ((List.range k).foldl (MultiInstanceManager.configure config) m) k := by
  rw [List.range_succ, List.foldl_append]
  rfl

theorem configure_spec (config : Nat) (m : Manager σ) (i : Nat) :
    (MultiInstanceManager.configure config m i).node = m.node ∧
    (MultiInstanceManager.configure config m i).wallets = m.wallets ∧
    (MultiInstanceManager.configure config m i).activeCount = m.activeCount ∧
    instanceStarts (MultiInstanceManager.configure config m i).trace = instanceStarts m.trace ∧
    processStarts (MultiInstanceManager.configure config m i).trace = processStarts m.trace ∧
    (MultiInstanceManager.configure config m i).nextObject = m.nextObject + 1 ∧
    (MultiInstanceManager.configure config m i).nextConfig = m.nextConfig + 1 ∧
    (MultiInstanceManager.configure config m i).instances
      = mapSet (instanceIdOf i) m.nextObject m.instances ∧
    (MultiInstanceManager.configure config m i).objects
      = Function.update m.objects m.nextObject (allocatedInstance m.nextConfig i) ∧
    (MultiInstanceManager.configure config m i).configs
      = Function.update m.configs m.nextConfig (m.configs config) := by
  refine ⟨rfl, rfl, rfl, ?_, ?_, rfl, rfl, rfl, rfl, rfl⟩
  · show instanceStarts (m.trace ++ [_]) = _
    rw [instanceStarts_append]
    simp [instanceStarts]
  · show processStarts (m.trace ++ [_]) = _
    rw [processStarts_append]
    simp [processStarts]

/-- The allocation loop of `startInstances`, for at most ten iterations from a state with
an empty instance map in which the shared configuration is an object of the store. -/
theorem allocated (config : Nat) (m : Manager σ) (hconfig : config < m.nextConfig)
    (hempty : m.instances = []) (k : Nat) (hk : k ≤ 10) :
    Allocated config m k ((List.range k).foldl (MultiInstanceManager.configure config) m) := by
  induction k with
  | zero =>
    exact {
      node := rfl, wallets := rfl, activeCount := rfl, starts := rfl, processes := rfl,
      nextObject := rfl, nextConfig := rfl, instances := by simpa using hempty,
      objectsNew := fun i hi => absurd hi (Nat.not_lt_zero i),
      objectsOld := fun _ _ => rfl,
      configsNew := fun i hi => absurd hi (Nat.not_lt_zero i),
      configsOld := fun _ _ => rfl }
  | succ k ih =>
    have a := ih (by omega)
    rw [configure_fold_succ]
    obtain ⟨c1, c2, c3, c4, c5, c6, c7, c8, c9, c10⟩ := configure_spec config
      ((List.range k).foldl (MultiInstanceManager.configure config) m) k
    have hfresh : instanceIdOf k ∉
        (((List.range k).foldl (MultiInstanceManager.configure config) m).instances).map
          Prod.fst := by
      rw [a.instances, List.map_map]
      intro hmem
      rw [List.mem_map] at hmem
      obtain ⟨i, hi, heq⟩ := hmem
      rw [List.mem_range] at hi
      have := instanceIdOf_injective i k (by omega) (by omega) heq
      omega
    exact {
      node := c1.trans a.node
      wallets := c2.trans a.wallets
      activeCount := c3.trans a.activeCount
      starts := c4.trans a.starts
      processes := c5.trans a.processes
      nextObject := by rw [c6, a.nextObject]; omega
      nextConfig := by rw [c7, a.nextConfig]; omega
      instances := by
        rw [c8, mapSet_fresh _ _ _ hfresh, a.instances, a.nextObject, List.range_succ,
          List.map_append]
        rfl
      objectsNew := by
        intro i hi
        rw [c9, a.nextObject, a.nextConfig]
        by_cases hik : i = k
        · subst hik
          rw [Function.update_same]
        · rw [Function.update_noteq (by omega)]
          exact a.objectsNew i (by omega)
      objectsOld := by
        intro r hr
        rw [c9, a.nextObject, Function.update_noteq (by omega)]
        exact a.objectsOld r hr
      configsNew := by
        intro i hi
        rw [c10, a.nextConfig]
        by_cases hik : i = k
        · subst hik
          rw [Function.update_same]
          exact a.configsOld config hconfig
        · rw [Function.update_noteq (by omega)]
          exact a.configsNew i (by omega)
      configsOld := by
        intro c hc
        rw [c10, a.nextConfig, Function.update_noteq (by omega)]
        exact a.configsOld c hc }

/-- The start loop of `startInstances` calls `startClaimSession` once on each session, in
order, and changes nothing but the node and the trace. -/
theorem launch_spec (E : Env σ) (ids : List String) :
    ∀ (i : Nat) (m : Manager σ),
      instanceStarts (MultiInstanceManager.launch E ids i m).trace
        = instanceStarts m.trace ++ ids ∧
      processStarts (MultiInstanceManager.launch E ids i m).trace = processStarts m.trace ∧
      (MultiInstanceManager.launch E ids i m).instances = m.instances ∧
      (MultiInstanceManager.launch E ids i m).objects = m.objects ∧
      (MultiInstanceManager.launch E ids i m).configs = m.configs ∧
      (MultiInstanceManager.launch E ids i m).nextObject = m.nextObject ∧
      (MultiInstanceManager.launch E ids i m).nextConfig = m.nextConfig ∧
      (MultiInstanceManager.launch E ids i m).wallets = m.wallets ∧
      (MultiInstanceManager.launch E ids i m).activeCount = m.activeCount := by
  induction ids with
  | nil => intro i m; exact ⟨by simp [MultiInstanceManager.launch], rfl, rfl, rfl, rfl, rfl,
      rfl, rfl, rfl⟩
  | cons id rest ih =>
    intro i m
    unfold MultiInstanceManager.launch
    dsimp only
    obtain ⟨h1, h2, h3, h4, h5, h6, h7, h8, h9⟩ := ih (i + 1)
      ({ (if i > 0 then MultiInstanceManager.delay E 3000 m else m) with
          trace := (if i > 0 then MultiInstanceManager.delay E 3000 m else m).trace ++
            [Event.instanceStart id] } : Manager σ)
    rw [h1, h2, h3, h4, h5, h6, h7, h8, h9]
    by_cases hi : i > 0
    · rw [if_pos hi]
      refine ⟨?_, ?_, rfl, rfl, rfl, rfl, rfl, rfl, rfl⟩
      · simp [MultiInstanceManager.delay, instanceStarts_append, instanceStarts]
      · simp [MultiInstanceManager.delay, processStarts_append, processStarts]
    · rw [if_neg hi]
      refine ⟨?_, ?_, rfl, rfl, rfl, rfl, rfl, rfl, rfl⟩
      · simp [instanceStarts_append, instanceStarts]
      · simp [processStarts_append, processStarts]

/-- The pre-check in tor mode changes the node only, and finds at most as many ports as
it checks. -/
theorem checkPorts_spec (H : Host σ) (indices : List Nat) :
    ∀ (availablePorts : List Nat) (m : Manager σ),
      (∃ s, (MultiInstanceManager.checkPorts H indices availablePorts m).2
        = { m with node := s }) ∧
      (MultiInstanceManager.checkPorts H indices availablePorts m).1.length
        ≤ availablePorts.length + indices.length := by
  induction indices with
  | nil => intro av m; exact ⟨⟨m.node, rfl⟩, by simp [MultiInstanceManager.checkPorts]⟩
  | cons i rest ih =>
    intro av m
    unfold MultiInstanceManager.checkPorts
    dsimp only
    obtain ⟨⟨s, hs⟩, hl⟩ := ih
      (if (MultiInstanceManager.checkTorPort H (torPorts.getD i 0) m).1 then
        av ++ [torPorts.getD i 0] else av)
      (MultiInstanceManager.checkTorPort H (torPorts.getD i 0) m).2
    refine ⟨⟨s, ?_⟩, ?_⟩
    · rw [hs]
      rfl
    · refine Nat.le_trans hl ?_
      split <;>
        (simp only [List.length_append, List.length_cons, List.length_nil]; omega)

/-- What the part of `startInstances` after the checks does, from a state with an empty
instance map, for a count of at most ten. -/
theorem startAll_spec (E : Env σ) (H : Host σ) (count : ℚ) (config : Nat) (m : Manager σ)
    (hcount : count ≤ 10) (hconfig : config < m.nextConfig) (hempty : m.instances = []) :
    (MultiInstanceManager.startAll E H count config m).1
      = { success := true, instances := (loopIndices count).map instanceIdOf,
          count := some count } ∧
    (MultiInstanceManager.startAll E H count config m).2.activeCount = count ∧
    (MultiInstanceManager.startAll E H count config m).2.instances
      = (loopIndices count).map (fun i => (instanceIdOf i, m.nextObject + i)) ∧
    instanceStarts (MultiInstanceManager.startAll E H count config m).2.trace
      = instanceStarts m.trace ++ (loopIndices count).map instanceIdOf ∧
    processStarts (MultiInstanceManager.startAll E H count config m).2.trace
      = processStarts m.trace ∧
    (∀ i, i ∈ loopIndices count →
      (MultiInstanceManager.startAll E H count config m).2.objects (m.nextObject + i)
        = allocatedInstance (m.nextConfig + i) i) ∧
    (∀ i, i ∈ loopIndices count →
      (MultiInstanceManager.startAll E H count config m).2.configs (m.nextConfig + i)
        = m.configs config) ∧
    (∀ c, c < m.nextConfig →
      (MultiInstanceManager.startAll E H count config m).2.configs c = m.configs c) ∧
    (∀ r, r < m.nextObject →
      (MultiInstanceManager.startAll E H count config m).2.objects r = m.objects r) ∧
    (MultiInstanceManager.startAll E H count config m).2.wallets = m.wallets := by
  have hk : ⌈count⌉₊ ≤ 10 := Nat.ceil_le.mpr (by exact_mod_cast hcount)
  have a : Allocated config
      (MultiInstanceManager.log "info"
        ("Starting " ++ numberText H count ++ " parallel claim instances...")
        ({ m with
          aggregatedStats :=
            { totalClaims := 0, totalRewards := "0",
              startTime := some (H.toISOString (E.now m.node)) } } : Manager σ))
      ⌈count⌉₊
      ((loopIndices count).foldl (MultiInstanceManager.configure config)
        (MultiInstanceManager.log "info"
          ("Starting " ++ numberText H count ++ " parallel claim instances...")
          ({ m with
            aggregatedStats :=
              { totalClaims := 0, totalRewards := "0",
                startTime := some (H.toISOString (E.now m.node)) } } : Manager σ))) :=
    allocated config
      (MultiInstanceManager.log "info"
        ("Starting " ++ numberText H count ++ " parallel claim instances...")
        ({ m with
          aggregatedStats :=
            { totalClaims := 0, totalRewards := "0",
              startTime := some (H.toISOString (E.now m.node)) } } : Manager σ))
      hconfig hempty ⌈count⌉₊ hk
  obtain ⟨l1, l2, l3, l4, l5, l6, l7, l8, l9⟩ := launch_spec E
    ((loopIndices count).map instanceIdOf) 0
    ((loopIndices count).foldl (MultiInstanceManager.configure config)
      (MultiInstanceManager.log "info"
        ("Starting " ++ numberText H count ++ " parallel claim instances...")
        ({ m with
          aggregatedStats :=
            { totalClaims := 0, totalRewards := "0",
              startTime := some (H.toISOString (E.now m.node)) } } : Manager σ)))
  have hstart0 : instanceStarts (MultiInstanceManager.log "info"
      ("Starting " ++ numberText H count ++ " parallel claim instances...")
      ({ m with
        aggregatedStats :=
          { totalClaims := 0, totalRewards := "0",
            startTime := some (H.toISOString (E.now m.node)) } } : Manager σ)).trace
      = instanceStarts m.trace := by
    show instanceStarts (m.trace ++ [_]) = _
    rw [instanceStarts_append]
    simp [instanceStarts]
  have hproc0 : processStarts (MultiInstanceManager.log "info"
      ("Starting " ++ numberText H count ++ " parallel claim instances...")
      ({ m with
        aggregatedStats :=
          { totalClaims := 0, totalRewards := "0",
            startTime := some (H.toISOString (E.now m.node)) } } : Manager σ)).trace
      = processStarts m.trace := by
    show processStarts (m.trace ++ [_]) = _
    rw [processStarts_append]
    simp [processStarts]
  unfold MultiInstanceManager.startAll
  dsimp only
  refine ⟨rfl, rfl, ?_, ?_, ?_, ?_, ?_, ?_, ?_, ?_⟩
  · show (MultiInstanceManager.launch E _ 0 _).instances = _
    rw [l3]
    exact a.instances
  · show instanceStarts ((MultiInstanceManager.launch E _ 0 _).trace ++ [_]) = _
    rw [instanceStarts_append, l1, a.starts, hstart0]
    simp [instanceStarts]
  · show processStarts ((MultiInstanceManager.launch E _ 0 _).trace ++ [_]) = _
    rw [processStarts_append, l2, a.processes, hproc0]
    simp [processStarts]
  · intro i hi
    show (MultiInstanceManager.launch E _ 0 _).objects _ = _
    rw [l4]
    exact a.objectsNew i (List.mem_range.mp hi)
  · intro i hi
    show (MultiInstanceManager.launch E _ 0 _).configs _ = _
    rw [l5]
    exact a.configsNew i (List.mem_range.mp hi)
  · intro c hc
    show (MultiInstanceManager.launch E _ 0 _).configs _ = _
    rw [l5]
    exact a.configsOld c hc
  · intro r hr
    show (MultiInstanceManager.launch E _ 0 _).objects _ = _
    rw [l4]
    exact a.objectsOld r hr
  · show (MultiInstanceManager.launch E _ 0 _).wallets = _
    rw [l8]
    exact a.wallets

theorem patchLog_filters (session : Instance) (events : List Event) :
    processStarts (session.patchLog events) = processStarts events ∧
    newnymRequests (session.patchLog events) = newnymRequests events ∧
    restartCalls (session.patchLog events) = restartCalls events ∧
    instanceStarts (session.patchLog events) = instanceStarts events := by
  induction events with
  | nil => exact ⟨rfl, rfl, rfl, rfl⟩
  | cons e rest ih =>
    obtain ⟨i1, i2, i3, i4⟩ := ih
    cases e with
    | log channel level message =>
      unfold Instance.patchLog
      split
      · split <;>
          simp [processStarts, newnymRequests, restartCalls, instanceStarts, i1, i2, i3, i4]
      · simp [processStarts, newnymRequests, restartCalls, instanceStarts, i1, i2, i3, i4]
    | _ =>
      simp [Instance.patchLog, processStarts, newnymRequests, restartCalls, instanceStarts,
        i1, i2, i3, i4]

/-- What running a method of a session leaves alone in the orchestrator: the instance
map, `activeCount`, the other sessions. -/
theorem run_frame (ref : Nat) (method : World σ → World σ) (m : Manager σ) :
    (Manager.run ref method m).instances = m.instances ∧
    (Manager.run ref method m).activeCount = m.activeCount ∧
    (Manager.run ref method m).nextObject = m.nextObject ∧
    (Manager.run ref method m).nextConfig = m.nextConfig ∧
    (∀ other, other ≠ ref → (Manager.run ref method m).objects other = m.objects other) ∧
    (Manager.run ref method m).objects ref
      = { m.objects ref with
          isRunning := (method (m.view ref)).isRunning
          isPaused := (method (m.view ref)).isPaused
          autoRestartEnabled := (method (m.view ref)).autoRestartEnabled
          sessionStats := (method (m.view ref)).sessionStats
          claimWallet := (method (m.view ref)).claimWallet
          browserOpen := (method (m.view ref)).browserOpen
          usedTorIPs := (method (m.view ref)).usedTorIPs
          usedUserAgents := (method (m.view ref)).usedUserAgents
          torSocksPort := (method (m.view ref)).torSocksPort
          torControlPort := (method (m.view ref)).torControlPort } := by
  refine ⟨rfl, rfl, rfl, rfl, ?_, ?_⟩
  · intro other hne
    show Function.update m.objects ref _ other = _
    rw [Function.update_noteq hne]
  · show Function.update m.objects ref _ ref = _
    rw [Function.update_same]

theorem disableAutoRestart_frame (ref : Nat) (m : Manager σ) :
    (Manager.disableAutoRestart ref m).instances = m.instances ∧
    (Manager.disableAutoRestart ref m).activeCount = m.activeCount ∧
    (Manager.disableAutoRestart ref m).trace = m.trace ∧
    ((Manager.disableAutoRestart ref m).objects ref).autoRestartEnabled = false ∧
    (∀ other, other ≠ ref →
      (Manager.disableAutoRestart ref m).objects other = m.objects other) := by
  refine ⟨rfl, rfl, rfl, ?_, ?_⟩
  · show (Function.update m.objects ref _ ref).autoRestartEnabled = false
    rw [Function.update_same]
  · intro other hne
    show Function.update m.objects ref _ other = _
    rw [Function.update_noteq hne]

theorem scheduleAutoRestart_disabled (E : Env σ) (L : Lib) (H : Host σ) (delayMs : Nat)
    (w : World σ) (h : w.autoRestartEnabled = false) :
    FaucetSentry.scheduleAutoRestart E L H delayMs w
      = FaucetSentry.log "info" "Auto-restart was disabled during wait, not restarting."
          (FaucetSentry.delay E delayMs w) := by
  unfold FaucetSentry.scheduleAutoRestart
  dsimp only
  have : (FaucetSentry.delay E delayMs w).autoRestartEnabled = false := h
  rw [this]
  rfl

/-- A `scheduleAutoRestart` that runs on a session of the orchestrator whose auto-restart
is off sleeps, writes one log entry and returns: it starts no claim process, requests no
new identity, schedules nothing, and the session is as it was. -/
theorem run_schedule_disabled (E : Env σ) (L : Lib) (H : Host σ) (delayMs : Nat) (ref : Nat)
    (m : Manager σ) (h : (m.objects ref).autoRestartEnabled = false) :
    processStarts (Manager.run ref (FaucetSentry.scheduleAutoRestart E L H delayMs) m).trace
      = processStarts m.trace ∧
    newnymRequests (Manager.run ref (FaucetSentry.scheduleAutoRestart E L H delayMs) m).trace
      = newnymRequests m.trace ∧
    restartCalls (Manager.run ref (FaucetSentry.scheduleAutoRestart E L H delayMs) m).trace
      = restartCalls m.trace ∧
    instanceStarts (Manager.run ref (FaucetSentry.scheduleAutoRestart E L H delayMs) m).trace
      = instanceStarts m.trace ∧
    ((Manager.run ref (FaucetSentry.scheduleAutoRestart E L H delayMs) m).objects ref).isRunning
      = (m.objects ref).isRunning ∧
    ((Manager.run ref (FaucetSentry.scheduleAutoRestart E L H delayMs)
      m).objects ref).sessionStats = (m.objects ref).sessionStats ∧
    (Manager.run ref (FaucetSentry.scheduleAutoRestart E L H delayMs) m).instances
      = m.instances := by
  have hv : (m.view ref).autoRestartEnabled = false := h
  have heq := scheduleAutoRestart_disabled E L H delayMs (m.view ref) hv
  obtain ⟨r1, -, -, -, -, r6⟩ := run_frame ref (FaucetSentry.scheduleAutoRestart E L H delayMs) m
  have htrace : (Manager.run ref (FaucetSentry.scheduleAutoRestart E L H delayMs) m).trace
      = m.trace ++ (m.objects ref).patchLog
          [Event.delay delayMs,
           Event.log "faucet-log" "info"
             "Auto-restart was disabled during wait, not restarting."] := by
    show m.trace ++ (m.objects ref).patchLog
      ((FaucetSentry.scheduleAutoRestart E L H delayMs (m.view ref)).trace.drop
        m.trace.length) = _
    rw [heq]
    show m.trace ++ (m.objects ref).patchLog
      (((m.trace ++ [Event.delay delayMs]) ++ [_]).drop m.trace.length) = _
    rw [List.append_assoc, List.drop_left]
    rfl
  obtain ⟨p1, p2, p3, p4⟩ := patchLog_filters (m.objects ref)
    [Event.delay delayMs,
     Event.log "faucet-log" "info" "Auto-restart was disabled during wait, not restarting."]
  refine ⟨?_, ?_, ?_, ?_, ?_, ?_, r1⟩
  · rw [htrace, processStarts_append, p1]
    rfl
  · rw [htrace, newnymRequests_append, p2]
    simp [newnymRequests]
  · rw [htrace, restartCalls_append, p3]
    simp [restartCalls]
  · rw [htrace, instanceStarts_append, p4]
    simp [instanceStarts]
  · rw [r6, heq]
    rfl
  · rw [r6, heq]
    rfl

/-! ## Stopping sessions of the orchestrator -/

theorem runSegments_nil {α : Type} (a : α) : runSegments ([] : List (α → α)) a = a := rfl

theorem runSegments_cons {α : Type} (segment : α → α) (segments : List (α → α)) (a : α) :
    runSegments (segment :: segments) a = runSegments segments (segment a) := rfl

theorem runSegments_append {α : Type} (xs ys : List (α → α)) (a : α) :
    runSegments (xs ++ ys) a = runSegments ys (runSegments xs a) := by
  unfold runSegments
  rw [List.foldl_append]

theorem runSegments_invariant {α : Type} (I : α → Prop) (segments : List (α → α))
    (h : ∀ segment ∈ segments, ∀ a, I a → I (segment a)) :
    ∀ a, I a → I (runSegments segments a) := by
  induction segments with
  | nil => intro a ha; exact ha
  | cons segment rest ih =>
    intro a ha
    rw [runSegments_cons]
    exact ih (fun s hs => h s (List.mem_cons_of_mem _ hs)) _
      (h segment (List.mem_cons_self _ _) a ha)

/-- A property that one of the segments establishes and all of them keep holds at the
end. -/
theorem runSegments_established {α : Type} (J : α → Prop) (segments : List (α → α))
    (e : α → α) (he : e ∈ segments) (hest : ∀ a, J (e a))
    (hkeep : ∀ segment ∈ segments, ∀ a, J a → J (segment a)) :
    ∀ a, J (runSegments segments a) := by
  induction segments with
  | nil => cases he
  | cons segment rest ih =>
    intro a
    rw [runSegments_cons]
    rcases List.mem_cons.mp he with h | h
    · subst h
      exact runSegments_invariant J rest (fun s hs => hkeep s (List.mem_cons_of_mem _ hs)) _
        (hest a)
    · exact ih h (fun s hs => hkeep s (List.mem_cons_of_mem _ hs)) _

theorem runSegments_take_succ {α : Type} (segments : List (α → α)) (position : Nat)
    (segment : α → α) (h : segments[position]? = some segment) (a : α) :
    runSegments (segments.take (position + 1)) a
      = segment (runSegments (segments.take position) a) := by
  rw [List.take_succ, h, runSegments_append]
  rfl

theorem runSegments_take_add {α : Type} (segments : List (α → α)) (position more : Nat)
    (a : α) :
    runSegments (segments.take (position + more)) a
      = runSegments ((segments.drop position).take more)
          (runSegments (segments.take position) a) := by
  rw [List.take_add, runSegments_append]

/-- An event at a cut of a method that ends with the segment `last`: either `last` runs
after it, or it runs after the whole method. -/
theorem runSegmentsWith_last {α : Type} (middle : List (α → α)) (last : α → α) (position : Nat)
    (event : α → α) (a : α) (hp : position ≤ middle.length + 1) :
    runSegmentsWith (middle ++ [last]) position event a
      = if position ≤ middle.length then last (runSegmentsWith middle position event a)
        else event (last (runSegments middle a)) := by
  unfold runSegmentsWith
  by_cases h : position ≤ middle.length
  · rw [if_pos h, List.take_append_of_le_length h, List.drop_append_of_le_length h,
      runSegments_append]
    rfl
  · have hlen : (middle ++ [last]).length ≤ position := by
      simp only [List.length_append, List.length_singleton]
      omega
    rw [if_neg h, List.take_of_length_le hlen, List.drop_of_length_le hlen, runSegments_append]
    rfl

theorem stopSessionBegin_isRunning (w : World σ) :
    (FaucetSentry.stopSessionBegin w).isRunning = false := by
  unfold FaucetSentry.stopSessionBegin FaucetSentry.deleteTemporaryClaimWallet
  dsimp only
  split <;> rfl

theorem stopSessionBegin_stopping :
    Stopping (FaucetSentry.stopSessionBegin : World σ → World σ) := by
  intro w
  refine ⟨?_, fun _ => stopSessionBegin_isRunning w, ?_⟩
  · unfold FaucetSentry.stopSessionBegin FaucetSentry.deleteTemporaryClaimWallet
    dsimp only
    split <;> rfl
  · unfold FaucetSentry.stopSessionBegin FaucetSentry.deleteTemporaryClaimWallet
    dsimp only
    split
    · next claimWallet heq =>
      exact ⟨[Event.log "faucet-log" "info" "Stopping claim session...",
        Event.log "faucet-log" "info"
          ("Deleting temporary claim wallet: " ++ claimWallet.address.take 20 ++ "...")],
        by simp [FaucetSentry.log, emit], rfl, rfl⟩
    · exact ⟨[Event.log "faucet-log" "info" "Stopping claim session..."], rfl, rfl, rfl⟩

theorem cleanupBegin_stopping : Stopping (FaucetSentry.cleanupBegin : World σ → World σ) := by
  intro w
  exact ⟨rfl, fun _ => rfl, [], by simp [FaucetSentry.cleanupBegin], rfl, rfl⟩

theorem cleanupEnd_stopping (B : Browser σ) : Stopping (FaucetSentry.cleanupEnd B) := by
  intro w
  unfold FaucetSentry.cleanupEnd
  dsimp only
  split
  · exact ⟨rfl, fun h => h, [_], rfl, rfl, rfl⟩
  · exact ⟨rfl, fun h => h, [_], rfl, rfl, rfl⟩

theorem stopSessionEnd_stopping :
    Stopping (FaucetSentry.stopSessionEnd : World σ → World σ) := by
  intro w
  exact ⟨rfl, fun h => h, [Event.status "stopped", Event.faucetStatus "stopped" w.isRunning], by
    simp [FaucetSentry.stopSessionEnd, FaucetSentry.emitStatus, FaucetSentry.setStatus, emit],
    rfl, rfl⟩

theorem stopSessionRest_stopping (B : Browser σ) :
    ∀ segment ∈ FaucetSentry.stopSessionRest B, Stopping segment := by
  intro segment h
  simp only [FaucetSentry.stopSessionRest, List.mem_cons, List.mem_singleton,
    List.not_mem_nil, or_false] at h
  rcases h with rfl | rfl | rfl
  · exact cleanupBegin_stopping
  · exact cleanupEnd_stopping B
  · exact stopSessionEnd_stopping

/-- The method `stopSession` is its segments run one after the other. -/
theorem stopSession_segments (B : Browser σ) (w : World σ) :
    FaucetSentry.stopSession B w
      = runSegments (FaucetSentry.stopSessionBegin :: FaucetSentry.stopSessionRest B) w := rfl

theorem run_trace (ref : Nat) (method : World σ → World σ) (m : Manager σ) (evs : List Event)
    (h : (method (m.view ref)).trace = m.trace ++ evs) :
    (Manager.run ref method m).trace = m.trace ++ (m.objects ref).patchLog evs := by
  show m.trace ++ (m.objects ref).patchLog ((method (m.view ref)).trace.drop m.trace.length) = _
  rw [h, List.drop_left]

theorem stopLike_run (ref r : Nat) (method : World σ → World σ) (h : Stopping method) :
    StopLike ref (Manager.run r method) := by
  intro m
  obtain ⟨h1, h2, evs, h3, h4, h5⟩ := h (m.view r)
  obtain ⟨-, -, -, -, r5, r6⟩ := run_frame r method m
  obtain ⟨p1, p2, -, -⟩ := patchLog_filters (m.objects r) evs
  have htrace := run_trace r method m evs h3
  refine ⟨?_, ?_, ?_, ?_⟩
  · intro a1
    by_cases hr : ref = r
    · subst hr
      rw [r6]
      show (method (m.view ref)).autoRestartEnabled = false
      rw [h1]
      exact a1
    · rw [r5 ref hr]
      exact a1
  · intro a2
    by_cases hr : ref = r
    · subst hr
      rw [r6]
      exact h2 a2
    · rw [r5 ref hr]
      exact a2
  · rw [htrace, processStarts_append, p1, h4, Nat.add_zero]
  · rw [htrace, newnymRequests_append, p2, h5, List.append_nil]

theorem stopLike_disable (ref r : Nat) :
    StopLike ref (Manager.disableAutoRestart r : Manager σ → Manager σ) := by
  intro m
  obtain ⟨-, -, d3, d4, d5⟩ := disableAutoRestart_frame r m
  refine ⟨?_, ?_, by rw [d3], by rw [d3]⟩
  · intro a1
    by_cases hr : ref = r
    · subst hr
      exact d4
    · rw [d5 ref hr]
      exact a1
  · intro a2
    by_cases hr : ref = r
    · subst hr
      show (Function.update m.objects ref _ ref).isRunning = false
      rw [Function.update_same]
      exact a2
    · rw [d5 ref hr]
      exact a2

theorem stopLike_log (ref : Nat) (level message : String) :
    StopLike ref (MultiInstanceManager.log level message : Manager σ → Manager σ) := by
  intro m
  refine ⟨fun h => h, fun h => h, ?_, ?_⟩
  · show processStarts (m.trace ++ [_]) = _
    rw [processStarts_append]
    rfl
  · show newnymRequests (m.trace ++ [_]) = _
    rw [newnymRequests_append]
    simp [newnymRequests]

theorem stopLike_stopInstanceEnd (ref : Nat) (instanceId : String) :
    StopLike ref (MultiInstanceManager.stopInstanceEnd instanceId : Manager σ → Manager σ) := by
  intro m
  refine ⟨fun h => h, fun h => h, ?_, ?_⟩
  · show processStarts (m.trace ++ [_]) = _
    rw [processStarts_append]
    rfl
  · show newnymRequests (m.trace ++ [_]) = _
    rw [newnymRequests_append]
    simp [newnymRequests]

theorem stopLike_stopAllEnd (ref : Nat) :
    StopLike ref (MultiInstanceManager.stopAllEnd : Manager σ → Manager σ) := by
  intro m
  refine ⟨fun h => h, fun h => h, ?_, ?_⟩
  · show processStarts ((m.trace ++ [_]) ++ [_]) = _
    rw [processStarts_append, processStarts_append]
    rfl
  · show newnymRequests ((m.trace ++ [_]) ++ [_]) = _
    rw [newnymRequests_append, newnymRequests_append]
    simp [newnymRequests]

theorem stopLike_stopCall (ref r : Nat) :
    ∀ segment ∈ (MultiInstanceManager.stopCall r : List (Manager σ → Manager σ)),
      StopLike ref segment := by
  intro segment h
  simp only [MultiInstanceManager.stopCall, List.mem_cons, List.mem_singleton,
    List.not_mem_nil, or_false] at h
  rcases h with rfl | rfl
  · exact stopLike_disable ref r
  · exact stopLike_run ref r _ stopSessionBegin_stopping

theorem stopLike_rest (B : Browser σ) (ref r : Nat) :
    ∀ segment ∈ (FaucetSentry.stopSessionRest B).map (Manager.run r), StopLike ref segment := by
  intro segment hs
  obtain ⟨method, hm, rfl⟩ := List.mem_map.mp hs
  exact stopLike_run ref r method (stopSessionRest_stopping B method hm)

theorem stopLike_stopInstanceSegments (B : Browser σ) (instanceId : String) (ref r : Nat) :
    ∀ segment ∈ MultiInstanceManager.stopInstanceSegments B instanceId r,
      StopLike ref segment := by
  intro segment hs
  unfold MultiInstanceManager.stopInstanceSegments at hs
  rcases List.mem_append.mp hs with h | h
  · exact stopLike_stopCall ref r segment h
  · rcases List.mem_append.mp h with h | h
    · exact stopLike_rest B ref r segment h
    · rw [List.mem_singleton.mp h]
      exact stopLike_stopInstanceEnd ref instanceId

theorem stopLike_stopAllSegments (B : Browser σ) (entries : List (String × Nat)) (ref : Nat) :
    ∀ segment ∈ MultiInstanceManager.stopAllSegments B entries, StopLike ref segment := by
  intro segment hs
  unfold MultiInstanceManager.stopAllSegments at hs
  rcases List.mem_cons.mp hs with h | h
  · rw [h]
    exact stopLike_log ref _ _
  · rcases List.mem_append.mp h with h | h
    · obtain ⟨entry, -, he⟩ := List.mem_flatMap.mp h
      exact stopLike_stopCall ref entry.2 segment he
    · rcases List.mem_append.mp h with h | h
      · obtain ⟨entry, -, he⟩ := List.mem_flatMap.mp h
        exact stopLike_rest B ref entry.2 segment he
      · rw [List.mem_singleton.mp h]
        exact stopLike_stopAllEnd ref

/-- The timer of `scheduleAutoRestart` on a session whose flag is off: the flag stays
off, the session is as running as it was, no claim process is started and no new identity
requested. -/
theorem timer_off (E : Env σ) (L : Lib) (H : Host σ) (delayMs : Nat) (ref : Nat)
    (m : Manager σ) (h : (m.objects ref).autoRestartEnabled = false) :
    ((Manager.run ref (FaucetSentry.scheduleAutoRestart E L H delayMs) m).objects
      ref).autoRestartEnabled = false ∧
    ((Manager.run ref (FaucetSentry.scheduleAutoRestart E L H delayMs) m).objects ref).isRunning
      = (m.objects ref).isRunning ∧
    processStarts (Manager.run ref (FaucetSentry.scheduleAutoRestart E L H delayMs) m).trace
      = processStarts m.trace ∧
    newnymRequests (Manager.run ref (FaucetSentry.scheduleAutoRestart E L H delayMs) m).trace
      = newnymRequests m.trace := by
  obtain ⟨p1, p2, -, -, p5, -, -⟩ := run_schedule_disabled E L H delayMs ref m h
  obtain ⟨-, -, -, -, -, r6⟩ := run_frame ref (FaucetSentry.scheduleAutoRestart E L H delayMs) m
  refine ⟨?_, p5, p1, p2⟩
  rw [r6, scheduleAutoRestart_disabled E L H delayMs (m.view ref) h]
  exact h

/-- Once the flag of a session is off at a cut of a stop, it is off at every later cut. -/
theorem flag_stays_off (ref : Nat) (segments : List (Manager σ → Manager σ))
    (hsegs : ∀ segment ∈ segments, StopLike ref segment) (m : Manager σ)
    (position later : Nat) (hle : position ≤ later)
    (hflag : ((runSegments (segments.take position) m).objects ref).autoRestartEnabled = false) :
    ((runSegments (segments.take later) m).objects ref).autoRestartEnabled = false := by
  obtain ⟨more, rfl⟩ : ∃ more, later = position + more := ⟨later - position, by omega⟩
  rw [runSegments_take_add]
  exact runSegments_invariant (fun a : Manager σ => (a.objects ref).autoRestartEnabled = false) _
    (fun s hs a ha => (hsegs s (List.mem_of_mem_drop (List.mem_of_mem_take hs)) a).1 ha) _ hflag

/-- A stop with the timer of `scheduleAutoRestart` of the session `ref` running at a cut
at which the flag of the session is off: no claim process is started and no new identity
requested up to the end of the stop, and at the end the flag is off and the session is not
running. -/
theorem stop_race (E : Env σ) (L : Lib) (H : Host σ) (delayMs : Nat) (ref : Nat)
    (segments : List (Manager σ → Manager σ))
    (hsegs : ∀ segment ∈ segments, StopLike ref segment)
    (hest : ∃ e ∈ segments, ∀ a : Manager σ, ((e a).objects ref).isRunning = false)
    (m : Manager σ) (position : Nat)
    (hflag : ((runSegments (segments.take position) m).objects ref).autoRestartEnabled = false) :
    processStarts (runSegmentsWith segments position
        (Manager.run ref (FaucetSentry.scheduleAutoRestart E L H delayMs)) m).trace
      = processStarts m.trace ∧
    newnymRequests (runSegmentsWith segments position
        (Manager.run ref (FaucetSentry.scheduleAutoRestart E L H delayMs)) m).trace
      = newnymRequests m.trace ∧
    ((runSegmentsWith segments position
        (Manager.run ref (FaucetSentry.scheduleAutoRestart E L H delayMs)) m).objects
      ref).autoRestartEnabled = false ∧
    ((runSegmentsWith segments position
        (Manager.run ref (FaucetSentry.scheduleAutoRestart E L H delayMs)) m).objects
      ref).isRunning = false := by
  have htake : ∀ s ∈ segments.take position, StopLike ref s :=
    fun s hs => hsegs s (List.mem_of_mem_take hs)
  have hdrop : ∀ s ∈ segments.drop position, StopLike ref s :=
    fun s hs => hsegs s (List.mem_of_mem_drop hs)
  have hcount := runSegments_invariant
    (fun a : Manager σ => processStarts a.trace = processStarts m.trace ∧
      newnymRequests a.trace = newnymRequests m.trace) (segments.take position)
    (fun s hs a ha => ⟨(htake s hs a).2.2.1.trans ha.1, (htake s hs a).2.2.2.trans ha.2⟩)
    m ⟨rfl, rfl⟩
  obtain ⟨t1, t2, t3, t4⟩ := timer_off E L H delayMs ref _ hflag
  have hfinal := runSegments_invariant
    (fun a : Manager σ => (a.objects ref).autoRestartEnabled = false ∧
      processStarts a.trace = processStarts m.trace ∧
      newnymRequests a.trace = newnymRequests m.trace) (segments.drop position)
    (fun s hs a ha => ⟨(hdrop s hs a).1 ha.1, (hdrop s hs a).2.2.1.trans ha.2.1,
      (hdrop s hs a).2.2.2.trans ha.2.2⟩)
    _ ⟨t1, t3.trans hcount.1, t4.trans hcount.2⟩
  refine ⟨hfinal.2.1, hfinal.2.2, hfinal.1, ?_⟩
  obtain ⟨e, he, hest⟩ := hest
  rw [← List.take_append_drop position segments] at he
  unfold runSegmentsWith
  rcases List.mem_append.mp he with h | h
  · have hb := runSegments_established
      (fun a : Manager σ => (a.objects ref).isRunning = false) (segments.take position) e h hest
      (fun s hs a ha => (htake s hs a).2.1 ha) m
    exact runSegments_invariant (fun a : Manager σ => (a.objects ref).isRunning = false) _
      (fun s hs a ha => (hdrop s hs a).2.1 ha) _ (t2.trans hb)
  · exact runSegments_established
      (fun a : Manager σ => (a.objects ref).isRunning = false) (segments.drop position) e h hest
      (fun s hs a ha => (hdrop s hs a).2.1 ha) _

/-- The instance map during a stop with a timer: every segment but the last leaves the map
and `activeCount` alone, and so does the timer. -/
theorem stop_race_map (E : Env σ) (L : Lib) (H : Host σ) (delayMs : Nat) (ref : Nat)
    (body : List (Manager σ → Manager σ)) (last : Manager σ → Manager σ)
    (hbody : ∀ segment ∈ body, ∀ a : Manager σ,
      (segment a).instances = a.instances ∧ (segment a).activeCount = a.activeCount)
    (m : Manager σ) (position : Nat) (hp : position ≤ (body ++ [last]).length) :
    ∃ a : Manager σ, a.instances = m.instances ∧ a.activeCount = m.activeCount ∧
      (runSegmentsWith (body ++ [last]) position
          (Manager.run ref (FaucetSentry.scheduleAutoRestart E L H delayMs)) m).instances
        = (last a).instances ∧
      (runSegmentsWith (body ++ [last]) position
          (Manager.run ref (FaucetSentry.scheduleAutoRestart E L H delayMs)) m).activeCount
        = (last a).activeCount := by
  have hp2 : position ≤ body.length + 1 := by
    simpa only [List.length_append, List.length_singleton] using hp
  rw [runSegmentsWith_last body last position _ m hp2]
  have htimer : ∀ a : Manager σ,
      (Manager.run ref (FaucetSentry.scheduleAutoRestart E L H delayMs) a).instances
        = a.instances ∧
      (Manager.run ref (FaucetSentry.scheduleAutoRestart E L H delayMs) a).activeCount
        = a.activeCount := by
    intro a
    obtain ⟨r1, r2, -⟩ := run_frame ref (FaucetSentry.scheduleAutoRestart E L H delayMs) a
    exact ⟨r1, r2⟩
  by_cases h : position ≤ body.length
  · rw [if_pos h]
    refine ⟨_, ?_, ?_, rfl, rfl⟩
    · unfold runSegmentsWith
      have h1 := runSegments_invariant
        (fun a : Manager σ => a.instances = m.instances ∧ a.activeCount = m.activeCount)
        (body.take position)
        (fun s hs a ha => ⟨(hbody s (List.mem_of_mem_take hs) a).1.trans ha.1,
          (hbody s (List.mem_of_mem_take hs) a).2.trans ha.2⟩) m ⟨rfl, rfl⟩
      exact (runSegments_invariant
        (fun a : Manager σ => a.instances = m.instances ∧ a.activeCount = m.activeCount)
        (body.drop position)
        (fun s hs a ha => ⟨(hbody s (List.mem_of_mem_drop hs) a).1.trans ha.1,
          (hbody s (List.mem_of_mem_drop hs) a).2.trans ha.2⟩) _
        ⟨(htimer _).1.trans h1.1, (htimer _).2.trans h1.2⟩).1
    · unfold runSegmentsWith
      have h1 := runSegments_invariant
        (fun a : Manager σ => a.instances = m.instances ∧ a.activeCount = m.activeCount)
        (body.take position)
        (fun s hs a ha => ⟨(hbody s (List.mem_of_mem_take hs) a).1.trans ha.1,
          (hbody s (List.mem_of_mem_take hs) a).2.trans ha.2⟩) m ⟨rfl, rfl⟩
      exact (runSegments_invariant
        (fun a : Manager σ => a.instances = m.instances ∧ a.activeCount = m.activeCount)
        (body.drop position)
        (fun s hs a ha => ⟨(hbody s (List.mem_of_mem_drop hs) a).1.trans ha.1,
          (hbody s (List.mem_of_mem_drop hs) a).2.trans ha.2⟩) _
        ⟨(htimer _).1.trans h1.1, (htimer _).2.trans h1.2⟩).2
  · rw [if_neg h]
    have h1 := runSegments_invariant
      (fun a : Manager σ => a.instances = m.instances ∧ a.activeCount = m.activeCount) body
      (fun s hs a ha => ⟨(hbody s hs a).1.trans ha.1, (hbody s hs a).2.trans ha.2⟩) m ⟨rfl, rfl⟩
    exact ⟨_, h1.1, h1.2, (htimer _).1, (htimer _).2⟩

theorem keepsMap_stopCall (r : Nat) :
    ∀ segment ∈ (MultiInstanceManager.stopCall r : List (Manager σ → Manager σ)),
      ∀ a : Manager σ,
        (segment a).instances = a.instances ∧ (segment a).activeCount = a.activeCount := by
  intro segment h a
  simp only [MultiInstanceManager.stopCall, List.mem_cons, List.mem_singleton,
    List.not_mem_nil, or_false] at h
  rcases h with rfl | rfl
  · exact ⟨rfl, rfl⟩
  · exact ⟨rfl, rfl⟩

theorem keepsMap_rest (B : Browser σ) (r : Nat) :
    ∀ segment ∈ (FaucetSentry.stopSessionRest B).map (Manager.run r), ∀ a : Manager σ,
      (segment a).instances = a.instances ∧ (segment a).activeCount = a.activeCount := by
  intro segment hs a
  obtain ⟨method, -, rfl⟩ := List.mem_map.mp hs
  exact ⟨rfl, rfl⟩

theorem stopInstance_found (B : Browser σ) (instanceId : String) (m : Manager σ) (ref : Nat)
    (h : m.instances.lookup instanceId = some ref) :
    MultiInstanceManager.stopInstance B instanceId m
      = ({ success := true },
          runSegments (MultiInstanceManager.stopInstanceSegments B instanceId ref) m) := by
  unfold MultiInstanceManager.stopInstance
  rw [h]

theorem stopInstance_missing (B : Browser σ) (instanceId : String) (m : Manager σ)
    (h : m.instances.lookup instanceId = none) :
    MultiInstanceManager.stopInstance B instanceId m
      = ({ success := false, error := some "Instance not found" }, m) := by
  unfold MultiInstanceManager.stopInstance
  rw [h]

theorem begin_establishes (ref : Nat) (a : Manager σ) :
    ((Manager.run ref FaucetSentry.stopSessionBegin a).objects ref).isRunning = false := by
  rw [(run_frame ref FaucetSentry.stopSessionBegin a).2.2.2.2.2]
  exact stopSessionBegin_isRunning _

theorem disable_establishes (ref : Nat) (a : Manager σ) :
    ((Manager.disableAutoRestart ref a).objects ref).autoRestartEnabled = false :=
  (disableAutoRestart_frame ref a).2.2.2.1

/-- What `stopInstance` does for an id of the map. -/
theorem stopInstance_spec (B : Browser σ) (instanceId : String) (m : Manager σ) (ref : Nat)
    (h : m.instances.lookup instanceId = some ref) :
    (MultiInstanceManager.stopInstance B instanceId m).1 = { success := true } ∧
    ((MultiInstanceManager.stopInstance B instanceId m).2.objects ref).autoRestartEnabled
      = false ∧
    ((MultiInstanceManager.stopInstance B instanceId m).2.objects ref).isRunning = false ∧
    (MultiInstanceManager.stopInstance B instanceId m).2.instances
      = mapDelete instanceId m.instances ∧
    (MultiInstanceManager.stopInstance B instanceId m).2.activeCount
      = ((mapDelete instanceId m.instances).length : ℚ) ∧
    (∀ other, other ≠ ref →
      (MultiInstanceManager.stopInstance B instanceId m).2.objects other = m.objects other) := by
  rw [stopInstance_found B instanceId m ref h]
  dsimp only
  have hlike := stopLike_stopInstanceSegments B instanceId ref ref
  have hflag := runSegments_established
    (fun a : Manager σ => (a.objects ref).autoRestartEnabled = false)
    (MultiInstanceManager.stopInstanceSegments B instanceId ref)
    (Manager.disableAutoRestart ref)
    (by simp [MultiInstanceManager.stopInstanceSegments, MultiInstanceManager.stopCall])
    (disable_establishes ref) (fun s hs a ha => (hlike s hs a).1 ha) m
  have hrun := runSegments_established
    (fun a : Manager σ => (a.objects ref).isRunning = false)
    (MultiInstanceManager.stopInstanceSegments B instanceId ref)
    (Manager.run ref FaucetSentry.stopSessionBegin)
    (by simp [MultiInstanceManager.stopInstanceSegments, MultiInstanceManager.stopCall])
    (begin_establishes ref) (fun s hs a ha => (hlike s hs a).2.1 ha) m
  have hsplit : runSegments (MultiInstanceManager.stopInstanceSegments B instanceId ref) m
      = MultiInstanceManager.stopInstanceEnd instanceId
          (runSegments (MultiInstanceManager.stopCall ref ++
            (FaucetSentry.stopSessionRest B).map (Manager.run ref)) m) := by
    unfold MultiInstanceManager.stopInstanceSegments
    rw [← List.append_assoc, runSegments_append]
    rfl
  have hbody := runSegments_invariant
    (fun a : Manager σ => a.instances = m.instances ∧
      ∀ other, other ≠ ref → a.objects other = m.objects other)
    (MultiInstanceManager.stopCall ref ++ (FaucetSentry.stopSessionRest B).map (Manager.run ref))
    (by
      intro segment hs a ha
      rcases List.mem_append.mp hs with h1 | h1
      · simp only [MultiInstanceManager.stopCall, List.mem_cons, List.mem_singleton,
          List.not_mem_nil, or_false] at h1
        rcases h1 with rfl | rfl
        · exact ⟨ha.1, fun other hne =>
            ((disableAutoRestart_frame ref a).2.2.2.2 other hne).trans (ha.2 other hne)⟩
        · exact ⟨ha.1, fun other hne =>
            ((run_frame ref _ a).2.2.2.2.1 other hne).trans (ha.2 other hne)⟩
      · obtain ⟨method, -, rfl⟩ := List.mem_map.mp h1
        exact ⟨ha.1, fun other hne =>
          ((run_frame ref method a).2.2.2.2.1 other hne).trans (ha.2 other hne)⟩)
    m ⟨rfl, fun _ _ => rfl⟩
  refine ⟨rfl, hflag, hrun, ?_, ?_, ?_⟩
  · rw [hsplit]
    exact congrArg (mapDelete instanceId) hbody.1
  · rw [hsplit]
    exact congrArg (fun entries => ((mapDelete instanceId entries).length : ℚ)) hbody.1
  · rw [hsplit]
    exact hbody.2

theorem stopAll_mem (B : Browser σ) (entries : List (String × Nat)) (ref : Nat)
    (href : ref ∈ entries.map Prod.snd) :
    (Manager.disableAutoRestart ref : Manager σ → Manager σ)
      ∈ MultiInstanceManager.stopAllSegments B entries ∧
    (Manager.run ref FaucetSentry.stopSessionBegin : Manager σ → Manager σ)
      ∈ MultiInstanceManager.stopAllSegments B entries := by
  obtain ⟨entry, hmem, rfl⟩ := List.mem_map.mp href
  unfold MultiInstanceManager.stopAllSegments
  constructor
  · refine List.mem_cons_of_mem _ (List.mem_append_left _ (List.mem_flatMap.mpr ⟨entry, hmem, ?_⟩))
    simp [MultiInstanceManager.stopCall]
  · refine List.mem_cons_of_mem _ (List.mem_append_left _ (List.mem_flatMap.mpr ⟨entry, hmem, ?_⟩))
    simp [MultiInstanceManager.stopCall]

theorem stopAll_found (B : Browser σ) (m : Manager σ) (h : m.instances ≠ []) :
    (MultiInstanceManager.stopAllInstances B m).2
      = runSegments (MultiInstanceManager.stopAllSegments B m.instances) m := by
  unfold MultiInstanceManager.stopAllInstances
  rw [if_neg (fun hz => h (List.length_eq_zero.mp hz))]

theorem stopAll_split (B : Browser σ) (entries : List (String × Nat)) :
    MultiInstanceManager.stopAllSegments B entries
      = (MultiInstanceManager.log "info" "Stopping all instances..." ::
          ((entries.flatMap fun entry => MultiInstanceManager.stopCall entry.2) ++
            (entries.flatMap fun entry =>
              (FaucetSentry.stopSessionRest B).map (Manager.run entry.2)))) ++
        [MultiInstanceManager.stopAllEnd] := by
  unfold MultiInstanceManager.stopAllSegments
  simp

theorem stopInstance_split (B : Browser σ) (instanceId : String) (ref : Nat) :
    MultiInstanceManager.stopInstanceSegments B instanceId ref
      = (MultiInstanceManager.stopCall ref ++
          (FaucetSentry.stopSessionRest B).map (Manager.run ref)) ++
        [MultiInstanceManager.stopInstanceEnd instanceId] := by
  unfold MultiInstanceManager.stopInstanceSegments
  simp

/-- What `stopAllInstances` does. -/
theorem stopAllInstances_spec (B : Browser σ) (m : Manager σ) :
    (MultiInstanceManager.stopAllInstances B m).1.success = true ∧
    (MultiInstanceManager.stopAllInstances B m).2.instances = [] ∧
    (m.instances = [] → (MultiInstanceManager.stopAllInstances B m).2 = m) ∧
    (m.instances ≠ [] → (MultiInstanceManager.stopAllInstances B m).2.activeCount = 0) ∧
    (∀ ref, ref ∈ m.instances.map Prod.snd →
      ((MultiInstanceManager.stopAllInstances B m).2.objects ref).autoRestartEnabled = false ∧
      ((MultiInstanceManager.stopAllInstances B m).2.objects ref).isRunning = false) := by
  by_cases hnil : m.instances = []
  · have hz : m.instances.length = 0 := by rw [hnil]; rfl
    unfold MultiInstanceManager.stopAllInstances
    rw [if_pos hz]
    refine ⟨rfl, hnil, fun _ => rfl, fun hne => absurd hnil hne, ?_⟩
    intro ref href
    rw [hnil] at href
    simp at href
  · have hfound := stopAll_found B m hnil
    have hend : runSegments (MultiInstanceManager.stopAllSegments B m.instances) m
        = MultiInstanceManager.stopAllEnd
            (runSegments (MultiInstanceManager.log "info" "Stopping all instances..." ::
              ((m.instances.flatMap fun entry => MultiInstanceManager.stopCall entry.2) ++
                (m.instances.flatMap fun entry =>
                  (FaucetSentry.stopSessionRest B).map (Manager.run entry.2)))) m) := by
      rw [stopAll_split, runSegments_append]
      rfl
    refine ⟨?_, ?_, fun h => absurd h hnil, ?_, ?_⟩
    · unfold MultiInstanceManager.stopAllInstances
      rw [if_neg (fun hz => hnil (List.length_eq_zero.mp hz))]
    · rw [hfound, hend]
      rfl
    · intro _
      rw [hfound, hend]
      rfl
    · intro ref href
      obtain ⟨m1, m2⟩ := stopAll_mem B m.instances ref href
      have hlike := stopLike_stopAllSegments B m.instances ref
      rw [hfound]
      exact ⟨runSegments_established
          (fun a : Manager σ => (a.objects ref).autoRestartEnabled = false) _ _ m1
          (disable_establishes ref) (fun s hs a ha => (hlike s hs a).1 ha) m,
        runSegments_established
          (fun a : Manager σ => (a.objects ref).isRunning = false) _ _ m2
          (begin_establishes ref) (fun s hs a ha => (hlike s hs a).2.1 ha) m⟩

/-- The statements of the loop of `stopAllInstances` for the entry at index `i` of the
map are the segments at the positions `2 * i + 1` and `2 * i + 2`. -/
theorem stopCall_positions (entries : List (String × Nat)) :
    ∀ (i : Nat) (entry : String × Nat), entries[i]? = some entry →
      (entries.flatMap fun entry =>
          (MultiInstanceManager.stopCall entry.2 : List (Manager σ → Manager σ)))[2 * i]?
        = some (Manager.disableAutoRestart entry.2) ∧
      (entries.flatMap fun entry =>
          (MultiInstanceManager.stopCall entry.2 : List (Manager σ → Manager σ)))[2 * i + 1]?
        = some (Manager.run entry.2 FaucetSentry.stopSessionBegin) := by
  induction entries with
  | nil => intro i entry h; simp at h
  | cons first rest ih =>
    intro i entry h
    cases i with
    | zero =>
      simp only [List.getElem?_cons_zero, Option.some.injEq] at h
      subst h
      constructor
      · show (Manager.disableAutoRestart first.2 :: Manager.run first.2 _ ::
          (rest.flatMap fun entry => MultiInstanceManager.stopCall entry.2))[0]? = _
        rw [List.getElem?_cons_zero]
      · show (Manager.disableAutoRestart first.2 :: Manager.run first.2 _ ::
          (rest.flatMap fun entry => MultiInstanceManager.stopCall entry.2))[0 + 1]? = _
        rw [List.getElem?_cons_succ, List.getElem?_cons_zero]
    | succ i =>
      rw [List.getElem?_cons_succ] at h
      obtain ⟨h1, h2⟩ := ih i entry h
      constructor
      · show (Manager.disableAutoRestart first.2 :: Manager.run first.2 _ ::
          (rest.flatMap fun entry => MultiInstanceManager.stopCall entry.2))[2 * (i + 1)]? = _
        rw [show 2 * (i + 1) = 2 * i + 1 + 1 by ring, List.getElem?_cons_succ,
          List.getElem?_cons_succ]
        exact h1
      · show (Manager.disableAutoRestart first.2 :: Manager.run first.2 _ ::
          (rest.flatMap fun entry => MultiInstanceManager.stopCall entry.2))[2 * (i + 1) + 1]?
          = _
        rw [show 2 * (i + 1) + 1 = 2 * i + 1 + 1 + 1 by ring, List.getElem?_cons_succ,
          List.getElem?_cons_succ]
        exact h2

theorem stopAll_positions (B : Browser σ) (entries : List (String × Nat)) (i : Nat)
    (entry : String × Nat) (h : entries[i]? = some entry) :
    (MultiInstanceManager.stopAllSegments B entries)[2 * i + 1]?
      = some (Manager.disableAutoRestart entry.2) ∧
    (MultiInstanceManager.stopAllSegments B entries)[2 * i + 2]?
      = some (Manager.run entry.2 FaucetSentry.stopSessionBegin) := by
  obtain ⟨h1, h2⟩ := @stopCall_positions σ entries i entry h
  unfold MultiInstanceManager.stopAllSegments
  constructor
  · rw [List.getElem?_cons_succ, List.getElem?_append_left
      (by
        by_contra hcon
        rw [List.getElem?_eq_none (by omega)] at h1
        cases h1)]
    exact h1
  · rw [List.getElem?_cons_succ, List.getElem?_append_left
      (by
        by_contra hcon
        rw [List.getElem?_eq_none (by omega)] at h2
        cases h2)]
    exact h2

/-- A call of `startInstances` that fails one of the first three checks changes
nothing. -/
theorem startInstances_rejected (E : Env σ) (H : Host σ) (count : ℚ) (config : Nat)
    (m : Manager σ)
    (h : count < 1 ∨ count > 10 ∨ m.activeCount > 0 ∨
      truthyOpt (m.configs config).bankWalletName = false) :
    (MultiInstanceManager.startInstances E H count config m).1.success = false ∧
    (MultiInstanceManager.startInstances E H count config m).2 = m := by
  unfold MultiInstanceManager.startInstances
  split
  · exact ⟨rfl, rfl⟩
  · next hvalid =>
    split
    · exact ⟨rfl, rfl⟩
    · next hactive =>
      split
      · exact ⟨rfl, rfl⟩
      · next hbank =>
        exfalso
        rcases h with h | h | h | h
        · exact hvalid (Or.inl h)
        · exact hvalid (Or.inr (by simpa [maxInstances] using h))
        · exact hactive h
        · rw [h] at hbank
          exact hbank rfl

/-- A call of `startInstances` that passes the checks, in a mode other than tor. -/
theorem startInstances_accepted (E : Env σ) (H : Host σ) (count : ℚ) (config : Nat)
    (m : Manager σ) (h1 : 1 ≤ count) (h10 : count ≤ 10) (hactive : ¬ m.activeCount > 0)
    (hbank : truthyOpt (m.configs config).bankWalletName = true)
    (hmode : (m.configs config).connectionType ≠ "tor") :
    MultiInstanceManager.startInstances E H count config m
      = MultiInstanceManager.startAll E H count config m := by
  unfold MultiInstanceManager.startInstances
  rw [if_neg (by
    intro h
    rcases h with h | h
    · exact absurd h1 (not_le.mpr h)
    · exact absurd h10 (not_le.mpr (by simpa [maxInstances] using h))),
    if_neg hactive, if_neg (by rw [hbank]; decide), if_neg hmode]

/-- C16 (amended): `startInstances(count, config)` returns `success: false` and leaves
the whole state as it was (no session is created, none is started, the instance map and
`activeCount` are unchanged) whenever `count < 1`, `count > 10` or the configuration has
no bank wallet name; for every integer `n` with `1 ≤ n ≤ 10`, a configured bank wallet, no
active instances and a mode other than tor it succeeds, the map then holds exactly `n`
sessions, `instance_1` to `instance_n`, each of which has been started once, and
`activeCount` is `n`. -/
theorem startInstances_validation (E : Env σ) (H : Host σ) (count : ℚ) (config : Nat)
    (m : Manager σ) :
    ((count < 1 ∨ count > 10 ∨ truthyOpt (m.configs config).bankWalletName = false) →
      (MultiInstanceManager.startInstances E H count config m).1.success = false ∧
      (MultiInstanceManager.startInstances E H count config m).2 = m) ∧
    (∀ n : Nat, count = n → 1 ≤ n → n ≤ 10 →
      truthyOpt (m.configs config).bankWalletName = true →
      m.activeCount = 0 → m.instances = [] → config < m.nextConfig →
      (m.configs config).connectionType ≠ "tor" →
      (MultiInstanceManager.startInstances E H count config m).1.success = true ∧
      (MultiInstanceManager.startInstances E H count config m).1.instances
        = (List.range n).map instanceIdOf ∧
      (MultiInstanceManager.startInstances E H count config m).2.instances.length = n ∧
      (MultiInstanceManager.startInstances E H count config m).2.instances.map Prod.fst
        = (List.range n).map instanceIdOf ∧
      instanceStarts (MultiInstanceManager.startInstances E H count config m).2.trace
        = instanceStarts m.trace ++ (List.range n).map instanceIdOf ∧
      (MultiInstanceManager.startInstances E H count config m).2.activeCount = n) := by
  constructor
  · intro h
    apply startInstances_rejected
    rcases h with h | h | h
    · exact Or.inl h
    · exact Or.inr (Or.inl h)
    · exact Or.inr (Or.inr (Or.inr h))
  · intro n hn h1 h10 hbank hactive hempty hconfig hmode
    subst hn
    have hq1 : (1 : ℚ) ≤ (n : ℚ) := by exact_mod_cast h1
    have hq10 : (n : ℚ) ≤ 10 := by exact_mod_cast h10
    rw [startInstances_accepted E H n config m hq1 hq10 (by rw [hactive]; simp) hbank hmode]
    obtain ⟨a1, a2, a3, a4, -⟩ := startAll_spec E H n config m hq10 hconfig hempty
    rw [loopIndices_nat] at a1 a3 a4
    refine ⟨by rw [a1], by rw [a1], ?_, ?_, a4, a2⟩
    · rw [a3]
      simp
    · rw [a3, List.map_map]
      rfl

/-- C16 on closed instances: a count of 0 and a count of 11 are refused and leave the
orchestrator as it was; a count of 3 in proxy mode starts three sessions. -/
theorem startInstances_validation_witness :
    (MultiInstanceManager.startInstances Script.env demoHost 0 0 (demoManager "proxy")).1.success
      = false ∧
    (MultiInstanceManager.startInstances Script.env demoHost 11 0 (demoManager "proxy")).2
      = demoManager "proxy" ∧
    (MultiInstanceManager.startInstances Script.env demoHost 3 0 (demoManager "proxy")).1.success
      = true ∧
    (MultiInstanceManager.startInstances Script.env demoHost 3 0
        (demoManager "proxy")).2.instances.map Prod.fst
      = ["instance_1", "instance_2", "instance_3"] :=
  ⟨((startInstances_validation Script.env demoHost 0 0 (demoManager "proxy")).1
      (Or.inl (by norm_num))).1,
   ((startInstances_validation Script.env demoHost 11 0 (demoManager "proxy")).1
      (Or.inr (Or.inl (by norm_num)))).2,
   ((startInstances_validation Script.env demoHost 3 0 (demoManager "proxy")).2 3
      (by norm_num) (by decide) (by decide) rfl rfl rfl (by decide) (by decide)).1,
   ((startInstances_validation Script.env demoHost 3 0 (demoManager "proxy")).2 3
      (by norm_num) (by decide) (by decide) rfl rfl rfl (by decide) (by decide)).2.2.2.1⟩

/-- C16 (counterexample): a count of 2.5 passes the validation; the allocation loop runs
for `i` = 0, 1, 2, so three sessions are created and started, while the result and
`activeCount` say 2.5: the number of instances is not the count. -/
theorem fractional_count_starts_three :
    (MultiInstanceManager.startInstances Script.env demoHost (5 / 2) 0
        (demoManager "proxy")).1.success = true ∧
    (MultiInstanceManager.startInstances Script.env demoHost (5 / 2) 0
        (demoManager "proxy")).1.count = some (5 / 2) ∧
    (MultiInstanceManager.startInstances Script.env demoHost (5 / 2) 0
        (demoManager "proxy")).2.instances.map Prod.fst
      = ["instance_1", "instance_2", "instance_3"] ∧
    instanceStarts (MultiInstanceManager.startInstances Script.env demoHost (5 / 2) 0
        (demoManager "proxy")).2.trace = ["instance_1", "instance_2", "instance_3"] ∧
    (MultiInstanceManager.startInstances Script.env demoHost (5 / 2) 0
        (demoManager "proxy")).2.activeCount = 5 / 2 := by
  decide!

/-- C17: in tor mode, when the checks before the port check pass and fewer of the first
`count` circuit ports are reachable than `count`, `startInstances` fails with the error
that names the number of reachable ports and the count, and nothing but the node (on which
the ports were probed) has changed: no session is created or started, the instance map
and `activeCount` are as before, so an empty map stays empty and `activeCount` stays 0. -/
theorem startInstances_tor_all_or_nothing (E : Env σ) (H : Host σ) (count : ℚ) (config : Nat)
    (m : Manager σ) (h1 : 1 ≤ count) (h10 : count ≤ 10) (hactive : m.activeCount = 0)
    (hbank : truthyOpt (m.configs config).bankWalletName = true)
    (hmode : (m.configs config).connectionType = "tor")
    (hshort :
      ((MultiInstanceManager.checkPorts H (loopIndices count) [] m).1.length : ℚ) < count) :
    (MultiInstanceManager.startInstances E H count config m).1.success = false ∧
    (MultiInstanceManager.startInstances E H count config m).1.error
      = some ("Only " ++
          toString (MultiInstanceManager.checkPorts H (loopIndices count) [] m).1.length ++
          " Tor ports available. Need " ++ numberText H count ++
          ". Start more Tor instances or reduce count.") ∧
    (∀ n : Nat, count = n → numberText H count = toString n) ∧
    (∃ s, (MultiInstanceManager.startInstances E H count config m).2 = { m with node := s }) ∧
    (MultiInstanceManager.startInstances E H count config m).2.instances = m.instances ∧
    (MultiInstanceManager.startInstances E H count config m).2.activeCount = 0 ∧
    (MultiInstanceManager.startInstances E H count config m).2.nextObject = m.nextObject ∧
    instanceStarts (MultiInstanceManager.startInstances E H count config m).2.trace
      = instanceStarts m.trace := by
  have heq : MultiInstanceManager.startInstances E H count config m
      = ({ success := false,
           error := some ("Only " ++
             toString (MultiInstanceManager.checkPorts H (loopIndices count) [] m).1.length ++
             " Tor ports available. Need " ++ numberText H count ++
             ". Start more Tor instances or reduce count.") },
          (MultiInstanceManager.checkPorts H (loopIndices count) [] m).2) := by
    unfold MultiInstanceManager.startInstances
    rw [if_neg (by
      intro h
      rcases h with h | h
      · exact absurd h1 (not_le.mpr h)
      · exact absurd h10 (not_le.mpr (by simpa [maxInstances] using h))),
      if_neg (by rw [hactive]; simp), if_neg (by rw [hbank]; decide), if_pos hmode]
    dsimp only
    rw [if_pos hshort]
  obtain ⟨⟨s, hs⟩, -⟩ := checkPorts_spec H (loopIndices count) [] m
  rw [heq]
  dsimp only
  refine ⟨rfl, rfl, ?_, ⟨s, hs⟩, ?_, ?_, ?_, ?_⟩
  · intro n hn
    subst hn
    unfold numberText
    rw [if_pos (Rat.den_natCast n), Rat.num_natCast]
    rfl
  · rw [hs]
  · rw [hs]
    exact hactive
  · rw [hs]
  · rw [hs]

/-- C17 on a closed instance: a host on which only the ports 9050 and 9052 are reachable,
and a count of 3. -/
theorem startInstances_tor_all_or_nothing_witness :
    (MultiInstanceManager.startInstances Script.env demoHost 3 0 (demoManager "tor")).1
      = { success := false,
          error := some
            "Only 2 Tor ports available. Need 3. Start more Tor instances or reduce count." } ∧
    (MultiInstanceManager.startInstances Script.env demoHost 3 0 (demoManager "tor")).2.instances
      = [] ∧
    (MultiInstanceManager.startInstances Script.env demoHost 3 0
      (demoManager "tor")).2.activeCount = 0 ∧
    instanceStarts (MultiInstanceManager.startInstances Script.env demoHost 3 0
      (demoManager "tor")).2.trace = [] :=
  ⟨by decide!,
   (startInstances_tor_all_or_nothing Script.env demoHost 3 0 (demoManager "tor")
      (by norm_num) (by norm_num) rfl rfl rfl (by decide!)).2.2.2.2.1,
   (startInstances_tor_all_or_nothing Script.env demoHost 3 0 (demoManager "tor")
      (by norm_num) (by norm_num) rfl rfl rfl (by decide!)).2.2.2.2.2.1,
   (startInstances_tor_all_or_nothing Script.env demoHost 3 0 (demoManager "tor")
      (by norm_num) (by norm_num) rfl rfl rfl (by decide!)).2.2.2.2.2.2.2⟩

/-- In tor mode with enough reachable ports the sessions are started: with two reachable
ports a count of 2 succeeds. -/
theorem startInstances_tor_example :
    (MultiInstanceManager.startInstances Script.env demoHost 2 0 (demoManager "tor")).1.success
      = true ∧
    (MultiInstanceManager.startInstances Script.env demoHost 2 0
      (demoManager "tor")).2.instances.map Prod.fst = ["instance_1", "instance_2"] := by
  decide!

/-- A call of `startInstances` that succeeds has passed the checks and is the part after
them, run on the state the port probes have left. -/
theorem startInstances_success (E : Env σ) (H : Host σ) (count : ℚ) (config : Nat)
    (m : Manager σ)
    (h : (MultiInstanceManager.startInstances E H count config m).1.success = true) :
    1 ≤ count ∧ count ≤ 10 ∧ ¬ m.activeCount > 0 ∧
    ∃ s, MultiInstanceManager.startInstances E H count config m
      = MultiInstanceManager.startAll E H count config { m with node := s } := by
  unfold MultiInstanceManager.startInstances at h ⊢
  split at h
  · cases h
  · next hvalid =>
    have h1 : 1 ≤ count := not_lt.mp fun hlt => hvalid (Or.inl hlt)
    have h10 : count ≤ 10 :=
      not_lt.mp fun hlt => hvalid (Or.inr (by simpa [maxInstances] using hlt))
    rw [if_neg hvalid]
    split at h
    · cases h
    · next hactive =>
      rw [if_neg hactive]
      split at h
      · cases h
      · next hbank =>
        rw [if_neg hbank]
        split at h
        · next hmode =>
          rw [if_pos hmode]
          dsimp only at h ⊢
          split at h
          · cases h
          · next hshort =>
            rw [if_neg hshort]
            obtain ⟨⟨s, hs⟩, -⟩ := checkPorts_spec H (loopIndices count) [] m
            exact ⟨h1, h10, hactive, s, by rw [hs]⟩
        · next hmode =>
          rw [if_neg hmode]
          exact ⟨h1, h10, hactive, m.node, rfl⟩

theorem torPorts_distinct (i j : Nat) (hi : i < 10) (hj : j < 10) (h : i ≠ j) :
    torPorts.getD i 0 ≠ torPorts.getD j 0 ∧ controlPorts.getD i 0 ≠ controlPorts.getD j 0 := by
  interval_cases i <;> interval_cases j <;> first | exact absurd rfl h | decide

theorem controlPorts_next (i : Nat) (hi : i < 10) :
    controlPorts.getD i 0 = torPorts.getD i 0 + 1 := by
  interval_cases i <;> rfl

/-- C18: after a successful `startInstances(count, config)` on an orchestrator with an
empty instance map whose shared configuration is an object of the store, the map holds,
for each `i` below the count and in this order, the id `instance_{i+1}` with a session
bound to `torPorts[i]` and `controlPorts[i] = torPorts[i] + 1`, with auto-restart enabled,
and with a `config` object of its own whose content is that of the shared configuration;
the port pairs of two sessions differ, and so do their `config` objects, from each other
and from the shared one, so that replacing the `config` object of one session by any
other content changes neither the shared configuration nor that of another session. -/
theorem started_instances_are_separate (E : Env σ) (H : Host σ) (count : ℚ) (config : Nat)
    (m : Manager σ) (hempty : m.instances = []) (hconfig : config < m.nextConfig)
    (hstarted : (MultiInstanceManager.startInstances E H count config m).1.success = true) :
    (MultiInstanceManager.startInstances E H count config m).2.instances
      = (loopIndices count).map (fun i => (instanceIdOf i, m.nextObject + i)) ∧
    (∀ i, i ∈ loopIndices count →
      ((MultiInstanceManager.startInstances E H count config m).2.objects
          (m.nextObject + i)).torSocksPort = torPorts.getD i 0 ∧
      ((MultiInstanceManager.startInstances E H count config m).2.objects
          (m.nextObject + i)).torControlPort = controlPorts.getD i 0 ∧
      controlPorts.getD i 0 = torPorts.getD i 0 + 1 ∧
      ((MultiInstanceManager.startInstances E H count config m).2.objects
          (m.nextObject + i)).autoRestartEnabled = true ∧
      ((MultiInstanceManager.startInstances E H count config m).2.objects
          (m.nextObject + i)).config = m.nextConfig + i ∧
      m.nextConfig + i ≠ config ∧
      (MultiInstanceManager.startInstances E H count config m).2.configs (m.nextConfig + i)
        = m.configs config) ∧
    (MultiInstanceManager.startInstances E H count config m).2.configs config
      = m.configs config ∧
    (∀ i j, i ∈ loopIndices count → j ∈ loopIndices count → i ≠ j →
      torPorts.getD i 0 ≠ torPorts.getD j 0 ∧ controlPorts.getD i 0 ≠ controlPorts.getD j 0 ∧
      m.nextConfig + i ≠ m.nextConfig + j) ∧
    (∀ i, i ∈ loopIndices count → ∀ replaced : Config,
      Function.update (MultiInstanceManager.startInstances E H count config m).2.configs
          (m.nextConfig + i) replaced config = m.configs config ∧
      ∀ j, j ∈ loopIndices count → j ≠ i →
        Function.update (MultiInstanceManager.startInstances E H count config m).2.configs
          (m.nextConfig + i) replaced (m.nextConfig + j) = m.configs config) := by
  obtain ⟨-, h10, -, s, heq⟩ := startInstances_success E H count config m hstarted
  obtain ⟨-, -, a3, -, -, a6, a7, a8, -⟩ := startAll_spec E H count config
    ({ m with node := s } : Manager σ) h10 hconfig hempty
  have hlt : ∀ i, i ∈ loopIndices count → i < 10 := by
    intro i hi
    have := (mem_loopIndices count i).mp hi
    have h2 : (i : ℚ) < 10 := lt_of_lt_of_le this h10
    exact_mod_cast h2
  rw [heq]
  refine ⟨a3, ?_, a8 config hconfig, ?_, ?_⟩
  · intro i hi
    have ho := a6 i hi
    have hne : m.nextConfig + i ≠ config := by omega
    refine ⟨?_, ?_, controlPorts_next i (hlt i hi), ?_, ?_, hne, a7 i hi⟩
    · exact congrArg Instance.torSocksPort ho
    · exact congrArg Instance.torControlPort ho
    · exact congrArg Instance.autoRestartEnabled ho
    · exact congrArg Instance.config ho
  · intro i j hi hj hij
    obtain ⟨p1, p2⟩ := torPorts_distinct i j (hlt i hi) (hlt j hj) hij
    exact ⟨p1, p2, by omega⟩
  · intro i hi replaced
    constructor
    · rw [Function.update_noteq (by omega)]
      exact a8 config hconfig
    · intro j hj hji
      rw [Function.update_noteq (by omega)]
      exact a7 j hj

/-- C18 on a closed instance: three sessions in proxy mode. -/
theorem started_instances_are_separate_witness :
    (MultiInstanceManager.startInstances Script.env demoHost 3 0 (demoManager "proxy")).2.instances
      = (loopIndices 3).map (fun i => (instanceIdOf i, (demoManager "proxy").nextObject + i)) ∧
    (((List.range 3).map fun i =>
      (((MultiInstanceManager.startInstances Script.env demoHost 3 0
          (demoManager "proxy")).2.objects i).torSocksPort,
       ((MultiInstanceManager.startInstances Script.env demoHost 3 0
          (demoManager "proxy")).2.objects i).torControlPort,
       ((MultiInstanceManager.startInstances Script.env demoHost 3 0
          (demoManager "proxy")).2.objects i).config))
      = [(9050, 9051, 1), (9052, 9053, 2), (9054, 9055, 3)]) :=
  ⟨(started_instances_are_separate Script.env demoHost 3 0 (demoManager "proxy") rfl
      (by decide) (by decide!)).1,
   by decide!⟩

theorem lookup_mapDelete (key : String) (entries : List (String × Nat)) :
    (mapDelete key entries).lookup key = none := by
  unfold mapDelete
  induction entries with
  | nil => rfl
  | cons entry rest ih =>
    obtain ⟨k, x⟩ := entry
    by_cases hk : k = key
    · rw [List.filter_cons_of_neg (by simp [hk])]
      exact ih
    · rw [List.filter_cons_of_pos (by simpa using hk), List.lookup_cons]
      have : (key == k) = false := by
        rw [beq_eq_false_iff_ne]
        exact fun h => hk h.symm
      rw [this]
      exact ih

theorem mem_snd_of_lookup (key : String) (entries : List (String × Nat)) (ref : Nat)
    (h : entries.lookup key = some ref) : ref ∈ entries.map Prod.snd := by
  induction entries with
  | nil => cases h
  | cons entry rest ih =>
    obtain ⟨k, x⟩ := entry
    rw [List.lookup_cons] at h
    by_cases hk : (key == k) = true
    · rw [hk] at h
      cases h
      simp
    · rw [Bool.not_eq_true] at hk
      rw [hk] at h
      simp only [List.map_cons, List.mem_cons]
      exact Or.inr (ih h)

/-- The `catch` block of the claim process on a session whose auto-restart is off: no
restart is scheduled, whatever the connection mode. -/
theorem claimFailed_disabled (B : Browser σ) (message : String) (w : World σ)
    (h : w.autoRestartEnabled = false) :
    restartCalls (FaucetSentry.claimFailed B message w).2.trace = restartCalls w.trace ∧
    processStarts (FaucetSentry.claimFailed B message w).2.trace = processStarts w.trace := by
  obtain ⟨hend, -⟩ := claimFailed_spec B message w w 0 (Progress.start w)
  have hre : restartEligible w = false := by
    unfold restartEligible
    rw [h, Bool.and_false]
  refine ⟨?_, hend.starts⟩
  have := hend.restarts
  rw [hre] at this
  simpa using this

/-- C19: `stopInstance(id)` for an id of the map first clears the auto-restart flag of the
session and only then calls its `stopSession`, and so does the loop of `stopAllInstances`
for every session of the map. From the cut after the assignment on, at every later cut of
the stop up to its end, the flag is off, and a `scheduleAutoRestart` of the session whose
delay elapses at that cut starts no claim process and requests no new identity; the stop
then goes on, and at its end the flag is off, the session is not running, and the id is
no longer in the map (`stopAllInstances` leaves the map empty). The `catch` block of an
in-flight claim process of a stopped session schedules no restart. -/
theorem stop_disables_auto_restart (E : Env σ) (L : Lib) (H : Host σ) (B : Browser σ)
    (delayMs : Nat) (m : Manager σ) :
    (∀ instanceId ref, m.instances.lookup instanceId = some ref →
      (MultiInstanceManager.stopInstance B instanceId m).2
        = runSegments (MultiInstanceManager.stopInstanceSegments B instanceId ref) m ∧
      (MultiInstanceManager.stopInstanceSegments B instanceId ref).length = 6 ∧
      runSegments ((MultiInstanceManager.stopInstanceSegments B instanceId ref).take 1) m
        = Manager.disableAutoRestart ref m ∧
      runSegments ((MultiInstanceManager.stopInstanceSegments B instanceId ref).take 2) m
        = Manager.run ref FaucetSentry.stopSessionBegin (Manager.disableAutoRestart ref m) ∧
      (∀ position, 1 ≤ position → position ≤ 6 →
        ((runSegments ((MultiInstanceManager.stopInstanceSegments B instanceId ref).take
            position) m).objects ref).autoRestartEnabled = false ∧
        processStarts (runSegmentsWith
            (MultiInstanceManager.stopInstanceSegments B instanceId ref) position
            (Manager.run ref (FaucetSentry.scheduleAutoRestart E L H delayMs)) m).trace
          = processStarts m.trace ∧
        newnymRequests (runSegmentsWith
            (MultiInstanceManager.stopInstanceSegments B instanceId ref) position
            (Manager.run ref (FaucetSentry.scheduleAutoRestart E L H delayMs)) m).trace
          = newnymRequests m.trace ∧
        ((runSegmentsWith (MultiInstanceManager.stopInstanceSegments B instanceId ref) position
            (Manager.run ref (FaucetSentry.scheduleAutoRestart E L H delayMs))
            m).objects ref).autoRestartEnabled = false ∧
        ((runSegmentsWith (MultiInstanceManager.stopInstanceSegments B instanceId ref) position
            (Manager.run ref (FaucetSentry.scheduleAutoRestart E L H delayMs))
            m).objects ref).isRunning = false ∧
        (runSegmentsWith (MultiInstanceManager.stopInstanceSegments B instanceId ref) position
            (Manager.run ref (FaucetSentry.scheduleAutoRestart E L H delayMs)) m).instances
          = mapDelete instanceId m.instances ∧
        (runSegmentsWith (MultiInstanceManager.stopInstanceSegments B instanceId ref) position
            (Manager.run ref (FaucetSentry.scheduleAutoRestart E L H delayMs))
            m).instances.lookup instanceId = none) ∧
      ((MultiInstanceManager.stopInstance B instanceId m).2.objects ref).autoRestartEnabled
        = false ∧
      ((MultiInstanceManager.stopInstance B instanceId m).2.objects ref).isRunning = false ∧
      (MultiInstanceManager.stopInstance B instanceId m).2.instances.lookup instanceId = none ∧
      ∀ message, restartCalls (FaucetSentry.claimFailed B message
          ((MultiInstanceManager.stopInstance B instanceId m).2.view ref)).2.trace
        = restartCalls (MultiInstanceManager.stopInstance B instanceId m).2.trace) ∧
    (MultiInstanceManager.stopAllInstances B m).2.instances = [] ∧
    (∀ i instanceId ref, m.instances[i]? = some (instanceId, ref) →
      (MultiInstanceManager.stopAllInstances B m).2
        = runSegments (MultiInstanceManager.stopAllSegments B m.instances) m ∧
      runSegments ((MultiInstanceManager.stopAllSegments B m.instances).take (2 * i + 2)) m
        = Manager.disableAutoRestart ref
            (runSegments ((MultiInstanceManager.stopAllSegments B m.instances).take (2 * i + 1))
              m) ∧
      runSegments ((MultiInstanceManager.stopAllSegments B m.instances).take (2 * i + 3)) m
        = Manager.run ref FaucetSentry.stopSessionBegin
            (runSegments ((MultiInstanceManager.stopAllSegments B m.instances).take (2 * i + 2))
              m) ∧
      (∀ position, 2 * i + 2 ≤ position →
          position ≤ (MultiInstanceManager.stopAllSegments B m.instances).length →
        ((runSegments ((MultiInstanceManager.stopAllSegments B m.instances).take position)
            m).objects ref).autoRestartEnabled = false ∧
        processStarts (runSegmentsWith (MultiInstanceManager.stopAllSegments B m.instances)
            position (Manager.run ref (FaucetSentry.scheduleAutoRestart E L H delayMs)) m).trace
          = processStarts m.trace ∧
        newnymRequests (runSegmentsWith (MultiInstanceManager.stopAllSegments B m.instances)
            position (Manager.run ref (FaucetSentry.scheduleAutoRestart E L H delayMs)) m).trace
          = newnymRequests m.trace ∧
        ((runSegmentsWith (MultiInstanceManager.stopAllSegments B m.instances) position
            (Manager.run ref (FaucetSentry.scheduleAutoRestart E L H delayMs))
            m).objects ref).autoRestartEnabled = false ∧
        ((runSegmentsWith (MultiInstanceManager.stopAllSegments B m.instances) position
            (Manager.run ref (FaucetSentry.scheduleAutoRestart E L H delayMs))
            m).objects ref).isRunning = false ∧
        (runSegmentsWith (MultiInstanceManager.stopAllSegments B m.instances) position
            (Manager.run ref (FaucetSentry.scheduleAutoRestart E L H delayMs)) m).instances
          = []) ∧
      ((MultiInstanceManager.stopAllInstances B m).2.objects ref).autoRestartEnabled = false ∧
      ((MultiInstanceManager.stopAllInstances B m).2.objects ref).isRunning = false ∧
      ∀ message, restartCalls (FaucetSentry.claimFailed B message
          ((MultiInstanceManager.stopAllInstances B m).2.view ref)).2.trace
        = restartCalls (MultiInstanceManager.stopAllInstances B m).2.trace) := by
  refine ⟨?_, (stopAllInstances_spec B m).2.1, ?_⟩
  · intro instanceId ref hlookup
    obtain ⟨-, s2, s3, s4, -, -⟩ := stopInstance_spec B instanceId m ref hlookup
    have hfound := stopInstance_found B instanceId m ref hlookup
    have hlike := stopLike_stopInstanceSegments B instanceId ref ref
    have hone : runSegments
        ((MultiInstanceManager.stopInstanceSegments B instanceId ref).take 1) m
        = Manager.disableAutoRestart ref m := rfl
    have hmem : (Manager.run ref FaucetSentry.stopSessionBegin : Manager σ → Manager σ)
        ∈ MultiInstanceManager.stopInstanceSegments B instanceId ref := by
      simp [MultiInstanceManager.stopInstanceSegments, MultiInstanceManager.stopCall]
    refine ⟨by rw [hfound], rfl, hone, rfl, ?_, s2, s3, ?_, ?_⟩
    · intro position hp1 hp2
      have hflag := flag_stays_off ref _ hlike m 1 position hp1
        (by rw [hone]; exact disable_establishes ref m)
      obtain ⟨t1, t2, t3, t4⟩ := stop_race E L H delayMs ref _ hlike
        ⟨_, hmem, begin_establishes ref⟩ m position hflag
      have hbody : ∀ segment ∈ MultiInstanceManager.stopCall ref ++
          (FaucetSentry.stopSessionRest B).map (Manager.run ref), ∀ a : Manager σ,
          (segment a).instances = a.instances ∧ (segment a).activeCount = a.activeCount := by
        intro segment hs a
        rcases List.mem_append.mp hs with h | h
        · exact keepsMap_stopCall ref segment h a
        · exact keepsMap_rest B ref segment h a
      obtain ⟨a, a1, -, a3, -⟩ := stop_race_map E L H delayMs ref _
        (MultiInstanceManager.stopInstanceEnd instanceId) hbody m position
        (by rw [← stopInstance_split]; exact hp2)
      rw [← stopInstance_split] at a3
      have hinst : (runSegmentsWith (MultiInstanceManager.stopInstanceSegments B instanceId ref)
          position (Manager.run ref (FaucetSentry.scheduleAutoRestart E L H delayMs))
          m).instances = mapDelete instanceId m.instances := by
        rw [a3]
        exact congrArg (mapDelete instanceId) a1
      refine ⟨hflag, t1, t2, t3, t4, hinst, ?_⟩
      rw [hinst]
      exact lookup_mapDelete instanceId m.instances
    · rw [s4]
      exact lookup_mapDelete instanceId m.instances
    · intro message
      exact (claimFailed_disabled B message _ s2).1
  · intro i instanceId ref hi
    have href : ref ∈ m.instances.map Prod.snd :=
      List.mem_map.mpr ⟨(instanceId, ref), List.getElem?_mem hi, rfl⟩
    have hnil : m.instances ≠ [] := by
      intro hn
      rw [hn] at hi
      simp at hi
    obtain ⟨s1, s2⟩ := (stopAllInstances_spec B m).2.2.2.2 ref href
    obtain ⟨q1, q2⟩ := stopAll_positions B m.instances i (instanceId, ref) hi
    have hlike := stopLike_stopAllSegments B m.instances ref
    have htwo := runSegments_take_succ (MultiInstanceManager.stopAllSegments B m.instances)
      (2 * i + 1) _ q1 m
    have hthree := runSegments_take_succ (MultiInstanceManager.stopAllSegments B m.instances)
      (2 * i + 2) _ q2 m
    refine ⟨stopAll_found B m hnil, htwo, hthree, ?_, s1, s2,
      fun message => (claimFailed_disabled B message _ s1).1⟩
    intro position hp1 hp2
    have hflag := flag_stays_off ref _ hlike m (2 * i + 2) position hp1
      (by rw [htwo]; exact disable_establishes ref _)
    obtain ⟨t1, t2, t3, t4⟩ := stop_race E L H delayMs ref _ hlike
      ⟨_, (stopAll_mem B m.instances ref href).2, begin_establishes ref⟩ m position hflag
    have hbody : ∀ segment ∈ (MultiInstanceManager.log "info" "Stopping all instances..." ::
        ((m.instances.flatMap fun entry => MultiInstanceManager.stopCall entry.2) ++
          (m.instances.flatMap fun entry =>
            (FaucetSentry.stopSessionRest B).map (Manager.run entry.2)))), ∀ a : Manager σ,
        (segment a).instances = a.instances ∧ (segment a).activeCount = a.activeCount := by
      intro segment hs a
      rcases List.mem_cons.mp hs with h | h
      · rw [h]
        exact ⟨rfl, rfl⟩
      · rcases List.mem_append.mp h with h | h
        · obtain ⟨entry, -, he⟩ := List.mem_flatMap.mp h
          exact keepsMap_stopCall entry.2 segment he a
        · obtain ⟨entry, -, he⟩ := List.mem_flatMap.mp h
          exact keepsMap_rest B entry.2 segment he a
    obtain ⟨a, -, -, a3, -⟩ := stop_race_map E L H delayMs ref _
      MultiInstanceManager.stopAllEnd hbody m position
      (by rw [← stopAll_split]; exact hp2)
    rw [← stopAll_split] at a3
    exact ⟨hflag, t1, t2, t3, t4, a3⟩

/-- C19 on a closed instance: of three sessions started in proxy mode the second is
stopped, and the restart timer of that session fires while the stop awaits the end of
`cleanup`. -/
theorem stop_disables_auto_restart_witness :
    ((runSegments ((MultiInstanceManager.stopInstanceSegments demoBrowser "instance_2" 1).take
        4) demoStartedManager).objects 1).autoRestartEnabled = false ∧
    processStarts (runSegmentsWith
        (MultiInstanceManager.stopInstanceSegments demoBrowser "instance_2" 1) 4
        (Manager.run 1 (FaucetSentry.scheduleAutoRestart Script.env jsLib demoHost 500))
        demoStartedManager).trace
      = processStarts demoStartedManager.trace ∧
    (runSegmentsWith (MultiInstanceManager.stopInstanceSegments demoBrowser "instance_2" 1) 4
        (Manager.run 1 (FaucetSentry.scheduleAutoRestart Script.env jsLib demoHost 500))
        demoStartedManager).instances.lookup "instance_2" = none ∧
    ((MultiInstanceManager.stopInstance demoBrowser "instance_2"
        demoStartedManager).2.objects 1).autoRestartEnabled = false :=
  ⟨(((stop_disables_auto_restart Script.env jsLib demoHost demoBrowser 500
      demoStartedManager).1 "instance_2" 1 (by decide!)).2.2.2.2.1 4 (by decide)
        (by decide)).1,
   (((stop_disables_auto_restart Script.env jsLib demoHost demoBrowser 500
      demoStartedManager).1 "instance_2" 1 (by decide!)).2.2.2.2.1 4 (by decide)
        (by decide)).2.1,
   (((stop_disables_auto_restart Script.env jsLib demoHost demoBrowser 500
      demoStartedManager).1 "instance_2" 1 (by decide!)).2.2.2.2.1 4 (by decide)
        (by decide)).2.2.2.2.2.2,
   ((stop_disables_auto_restart Script.env jsLib demoHost demoBrowser 500
      demoStartedManager).1 "instance_2" 1 (by decide!)).2.2.2.2.2.1⟩

/-- The restart timer of the second of three sessions fires while `stopInstance` or
`stopAllInstances` runs, evaluated: at every cut from the one after the assignment of the
flag of this session on (cut 1 of `stopInstance`, cut 4 of `stopAllInstances`) no claim
process is started and the flag is off at the end. At cut 0, before the stop has begun and
with the flag still on, the same timer does start a claim process. -/
theorem stop_race_example :
    ((List.range 7).map fun position =>
      (processStarts (runSegmentsWith
          (MultiInstanceManager.stopInstanceSegments demoBrowser "instance_2" 1) position
          (Manager.run 1 (FaucetSentry.scheduleAutoRestart Script.env jsLib demoHost 500))
          demoFundedManager).trace,
        ((runSegmentsWith
          (MultiInstanceManager.stopInstanceSegments demoBrowser "instance_2" 1) position
          (Manager.run 1 (FaucetSentry.scheduleAutoRestart Script.env jsLib demoHost 500))
          demoFundedManager).objects 1).autoRestartEnabled))
      = (1, false) :: List.replicate 6 (0, false) ∧
    (MultiInstanceManager.stopAllSegments demoBrowser demoFundedManager.instances).length
      = 17 ∧
    ((0 :: (List.range 14).map (· + 4)).map fun position =>
      (processStarts (runSegmentsWith
          (MultiInstanceManager.stopAllSegments demoBrowser demoFundedManager.instances)
          position
          (Manager.run 1 (FaucetSentry.scheduleAutoRestart Script.env jsLib demoHost 500))
          demoFundedManager).trace,
        (runSegmentsWith
          (MultiInstanceManager.stopAllSegments demoBrowser demoFundedManager.instances)
          position
          (Manager.run 1 (FaucetSentry.scheduleAutoRestart Script.env jsLib demoHost 500))
          demoFundedManager).instances))
      = (1, []) :: List.replicate 14 (0, []) := by
  refine ⟨?_, ?_, ?_⟩ <;> decide!

/-- The orchestrator after one of three sessions is stopped, evaluated: the other two
stay in the map with auto-restart enabled, `activeCount` is 2. -/
theorem stopInstance_example :
    (MultiInstanceManager.stopInstance demoBrowser "instance_2" demoStartedManager).1.success
      = true ∧
    (MultiInstanceManager.stopInstance demoBrowser "instance_2" demoStartedManager).2.instances
      = [("instance_1", 0), ("instance_3", 2)] ∧
    (MultiInstanceManager.stopInstance demoBrowser "instance_2" demoStartedManager).2.activeCount
      = 2 ∧
    ((List.range 3).map fun ref =>
      ((MultiInstanceManager.stopInstance demoBrowser "instance_2"
        demoStartedManager).2.objects ref).autoRestartEnabled) = [true, false, true] ∧
    (MultiInstanceManager.stopInstance demoBrowser "instance_9" demoStartedManager).1
      = { success := false, error := some "Instance not found" } := by
  decide!

theorem lookup_ne_none_of_mem (key : String) (value : Nat) (entries : List (String × Nat))
    (h : (key, value) ∈ entries) : entries.lookup key ≠ none := by
  induction entries with
  | nil => cases h
  | cons entry rest ih =>
    obtain ⟨k, x⟩ := entry
    rw [List.lookup_cons]
    by_cases hk : (key == k) = true
    · rw [hk]
      exact fun hn => nomatch hn
    · rw [Bool.not_eq_true] at hk
      rw [hk]
      apply ih
      rcases List.mem_cons.mp h with h | h
      · cases h
        simp at hk
      · exact h

/-- How a call of `startInstances` ends: refused with nothing changed but the node, or
accepted and run on the state the port probes have left. -/
theorem startInstances_cases (E : Env σ) (H : Host σ) (count : ℚ) (config : Nat)
    (m : Manager σ) :
    ((MultiInstanceManager.startInstances E H count config m).1.success = false ∧
      ∃ s, (MultiInstanceManager.startInstances E H count config m).2 = { m with node := s }) ∨
    ((MultiInstanceManager.startInstances E H count config m).1.success = true ∧
      1 ≤ count ∧ count ≤ 10 ∧ ¬ m.activeCount > 0 ∧
      ∃ s, MultiInstanceManager.startInstances E H count config m
        = MultiInstanceManager.startAll E H count config { m with node := s }) := by
  by_cases hs : (MultiInstanceManager.startInstances E H count config m).1.success = true
  · exact Or.inr ⟨hs, startInstances_success E H count config m hs⟩
  · left
    refine ⟨by simpa using hs, ?_⟩
    unfold MultiInstanceManager.startInstances at hs ⊢
    split
    · exact ⟨m.node, rfl⟩
    · next hvalid =>
      rw [if_neg hvalid] at hs
      split
      · exact ⟨m.node, rfl⟩
      · next hactive =>
        rw [if_neg hactive] at hs
        split
        · exact ⟨m.node, rfl⟩
        · next hbank =>
          rw [if_neg hbank] at hs
          split
          · next hmode =>
            rw [if_pos hmode] at hs
            dsimp only at hs ⊢
            split
            · obtain ⟨⟨s, hs2⟩, -⟩ := checkPorts_spec H (loopIndices count) [] m
              exact ⟨s, hs2⟩
            · next hshort =>
              rw [if_neg hshort] at hs
              exact absurd rfl hs
          · next hmode =>
            rw [if_neg hmode] at hs
            exact absurd rfl hs

theorem consistent_initial (node : σ) (sharedConfig : Config) :
    (Manager.initial node sharedConfig).Consistent :=
  ⟨by simp [Manager.initial], 0, by simp [Manager.initial]⟩

/-- C29: for an orchestrator whose `activeCount` equals the number of entries of its
instance map, with ids among `instance_1`, `instance_2`, ... (as after the constructor),
the same holds after every call of `startInstances` with an integer count, successful or
not, of `stopInstance` and of `stopAllInstances`, each run to its end before the next. A
successful `startInstances` with count `n` leaves exactly the ids `instance_1` to
`instance_n`, a refused one leaves the map as it was, `stopInstance(id)` removes the id
from the map and nothing else, and `stopAllInstances` leaves the map empty. -/
theorem activeCount_matches_map (E : Env σ) (H : Host σ) (B : Browser σ) (config : Nat)
    (m : Manager σ) (hconsistent : m.Consistent) (hconfig : config < m.nextConfig) :
    (∀ count : ℤ,
      (MultiInstanceManager.startInstances E H count config m).2.Consistent ∧
      ((MultiInstanceManager.startInstances E H count config m).1.success = true →
        (MultiInstanceManager.startInstances E H count config m).2.instances.map Prod.fst
          = (List.range count.toNat).map instanceIdOf ∧
        (MultiInstanceManager.startInstances E H count config m).2.activeCount
          = (count.toNat : ℚ)) ∧
      ((MultiInstanceManager.startInstances E H count config m).1.success = false →
        (MultiInstanceManager.startInstances E H count config m).2.instances = m.instances)) ∧
    (∀ instanceId,
      (MultiInstanceManager.stopInstance B instanceId m).2.Consistent ∧
      (MultiInstanceManager.stopInstance B instanceId m).2.instances
        = mapDelete instanceId m.instances) ∧
    (MultiInstanceManager.stopAllInstances B m).2.Consistent ∧
    (MultiInstanceManager.stopAllInstances B m).2.instances = [] := by
  obtain ⟨hcount, n0, hsub⟩ := hconsistent
  refine ⟨?_, ?_, ?_, (stopAllInstances_spec B m).2.1⟩
  · intro count
    rcases startInstances_cases E H count config m with ⟨hf, s, hs⟩ | ⟨ht, h1, h10, hactive, s, hs⟩
    · refine ⟨?_, ?_, ?_⟩
      · rw [hs]
        exact ⟨hcount, n0, hsub⟩
      · intro h
        rw [hf] at h
        cases h
      · intro _
        rw [hs]
    · have hempty : m.instances = [] := by
        rw [hcount] at hactive
        have : ¬ (0 : ℚ) < (m.instances.length : ℚ) := hactive
        have hz : m.instances.length = 0 := by
          by_contra hne
          exact this (by exact_mod_cast Nat.pos_of_ne_zero hne)
        exact List.length_eq_zero.mp hz
      obtain ⟨-, a2, a3, -⟩ := startAll_spec E H count config
        ({ m with node := s } : Manager σ) h10 hconfig hempty
      have hpos : (0 : ℤ) ≤ count := by
        have : (1 : ℚ) ≤ (count : ℚ) := h1
        have h2 : (1 : ℤ) ≤ count := by exact_mod_cast this
        omega
      have hcast : ((count.toNat : ℕ) : ℚ) = (count : ℚ) := by
        have := Int.toNat_of_nonneg hpos
        exact_mod_cast congrArg (fun z : ℤ => (z : ℚ)) this
      have hidx : loopIndices (count : ℚ) = List.range count.toNat := by
        rw [← hcast, loopIndices_nat]
      rw [hidx] at a3
      have hkeys : (MultiInstanceManager.startInstances E H count config m).2.instances.map
          Prod.fst = (List.range count.toNat).map instanceIdOf := by
        rw [hs, a3, List.map_map]
        rfl
      have hactiveCount : (MultiInstanceManager.startInstances E H count config m).2.activeCount
          = (count.toNat : ℚ) := by
        rw [hs, a2, hcast]
      refine ⟨⟨?_, count.toNat, ?_⟩, fun _ => ⟨hkeys, hactiveCount⟩, ?_⟩
      · rw [hactiveCount, hs, a3]
        simp
      · rw [hkeys]
      · intro h
        rw [ht] at h
        cases h
  · intro instanceId
    cases hl : m.instances.lookup instanceId with
    | none =>
      rw [stopInstance_missing B instanceId m hl]
      refine ⟨⟨hcount, n0, hsub⟩, ?_⟩
      show m.instances = mapDelete instanceId m.instances
      unfold mapDelete
      symm
      rw [List.filter_eq_self]
      intro entry hmem
      obtain ⟨k, x⟩ := entry
      simp only [bne_iff_ne, ne_eq]
      intro hk
      subst hk
      exact lookup_ne_none_of_mem k x m.instances hmem hl
    | some ref =>
      obtain ⟨-, -, -, s4, s5, -⟩ := stopInstance_spec B instanceId m ref hl
      refine ⟨⟨?_, n0, ?_⟩, s4⟩
      · rw [s5, s4]
      · rw [s4]
        exact ((List.filter_sublist _).map Prod.fst).trans hsub
  · obtain ⟨-, a2, a3, a4, -⟩ := stopAllInstances_spec B m
    refine ⟨?_, 0, by rw [a2]; simp⟩
    rw [a2]
    by_cases hnil : m.instances = []
    · rw [a3 hnil, hcount, hnil]
    · rw [a4 hnil]
      simp

/-- C29 on a closed instance: from the orchestrator as constructed, three sessions are
started, then the second is stopped, then all are stopped; the bookkeeping is consistent
after each call. -/
theorem activeCount_matches_map_witness :
    demoStartedManager.Consistent ∧
    demoStartedManager.instances.map Prod.fst = ["instance_1", "instance_2", "instance_3"] ∧
    (MultiInstanceManager.stopInstance demoBrowser "instance_2"
      demoStartedManager).2.Consistent ∧
    (MultiInstanceManager.stopAllInstances demoBrowser
      (MultiInstanceManager.stopInstance demoBrowser "instance_2"
        demoStartedManager).2).2.Consistent := by
  have h0 := activeCount_matches_map Script.env demoHost demoBrowser 0 (demoManager "proxy")
    (consistent_initial _ _) (by decide)
  have h1 : demoStartedManager.Consistent := by
    have := (h0.1 3).1
    simpa [demoStartedManager] using this
  have h2 := activeCount_matches_map Script.env demoHost demoBrowser 0 demoStartedManager h1
    (by decide!)
  have h3 := activeCount_matches_map Script.env demoHost demoBrowser 0
    (MultiInstanceManager.stopInstance demoBrowser "instance_2" demoStartedManager).2
    (h2.2.1 "instance_2").1 (by decide!)
  exact ⟨h1, by decide!, (h2.2.1 "instance_2").1, h3.2.2.1⟩

/-! ## C27: the counters of the statistics never decrease -/

/-- The conditions under which the new total is shown to be at least the old one hold in
closed runs: the texts `0`, `0.001000` and `3.000000` are read by `parseFloat` as the
doubles nearest to 0, 1000 and 3000000 millionths; a happy run takes the total from `0`
to `3.000000`, and a statistics update with a net reward of 0.001 takes `0.001000` to
`0.002000`. -/
theorem total_grows_example :
    jsLib.parseFloat "0" = roundToDouble ((0 : ℕ) / 10 ^ 6) ∧
    jsLib.parseFloat (renderFixed6 1000) = roundToDouble ((1000 : ℕ) / 10 ^ 6) ∧
    jsLib.parseFloat (renderFixed6 3000000) = roundToDouble ((3000000 : ℕ) / 10 ^ 6) ∧
    renderFixed6 1000 = "0.001000" ∧ renderFixed6 3000000 = "3.000000" ∧
    (FaucetSentry.runClaimProcess Script.env happyPage demoBrowser jsLib happyKeygen demoHost
        1801 100 (FaucetSentry.startClaimSession Script.env jsLib demoHappyWorld).2).map
      (fun out => out.2.sessionStats.counters)
      = some (1, "3.000000", 1) ∧
    (FaucetSentry.recordClaim jsLib [rewardBlock "0.0015", rewardBlock "0.0015"] "0.002"
        (statsWorld "0.001000")).sessionStats.counters = (4, "0.002000", 0) := by
  refine ⟨?_, ?_, ?_, ?_, ?_, ?_, ?_⟩ <;> decide!

end Secret
